import Mathlib

/-!
# Trace store context initialisation

A shallow embedding of `InitializeTraceContext` (TraceStore/TraceStoreContext.c)
and of the enumerations of TraceStore/TraceStoreIndex.h.

Pointers are natural numbers with `0` for `NULL`.  The structures a pointer
argument refers to live in `Memory`.  Calls into the operating system and into
routines defined outside this module are recorded, in order, in a trace of
`Op` values; their outcomes are supplied by an `Env`.
-/

namespace Tracer

/-! ## Constants -/

/-- The enumerator `TraceStoreInvalidId` of `TRACE_STORE_ID`. -/
def TraceStoreInvalidId : Nat := 34

/-- The enumerator `TraceStoreWsWatchInfoExId` of `TRACE_STORE_ID`. -/
def TraceStoreWsWatchInfoExId : Nat := 11

/-- The enumerator `TraceStorePerformanceId` of `TRACE_STORE_ID`. -/
def TraceStorePerformanceId : Nat := 25

/-- The expansion of `#define MAX_TRACE_STORE_IDS TraceStoreInvalidId-1`. -/
def MAX_TRACE_STORE_IDS : Nat := TraceStoreInvalidId - 1

/-- Modelled from the spec: the Windows constant `BITS_NOT_FOUND`, the value
`RtlFindSetBits` returns when no run of set bits exists (`0xFFFFFFFF`). -/
def BITS_NOT_FOUND : Nat := 0xFFFFFFFF

/-- Modelled from the spec: the Windows wait result `WAIT_OBJECT_0`. -/
def WAIT_OBJECT_0 : Nat := 0

/-- Truncation to `USHORT`. -/
def toUSHORT (n : Int) : Nat := (n % 65536).toNat

/-- `ArrayIndexToTraceStoreId`: `(TRACE_STORE_ID)(Index + 1)`. -/
def ArrayIndexToTraceStoreId (Index : Nat) : Int := (Index : Int) + 1

/-- `TraceStoreIdToArrayIndex`: `(USHORT)(TraceStoreId - 1)`. -/
def TraceStoreIdToArrayIndex (TraceStoreId : Int) : Nat := toUSHORT (TraceStoreId - 1)

/-! ## Data model -/

/-- The routines whose addresses are stored in function-pointer fields or
handed to the thread pool. `Other` stands for any other address. -/
inductive Routine where
  | NULL
  | TraceStoreAllocateRecords
  | SuspendedTraceStoreAllocateRecordsWithTimestamp
  | TraceStoreAllocatePageAlignedRecordsWithTimestampImpl
  | TraceStoreAllocateRecordsWithTimestampImpl
  | ConcurrentTraceStoreAllocateRecordsWithTimestamp
  | TraceStoreTryAllocateRecords
  | TraceStoreTryAllocateRecordsWithTimestamp
  | WsWatchInfoExStoreBindComplete
  | PerformanceStoreBindComplete
  | InitializeAllocatorFromTraceStore
  | BindMetadataInfoStoreCallback
  | BindRemainingMetadataStoresCallback
  | BindTraceStoreCallback
  | ReadonlyNonStreamingBindCompleteCallback
  | CleanupThreadpoolMembersCallback
  | GetWorkingSetChangesTimerCallback
  | CapturePerformanceMetricsTimerCallback
  | TraceStoreAtExitEx
  | Other (Address : Nat)
  deriving DecidableEq, Repr

/-- The two bits of `TRACE_STORE_TRAITS` that `InitializeTraceContext` reads,
through `WantsPageAlignment` and `HasConcurrentAllocations`. -/
structure TRACE_STORE_TRAITS where
  PageAligned : Bool
  ConcurrentAllocations : Bool
  deriving DecidableEq, Repr

/-- Modelled from the spec: the macro `WantsPageAlignment` (declared outside
the given sources) tests the store's page-aligned mode flag. -/
def WantsPageAlignment (Traits : TRACE_STORE_TRAITS) : Bool := Traits.PageAligned

/-- Modelled from the spec: the macro `HasConcurrentAllocations` (declared
outside the given sources) tests the store's concurrent-allocations flag. -/
def HasConcurrentAllocations (Traits : TRACE_STORE_TRAITS) : Bool :=
  Traits.ConcurrentAllocations

/-- The fields of `TRACE_STORE` that `InitializeTraceContext` reads or writes.
`Traits` is the value `pTraits` points to. -/
structure TRACE_STORE where
  TraceContext : Nat
  ResumeAllocationsEvent : Nat
  BindCompleteEvent : Nat
  AllocateRecords : Routine
  AllocateRecordsWithTimestamp : Routine
  SuspendedAllocateRecordsWithTimestamp : Routine
  AllocateRecordsWithTimestampImpl1 : Routine
  AllocateRecordsWithTimestampImpl2 : Routine
  TryAllocateRecords : Routine
  TryAllocateRecordsWithTimestamp : Routine
  BindComplete : Routine
  IgnorePreferredAddresses : Bool
  Traits : TRACE_STORE_TRAITS
  deriving DecidableEq, Repr

/-- The flags of `TRACE_STORES` that `InitializeTraceContext` reads. -/
structure TRACE_STORES_FLAGS where
  Readonly : Bool
  EnableWorkingSetTracing : Bool
  EnablePerformanceTracing : Bool
  deriving DecidableEq, Repr

/-- The fields of `TRACE_STORES` used here.  `NumberOfTraceStores` and
`ElementsPerTraceStore` are `USHORT` fields. -/
structure TRACE_STORES where
  Flags : TRACE_STORES_FLAGS
  NumberOfTraceStores : Nat
  ElementsPerTraceStore : Nat
  RelocationCompleteEvents : List Nat
  Stores : List TRACE_STORE
  deriving DecidableEq, Repr

/-- `TRACE_CONTEXT_FLAGS`; `Rest` carries the bits this routine does not name. -/
structure TRACE_CONTEXT_FLAGS where
  Valid : Bool
  Readonly : Bool
  IgnorePreferredAddresses : Bool
  Rest : Nat
  deriving DecidableEq, Repr

/-- The all-zero `TRACE_CONTEXT_FLAGS`. -/
def TRACE_CONTEXT_FLAGS.zero : TRACE_CONTEXT_FLAGS :=
  { Valid := false, Readonly := false, IgnorePreferredAddresses := false, Rest := 0 }

/-- `TRACE_STORE_WORK`.  `ListHead` is the interlocked list, empty after
`InitializeSListHead`. -/
structure TRACE_STORE_WORK where
  ListHead : List Nat
  ThreadpoolWork : Nat
  WorkCompleteEvent : Nat
  TotalNumberOfItems : Nat
  NumberOfActiveItems : Nat
  NumberOfFailedItems : Nat
  deriving DecidableEq, Repr

/-- The all-zero `TRACE_STORE_WORK`. -/
def TRACE_STORE_WORK.zero : TRACE_STORE_WORK :=
  { ListHead := [], ThreadpoolWork := 0, WorkCompleteEvent := 0,
    TotalNumberOfItems := 0, NumberOfActiveItems := 0, NumberOfFailedItems := 0 }

/-- Where `RTL_BITMAP.Buffer` points. -/
inductive BitmapBufferPointer where
  | NULL
  | ContextBitmapBuffer
  | External (Address : Nat)
  deriving DecidableEq, Repr

/-- `RTL_BITMAP`. -/
structure RTL_BITMAP where
  SizeOfBitMap : Nat
  Buffer : BitmapBufferPointer
  deriving DecidableEq, Repr

/-- The fields of `TRACE_CONTEXT` that `InitializeTraceContext` and
`CloseTraceContext` use.  The last three fields are the ignore-bitmap fields,
which lie from `BitmapBufferSizeInQuadwords` onward; `BitmapBuffer` is the one
quadword of `TRACE_STORE_BITMAP_SIZE_IN_QUADWORDS`. -/
structure TRACE_CONTEXT where
  SizeOfStruct : Nat
  Flags : TRACE_CONTEXT_FLAGS
  FailedCount : Nat
  LastError : Nat
  Rtl : Nat
  Allocator : Nat
  TracerConfig : Nat
  TraceSession : Nat
  TraceStores : Nat
  UserData : Nat
  TimerFunction : Nat
  LoadingCompleteEvent : Nat
  ThreadpoolCallbackEnvironment : Nat
  CancellationThreadpoolCallbackEnvironment : Nat
  ThreadpoolCleanupGroup : Nat
  Time : Nat
  InitializeAllocatorFromTraceStore : Routine
  BindMetadataInfoStoreWork : TRACE_STORE_WORK
  BindRemainingMetadataStoresWork : TRACE_STORE_WORK
  BindTraceStoreWork : TRACE_STORE_WORK
  ReadonlyNonStreamingBindCompleteWork : TRACE_STORE_WORK
  BindsInProgress : Nat
  FailedListHead : List Nat
  CleanupThreadpoolMembersWork : Nat
  AtExitExEntry : Nat
  WorkingSetChangesLock : Nat
  GetWorkingSetChangesTimer : Nat
  CapturePerformanceMetricsLock : Nat
  CapturePerformanceMetricsTimer : Nat
  BitmapBufferSizeInQuadwords : Nat
  IgnorePreferredAddressesBitmap : RTL_BITMAP
  BitmapBuffer : Nat
  deriving DecidableEq, Repr

/-- The all-zero `TRACE_CONTEXT`. -/
def TRACE_CONTEXT.zero : TRACE_CONTEXT :=
  { SizeOfStruct := 0, Flags := TRACE_CONTEXT_FLAGS.zero, FailedCount := 0, LastError := 0,
    Rtl := 0, Allocator := 0, TracerConfig := 0, TraceSession := 0, TraceStores := 0,
    UserData := 0, TimerFunction := 0, LoadingCompleteEvent := 0,
    ThreadpoolCallbackEnvironment := 0, CancellationThreadpoolCallbackEnvironment := 0,
    ThreadpoolCleanupGroup := 0, Time := 0,
    InitializeAllocatorFromTraceStore := Routine.NULL,
    BindMetadataInfoStoreWork := TRACE_STORE_WORK.zero,
    BindRemainingMetadataStoresWork := TRACE_STORE_WORK.zero,
    BindTraceStoreWork := TRACE_STORE_WORK.zero,
    ReadonlyNonStreamingBindCompleteWork := TRACE_STORE_WORK.zero,
    BindsInProgress := 0, FailedListHead := [], CleanupThreadpoolMembersWork := 0,
    AtExitExEntry := 0, WorkingSetChangesLock := 0, GetWorkingSetChangesTimer := 0,
    CapturePerformanceMetricsLock := 0, CapturePerformanceMetricsTimer := 0,
    BitmapBufferSizeInQuadwords := 0,
    IgnorePreferredAddressesBitmap := { SizeOfBitMap := 0, Buffer := BitmapBufferPointer.NULL },
    BitmapBuffer := 0 }

/-- What `SecureZeroMemory(TraceContext, NumberOfBytesToZero)` zeroes. -/
inductive ZeroExtent where
  | WholeStructure
  | UpToBitmapFields
  deriving DecidableEq, Repr

/-- `SecureZeroMemory` on the context: the whole structure, or every field
before `BitmapBufferSizeInQuadwords`. -/
def SecureZeroContext (c : TRACE_CONTEXT) : ZeroExtent → TRACE_CONTEXT
  | ZeroExtent.WholeStructure => TRACE_CONTEXT.zero
  | ZeroExtent.UpToBitmapFields =>
    { TRACE_CONTEXT.zero with
      BitmapBufferSizeInQuadwords := c.BitmapBufferSizeInQuadwords
      IgnorePreferredAddressesBitmap := c.IgnorePreferredAddressesBitmap
      BitmapBuffer := c.BitmapBuffer }

/-- The flags and runtime parameters of `TRACER_CONFIG` read here. -/
structure TRACER_CONFIG where
  DisableAsynchronousInitialization : Bool
  ConcurrentAllocationsCriticalSectionSpinCount : Nat
  deriving DecidableEq, Repr

/-- The arguments of `InitializeTraceContext`.  `TracerConfigData` is the
structure `TracerConfig` points to and `TraceContextFlags` is `none` for a
`NULL` pointer; both are only read. -/
structure Args where
  Rtl : Nat
  Allocator : Nat
  TracerConfig : Nat
  TracerConfigData : TRACER_CONFIG
  TraceContext : Nat
  SizeOfTraceContext : Nat
  TraceSession : Nat
  TraceStores : Nat
  ThreadpoolCallbackEnvironment : Nat
  CancellationThreadpoolCallbackEnvironment : Nat
  TraceContextFlags : Option TRACE_CONTEXT_FLAGS
  UserData : Nat
  deriving DecidableEq, Repr

/-- The caller's memory the pointer arguments refer to: `*TraceContext`,
`*SizeOfTraceContext` and `*TraceStores`. -/
structure Memory where
  TraceContext : TRACE_CONTEXT
  SizeOfTraceContext : Nat
  TraceStores : TRACE_STORES
  deriving DecidableEq, Repr

/-- One call out of the routine, with its result where it has one (`0` or
`false` on failure). -/
inductive Op where
  | TraceStoreGetTimerFunction (Result : Nat)
  | CreateEvent (ManualReset InitialState : Bool) (Result : Nat)
  | CreateThreadpoolCleanupGroup (Result : Nat)
  | SetThreadpoolCallbackCleanupGroup (Pool Group : Nat)
  | InitializeTraceStoreTime (Result : Bool)
  | CreateThreadpoolWork (Callback : Routine) (Pool : Nat) (Result : Nat)
  | AtExitEx (Result : Bool)
  | CreateThreadpoolTimer (Callback : Routine) (Pool : Nat) (Result : Nat)
  | K32InitializeProcessForWsWatch (Result : Bool)
  | SubmitBindMetadataInfoWork (StoreIndex : Nat)
  | WaitForSingleObject (Handle : Nat) (Result : Nat)
  | OutputDebugStringA
  | DebugBreak
  | CloseThreadpoolWork (Work : Nat)
  | CloseHandle (Handle : Nat)
  | CloseThreadpoolTimer (Timer : Nat)
  deriving DecidableEq, Repr

/-- Everything the routine gets from outside: the size of the structure, the
results of the calls it makes, and what the bind callbacks have left in
`FailedCount` when the wait on `LoadingCompleteEvent` returns.  `Create k` is
the handle returned by the `k`-th creation call of this invocation (`0` when it
fails). -/
structure Env where
  SizeOfTraceContextStruct : Nat
  TimerFunction : Nat
  Create : Nat → Nat
  InitializeTraceStoreTime : Bool
  Time : Nat
  AtExitEx : Bool
  AtExitExEntry : Nat
  K32InitializeProcessForWsWatch : Bool
  LastError : Nat
  RtlFindSetBits : (SizeOfBitMap Buffer NumberToFind HintIndex : Nat) → Nat
  WaitResult : Nat
  FailedCount : Nat

/-- The state the routine runs on: the caller's memory, the number of creation
calls made so far, the trace of calls, and the locals that outlive a block. -/
structure State where
  TraceContext : TRACE_CONTEXT
  SizeOfTraceContext : Nat
  TraceStores : TRACE_STORES
  Calls : Nat
  Trace : List Op
  ContextFlags : TRACE_CONTEXT_FLAGS
  IsReadonly : Bool
  NumberOfBytesToZero : ZeroExtent

/-- The state at entry. -/
def State.enter (m : Memory) : State :=
  { TraceContext := m.TraceContext, SizeOfTraceContext := m.SizeOfTraceContext,
    TraceStores := m.TraceStores, Calls := 0, Trace := [],
    ContextFlags := TRACE_CONTEXT_FLAGS.zero, IsReadonly := false,
    NumberOfBytesToZero := ZeroExtent.WholeStructure }

/-- The caller's memory in a state. -/
def State.memory (s : State) : Memory :=
  { TraceContext := s.TraceContext, SizeOfTraceContext := s.SizeOfTraceContext,
    TraceStores := s.TraceStores }

/-- How a block of the routine ends: it falls through, returns, or jumps to
the `Error` label. -/
inductive Step where
  | Continue (s : State)
  | Return (Value : Bool) (s : State)
  | GotoError (s : State)

/-- Sequencing of blocks: the next block runs only when this one falls through. -/
def Step.andThen : Step → (State → Step) → Step
  | Step.Continue s, f => f s
  | Step.Return b s, _ => Step.Return b s
  | Step.GotoError s, _ => Step.GotoError s

/-- The state a block ends in. -/
def Step.state : Step → State
  | Step.Continue s => s
  | Step.Return _ s => s
  | Step.GotoError s => s

/-- Record a call in the trace. -/
def State.log (s : State) (op : Op) : State :=
  { s with Trace := s.Trace ++ [op] }

/-- A creation call: its handle comes from the environment and the call is
recorded with that handle. -/
def State.create (e : Env) (s : State) (call : Nat → Op) : Nat × State :=
  (e.Create s.Calls, { s with Calls := s.Calls + 1, Trace := s.Trace ++ [call (e.Create s.Calls)] })

/-- Store through a pointer to the `i`-th element of `Stores`. -/
def modifyStore (f : TRACE_STORE → TRACE_STORE) (i : Nat) (l : List TRACE_STORE) :
    List TRACE_STORE :=
  match l[i]? with
  | some st => l.set i (f st)
  | none => l

/-- Modelled from the spec: `TraceStoreIdToTraceStore` (declared outside the
given sources) resolves a store id to the primary slot of that store, the
element of `Stores` at `TraceStoreIdToArrayIndex(id) * ElementsPerTraceStore`. -/
def TraceStoreIdToTraceStore (TraceStores : TRACE_STORES) (TraceStoreId : Int) : Nat :=
  TraceStoreIdToArrayIndex TraceStoreId * TraceStores.ElementsPerTraceStore

/-! ## Validation (lines 106-343) -/

/-- Lines 106-124: the size parameters. -/
def ValidateSize (e : Env) (a : Args) (s : State) : Step :=
  if a.TraceContext = 0 then
    if a.SizeOfTraceContext ≠ 0 then
      Step.Return false { s with SizeOfTraceContext := e.SizeOfTraceContextStruct }
    else
      Step.Return false s
  else if a.SizeOfTraceContext = 0 then
    Step.Return false s
  else if s.SizeOfTraceContext < e.SizeOfTraceContextStruct then
    Step.Return false { s with SizeOfTraceContext := e.SizeOfTraceContextStruct }
  else
    Step.Continue s

/-- Lines 126-159: the pointer arguments, and the local copy of the flags. -/
def ValidateArguments (a : Args) (s : State) : Step :=
  if a.Rtl = 0 then Step.Return false s
  else if a.Allocator = 0 then Step.Return false s
  else if a.TracerConfig = 0 then Step.Return false s
  else if a.TraceStores = 0 then Step.Return false s
  else if a.ThreadpoolCallbackEnvironment = 0 then Step.Return false s
  else if a.CancellationThreadpoolCallbackEnvironment = 0 then Step.Return false s
  else
    match a.TraceContextFlags with
    | some f => Step.Continue { s with ContextFlags := { f with Valid := false } }
    | none => Step.Continue { s with ContextFlags := TRACE_CONTEXT_FLAGS.zero }

/-- How the walk over the ignore bitmap ends: `Failed` is the `return FALSE`
inside the loop, `Wrapped` the `break`. -/
inductive WalkResult where
  | Failed (TraceStores : TRACE_STORES)
  | Wrapped (NumberOfSetBits : Nat) (TraceStores : TRACE_STORES)
  | OutOfFuel

/-- Lines 248-289: the `do ... while (1)` loop over the ignore bitmap, with a
bound on the number of iterations. -/
def WalkIgnoreBitmap (e : Env) (SizeOfBitMap Buffer : Nat) :
    (fuel HintIndex PreviousIndex NumberOfSetBits : Nat) → TRACE_STORES → WalkResult
  | 0, _, _, _, _ => WalkResult.OutOfFuel
  | fuel + 1, HintIndex, PreviousIndex, NumberOfSetBits, TraceStores =>
    let BitmapIndex := e.RtlFindSetBits SizeOfBitMap Buffer 1 HintIndex
    if BitmapIndex = BITS_NOT_FOUND ∨ BitmapIndex ≥ TraceStoreInvalidId then
      WalkResult.Failed TraceStores
    else if BitmapIndex ≤ PreviousIndex then
      WalkResult.Wrapped NumberOfSetBits TraceStores
    else
      WalkIgnoreBitmap e SizeOfBitMap Buffer fuel (BitmapIndex + 1) BitmapIndex
        (NumberOfSetBits + 1)
        { TraceStores with
          Stores := modifyStore (fun st => { st with IgnorePreferredAddresses := true })
            (TraceStoreIdToTraceStore TraceStores (BitmapIndex : Int)) TraceStores.Stores }

/-- Lines 161-343: the mode checks and the ignore bitmap. -/
def ValidateMode (e : Env) (a : Args) (s : State) : Step :=
  let s := { s with NumberOfBytesToZero := ZeroExtent.WholeStructure }
  if s.ContextFlags.Readonly then
    let s := { s with IsReadonly := true }
    if !s.TraceStores.Flags.Readonly then
      Step.Return false s
    else if s.ContextFlags.IgnorePreferredAddresses then
      if s.TraceContext.IgnorePreferredAddressesBitmap.SizeOfBitMap ≠ MAX_TRACE_STORE_IDS then
        Step.Return false s
      else if s.TraceContext.IgnorePreferredAddressesBitmap.Buffer ≠ BitmapBufferPointer.NULL then
        Step.Return false s
      else
        let s := { s with TraceContext := { s.TraceContext with
          IgnorePreferredAddressesBitmap := { s.TraceContext.IgnorePreferredAddressesBitmap with
            Buffer := BitmapBufferPointer.ContextBitmapBuffer } } }
        match WalkIgnoreBitmap e s.TraceContext.IgnorePreferredAddressesBitmap.SizeOfBitMap
            s.TraceContext.BitmapBuffer TraceStoreInvalidId 0 0 0 s.TraceStores with
        | WalkResult.Failed ts => Step.Return false { s with TraceStores := ts }
        | WalkResult.OutOfFuel => Step.Return false s
        | WalkResult.Wrapped NumberOfSetBits ts =>
          if NumberOfSetBits = 0 then
            Step.Return false ({ s with TraceStores := ts }.log Op.DebugBreak)
          else
            Step.Continue { s with TraceStores := ts,
                                   NumberOfBytesToZero := ZeroExtent.UpToBitmapFields }
    else
      Step.Continue s
  else
    let s := { s with IsReadonly := false }
    if s.TraceStores.Flags.Readonly then
      Step.Return false s
    else if a.TraceSession = 0 then
      Step.Return false s
    else if s.ContextFlags.IgnorePreferredAddresses then
      Step.Return false s
    else
      Step.Continue s

/-- Lines 106-343: every check made before the structure is zeroed. -/
def Validate (e : Env) (a : Args) (s : State) : Step :=
  ((ValidateSize e a s).andThen (ValidateArguments a)).andThen (ValidateMode e a)

/-! ## Setting up the context (lines 345-462) -/

/-- Lines 345-402: zero the structure, then the timer function, the loading
complete event, the pool handles, the cleanup group, the time and the plain
fields. -/
def InitializeContext (e : Env) (a : Args) (s : State) : Step :=
  let s := { s with TraceContext := SecureZeroContext s.TraceContext s.NumberOfBytesToZero }
  let s := { s with TraceContext := { s.TraceContext with TimerFunction := e.TimerFunction } }.log
    (Op.TraceStoreGetTimerFunction e.TimerFunction)
  if s.TraceContext.TimerFunction = 0 then Step.Return false s
  else
    let r := s.create e (Op.CreateEvent true false)
    let s : State := { r.2 with TraceContext := { r.2.TraceContext with LoadingCompleteEvent := r.1 } }
    if s.TraceContext.LoadingCompleteEvent = 0 then Step.Return false s
    else
      let s := { s with TraceContext := { s.TraceContext with
        ThreadpoolCallbackEnvironment := a.ThreadpoolCallbackEnvironment } }
      let s := { s with TraceContext := { s.TraceContext with
        CancellationThreadpoolCallbackEnvironment := a.ThreadpoolCallbackEnvironment } }
      let r := s.create e Op.CreateThreadpoolCleanupGroup
      let s : State := { r.2 with TraceContext := { r.2.TraceContext with ThreadpoolCleanupGroup := r.1 } }
      if s.TraceContext.ThreadpoolCleanupGroup = 0 then Step.Return false s
      else
        let s := s.log (Op.SetThreadpoolCallbackCleanupGroup a.ThreadpoolCallbackEnvironment
          s.TraceContext.ThreadpoolCleanupGroup)
        let s := { s with TraceContext := { s.TraceContext with Time := e.Time } }.log
          (Op.InitializeTraceStoreTime e.InitializeTraceStoreTime)
        if !e.InitializeTraceStoreTime then Step.Return false s
        else
          Step.Continue { s with TraceContext := { s.TraceContext with
            SizeOfStruct := s.SizeOfTraceContext % 65536
            TraceSession := a.TraceSession
            TraceStores := a.TraceStores
            UserData := a.UserData
            Rtl := a.Rtl
            Allocator := a.Allocator
            TracerConfig := a.TracerConfig
            Flags := s.ContextFlags
            InitializeAllocatorFromTraceStore := Routine.InitializeAllocatorFromTraceStore } }

/-- The macro `INIT_WORK(Name, NumberOfItems)` on the record `w`: the result is
`false` where the macro jumps to `Error`. -/
def INIT_WORK (e : Env) (Callback : Routine) (Pool NumberOfItems : Nat)
    (w : TRACE_STORE_WORK) (s : State) : Bool × TRACE_STORE_WORK × State :=
  let w := { w with ListHead := [] }
  let r := s.create e (Op.CreateEvent false false)
  let w := { w with WorkCompleteEvent := r.1 }
  if w.WorkCompleteEvent = 0 then (false, w, r.2)
  else
    let r := r.2.create e (Op.CreateThreadpoolWork Callback Pool)
    let w := { w with ThreadpoolWork := r.1 }
    if w.ThreadpoolWork = 0 then (false, w, r.2)
    else
      (true, { w with TotalNumberOfItems := NumberOfItems
                      NumberOfActiveItems := NumberOfItems
                      NumberOfFailedItems := 0 }, r.2)

/-- The local `NumberOfTraceStores`, a `USHORT`. -/
def NumberOfTraceStores (s : State) : Nat :=
  s.TraceStores.NumberOfTraceStores % 65536

/-- Lines 411-414: the local `NumberOfRemainingMetadataStores`, a `USHORT`
assigned from an `int` product. -/
def NumberOfRemainingMetadataStores (s : State) : Nat :=
  toUSHORT (((s.TraceStores.ElementsPerTraceStore : Int) - 2) * (NumberOfTraceStores s : Int))

/-- Line 439: `INIT_WORK(BindMetadataInfoStore, NumberOfTraceStores)`. -/
def InitializeBindMetadataInfoStoreWork (e : Env) (a : Args) (NumberOfItems : Nat)
    (s : State) : Step :=
  let r := INIT_WORK e Routine.BindMetadataInfoStoreCallback a.ThreadpoolCallbackEnvironment
    NumberOfItems s.TraceContext.BindMetadataInfoStoreWork s
  let s : State := { r.2.2 with TraceContext := { r.2.2.TraceContext with
    BindMetadataInfoStoreWork := r.2.1 } }
  if r.1 then Step.Continue s else Step.GotoError s

/-- Line 440: `INIT_WORK(BindRemainingMetadataStores, NumberOfRemainingMetadataStores)`. -/
def InitializeBindRemainingMetadataStoresWork (e : Env) (a : Args) (NumberOfItems : Nat)
    (s : State) : Step :=
  let r := INIT_WORK e Routine.BindRemainingMetadataStoresCallback
    a.ThreadpoolCallbackEnvironment NumberOfItems s.TraceContext.BindRemainingMetadataStoresWork s
  let s : State := { r.2.2 with TraceContext := { r.2.2.TraceContext with
    BindRemainingMetadataStoresWork := r.2.1 } }
  if r.1 then Step.Continue s else Step.GotoError s

/-- Line 441: `INIT_WORK(BindTraceStore, NumberOfTraceStores)`. -/
def InitializeBindTraceStoreWork (e : Env) (a : Args) (NumberOfItems : Nat)
    (s : State) : Step :=
  let r := INIT_WORK e Routine.BindTraceStoreCallback a.ThreadpoolCallbackEnvironment
    NumberOfItems s.TraceContext.BindTraceStoreWork s
  let s : State := { r.2.2 with TraceContext := { r.2.2.TraceContext with
    BindTraceStoreWork := r.2.1 } }
  if r.1 then Step.Continue s else Step.GotoError s

/-- Line 442: `INIT_WORK(ReadonlyNonStreamingBindComplete, NumberOfTraceStores)`. -/
def InitializeReadonlyNonStreamingBindCompleteWork (e : Env) (a : Args) (NumberOfItems : Nat)
    (s : State) : Step :=
  let r := INIT_WORK e Routine.ReadonlyNonStreamingBindCompleteCallback
    a.ThreadpoolCallbackEnvironment NumberOfItems
    s.TraceContext.ReadonlyNonStreamingBindCompleteWork s
  let s : State := { r.2.2 with TraceContext := { r.2.2.TraceContext with
    ReadonlyNonStreamingBindCompleteWork := r.2.1 } }
  if r.1 then Step.Continue s else Step.GotoError s

/-- Lines 444-462: the bind count, the failure list and the cleanup work item. -/
def CreateCleanupThreadpoolMembersWork (e : Env) (a : Args) (NumberOfItems : Nat)
    (s : State) : Step :=
  let s : State := { s with TraceContext := { s.TraceContext with
    BindsInProgress := NumberOfItems
    FailedListHead := [] } }
  let r := s.create e (Op.CreateThreadpoolWork Routine.CleanupThreadpoolMembersCallback
    a.CancellationThreadpoolCallbackEnvironment)
  let s : State := { r.2 with TraceContext := { r.2.TraceContext with
    CleanupThreadpoolMembersWork := r.1 } }
  if s.TraceContext.CleanupThreadpoolMembersWork = 0 then Step.GotoError s
  else Step.Continue s

/-- Lines 404-462: the four work records, the bind count, the failure list and
the cleanup work item. -/
def InitializeWork (e : Env) (a : Args) (s : State) : Step :=
  let NumberOfTraceStores := NumberOfTraceStores s
  let NumberOfRemainingMetadataStores := NumberOfRemainingMetadataStores s
  ((((InitializeBindMetadataInfoStoreWork e a NumberOfTraceStores s).andThen
    (InitializeBindRemainingMetadataStoresWork e a NumberOfRemainingMetadataStores)).andThen
    (InitializeBindTraceStoreWork e a NumberOfTraceStores)).andThen
    (InitializeReadonlyNonStreamingBindCompleteWork e a NumberOfTraceStores)).andThen
    (CreateCleanupThreadpoolMembersWork e a NumberOfTraceStores)

/-! ## Events, timers and allocators (lines 464-706) -/

/-- Modelled from the spec: the macro `FOR_EACH_TRACE_STORE` (declared outside
the given sources) visits the stores in order, `Index` counting the stores
from zero up to `NumberOfTraceStores` and `StoreIndex`, a `USHORT`, advancing
by `ElementsPerTraceStore` from one primary slot to the next.  This is the
advance of `StoreIndex`. -/
def NextStoreIndex (TraceStores : TRACE_STORES) (StoreIndex : Nat) : Nat :=
  (StoreIndex + TraceStores.ElementsPerTraceStore) % 65536

/-- Lines 480-495: the loop creating the relocation complete events, with
`Remaining` stores still to visit. -/
def CreateRelocationCompleteEvents (e : Env) : (Remaining Index : Nat) → State → Step
  | 0, _, s => Step.Continue s
  | Remaining + 1, Index, s =>
    let r := s.create e (Op.CreateEvent true false)
    if r.1 = 0 then Step.GotoError r.2
    else
      CreateRelocationCompleteEvents e Remaining (Index + 1)
        { r.2 with TraceStores := { r.2.TraceStores with
          RelocationCompleteEvents := r.2.TraceStores.RelocationCompleteEvents.set Index r.1 } }

/-- Lines 500-510: the exit callback. -/
def RegisterAtExit (e : Env) (s : State) : Step :=
  let s := { s with TraceContext := { s.TraceContext with AtExitExEntry := e.AtExitExEntry } }.log
    (Op.AtExitEx e.AtExitEx)
  if !e.AtExitEx then Step.GotoError s else Step.Continue s

/-- Lines 517-564: the working set timer. -/
def EnableWorkingSetTracing (e : Env) (a : Args) (s : State) : Step :=
  if s.TraceStores.Flags.EnableWorkingSetTracing then
    let s : State := { s with TraceContext := { s.TraceContext with WorkingSetChangesLock := 0 } }
    let r := s.create e (Op.CreateThreadpoolTimer Routine.GetWorkingSetChangesTimerCallback
      a.ThreadpoolCallbackEnvironment)
    let s : State := { r.2 with TraceContext := { r.2.TraceContext with
      GetWorkingSetChangesTimer := r.1 } }
    if s.TraceContext.GetWorkingSetChangesTimer = 0 then Step.GotoError s
    else
      let s := s.log (Op.K32InitializeProcessForWsWatch e.K32InitializeProcessForWsWatch)
      if !e.K32InitializeProcessForWsWatch then
        Step.GotoError { s with TraceContext := { s.TraceContext with
          LastError := e.LastError } }
      else
        Step.Continue { s with TraceStores := { s.TraceStores with
          Stores := modifyStore
            (fun st => { st with BindComplete := Routine.WsWatchInfoExStoreBindComplete })
            (TraceStoreIdToTraceStore s.TraceStores (TraceStoreWsWatchInfoExId : Int))
            s.TraceStores.Stores } }
  else Step.Continue s

/-- Lines 566-602: the performance timer. -/
def EnablePerformanceTracing (e : Env) (a : Args) (s : State) : Step :=
  if s.TraceStores.Flags.EnablePerformanceTracing then
    let s : State := { s with TraceContext := { s.TraceContext with
      CapturePerformanceMetricsLock := 0 } }
    let r := s.create e
      (Op.CreateThreadpoolTimer Routine.CapturePerformanceMetricsTimerCallback
        a.ThreadpoolCallbackEnvironment)
    let s : State := { r.2 with TraceContext := { r.2.TraceContext with
      CapturePerformanceMetricsTimer := r.1 } }
    if s.TraceContext.CapturePerformanceMetricsTimer = 0 then Step.GotoError s
    else
      Step.Continue { s with TraceStores := { s.TraceStores with
        Stores := modifyStore
          (fun st => { st with BindComplete := Routine.PerformanceStoreBindComplete })
          (TraceStoreIdToTraceStore s.TraceStores (TraceStorePerformanceId : Int))
          s.TraceStores.Stores } }
  else Step.Continue s

/-- Lines 500-602: the exit callback and the two optional timers of a
read-write context. -/
def RegisterAtExitAndTimers (e : Env) (a : Args) (s : State) : Step :=
  ((RegisterAtExit e s).andThen (EnableWorkingSetTracing e a)).andThen
    (EnablePerformanceTracing e a)

/-- Lines 653-705: what one pass of the allocator loop stores in the trace
store it visits. -/
def InitializeStoreAllocators (TraceContext ResumeAllocationEvent BindCompleteEvent : Nat)
    (st : TRACE_STORE) : TRACE_STORE :=
  let st := { st with
    TraceContext := TraceContext
    ResumeAllocationsEvent := ResumeAllocationEvent
    BindCompleteEvent := BindCompleteEvent
    AllocateRecords := Routine.TraceStoreAllocateRecords
    AllocateRecordsWithTimestamp := Routine.SuspendedTraceStoreAllocateRecordsWithTimestamp
    SuspendedAllocateRecordsWithTimestamp :=
      Routine.SuspendedTraceStoreAllocateRecordsWithTimestamp }
  let Traits := st.Traits
  let st :=
    if WantsPageAlignment Traits then
      { st with AllocateRecordsWithTimestampImpl1 :=
          Routine.TraceStoreAllocatePageAlignedRecordsWithTimestampImpl }
    else
      { st with AllocateRecordsWithTimestampImpl1 :=
          Routine.TraceStoreAllocateRecordsWithTimestampImpl }
  if !HasConcurrentAllocations Traits then st
  else
    let st := { st with
      TryAllocateRecords := Routine.TraceStoreTryAllocateRecords
      TryAllocateRecordsWithTimestamp := Routine.TraceStoreTryAllocateRecordsWithTimestamp }
    let st := { st with AllocateRecordsWithTimestampImpl2 := st.AllocateRecordsWithTimestampImpl1 }
    { st with AllocateRecordsWithTimestampImpl1 :=
        Routine.ConcurrentTraceStoreAllocateRecordsWithTimestamp }

/-- Lines 630-706: the loop that creates the two events of each store and
installs its allocators, with `Remaining` stores still to visit. -/
def InitializeAllocators (e : Env) (a : Args) : (Remaining StoreIndex : Nat) → State → Step
  | 0, _, s => Step.Continue s
  | Remaining + 1, StoreIndex, s =>
    let r := s.create e (Op.CreateEvent true false)
    if r.1 = 0 then Step.GotoError r.2
    else
      let r2 := r.2.create e (Op.CreateEvent true false)
      if r2.1 = 0 then Step.GotoError r2.2
      else
        InitializeAllocators e a Remaining (NextStoreIndex r2.2.TraceStores StoreIndex)
          { r2.2 with TraceStores := { r2.2.TraceStores with
            Stores := modifyStore (InitializeStoreAllocators a.TraceContext r.1 r2.1)
              StoreIndex r2.2.TraceStores.Stores } }

/-! ## Submission, the wait and the error path (lines 708-785) -/

/-- Lines 713-716: one `SubmitBindMetadataInfoWork` per store. -/
def SubmitBindMetadataInfoWorks : (Remaining StoreIndex : Nat) → State → State
  | 0, _, s => s
  | Remaining + 1, StoreIndex, s =>
    SubmitBindMetadataInfoWorks Remaining (NextStoreIndex s.TraceStores StoreIndex)
      (s.log (Op.SubmitBindMetadataInfoWork StoreIndex))

/-- Lines 718-749: return at once, or wait for the loading complete event.
Falling through leads to the `Error` label. -/
def WaitForLoadingComplete (e : Env) (a : Args) (s : State) : Step :=
  if !a.TracerConfigData.DisableAsynchronousInitialization then Step.Return true s
  else
    let s := { s with TraceContext := { s.TraceContext with FailedCount := e.FailedCount } }.log
      (Op.WaitForSingleObject s.TraceContext.LoadingCompleteEvent e.WaitResult)
    if e.WaitResult ≠ WAIT_OBJECT_0 then Step.Return false (s.log Op.OutputDebugStringA)
    else if s.TraceContext.FailedCount = 0 then Step.Return true s
    else Step.Continue s

/-- The macro `CLEANUP_WORK(Name)` on the record `w`: the calls it makes. -/
def CLEANUP_WORK (w : TRACE_STORE_WORK) : List Op :=
  (if w.ThreadpoolWork ≠ 0 then [Op.CloseThreadpoolWork w.ThreadpoolWork] else []) ++
  (if w.WorkCompleteEvent ≠ 0 then [Op.CloseHandle w.WorkCompleteEvent] else [])

/-- Lines 755-785: the code at the `Error` label.  Each of the four
`CLEANUP_WORK` expansions closes what its record holds and zeroes the record,
then the cleanup work item and the working set timer are closed and cleared;
every step reads only the field it then clears. -/
def Error (s : State) : State :=
  { s with
    Trace := s.Trace ++
      (CLEANUP_WORK s.TraceContext.BindMetadataInfoStoreWork ++
      (CLEANUP_WORK s.TraceContext.BindRemainingMetadataStoresWork ++
      (CLEANUP_WORK s.TraceContext.BindTraceStoreWork ++
      (CLEANUP_WORK s.TraceContext.ReadonlyNonStreamingBindCompleteWork ++
      ((if s.TraceContext.CleanupThreadpoolMembersWork ≠ 0 then
        [Op.CloseThreadpoolWork s.TraceContext.CleanupThreadpoolMembersWork] else []) ++
      (if s.TraceContext.GetWorkingSetChangesTimer ≠ 0 then
        [Op.CloseThreadpoolTimer s.TraceContext.GetWorkingSetChangesTimer] else []))))))
    TraceContext := { s.TraceContext with
      BindMetadataInfoStoreWork := TRACE_STORE_WORK.zero
      BindRemainingMetadataStoresWork := TRACE_STORE_WORK.zero
      BindTraceStoreWork := TRACE_STORE_WORK.zero
      ReadonlyNonStreamingBindCompleteWork := TRACE_STORE_WORK.zero
      CleanupThreadpoolMembersWork := 0
      GetWorkingSetChangesTimer := 0 } }

/-! ## The routine -/

/-- Lines 464-498 and 500-602: the relocation complete events of a readonly
context, or the exit callback and timers of a read-write one. -/
def PrepareStores (e : Env) (a : Args) (s : State) : Step :=
  if s.IsReadonly then
    CreateRelocationCompleteEvents e s.TraceStores.NumberOfTraceStores 0 s
  else
    RegisterAtExitAndTimers e a s

/-- Lines 106-602: everything `InitializeTraceContext` does before the
`InitializeAllocators` label. -/
def PrepareContext (e : Env) (a : Args) (s : State) : Step :=
  (((Validate e a s).andThen (InitializeContext e a)).andThen (InitializeWork e a)).andThen
    (PrepareStores e a)

/-- Lines 106-706: everything `InitializeTraceContext` does before it submits
the first bind work item. -/
def Setup (e : Env) (a : Args) (s : State) : Step :=
  (PrepareContext e a s).andThen
    fun s => InitializeAllocators e a s.TraceStores.NumberOfTraceStores 0 s

/-- Lines 708-716: the submission of the bind work of every store. -/
def Submit (s : State) : State :=
  SubmitBindMetadataInfoWorks s.TraceStores.NumberOfTraceStores 0 s

/-- The body of `InitializeTraceContext` down to the `Error` label. -/
def Body (e : Env) (a : Args) (s : State) : Step :=
  (Setup e a s).andThen fun s => WaitForLoadingComplete e a (Submit s)

/-- The value and final state of a body that returns, jumps to `Error`, or
falls through to it. -/
def Finish : Step → Bool × State
  | Step.Return b s => (b, s)
  | Step.GotoError s => (false, Error s)
  | Step.Continue s => (false, Error s)

/-- `InitializeTraceContext`: the returned value and the final state. -/
def InitializeTraceContext (e : Env) (a : Args) (m : Memory) : Bool × State :=
  Finish (Body e a (State.enter m))

/-! ## Sample inputs -/

/-- Modelled from the spec: `RtlFindSetBits` (a routine of the run-time
library, outside the given sources) asked for one bit: the lowest set bit at
or after the hint, wrapping round to the start of the bitmap, and
`BITS_NOT_FOUND` when no bit is set.  `Buffer` is the quadword of bits. -/
def RtlFindSetBits (SizeOfBitMap Buffer _NumberToFind HintIndex : Nat) : Nat :=
  let Hint := if HintIndex ≥ SizeOfBitMap then 0 else HintIndex
  match (List.range SizeOfBitMap).find? (fun i => decide (Hint ≤ i) && Buffer.testBit i) with
  | some i => i
  | none =>
    match (List.range SizeOfBitMap).find? (fun i => Buffer.testBit i) with
    | some i => i
    | none => BITS_NOT_FOUND

/-- An environment in which every call succeeds: the `k`-th creation call
returns the handle `100 + k`. -/
def sampleEnv : Env :=
  { SizeOfTraceContextStruct := 512, TimerFunction := 7, Create := fun k => 100 + k,
    InitializeTraceStoreTime := true, Time := 1, AtExitEx := true, AtExitExEntry := 1,
    K32InitializeProcessForWsWatch := true, LastError := 0, RtlFindSetBits := RtlFindSetBits,
    WaitResult := WAIT_OBJECT_0, FailedCount := 0 }

/-- A trace store with no routine installed and the given traits. -/
def sampleStore (PageAligned ConcurrentAllocations : Bool) : TRACE_STORE :=
  { TraceContext := 0, ResumeAllocationsEvent := 0, BindCompleteEvent := 0,
    AllocateRecords := Routine.NULL, AllocateRecordsWithTimestamp := Routine.NULL,
    SuspendedAllocateRecordsWithTimestamp := Routine.NULL,
    AllocateRecordsWithTimestampImpl1 := Routine.NULL,
    AllocateRecordsWithTimestampImpl2 := Routine.NULL,
    TryAllocateRecords := Routine.NULL, TryAllocateRecordsWithTimestamp := Routine.NULL,
    BindComplete := Routine.NULL, IgnorePreferredAddresses := false,
    Traits := { PageAligned := PageAligned, ConcurrentAllocations := ConcurrentAllocations } }

/-- Two trace stores of two elements each (the store and one metadata store). -/
def sampleStores (Readonly : Bool) : TRACE_STORES :=
  { Flags := { Readonly := Readonly, EnableWorkingSetTracing := false,
               EnablePerformanceTracing := false },
    NumberOfTraceStores := 2, ElementsPerTraceStore := 2,
    RelocationCompleteEvents := [0, 0],
    Stores := [sampleStore true false, sampleStore false false,
               sampleStore false true, sampleStore false false] }

/-- The caller's memory: a context buffer of the required size, not yet
initialised, and the sample stores. -/
def sampleMemory (Readonly : Bool) : Memory :=
  { TraceContext := TRACE_CONTEXT.zero, SizeOfTraceContext := 512,
    TraceStores := sampleStores Readonly }

/-- Arguments of a read-write call with two distinct pools. -/
def sampleArgs (DisableAsynchronousInitialization : Bool) : Args :=
  { Rtl := 1, Allocator := 2, TracerConfig := 3,
    TracerConfigData := { DisableAsynchronousInitialization := DisableAsynchronousInitialization,
                          ConcurrentAllocationsCriticalSectionSpinCount := 4000 },
    TraceContext := 4, SizeOfTraceContext := 5, TraceSession := 6, TraceStores := 7,
    ThreadpoolCallbackEnvironment := 8, CancellationThreadpoolCallbackEnvironment := 9,
    TraceContextFlags := none, UserData := 0 }

/-- Arguments of a readonly call. -/
def sampleReadonlyArgs (IgnorePreferredAddresses : Bool) : Args :=
  { sampleArgs false with
    TraceSession := 0
    TraceContextFlags := some { Valid := false, Readonly := true,
                                IgnorePreferredAddresses := IgnorePreferredAddresses, Rest := 0 } }

/-! ## Properties of traces and states used in the statements -/

/-- The calls made while setting up: everything but the submission of bind
work, the wait, the debug output and the closing of handles. -/
def Op.isSetup : Op → Bool
  | Op.SubmitBindMetadataInfoWork _ => false
  | Op.WaitForSingleObject _ _ => false
  | Op.OutputDebugStringA => false
  | Op.CloseThreadpoolWork _ => false
  | Op.CloseHandle _ => false
  | Op.CloseThreadpoolTimer _ => false
  | _ => true

/-- A submission of bind work. -/
def Op.isSubmit : Op → Bool
  | Op.SubmitBindMetadataInfoWork _ => true
  | _ => false

/-- A call that closes a handle. -/
def Op.isClose : Op → Bool
  | Op.CloseThreadpoolWork _ => true
  | Op.CloseHandle _ => true
  | Op.CloseThreadpoolTimer _ => true
  | _ => false

/-- A call that creates an event, a work item, a cleanup group or a timer. -/
def Op.isCreate : Op → Bool
  | Op.CreateEvent _ _ _ => true
  | Op.CreateThreadpoolCleanupGroup _ => true
  | Op.CreateThreadpoolWork _ _ _ => true
  | Op.CreateThreadpoolTimer _ _ _ => true
  | _ => false

/-- A creation or registration step that failed. -/
def Op.failed : Op → Bool
  | Op.TraceStoreGetTimerFunction r => r == 0
  | Op.CreateEvent _ _ r => r == 0
  | Op.CreateThreadpoolCleanupGroup r => r == 0
  | Op.InitializeTraceStoreTime r => !r
  | Op.CreateThreadpoolWork _ _ r => r == 0
  | Op.AtExitEx r => !r
  | Op.CreateThreadpoolTimer _ _ r => r == 0
  | Op.K32InitializeProcessForWsWatch r => !r
  | _ => false

/-- The slot in `Stores` of the `i`-th trace store, as `FOR_EACH_TRACE_STORE`
reaches it. -/
def PrimaryStoreIndex (TraceStores : TRACE_STORES) (i : Nat) : Nat :=
  (i * TraceStores.ElementsPerTraceStore) % 65536

/-- The state `s'` continues `s`: its trace is the trace of `s` followed by
calls that all satisfy `p`. -/
def Extends (p : Op → Bool) (s s' : State) : Prop :=
  ∃ ops, s'.Trace = s.Trace ++ ops ∧ ∀ op ∈ ops, p op = true

/-- The calls made before the work records are set up: by the validation and
by the initialisation of the plain fields of the context. -/
def Op.isEarly : Op → Bool
  | Op.DebugBreak => true
  | Op.TraceStoreGetTimerFunction _ => true
  | Op.CreateEvent true false _ => true
  | Op.CreateThreadpoolCleanupGroup _ => true
  | Op.SetThreadpoolCallbackCleanupGroup _ _ => true
  | Op.InitializeTraceStoreTime _ => true
  | _ => false

/-- Whether a block falls through. -/
def Step.isContinue : Step → Bool
  | Step.Continue _ => true
  | _ => false

/-- The block result `st` comes from the state `s` by calls that satisfy `p`,
none of which failed if the block falls through. -/
def Step.From (p : Op → Bool) (s : State) (st : Step) : Prop :=
  Extends (fun op => p op && (!st.isContinue || !op.failed)) s st.state

/-- One submission of bind work for each of `n` trace stores from the `k`-th
on, in order. -/
def Submissions (TraceStores : TRACE_STORES) (k n : Nat) : List Op :=
  (List.range n).map fun j => Op.SubmitBindMetadataInfoWork (PrimaryStoreIndex TraceStores (k + j))

/-- The sample environment with a wait that fails (`WAIT_FAILED`). -/
def waitFailedEnv : Env := { sampleEnv with WaitResult := 0xFFFFFFFF }

/-- The collection of stores of `s'` has the flags, the counts and the array
sizes of that of `s`. -/
def SameShape (s s' : State) : Prop :=
  s'.TraceStores.Flags = s.TraceStores.Flags ∧
  s'.TraceStores.NumberOfTraceStores = s.TraceStores.NumberOfTraceStores ∧
  s'.TraceStores.ElementsPerTraceStore = s.TraceStores.ElementsPerTraceStore ∧
  s'.TraceStores.Stores.length = s.TraceStores.Stores.length ∧
  s'.TraceStores.RelocationCompleteEvents.length = s.TraceStores.RelocationCompleteEvents.length

/-- The collection `ts'` differs from `ts` at most in the contents of the
trace stores. -/
def SameStores (ts ts' : TRACE_STORES) : Prop :=
  ts'.Flags = ts.Flags ∧
  ts'.NumberOfTraceStores = ts.NumberOfTraceStores ∧
  ts'.ElementsPerTraceStore = ts.ElementsPerTraceStore ∧
  ts'.Stores.length = ts.Stores.length ∧
  ts'.RelocationCompleteEvents = ts.RelocationCompleteEvents

/-- The collection of stores of `s'` differs from that of `s` at most in the
contents of the trace stores. -/
def Frame (s s' : State) : Prop := SameStores s.TraceStores s'.TraceStores

/-- The collection of stores a walk over the ignore bitmap ends with. -/
def WalkResult.TraceStores : WalkResult → Option TRACE_STORES
  | WalkResult.Failed ts => some ts
  | WalkResult.Wrapped _ ts => some ts
  | WalkResult.OutOfFuel => none

/-- The trace stores of the run-time layout: 33 stores of 10 elements each. -/
def layoutStores : TRACE_STORES :=
  { Flags := { Readonly := false, EnableWorkingSetTracing := false,
               EnablePerformanceTracing := false },
    NumberOfTraceStores := 33, ElementsPerTraceStore := 10,
    RelocationCompleteEvents := List.replicate 33 0,
    Stores := List.replicate 330 (sampleStore false false) }

/-- The caller's memory with the stores of the run-time layout. -/
def layoutMemory : Memory :=
  { TraceContext := TRACE_CONTEXT.zero, SizeOfTraceContext := 512, TraceStores := layoutStores }

/-- The routine that finally performs the allocation for a store: the second
worker when the store has the concurrent-allocations trait, the first
otherwise. -/
def FinalWorker (st : TRACE_STORE) : Routine :=
  if HasConcurrentAllocations st.Traits then st.AllocateRecordsWithTimestampImpl2
  else st.AllocateRecordsWithTimestampImpl1

/-- The record-allocation entry points of a store are the suspended
allocator. -/
def IsSuspended (st : TRACE_STORE) : Prop :=
  st.AllocateRecordsWithTimestamp = Routine.SuspendedTraceStoreAllocateRecordsWithTimestamp ∧
  st.SuspendedAllocateRecordsWithTimestamp =
    Routine.SuspendedTraceStoreAllocateRecordsWithTimestamp

/-- The allocators of a store are those its traits select. -/
def StrategySelected (st : TRACE_STORE) : Prop :=
  (FinalWorker st = Routine.TraceStoreAllocatePageAlignedRecordsWithTimestampImpl ↔
    WantsPageAlignment st.Traits = true) ∧
  (FinalWorker st = Routine.TraceStoreAllocateRecordsWithTimestampImpl ↔
    WantsPageAlignment st.Traits = false) ∧
  (st.AllocateRecordsWithTimestampImpl1 =
      Routine.ConcurrentTraceStoreAllocateRecordsWithTimestamp ↔
    HasConcurrentAllocations st.Traits = true) ∧
  (HasConcurrentAllocations st.Traits = true →
    st.TryAllocateRecords = Routine.TraceStoreTryAllocateRecords ∧
    st.TryAllocateRecordsWithTimestamp = Routine.TraceStoreTryAllocateRecordsWithTimestamp)

/-- Every creation and registration step the environment is asked for
succeeds. -/
def Env.AllSucceed (e : Env) : Prop :=
  e.TimerFunction ≠ 0 ∧ (∀ k, e.Create k ≠ 0) ∧ e.InitializeTraceStoreTime = true ∧
  e.AtExitEx = true ∧ e.K32InitializeProcessForWsWatch = true

/-- The `Readonly` flag of the caller's flags, clear when no flags are given. -/
def Args.Readonly (a : Args) : Bool :=
  match a.TraceContextFlags with
  | some f => f.Readonly
  | none => false

/-- The `IgnorePreferredAddresses` flag of the caller's flags, clear when no
flags are given. -/
def Args.IgnorePreferredAddresses (a : Args) : Bool :=
  match a.TraceContextFlags with
  | some f => f.IgnorePreferredAddresses
  | none => false

/-- The caller's memory of a readonly call whose ignore bitmap has the
required size, no buffer and no bit set. -/
def emptyBitmapMemory : Memory :=
  { TraceContext := { TRACE_CONTEXT.zero with
      IgnorePreferredAddressesBitmap :=
        { SizeOfBitMap := MAX_TRACE_STORE_IDS, Buffer := BitmapBufferPointer.NULL } },
    SizeOfTraceContext := 512, TraceStores := sampleStores true }

/-- The context with the buffer of its ignore bitmap set to its own
`BitmapBuffer` (line 230). -/
def WithBitmapBuffer (c : TRACE_CONTEXT) : TRACE_CONTEXT :=
  { c with IgnorePreferredAddressesBitmap :=
      { c.IgnorePreferredAddressesBitmap with Buffer := BitmapBufferPointer.ContextBitmapBuffer } }

/-- The ignore-bitmap descriptor of the context is one the routine accepts: the
call is readonly with `IgnorePreferredAddresses` set, the descriptor has the
size `MAX_TRACE_STORE_IDS` and no buffer. -/
def DescriptorAccepted (a : Args) (c : TRACE_CONTEXT) : Prop :=
  a.Readonly = true ∧ a.IgnorePreferredAddresses = true ∧
  c.IgnorePreferredAddressesBitmap.SizeOfBitMap = MAX_TRACE_STORE_IDS ∧
  c.IgnorePreferredAddressesBitmap.Buffer = BitmapBufferPointer.NULL

/-- The work items the `Error` code closes: those of the four work records and
the cleanup work item. -/
def TRACE_CONTEXT.workItems (c : TRACE_CONTEXT) : List Nat :=
  [c.BindMetadataInfoStoreWork.ThreadpoolWork, c.BindRemainingMetadataStoresWork.ThreadpoolWork,
   c.BindTraceStoreWork.ThreadpoolWork, c.ReadonlyNonStreamingBindCompleteWork.ThreadpoolWork,
   c.CleanupThreadpoolMembersWork]

/-- The events the `Error` code closes: the completion events of the four work
records. -/
def TRACE_CONTEXT.completionEvents (c : TRACE_CONTEXT) : List Nat :=
  [c.BindMetadataInfoStoreWork.WorkCompleteEvent,
   c.BindRemainingMetadataStoresWork.WorkCompleteEvent,
   c.BindTraceStoreWork.WorkCompleteEvent,
   c.ReadonlyNonStreamingBindCompleteWork.WorkCompleteEvent]

/-- The handle a call created is one the `Error` code looks at: a thread pool
work item is in one of the four work records or is the cleanup work item, an
auto-reset event is the completion event of one of the four work records, and
a timer for the working set changes is `GetWorkingSetChangesTimer`.  Calls that
failed and calls of other kinds are not constrained. -/
def Op.heldBy (c : TRACE_CONTEXT) : Op → Bool
  | Op.CreateThreadpoolWork _ _ h => h == 0 || c.workItems.contains h
  | Op.CreateEvent false false h => h == 0 || c.completionEvents.contains h
  | Op.CreateThreadpoolTimer Routine.GetWorkingSetChangesTimerCallback _ h =>
    h == 0 || h == c.GetWorkingSetChangesTimer
  | _ => true

/-- The handles the context will hold from stage `k` of the setup on are still
`NULL`: the stages are the four work records, the cleanup work item and the
working set timer. -/
def Unset (k : Nat) (c : TRACE_CONTEXT) : Prop :=
  (k ≤ 0 → c.BindMetadataInfoStoreWork.ThreadpoolWork = 0 ∧
    c.BindMetadataInfoStoreWork.WorkCompleteEvent = 0) ∧
  (k ≤ 1 → c.BindRemainingMetadataStoresWork.ThreadpoolWork = 0 ∧
    c.BindRemainingMetadataStoresWork.WorkCompleteEvent = 0) ∧
  (k ≤ 2 → c.BindTraceStoreWork.ThreadpoolWork = 0 ∧
    c.BindTraceStoreWork.WorkCompleteEvent = 0) ∧
  (k ≤ 3 → c.ReadonlyNonStreamingBindCompleteWork.ThreadpoolWork = 0 ∧
    c.ReadonlyNonStreamingBindCompleteWork.WorkCompleteEvent = 0) ∧
  (k ≤ 4 → c.CleanupThreadpoolMembersWork = 0) ∧
  (k ≤ 5 → c.GetWorkingSetChangesTimer = 0)

/-- Every handle of those kinds created so far is held by the context. -/
def Tracked (s : State) : Prop := ∀ op ∈ s.Trace, op.heldBy s.TraceContext = true

/-- The calls made before the stores are prepared: the early calls and the
creation of the work items and of their completion events. -/
def Op.isWorkSetup : Op → Bool
  | Op.CreateThreadpoolWork _ _ _ => true
  | Op.CreateEvent false false _ => true
  | op => op.isEarly

/-- The sample environment in which the third creation call, the completion
event of the first work record, fails. -/
def thirdCreationFailsEnv : Env :=
  { sampleEnv with Create := fun k => if k < 2 then 100 + k else 0 }

/-- The sample environment in which the fifth creation call, the completion
event of the second work record, fails. -/
def fifthCreationFailsEnv : Env :=
  { sampleEnv with Create := fun k => if k < 4 then 100 + k else 0 }

end Tracer
namespace Tracer

/-! ## Properties of the arguments used in the statements -/

/-- The mode inputs contradict each other: a read-write call (the `Readonly`
flag of the caller's flags clear) with stores marked readonly, without a trace
session, or with `IgnorePreferredAddresses` set; or a readonly call with stores
not marked readonly. -/
def ContradictoryMode (a : Args) (m : Memory) : Prop :=
  (a.Readonly = false ∧
    (m.TraceStores.Flags.Readonly = true ∨ a.TraceSession = 0 ∨
      a.IgnorePreferredAddresses = true)) ∨
  (a.Readonly = true ∧ m.TraceStores.Flags.Readonly = false)

/-- One of the pointer arguments checked by lines 130-152 is `NULL`. -/
def MissingArgument (a : Args) : Prop :=
  a.Rtl = 0 ∨ a.Allocator = 0 ∨ a.TracerConfig = 0 ∨ a.TraceStores = 0 ∨
  a.ThreadpoolCallbackEnvironment = 0 ∨ a.CancellationThreadpoolCallbackEnvironment = 0

/-- The caller passed a context buffer and its size, and the size is at least
that of the structure. -/
def BufferSuffices (e : Env) (a : Args) (m : Memory) : Prop :=
  a.TraceContext ≠ 0 ∧ a.SizeOfTraceContext ≠ 0 ∧
  e.SizeOfTraceContextStruct ≤ m.SizeOfTraceContext

instance (a : Args) (m : Memory) : Decidable (ContradictoryMode a m) := by
  unfold ContradictoryMode
  infer_instance

instance (a : Args) : Decidable (MissingArgument a) := by
  unfold MissingArgument
  infer_instance

instance (e : Env) (a : Args) (m : Memory) : Decidable (BufferSuffices e a m) := by
  unfold BufferSuffices
  infer_instance

/-- The ignore-bitmap fields of the context of `s'` are those of `s`. -/
def SameBitmap (s s' : State) : Prop :=
  s'.TraceContext.BitmapBufferSizeInQuadwords = s.TraceContext.BitmapBufferSizeInQuadwords ∧
  s'.TraceContext.IgnorePreferredAddressesBitmap =
    s.TraceContext.IgnorePreferredAddressesBitmap ∧
  s'.TraceContext.BitmapBuffer = s.TraceContext.BitmapBuffer

/-- The caller's memory of a readonly call whose ignore-bitmap descriptor
already has a buffer. -/
def suppliedBufferMemory : Memory :=
  { TraceContext := { TRACE_CONTEXT.zero with
      IgnorePreferredAddressesBitmap :=
        { SizeOfBitMap := MAX_TRACE_STORE_IDS, Buffer := BitmapBufferPointer.External 4096 } },
    SizeOfTraceContext := 512, TraceStores := sampleStores true }

/-- The caller's memory of a readonly call whose ignore bitmap has the
required size, no buffer, and the bits `Bits` in the quadword of bits. -/
def bitmapMemory (Bits : Nat) : Memory :=
  { TraceContext := { TRACE_CONTEXT.zero with
      IgnorePreferredAddressesBitmap :=
        { SizeOfBitMap := MAX_TRACE_STORE_IDS, Buffer := BitmapBufferPointer.NULL }
      BitmapBuffer := Bits },
    SizeOfTraceContext := 512, TraceStores := sampleStores true }

/-! ## The walk over the ignore bitmap -/

/-- Lines 280-283: what the walk does for a bit it has found: the trace store
whose id is the index of the bit gets its `IgnorePreferredAddresses` flag
set. -/
def SetIgnorePreferredAddresses (TraceStores : TRACE_STORES) (BitmapIndex : Nat) :
    TRACE_STORES :=
  { TraceStores with
    Stores := modifyStore (fun st => { st with IgnorePreferredAddresses := true })
      (TraceStoreIdToTraceStore TraceStores (BitmapIndex : Int)) TraceStores.Stores }

/-- The bits the loop of lines 248-289 visits, in the order of the visits: the
values of `BitmapIndex` for which the body of the loop runs to its end. -/
def VisitedBits (e : Env) (SizeOfBitMap Buffer : Nat) :
    (fuel HintIndex PreviousIndex : Nat) → List Nat
  | 0, _, _ => []
  | fuel + 1, HintIndex, PreviousIndex =>
    let BitmapIndex := e.RtlFindSetBits SizeOfBitMap Buffer 1 HintIndex
    if BitmapIndex = BITS_NOT_FOUND ∨ BitmapIndex ≥ TraceStoreInvalidId then []
    else if BitmapIndex ≤ PreviousIndex then []
    else BitmapIndex :: VisitedBits e SizeOfBitMap Buffer fuel (BitmapIndex + 1) BitmapIndex

/-- The indices of the set bits of a bitmap at or after `HintIndex`, in
increasing order. -/
def SetBitsFrom (SizeOfBitMap Buffer HintIndex : Nat) : List Nat :=
  (List.range SizeOfBitMap).filter fun i => decide (HintIndex ≤ i) && Buffer.testBit i

/-- The indices of the set bits of a bitmap, in increasing order. -/
def SetBits (SizeOfBitMap Buffer : Nat) : List Nat :=
  (List.range SizeOfBitMap).filter fun i => Buffer.testBit i

/-- The indices of the set bits of the caller's ignore bitmap: those of the
`MAX_TRACE_STORE_IDS` bits of `BitmapBuffer`, in increasing order. -/
def IgnoreBits (m : Memory) : List Nat :=
  SetBits MAX_TRACE_STORE_IDS m.TraceContext.BitmapBuffer


/-! ## Timers and `BindComplete` handlers -/

/-- A creation of the timer for the working set changes. -/
def Op.isWsTimer : Op → Bool
  | Op.CreateThreadpoolTimer Routine.GetWorkingSetChangesTimerCallback _ _ => true
  | _ => false

/-- A creation of the timer for the performance metrics. -/
def Op.isPerfTimer : Op → Bool
  | Op.CreateThreadpoolTimer Routine.CapturePerformanceMetricsTimerCallback _ _ => true
  | _ => false

/-- A call of the timer setup: the creation of a timer, or the
initialisation of the process for the working set watch. -/
def Op.isTimerSetup : Op → Bool
  | Op.CreateThreadpoolTimer _ _ _ => true
  | Op.K32InitializeProcessForWsWatch _ => true
  | _ => false

/-- The timer for the working set changes has been created. -/
def wsCreated (Trace : List Op) : Bool :=
  Trace.any fun op => op.isWsTimer && !op.failed

/-- The process has been initialised for the working set watch. -/
def wsWatched (Trace : List Op) : Bool :=
  Trace.any fun op => op == Op.K32InitializeProcessForWsWatch true

/-- The timer for the performance metrics has been created. -/
def perfCreated (Trace : List Op) : Bool :=
  Trace.any fun op => op.isPerfTimer && !op.failed

/-- The `BindComplete` handlers of the slots of a collection, in order. -/
def BindCompleteHandlers (TraceStores : TRACE_STORES) : List Routine :=
  TraceStores.Stores.map fun st => st.BindComplete

/-- The slot of the trace store of the working set watch information. -/
def WsWatchInfoExSlot (TraceStores : TRACE_STORES) : Nat :=
  TraceStoreIdToTraceStore TraceStores (TraceStoreWsWatchInfoExId : Int)

/-- The slot of the trace store of the performance metrics. -/
def PerformanceSlot (TraceStores : TRACE_STORES) : Nat :=
  TraceStoreIdToTraceStore TraceStores (TraceStorePerformanceId : Int)

/-- The handlers the caller passed, with that of the store of the working set
watch information replaced if the process has been initialised for the working
set watch, and then that of the store of the performance metrics replaced if
the timer for the performance metrics has been created. -/
def ExpectedHandlers (m : Memory) (Trace : List Op) : List Routine :=
  let Handlers := BindCompleteHandlers m.TraceStores
  let Handlers :=
    if wsWatched Trace then
      Handlers.set (WsWatchInfoExSlot m.TraceStores) Routine.WsWatchInfoExStoreBindComplete
    else Handlers
  if perfCreated Trace then
    Handlers.set (PerformanceSlot m.TraceStores) Routine.PerformanceStoreBindComplete
  else Handlers

/-- The block from `s` to `s'` made no call of the timer setup and left the
`BindComplete` handlers alone. -/
def Quiet (s s' : State) : Prop :=
  BindCompleteHandlers s'.TraceStores = BindCompleteHandlers s.TraceStores ∧
  Extends (fun op => !op.isTimerSetup) s s'

/-- Timers have been created only as the flags of the caller's stores ask for,
the process has been initialised for the working set watch only after the
timer for the working set changes was created, and the `BindComplete` handlers
are the expected ones. -/
def TimersBound (m : Memory) (s : State) : Prop :=
  SameShape (State.enter m) s ∧
  (∀ op ∈ s.Trace, op.isWsTimer = true →
    m.TraceStores.Flags.EnableWorkingSetTracing = true) ∧
  (∀ op ∈ s.Trace, op.isPerfTimer = true →
    m.TraceStores.Flags.EnablePerformanceTracing = true) ∧
  (wsWatched s.Trace = true → wsCreated s.Trace = true) ∧
  BindCompleteHandlers s.TraceStores = ExpectedHandlers m s.Trace

/-- The trace stores of the run-time layout with both kinds of tracing
enabled. -/
def tracingStores : TRACE_STORES :=
  { layoutStores with
    Flags := { Readonly := false, EnableWorkingSetTracing := true,
               EnablePerformanceTracing := true } }

/-- The caller's memory with the stores of the run-time layout and both kinds
of tracing enabled. -/
def tracingMemory : Memory :=
  { TraceContext := TRACE_CONTEXT.zero, SizeOfTraceContext := 512, TraceStores := tracingStores }

/-- The sample environment in which `K32InitializeProcessForWsWatch` fails. -/
def wsWatchFailsEnv : Env :=
  { sampleEnv with K32InitializeProcessForWsWatch := false, LastError := 5 }


/-! ## `InitializeReadonlyTraceContext` (lines 788-881) -/

/-- What `InitializeReadonlyTraceContext` leaves: the returned value, the
final state, and the structure `TraceContextFlags` points to (`none` for a
`NULL` pointer). -/
structure ReadonlyResult where
  Value : Bool
  State : State
  TraceContextFlags : Option TRACE_CONTEXT_FLAGS

/-- `InitializeReadonlyTraceContext`: the local `Flags` starts zeroed, is
loaded from the caller's flags when the pointer is not `NULL`, gets `Readonly`
set, and is passed on, by address, with a `NULL` trace session.  The routine
reads the caller's structure and stores nothing through `TraceContextFlags`. -/
def InitializeReadonlyTraceContext (e : Env) (a : Args) (m : Memory) : ReadonlyResult :=
  let Flags : TRACE_CONTEXT_FLAGS := TRACE_CONTEXT_FLAGS.zero
  let Flags : TRACE_CONTEXT_FLAGS :=
    match a.TraceContextFlags with
    | some f => f
    | none => Flags
  let Flags : TRACE_CONTEXT_FLAGS := { Flags with Readonly := true }
  let r := InitializeTraceContext e
    { a with TraceSession := 0, TraceContextFlags := some Flags } m
  { Value := r.1, State := r.2, TraceContextFlags := a.TraceContextFlags }

/-- The arguments the documentation of `InitializeReadonlyTraceContext`
describes (lines 807-809, 823-824 and 838-840): the caller's, with the trace
session replaced by `NULL` and the flags by a copy of the caller's flags, all
zero when there are none, with `Readonly` set. -/
def ReadonlyArguments (a : Args) : Args :=
  { a with
    TraceSession := 0
    TraceContextFlags :=
      some { (a.TraceContextFlags.getD TRACE_CONTEXT_FLAGS.zero) with Readonly := true } }

/-- The caller's memory with a context buffer larger than the structure. -/
def largeBufferMemory : Memory :=
  { sampleMemory false with SizeOfTraceContext := 1024 }

end Tracer
namespace Tracer

/-! ## The tracing callback `PyTraceEvent2` (PythonTracer/PyTraceEvent2.c) -/

/-- Truncation to `ULONG`. -/
def toULONG (n : Int) : Nat := (n % 4294967296).toNat

/-- The field of `PYTHON_TRACE_EVENT2` that `PyTraceEvent2` writes. -/
structure PYTHON_TRACE_EVENT2 where
  Function : Nat
  deriving DecidableEq, Repr

/-- The word of `PYTHON_EVENT_TRAITS_EX` that `PyTraceEvent2` writes. -/
structure PYTHON_EVENT_TRAITS_EX where
  AsLong : Nat
  deriving DecidableEq, Repr

/-- What `PyTraceEvent2` reads of `PYTHON_EVENT_TRAITS`: the byte, and the
`IsLine` bit. -/
structure PYTHON_EVENT_TRAITS where
  AsByte : Nat
  IsLine : Bool
  deriving DecidableEq, Repr

/-- The two trace stores `PyTraceEvent2` allocates from. -/
inductive PythonTraceStore where
  | Event
  | EventTraitsEx
  deriving DecidableEq, Repr

/-- The calls `PyTraceEvent2` makes; an allocation is recorded with the
timestamp it was given (`none` for `NULL`) and with whether it returned a
record. -/
inductive PyTraceCall where
  | TraceContextQueryPerformanceCounter
  | AllocateRecordsWithTimestamp (Store : PythonTraceStore) (Timestamp : Option Nat)
      (Succeeded : Bool)
  | PyFrame_GetLineNumber (FrameObject : Nat)
  deriving DecidableEq, Repr

/-- What `PyTraceEvent2` gets from outside: the timestamp, what each of the
two allocations returns (`none` for `NULL`, otherwise the contents of the new
record as the allocator leaves them), the line number of a frame, and what
the store to the bit field `LineNumberOrCallStackDepth` of the local
`EventTraitsEx` makes of its word `AsLong` (the type is declared outside the
given sources). -/
structure PyTraceEnv where
  Timestamp : Nat
  EventAllocation : Option PYTHON_TRACE_EVENT2
  TraitsAllocation : Option PYTHON_EVENT_TRAITS_EX
  PyFrame_GetLineNumber : Nat → Int
  SetLineNumberOrCallStackDepth : (AsLong LineNumberOrCallStackDepth : Nat) → Nat

/-- The arguments of `PyTraceEvent2`, with `Depth` for `Context->Depth` and
`EventTraits` for the structure the pointer refers to. -/
structure PyTraceArgs where
  Depth : Int
  Function : Nat
  EventTraits : PYTHON_EVENT_TRAITS
  FrameObject : Nat
  ArgObject : Nat
  deriving DecidableEq, Repr

/-- The records of the two trace stores, in the order of their allocation, and
the calls made so far.  A pointer to a record is its position in its store. -/
structure PyTraceState where
  Events : List PYTHON_TRACE_EVENT2
  EventTraitsEx : List PYTHON_EVENT_TRAITS_EX
  Calls : List PyTraceCall
  deriving DecidableEq, Repr

/-- Lines 22-41, `AllocatePythonTraceEvent2`: one record from the event store,
with the timestamp. -/
def AllocatePythonTraceEvent2 (e : PyTraceEnv) (Timestamp : Nat) (s : PyTraceState) :
    Option Nat × PyTraceState :=
  match e.EventAllocation with
  | none =>
    (none, { s with Calls := s.Calls ++
      [PyTraceCall.AllocateRecordsWithTimestamp PythonTraceStore.Event (some Timestamp) false] })
  | some r =>
    (some s.Events.length, { s with
      Events := s.Events ++ [r]
      Calls := s.Calls ++
        [PyTraceCall.AllocateRecordsWithTimestamp PythonTraceStore.Event (some Timestamp) true] })

/-- Lines 43-62, `AllocatePythonEventTraitsEx`: one record from the store of
the extended traits, without a timestamp. -/
def AllocatePythonEventTraitsEx (e : PyTraceEnv) (s : PyTraceState) :
    Option Nat × PyTraceState :=
  match e.TraitsAllocation with
  | none =>
    (none, { s with Calls := s.Calls ++
      [PyTraceCall.AllocateRecordsWithTimestamp PythonTraceStore.EventTraitsEx none false] })
  | some r =>
    (some s.EventTraitsEx.length, { s with
      EventTraitsEx := s.EventTraitsEx ++ [r]
      Calls := s.Calls ++
        [PyTraceCall.AllocateRecordsWithTimestamp PythonTraceStore.EventTraitsEx none true] })

/-- Store through a pointer to the `i`-th record of a store. -/
def modifyRecord {α : Type} (f : α → α) (i : Nat) (l : List α) : List α :=
  match l[i]? with
  | some r => l.set i (f r)
  | none => l

/-- Lines 64-140, `PyTraceEvent2`: the returned value and the final state. -/
def PyTraceEvent2 (e : PyTraceEnv) (a : PyTraceArgs) (s : PyTraceState) :
    Bool × PyTraceState :=
  let s := { s with Calls := s.Calls ++ [PyTraceCall.TraceContextQueryPerformanceCounter] }
  let Timestamp := e.Timestamp
  let r := AllocatePythonTraceEvent2 e Timestamp s
  match r.1 with
  | none => (false, r.2)
  | some Event =>
    let r2 := AllocatePythonEventTraitsEx e r.2
    match r2.1 with
    | none => (false, r2.2)
    | some EventTraitsExPointer =>
      let AsLong := toULONG (a.EventTraits.AsByte : Int)
      let AsLong := e.SetLineNumberOrCallStackDepth AsLong
        (toULONG (if a.EventTraits.IsLine then e.PyFrame_GetLineNumber a.FrameObject
          else a.Depth))
      (true,
        { Events :=
            modifyRecord (fun ev => { ev with Function := a.Function }) Event r2.2.Events
          EventTraitsEx :=
            modifyRecord (fun _ => { AsLong := AsLong }) EventTraitsExPointer r2.2.EventTraitsEx
          Calls :=
            if a.EventTraits.IsLine then
              r2.2.Calls ++ [PyTraceCall.PyFrame_GetLineNumber a.FrameObject]
            else r2.2.Calls })

/-- The number of records `PyTraceEvent2` has allocated from a store. -/
def AllocatedFrom (Store : PythonTraceStore) (e : PyTraceEnv) (a : PyTraceArgs)
    (s : PyTraceState) : Nat :=
  match Store with
  | PythonTraceStore.Event => (PyTraceEvent2 e a s).2.Events.length - s.Events.length
  | PythonTraceStore.EventTraitsEx =>
    (PyTraceEvent2 e a s).2.EventTraitsEx.length - s.EventTraitsEx.length

/-- The word the callback stores in the record of the extended traits. -/
def ExtendedTraitsWord (e : PyTraceEnv) (a : PyTraceArgs) : Nat :=
  e.SetLineNumberOrCallStackDepth (toULONG (a.EventTraits.AsByte : Int))
    (toULONG (if a.EventTraits.IsLine then e.PyFrame_GetLineNumber a.FrameObject else a.Depth))

/-- An environment in which the event store has room and the store of the
extended traits has none; the bit field takes the bits from bit 9 on. -/
def traitsFullEnv : PyTraceEnv :=
  { Timestamp := 1000, EventAllocation := some { Function := 0 }, TraitsAllocation := none,
    PyFrame_GetLineNumber := fun _ => 42,
    SetLineNumberOrCallStackDepth := fun w v => w % 512 + 512 * (v % 8388608) }

/-- An environment in which both stores have room. -/
def roomEnv : PyTraceEnv :=
  { traitsFullEnv with TraitsAllocation := some { AsLong := 0 } }

/-- A line event of the function at `4096`. -/
def sampleTraceArgs : PyTraceArgs :=
  { Depth := 3, Function := 4096, EventTraits := { AsByte := 4, IsLine := true },
    FrameObject := 8192, ArgObject := 0 }

/-- Two stores in lockstep, with two records each. -/
def sampleTraceState : PyTraceState :=
  { Events := [{ Function := 16 }, { Function := 32 }],
    EventTraitsEx := [{ AsLong := 1 }, { AsLong := 2 }], Calls := [] }

/-! ## The control driver (TracerControlDriver/TracerControlDriver.c) -/

/-- The test `NT_SUCCESS` of an `NTSTATUS`, a signed 32-bit integer. -/
def NT_SUCCESS (Status : Int) : Bool := decide (0 ≤ Status)

/-- The status `STATUS_SUCCESS`. -/
def STATUS_SUCCESS : Int := 0

/-- The status `STATUS_INVALID_PARAMETER`, `0xC000000D` as a signed 32-bit
integer. -/
def STATUS_INVALID_PARAMETER : Int := 0xC000000D - 4294967296

/-- The status `STATUS_INVALID_DEVICE_REQUEST`, `0xC0000010` as a signed
32-bit integer. -/
def STATUS_INVALID_DEVICE_REQUEST : Int := 0xC0000010 - 4294967296

/-- The flag `DO_BUFFERED_IO` of a device object. -/
def DO_BUFFERED_IO : Nat := 4

/-- The device extension of the control device. -/
structure TRACER_CONTROL_DEV_EXT where
  Size : Nat
  RegistryHandle : Nat
  deriving DecidableEq, Repr

/-- What the driver reads and writes of a device object. -/
structure DEVICE_OBJECT where
  Flags : Nat
  DeviceExtension : TRACER_CONTROL_DEV_EXT
  deriving DecidableEq, Repr

/-- The routines the driver registers. -/
inductive DriverRoutine where
  | TracerControlCreate
  | TracerControlClose
  | TracerControlDeviceControl
  | TracerControlUnload
  deriving DecidableEq, Repr

/-- What `DriverEntry` writes of the driver object; `none` is a slot not
written. -/
structure DRIVER_OBJECT where
  MajorFunctionCreate : Option DriverRoutine
  MajorFunctionClose : Option DriverRoutine
  MajorFunctionDeviceControl : Option DriverRoutine
  DriverUnload : Option DriverRoutine
  deriving DecidableEq, Repr

/-- The calls `DriverEntry` makes, with the status returned where there is
one. -/
inductive DriverCall where
  | IoCreateDevice (DeviceExtensionSize : Nat) (Status : Int)
  | ZwOpenKey (Status : Int)
  | IoCreateSymbolicLink (Status : Int)
  | ZwClose (Handle : Nat)
  | IoDeleteDevice
  deriving DecidableEq, Repr

/-- What `DriverEntry` gets from outside: the size of the device extension
(the structure is declared outside the given sources), the status of each of
the three calls, the flags of the device object as `IoCreateDevice` hands it
over, and what `ZwOpenKey` leaves in the `RegistryHandle` of the device
extension. -/
structure DriverEnv where
  SizeOfDevExt : Nat
  IoCreateDevice : Int
  DeviceFlags : Nat
  ZwOpenKey : Int
  OpenedHandle : Nat
  IoCreateSymbolicLink : Int
  deriving DecidableEq, Repr

/-- The driver object, the device object of the call with whether it exists
(it does from its creation to its deletion; `Device` keeps what was last
written to it), whether the symbolic link exists, and the calls made. -/
structure DriverState where
  Driver : DRIVER_OBJECT
  Device : Option DEVICE_OBJECT
  DeviceExists : Bool
  SymbolicLinkExists : Bool
  Calls : List DriverCall
  deriving DecidableEq, Repr

/-- The driver object with the four routines registered (lines 60-65). -/
def RegisteredDriver : DRIVER_OBJECT :=
  { MajorFunctionCreate := some DriverRoutine.TracerControlCreate
    MajorFunctionClose := some DriverRoutine.TracerControlClose
    MajorFunctionDeviceControl := some DriverRoutine.TracerControlDeviceControl
    DriverUnload := some DriverRoutine.TracerControlUnload }

/-- The label `Error` of `DriverEntry` (lines 151-167): the handle in the
device extension is closed and cleared if it is not `NULL`, and the device is
deleted. -/
def DriverEntryError (Status : Int) (Device : DEVICE_OBJECT) (Calls : List DriverCall) :
    Int × DriverState :=
  (Status,
    { Driver := RegisteredDriver
      Device := some { Device with
        DeviceExtension := { Device.DeviceExtension with
          RegistryHandle := if Device.DeviceExtension.RegistryHandle ≠ 0 then 0
            else Device.DeviceExtension.RegistryHandle } }
      DeviceExists := false
      SymbolicLinkExists := false
      Calls := Calls ++
        (if Device.DeviceExtension.RegistryHandle ≠ 0 then
          [DriverCall.ZwClose Device.DeviceExtension.RegistryHandle] else []) ++
        [DriverCall.IoDeleteDevice] })

/-- Lines 36-175, `DriverEntry`: the returned status and the final state. -/
def DriverEntry (e : DriverEnv) : Int × DriverState :=
  let Calls := [DriverCall.IoCreateDevice e.SizeOfDevExt e.IoCreateDevice]
  if !NT_SUCCESS e.IoCreateDevice then
    (e.IoCreateDevice,
      { Driver := RegisteredDriver, Device := none, DeviceExists := false,
        SymbolicLinkExists := false, Calls := Calls })
  else
    let Device : DEVICE_OBJECT :=
      { Flags := e.DeviceFlags
        DeviceExtension := { Size := e.SizeOfDevExt, RegistryHandle := e.OpenedHandle } }
    let Calls := Calls ++ [DriverCall.ZwOpenKey e.ZwOpenKey]
    if !NT_SUCCESS e.ZwOpenKey then
      DriverEntryError e.ZwOpenKey Device Calls
    else
      let Calls := Calls ++ [DriverCall.IoCreateSymbolicLink e.IoCreateSymbolicLink]
      if !NT_SUCCESS e.IoCreateSymbolicLink then
        DriverEntryError e.IoCreateSymbolicLink Device Calls
      else
        (STATUS_SUCCESS,
          { Driver := RegisteredDriver
            Device := some { Device with Flags := Device.Flags ||| DO_BUFFERED_IO }
            DeviceExists := true
            SymbolicLinkExists := true
            Calls := Calls })

/-- An environment in which the device is created and the key opened, with
the handle `68`, and the symbolic link is refused with the status
`STATUS_OBJECT_NAME_COLLISION`. -/
def linkRefusedEnv : DriverEnv :=
  { SizeOfDevExt := 16, IoCreateDevice := 0,
    DeviceFlags := 128,
    ZwOpenKey := 0, OpenedHandle := 68, IoCreateSymbolicLink := 0xC0000035 - 4294967296 }

/-- An environment in which the three calls succeed. -/
def driverLoadsEnv : DriverEnv :=
  { linkRefusedEnv with IoCreateSymbolicLink := 0 }

/-- The two control codes of the driver; the header that defines them is
outside the given sources. -/
structure TracerControlIoctls where
  IOCTL_TRACER_CONTROL_DEVEXT_SIZE : Nat
  IOCTL_TRACER_CONTROL_READ_CR3 : Nat
  deriving DecidableEq, Repr

/-- The status block of a request. -/
structure IO_STATUS_BLOCK where
  Status : Int
  Information : Nat
  deriving DecidableEq, Repr

/-- What `TracerControlDeviceControl` reads and writes of a request: the
control code and the length of the output buffer from the stack location, the
bytes of the system buffer, the status block, and whether the request has been
completed. -/
structure IRP where
  IoControlCode : Nat
  OutputBufferLength : Nat
  SystemBuffer : List Nat
  IoStatus : IO_STATUS_BLOCK
  Completed : Bool
  deriving DecidableEq, Repr

/-- The `n` bytes of a value, the least significant first. -/
def littleEndian (n v : Nat) : List Nat :=
  (List.range n).map fun i => v / 256 ^ i % 256

/-- A store of bytes at the start of a buffer. -/
def storeBytes (bytes buffer : List Nat) : List Nat :=
  bytes ++ buffer.drop bytes.length

/-- The `ULONG` at the start of a buffer. -/
def loadULONG (buffer : List Nat) : Nat :=
  buffer.getD 0 0 + 256 * buffer.getD 1 0 + 65536 * buffer.getD 2 0 + 16777216 * buffer.getD 3 0

/-- Lines 292-426, `TracerControlDeviceControl`, with the codes of the two
requests and the value `ReadCr3` stores as parameters: the returned status
and the request as the routine leaves it. -/
def TracerControlDeviceControl (k : TracerControlIoctls) (Cr3 : Nat)
    (DevExt : TRACER_CONTROL_DEV_EXT) (Irp : IRP) : Int × IRP :=
  let Code := Irp.IoControlCode
  let OutputBufferLength := Irp.OutputBufferLength
  if Code = k.IOCTL_TRACER_CONTROL_DEVEXT_SIZE then
    if OutputBufferLength < 4 then
      (STATUS_INVALID_PARAMETER,
        { Irp with IoStatus := { Status := STATUS_INVALID_PARAMETER, Information := 0 }
                   Completed := true })
    else
      (STATUS_SUCCESS,
        { Irp with SystemBuffer := storeBytes (littleEndian 4 DevExt.Size) Irp.SystemBuffer
                   IoStatus := { Status := STATUS_SUCCESS, Information := 4 }
                   Completed := true })
  else if Code = k.IOCTL_TRACER_CONTROL_READ_CR3 then
    if OutputBufferLength < 8 then
      (STATUS_INVALID_PARAMETER,
        { Irp with IoStatus := { Status := STATUS_INVALID_PARAMETER, Information := 0 }
                   Completed := true })
    else
      (STATUS_SUCCESS,
        { Irp with SystemBuffer := storeBytes (littleEndian 8 Cr3) Irp.SystemBuffer
                   IoStatus := { Status := STATUS_SUCCESS, Information := 8 }
                   Completed := true })
  else
    (STATUS_INVALID_DEVICE_REQUEST,
      { Irp with IoStatus := { Status := STATUS_INVALID_DEVICE_REQUEST, Information := 0 }
                 Completed := true })

/-- Two control codes for the examples. -/
def sampleIoctls : TracerControlIoctls :=
  { IOCTL_TRACER_CONTROL_DEVEXT_SIZE := 2236416, IOCTL_TRACER_CONTROL_READ_CR3 := 2236420 }

/-- A request with an output buffer of `Length` bytes, each `170`. -/
def sampleIrp (Code Length : Nat) : IRP :=
  { IoControlCode := Code, OutputBufferLength := Length,
    SystemBuffer := List.replicate Length 170,
    IoStatus := { Status := 259, Information := 0 }, Completed := false }

/-! ## `CloseTraceContext` (TraceStore/TraceStoreContext.c, lines 883-932) -/

/-- The calls `CloseTraceContext` makes. -/
inductive TimerCall where
  | SetThreadpoolTimer (Timer : Nat)
  | WaitForThreadpoolTimerCallbacks (Timer : Nat) (CancelPendingCallbacks : Bool)
  | CloseThreadpoolTimer (Timer : Nat)
  deriving DecidableEq, Repr

/-- Lines 917-925, the helper `CLOSE_THREADPOOL_TIMER` on the value of a timer
field: the calls made and the value the field is left with. -/
def CLOSE_THREADPOOL_TIMER (Timer : Nat) : List TimerCall × Nat :=
  if Timer ≠ 0 then
    ([TimerCall.SetThreadpoolTimer Timer, TimerCall.WaitForThreadpoolTimerCallbacks Timer true,
      TimerCall.CloseThreadpoolTimer Timer], 0)
  else
    ([], Timer)

/-- Lines 883-932, `CloseTraceContext`; `none` is the `NULL` pointer.  The
context as the routine leaves it, and the calls made. -/
def CloseTraceContext (TraceContext : Option TRACE_CONTEXT) :
    Option TRACE_CONTEXT × List TimerCall :=
  match TraceContext with
  | none => (none, [])
  | some c =>
    (some { c with
        GetWorkingSetChangesTimer := (CLOSE_THREADPOOL_TIMER c.GetWorkingSetChangesTimer).2
        CapturePerformanceMetricsTimer :=
          (CLOSE_THREADPOOL_TIMER c.CapturePerformanceMetricsTimer).2 },
      (CLOSE_THREADPOOL_TIMER c.GetWorkingSetChangesTimer).1 ++
        (CLOSE_THREADPOOL_TIMER c.CapturePerformanceMetricsTimer).1)

/-- A context with both timers set. -/
def timersContext : TRACE_CONTEXT :=
  { TRACE_CONTEXT.zero with GetWorkingSetChangesTimer := 24, CapturePerformanceMetricsTimer := 40 }

/-! ## The filter and the comparators of PythonTracer/PythonTracer.c -/

/-- The flags of the Python trace context that the filter reads. -/
structure PYTHON_TRACE_CONTEXT_FLAGS where
  TraceEverything : Bool
  TraceNothing : Bool
  TraceEverythingWhenNoModuleFilterSet : Bool
  deriving DecidableEq, Repr

/-- What the filter reads of the Python trace context: the flags,
`RuntimeState.HasModuleFilter`, and the prefix table of the module filter, as
the list of the prefixes entered. -/
structure PYTHON_TRACE_CONTEXT where
  Flags : PYTHON_TRACE_CONTEXT_FLAGS
  HasModuleFilter : Bool
  ModuleFilterPrefixTree : List String
  deriving DecidableEq, Repr

/-- What the filter and the comparators read of a function: the module name
of its path entry and the pointer to its code object. -/
structure PYTHON_FUNCTION where
  ModuleName : String
  CodeObject : Nat
  deriving DecidableEq, Repr

/-- Lines 109-139, `IsFunctionOfInterestPrefixTree`, with the routine
`Rtl->PfxFindPrefix` as a parameter; it returns the entry found, `none` being
`NULL`. -/
def IsFunctionOfInterestPrefixTree (PfxFindPrefix : List String → String → Option String)
    (Context : PYTHON_TRACE_CONTEXT) (Function : PYTHON_FUNCTION) : Bool :=
  if Context.Flags.TraceEverything then true
  else if Context.Flags.TraceNothing then false
  else if !Context.HasModuleFilter then Context.Flags.TraceEverythingWhenNoModuleFilterSet
  else
    match PfxFindPrefix Context.ModuleFilterPrefixTree Function.ModuleName with
    | some _ => true
    | none => false

/-- A lookup for the examples: the first prefix entered that the name starts
with. -/
def firstPrefix (Table : List String) (Name : String) : Option String :=
  Table.find? fun p => p.data.isPrefixOf Name.data

/-- The results of a comparison routine of a generic table. -/
inductive RTL_GENERIC_COMPARE_RESULTS where
  | GenericLessThan
  | GenericGreaterThan
  | GenericEqual
  deriving DecidableEq, Repr

/-- Lines 316-336, `GenericComparePointer`; pointers are addresses, and the
table is not read. -/
def GenericComparePointer (FirstStruct SecondStruct : Nat) : RTL_GENERIC_COMPARE_RESULTS :=
  let First := FirstStruct
  let Second := SecondStruct
  if First < Second then RTL_GENERIC_COMPARE_RESULTS.GenericLessThan
  else if First > Second then RTL_GENERIC_COMPARE_RESULTS.GenericGreaterThan
  else RTL_GENERIC_COMPARE_RESULTS.GenericEqual

/-- Lines 338-361, `GenericComparePyObjectHash`, with `Python->PyObject_Hash`
as a parameter: the two hashes are computed and not used. -/
def GenericComparePyObjectHash (PyObject_Hash : Nat → Int) (FirstStruct SecondStruct : Nat) :
    RTL_GENERIC_COMPARE_RESULTS :=
  let First := FirstStruct
  let Second := SecondStruct
  let _FirstHash := PyObject_Hash First
  let _SecondHash := PyObject_Hash Second
  if First < Second then RTL_GENERIC_COMPARE_RESULTS.GenericLessThan
  else if First > Second then RTL_GENERIC_COMPARE_RESULTS.GenericGreaterThan
  else RTL_GENERIC_COMPARE_RESULTS.GenericEqual

/-- Lines 363-372, `CodeObjectCompare`. -/
def CodeObjectCompare (FirstStruct SecondStruct : Nat) : RTL_GENERIC_COMPARE_RESULTS :=
  GenericComparePointer FirstStruct SecondStruct

/-- Lines 374-388, `FunctionCompare`, with the memory that holds the
functions as a parameter. -/
def FunctionCompare (Functions : Nat → PYTHON_FUNCTION) (FirstStruct SecondStruct : Nat) :
    RTL_GENERIC_COMPARE_RESULTS :=
  let First := Functions FirstStruct
  let Second := Functions SecondStruct
  GenericComparePointer First.CodeObject Second.CodeObject

/-- A memory for the examples: the function at an address has its code object
`8` bytes before the address. -/
def sampleFunctions (p : Nat) : PYTHON_FUNCTION :=
  { ModuleName := "m", CodeObject := p - 8 }

/-! ## The enumerations of TraceStore/TraceStoreIndex.h -/

/-- The constant `TraceStoreMetadataInvalidId`. -/
def TraceStoreMetadataInvalidId : Nat := 10

/-- The constant `MAX_TRACE_STORE_METADATA_IDS`. -/
def MAX_TRACE_STORE_METADATA_IDS : Nat := TraceStoreMetadataInvalidId

/-- Lines 108-115, `ArrayIndexToTraceStoreMetadataId`. -/
def ArrayIndexToTraceStoreMetadataId (Index : Nat) : Int := (Index : Int) + 1

/-- Lines 117-124, `TraceStoreMetadataIdToArrayIndex`. -/
def TraceStoreMetadataIdToArrayIndex (TraceStoreMetadataId : Int) : Nat :=
  toUSHORT (TraceStoreMetadataId - 1)

end Tracer
namespace Tracer

/-- Lines 31-67, the enumerators of `TRACE_STORE_ID` in the order of the
enumeration; the value of each is its position, from `TraceStoreNullId = 0` to
`TraceStoreInvalidId = 34`. -/
def TRACE_STORE_ID : List String :=
  ["TraceStoreNullId", "TraceStoreEventId", "TraceStoreStringBufferId",
   "TraceStoreFunctionTableId", "TraceStoreFunctionTableEntryId", "TraceStorePathTableId",
   "TraceStorePathTableEntryId", "TraceStoreSessionId", "TraceStoreStringArrayId",
   "TraceStoreStringTableId", "TraceStoreEventTraitsExId", "TraceStoreWsWatchInfoExId",
   "TraceStoreWsWorkingSetExInfoId", "TraceStoreCCallStackTableId",
   "TraceStoreCCallStackTableEntryId", "TraceStoreModuleTableId", "TraceStoreModuleTableEntryId",
   "TraceStorePythonCallStackTableId", "TraceStorePythonCallStackTableEntryId",
   "TraceStorePythonModuleTableId", "TraceStorePythonModuleTableEntryId", "TraceStoreLineTableId",
   "TraceStoreLineTableEntryId", "TraceStoreLineStringBufferId", "TraceStoreCallStackId",
   "TraceStorePerformanceId", "TraceStorePerformanceDeltaId", "TraceStoreSourceCodeId",
   "TraceStoreBitmapId", "TraceStoreImageFileId", "TraceStoreUnicodeStringBufferId",
   "TraceStoreLineId", "TraceStoreObjectId", "TraceStoreModuleLoadEventId", "TraceStoreInvalidId"]

/-- Lines 92-104, the enumerators of `TRACE_STORE_METADATA_ID` in the order of
the enumeration; the value of each is its position, from
`TraceStoreMetadataNullId = 0`. -/
def TRACE_STORE_METADATA_ID : List String :=
  ["TraceStoreMetadataNullId", "TraceStoreMetadataMetadataInfoId",
   "TraceStoreMetadataAllocationId", "TraceStoreMetadataRelocationId",
   "TraceStoreMetadataAddressId", "TraceStoreMetadataAddressRangeId",
   "TraceStoreMetadataAllocationTimestampId", "TraceStoreMetadataAllocationTimestampDeltaId",
   "TraceStoreMetadataSynchronizationId", "TraceStoreMetadataInfoId",
   "TraceStoreMetadataInvalidId"]

/-- Lines 136-468, the enumerators of `TRACE_STORE_INDEX` in the order of the
enumeration; the value of each is its position, from
`TraceStoreEventIndex = 0`. -/
def TRACE_STORE_INDEX : List String :=
  ["TraceStoreEventIndex", "TraceStoreEventMetadataInfoIndex", "TraceStoreEventAllocationIndex",
   "TraceStoreEventRelocationIndex", "TraceStoreEventAddressIndex",
   "TraceStoreEventAddressRangeIndex", "TraceStoreEventAllocationTimestampIndex",
   "TraceStoreEventAllocationTimestampDeltaIndex", "TraceStoreEventSynchronizationIndex",
   "TraceStoreEventInfoIndex", "TraceStoreStringBufferIndex",
   "TraceStoreStringBufferMetadataInfoIndex", "TraceStoreStringBufferAllocationIndex",
   "TraceStoreStringBufferRelocationIndex", "TraceStoreStringBufferAddressIndex",
   "TraceStoreStringBufferAddressRangeIndex", "TraceStoreStringBufferAllocationTimestampIndex",
   "TraceStoreStringBufferAllocationTimestampDeltaIndex",
   "TraceStoreStringBufferSynchronizationIndex", "TraceStoreStringBufferInfoIndex",
   "TraceStoreFunctionTableIndex", "TraceStoreFunctionTableMetadataInfoIndex",
   "TraceStoreFunctionTableAllocationIndex", "TraceStoreFunctionTableRelocationIndex",
   "TraceStoreFunctionTableAddressIndex", "TraceStoreFunctionTableAddressRangeIndex",
   "TraceStoreFunctionTableAllocationTimestampIndex",
   "TraceStoreFunctionTableAllocationTimestampDeltaIndex",
   "TraceStoreFunctionTableSynchronizationIndex", "TraceStoreFunctionTableInfoIndex",
   "TraceStoreFunctionTableEntryIndex", "TraceStoreFunctionTableEntryMetadataInfoIndex",
   "TraceStoreFunctionTableEntryAllocationIndex", "TraceStoreFunctionTableEntryRelocationIndex",
   "TraceStoreFunctionTableEntryAddressIndex", "TraceStoreFunctionTableEntryAddressRangeIndex",
   "TraceStoreFunctionTableEntryAllocationTimestampIndex",
   "TraceStoreFunctionTableEntryAllocationTimestampDeltaIndex",
   "TraceStoreFunctionTableEntrySynchronizationIndex", "TraceStoreFunctionTableEntryInfoIndex",
   "TraceStorePathTableIndex", "TraceStorePathTableMetadataInfoIndex",
   "TraceStorePathTableAllocationIndex", "TraceStorePathTableRelocationIndex",
   "TraceStorePathTableAddressIndex", "TraceStorePathTableAddressRangeIndex",
   "TraceStorePathTableAllocationTimestampIndex",
   "TraceStorePathTableAllocationTimestampDeltaIndex", "TraceStorePathTableSynchronizationIndex",
   "TraceStorePathTableInfoIndex", "TraceStorePathTableEntryIndex",
   "TraceStorePathTableEntryMetadataInfoIndex", "TraceStorePathTableEntryAllocationIndex",
   "TraceStorePathTableEntryRelocationIndex", "TraceStorePathTableEntryAddressIndex",
   "TraceStorePathTableEntryAddressRangeIndex",
   "TraceStorePathTableEntryAllocationTimestampIndex",
   "TraceStorePathTableEntryAllocationTimestampDeltaIndex",
   "TraceStorePathTableEntrySynchronizationIndex", "TraceStorePathTableEntryInfoIndex",
   "TraceStoreSessionIndex", "TraceStoreSessionMetadataInfoIndex",
   "TraceStoreSessionAllocationIndex", "TraceStoreSessionRelocationIndex",
   "TraceStoreSessionAddressIndex", "TraceStoreSessionAddressRangeIndex",
   "TraceStoreSessionAllocationTimestampIndex", "TraceStoreSessionAllocationTimestampDeltaIndex",
   "TraceStoreSessionSynchronizationIndex", "TraceStoreSessionInfoIndex",
   "TraceStoreStringArrayIndex", "TraceStoreStringArrayMetadataInfoIndex",
   "TraceStoreStringArrayAllocationIndex", "TraceStoreStringArrayRelocationIndex",
   "TraceStoreStringArrayAddressIndex", "TraceStoreStringArrayAddressRangeIndex",
   "TraceStoreStringArrayAllocationTimestampIndex",
   "TraceStoreStringArrayAllocationTimestampDeltaIndex",
   "TraceStoreStringArraySynchronizationIndex", "TraceStoreStringArrayInfoIndex",
   "TraceStoreStringTableIndex", "TraceStoreStringTableMetadataInfoIndex",
   "TraceStoreStringTableAllocationIndex", "TraceStoreStringTableRelocationIndex",
   "TraceStoreStringTableAddressIndex", "TraceStoreStringTableAddressRangeIndex",
   "TraceStoreStringTableAllocationTimestampIndex",
   "TraceStoreStringTableAllocationTimestampDeltaIndex",
   "TraceStoreStringTableSynchronizationIndex", "TraceStoreStringTableInfoIndex",
   "TraceStoreEventTraitsExIndex", "TraceStoreEventTraitsExMetadataInfoIndex",
   "TraceStoreEventTraitsExAllocationIndex", "TraceStoreEventTraitsExRelocationIndex",
   "TraceStoreEventTraitsExAddressIndex", "TraceStoreEventTraitsExAddressRangeIndex",
   "TraceStoreEventTraitsExAllocationTimestampIndex",
   "TraceStoreEventTraitsExAllocationTimestampDeltaIndex",
   "TraceStoreEventTraitsExSynchronizationIndex", "TraceStoreEventTraitsExInfoIndex",
   "TraceStoreWsWatchInfoExIndex", "TraceStoreWsWatchInfoExMetadataInfoIndex",
   "TraceStoreWsWatchInfoExAllocationIndex", "TraceStoreWsWatchInfoExRelocationIndex",
   "TraceStoreWsWatchInfoExAddressIndex", "TraceStoreWsWatchInfoExAddressRangeIndex",
   "TraceStoreWsWatchInfoExAllocationTimestampIndex",
   "TraceStoreWsWatchInfoExAllocationTimestampDeltaIndex",
   "TraceStoreWsWatchInfoExSynchronizationIndex", "TraceStoreWsWatchInfoExInfoIndex",
   "TraceStoreWorkingSetExInfoIndex", "TraceStoreWorkingSetExInfoMetadataInfoIndex",
   "TraceStoreWorkingSetExInfoAllocationIndex", "TraceStoreWorkingSetExInfoRelocationIndex",
   "TraceStoreWorkingSetExInfoAddressIndex", "TraceStoreWorkingSetExInfoAddressRangeIndex",
   "TraceStoreWorkingSetExInfoAllocationTimestampIndex",
   "TraceStoreWorkingSetExInfoAllocationTimestampDeltaIndex",
   "TraceStoreWorkingSetExInfoSynchronizationIndex", "TraceStoreWorkingSetExInfoInfoIndex",
   "TraceStoreCCallStackTableIndex", "TraceStoreCCallStackTableMetadataInfoIndex",
   "TraceStoreCCallStackTableAllocationIndex", "TraceStoreCCallStackTableRelocationIndex",
   "TraceStoreCCallStackTableAddressIndex", "TraceStoreCCallStackTableAddressRangeIndex",
   "TraceStoreCCallStackTableAllocationTimestampIndex",
   "TraceStoreCCallStackTableAllocationTimestampDeltaIndex",
   "TraceStoreCCallStackTableSynchronizationIndex", "TraceStoreCCallStackTableInfoIndex",
   "TraceStoreCCallStackTableEntryIndex", "TraceStoreCCallStackTableEntryMetadataInfoIndex",
   "TraceStoreCCallStackTableEntryAllocationIndex",
   "TraceStoreCCallStackTableEntryRelocationIndex", "TraceStoreCCallStackTableEntryAddressIndex",
   "TraceStoreCCallStackTableEntryAddressRangeIndex",
   "TraceStoreCCallStackTableEntryAllocationTimestampIndex",
   "TraceStoreCCallStackTableEntryAllocationTimestampDeltaIndex",
   "TraceStoreCCallStackTableEntrySynchronizationIndex",
   "TraceStoreCCallStackTableEntryInfoIndex", "TraceStoreModuleTableIndex",
   "TraceStoreModuleTableMetadataInfoIndex", "TraceStoreModuleTableAllocationIndex",
   "TraceStoreModuleTableRelocationIndex", "TraceStoreModuleTableAddressIndex",
   "TraceStoreModuleTableAddressRangeIndex", "TraceStoreModuleTableAllocationTimestampIndex",
   "TraceStoreModuleTableAllocationTimestampDeltaIndex",
   "TraceStoreModuleTableSynchronizationIndex", "TraceStoreModuleTableInfoIndex",
   "TraceStoreModuleTableEntryIndex", "TraceStoreModuleTableEntryMetadataInfoIndex",
   "TraceStoreModuleTableEntryAllocationIndex", "TraceStoreModuleTableEntryRelocationIndex",
   "TraceStoreModuleTableEntryAddressIndex", "TraceStoreModuleTableEntryAddressRangeIndex",
   "TraceStoreModuleTableEntryAllocationTimestampIndex",
   "TraceStoreModuleTableEntryAllocationTimestampDeltaIndex",
   "TraceStoreModuleTableEntrySynchronizationIndex", "TraceStoreModuleTableEntryInfoIndex",
   "TraceStorePythonCallStackTableIndex", "TraceStorePythonCallStackTableMetadataInfoIndex",
   "TraceStorePythonCallStackTableAllocationIndex",
   "TraceStorePythonCallStackTableRelocationIndex", "TraceStorePythonCallStackTableAddressIndex",
   "TraceStorePythonCallStackTableAddressRangeIndex",
   "TraceStorePythonCallStackTableAllocationTimestampIndex",
   "TraceStorePythonCallStackTableAllocationTimestampDeltaIndex",
   "TraceStorePythonCallStackTableSynchronizationIndex",
   "TraceStorePythonCallStackTableInfoIndex", "TraceStorePythonCallStackTableEntryIndex",
   "TraceStorePythonCallStackTableEntryMetadataInfoIndex",
   "TraceStorePythonCallStackTableEntryAllocationIndex",
   "TraceStorePythonCallStackTableEntryRelocationIndex",
   "TraceStorePythonCallStackTableEntryAddressIndex",
   "TraceStorePythonCallStackTableEntryAddressRangeIndex",
   "TraceStorePythonCallStackTableEntryAllocationTimestampIndex",
   "TraceStorePythonCallStackTableEntryAllocationTimestampDeltaIndex",
   "TraceStorePythonCallStackTableEntrySynchronizationIndex",
   "TraceStorePythonCallStackTableEntryInfoIndex", "TraceStorePythonModuleTableIndex",
   "TraceStorePythonModuleTableMetadataInfoIndex", "TraceStorePythonModuleTableAllocationIndex",
   "TraceStorePythonModuleTableRelocationIndex", "TraceStorePythonModuleTableAddressIndex",
   "TraceStorePythonModuleTableAddressRangeIndex",
   "TraceStorePythonModuleTableAllocationTimestampIndex",
   "TraceStorePythonModuleTableAllocationTimestampDeltaIndex",
   "TraceStorePythonModuleTableSynchronizationIndex", "TraceStorePythonModuleTableInfoIndex",
   "TraceStorePythonModuleTableEntryIndex", "TraceStorePythonModuleTableEntryMetadataInfoIndex",
   "TraceStorePythonModuleTableEntryAllocationIndex",
   "TraceStorePythonModuleTableEntryRelocationIndex",
   "TraceStorePythonModuleTableEntryAddressIndex",
   "TraceStorePythonModuleTableEntryAddressRangeIndex",
   "TraceStorePythonModuleTableEntryAllocationTimestampIndex",
   "TraceStorePythonModuleTableEntryAllocationTimestampDeltaIndex",
   "TraceStorePythonModuleTableEntrySynchronizationIndex",
   "TraceStorePythonModuleTableEntryInfoIndex", "TraceStoreLineTableIndex",
   "TraceStoreLineTableMetadataInfoIndex", "TraceStoreLineTableAllocationIndex",
   "TraceStoreLineTableRelocationIndex", "TraceStoreLineTableAddressIndex",
   "TraceStoreLineTableAddressRangeIndex", "TraceStoreLineTableAllocationTimestampIndex",
   "TraceStoreLineTableAllocationTimestampDeltaIndex", "TraceStoreLineTableSynchronizationIndex",
   "TraceStoreLineTableInfoIndex", "TraceStoreLineTableEntryIndex",
   "TraceStoreLineTableEntryMetadataInfoIndex", "TraceStoreLineTableEntryAllocationIndex",
   "TraceStoreLineTableEntryRelocationIndex", "TraceStoreLineTableEntryAddressIndex",
   "TraceStoreLineTableEntryAddressRangeIndex",
   "TraceStoreLineTableEntryAllocationTimestampIndex",
   "TraceStoreLineTableEntryAllocationTimestampDeltaIndex",
   "TraceStoreLineTableEntrySynchronizationIndex", "TraceStoreLineTableEntryInfoIndex",
   "TraceStoreLineStringBufferIndex", "TraceStoreLineStringBufferMetadataInfoIndex",
   "TraceStoreLineStringBufferAllocationIndex", "TraceStoreLineStringBufferRelocationIndex",
   "TraceStoreLineStringBufferAddressIndex", "TraceStoreLineStringBufferAddressRangeIndex",
   "TraceStoreLineStringBufferAllocationTimestampIndex",
   "TraceStoreLineStringBufferAllocationTimestampDeltaIndex",
   "TraceStoreLineStringBufferSynchronizationIndex", "TraceStoreLineStringBufferInfoIndex",
   "TraceStoreCallStackIndex", "TraceStoreCallStackMetadataInfoIndex",
   "TraceStoreCallStackAllocationIndex", "TraceStoreCallStackRelocationIndex",
   "TraceStoreCallStackAddressIndex", "TraceStoreCallStackAddressRangeIndex",
   "TraceStoreCallStackAllocationTimestampIndex",
   "TraceStoreCallStackAllocationTimestampDeltaIndex", "TraceStoreCallStackSynchronizationIndex",
   "TraceStoreCallStackInfoIndex", "TraceStorePerformanceIndex",
   "TraceStorePerformanceMetadataInfoIndex", "TraceStorePerformanceAllocationIndex",
   "TraceStorePerformanceRelocationIndex", "TraceStorePerformanceAddressIndex",
   "TraceStorePerformanceAddressRangeIndex", "TraceStorePerformanceAllocationTimestampIndex",
   "TraceStorePerformanceAllocationTimestampDeltaIndex",
   "TraceStorePerformanceSynchronizationIndex", "TraceStorePerformanceInfoIndex",
   "TraceStorePerformanceDeltaIndex", "TraceStorePerformanceDeltaMetadataInfoIndex",
   "TraceStorePerformanceDeltaAllocationIndex", "TraceStorePerformanceDeltaRelocationIndex",
   "TraceStorePerformanceDeltaAddressIndex", "TraceStorePerformanceDeltaAddressRangeIndex",
   "TraceStorePerformanceDeltaAllocationTimestampIndex",
   "TraceStorePerformanceDeltaAllocationTimestampDeltaIndex",
   "TraceStorePerformanceDeltaSynchronizationIndex", "TraceStorePerformanceDeltaInfoIndex",
   "TraceStoreSourceCodeIndex", "TraceStoreSourceCodeMetadataInfoIndex",
   "TraceStoreSourceCodeAllocationIndex", "TraceStoreSourceCodeRelocationIndex",
   "TraceStoreSourceCodeAddressIndex", "TraceStoreSourceCodeAddressRangeIndex",
   "TraceStoreSourceCodeAllocationTimestampIndex",
   "TraceStoreSourceCodeAllocationTimestampDeltaIndex",
   "TraceStoreSourceCodeSynchronizationIndex", "TraceStoreSourceCodeInfoIndex",
   "TraceStoreBitmapIndex", "TraceStoreBitmapMetadataInfoIndex",
   "TraceStoreBitmapAllocationIndex", "TraceStoreBitmapRelocationIndex",
   "TraceStoreBitmapAddressIndex", "TraceStoreBitmapAddressRangeIndex",
   "TraceStoreBitmapAllocationTimestampIndex", "TraceStoreBitmapAllocationTimestampDeltaIndex",
   "TraceStoreBitmapSynchronizationIndex", "TraceStoreBitmapInfoIndex",
   "TraceStoreImageFileIndex", "TraceStoreImageFileMetadataInfoIndex",
   "TraceStoreImageFileAllocationIndex", "TraceStoreImageFileRelocationIndex",
   "TraceStoreImageFileAddressIndex", "TraceStoreImageFileAddressRangeIndex",
   "TraceStoreImageFileAllocationTimestampIndex",
   "TraceStoreImageFileAllocationTimestampDeltaIndex", "TraceStoreImageFileSynchronizationIndex",
   "TraceStoreImageFileInfoIndex", "TraceStoreUnicodeStringBufferIndex",
   "TraceStoreUnicodeStringBufferMetadataInfoIndex",
   "TraceStoreUnicodeStringBufferAllocationIndex", "TraceStoreUnicodeStringBufferRelocationIndex",
   "TraceStoreUnicodeStringBufferAddressIndex", "TraceStoreUnicodeStringBufferAddressRangeIndex",
   "TraceStoreUnicodeStringBufferAllocationTimestampIndex",
   "TraceStoreUnicodeStringBufferAllocationTimestampDeltaIndex",
   "TraceStoreUnicodeStringBufferSynchronizationIndex", "TraceStoreUnicodeStringBufferInfoIndex",
   "TraceStoreLineIndex", "TraceStoreLineMetadataInfoIndex", "TraceStoreLineAllocationIndex",
   "TraceStoreLineRelocationIndex", "TraceStoreLineAddressIndex",
   "TraceStoreLineAddressRangeIndex", "TraceStoreLineAllocationTimestampIndex",
   "TraceStoreLineAllocationTimestampDeltaIndex", "TraceStoreLineSynchronizationIndex",
   "TraceStoreLineInfoIndex", "TraceStoreObjectIndex", "TraceStoreObjectMetadataInfoIndex",
   "TraceStoreObjectAllocationIndex", "TraceStoreObjectRelocationIndex",
   "TraceStoreObjectAddressIndex", "TraceStoreObjectAddressRangeIndex",
   "TraceStoreObjectAllocationTimestampIndex", "TraceStoreObjectAllocationTimestampDeltaIndex",
   "TraceStoreObjectSynchronizationIndex", "TraceStoreObjectInfoIndex",
   "TraceStoreModuleLoadEventIndex", "TraceStoreModuleLoadEventMetadataInfoIndex",
   "TraceStoreModuleLoadEventAllocationIndex", "TraceStoreModuleLoadEventRelocationIndex",
   "TraceStoreModuleLoadEventAddressIndex", "TraceStoreModuleLoadEventAddressRangeIndex",
   "TraceStoreModuleLoadEventAllocationTimestampIndex",
   "TraceStoreModuleLoadEventAllocationTimestampDeltaIndex",
   "TraceStoreModuleLoadEventSynchronizationIndex", "TraceStoreModuleLoadEventInfoIndex",
   "TraceStoreInvalidIndex"]

/-- The value of an enumerator of an enumeration whose values are the
positions. -/
def enumeratorValue (Enumeration : List String) (Name : String) : Option Nat :=
  if Name ∈ Enumeration then some (Enumeration.indexOf Name) else none

/-- The constant `MAX_TRACE_STORES`, which is `TraceStoreInvalidIndex`. -/
def MAX_TRACE_STORES : Option Nat := enumeratorValue TRACE_STORE_INDEX "TraceStoreInvalidIndex"

/-- The part of the name of a trace store id between `TraceStore` and `Id`. -/
def StoreStem (TraceStoreId : Nat) : List Char :=
  (((TRACE_STORE_ID.getD TraceStoreId "").data.drop 10).reverse.drop 2).reverse

/-- The part of the name of a metadata id between `TraceStoreMetadata` and
`Id`. -/
def MetadataStem (TraceStoreMetadataId : Nat) : List Char :=
  (((TRACE_STORE_METADATA_ID.getD TraceStoreMetadataId "").data.drop 18).reverse.drop 2).reverse

/-- The part of the names of the index enumerators of a trace store between
`TraceStore` and `Index`: that of the name of its id, but for
`TraceStoreWsWorkingSetExInfoId`, whose index enumerators are spelled
`WorkingSetExInfo`. -/
def IndexStem (TraceStoreId : Nat) : List Char :=
  if StoreStem TraceStoreId = "WsWorkingSetExInfo".data then "WorkingSetExInfo".data
  else StoreStem TraceStoreId

/-- The index enumerator of a trace store (`TraceStoreMetadataId = 0`) or of
one of its metadata stores. -/
def IndexEnumerator (TraceStoreId TraceStoreMetadataId : Nat) : String :=
  String.mk ("TraceStore".data ++ IndexStem TraceStoreId ++
    (if TraceStoreMetadataId = 0 then [] else MetadataStem TraceStoreMetadataId) ++
    "Index".data)

/-- A number for a name, to tell names apart. -/
def nameKey (Name : String) : Nat :=
  Name.data.foldl (fun k c => (k * 31 + c.toNat) % 1000003) 0

/-- The numbers of the enumerators of `TRACE_STORE_INDEX`, in the order of the
enumeration. -/
def indexKeys : List Nat :=
  [432905, 612268, 225314, 132218, 6291, 961643, 79129, 866670, 569117, 922803, 76663, 343074,
   481018, 387922, 233248, 692449, 707870, 894760, 34720, 941709, 434393, 172904, 960551, 867455,
   987521, 522279, 861494, 393648, 515460, 117926, 554040, 438747, 492564, 399468, 150740, 788122,
   930274, 492107, 220513, 303525, 175519, 540899, 955731, 862635, 453801, 890274, 216768, 759731,
   421616, 259797, 952029, 254933, 398720, 305624, 518735, 604308, 296354, 535798, 234067, 400144,
   794544, 650789, 569788, 476692, 681005, 161, 818276, 457603, 144784, 131779, 181841, 98928,
   123843, 30747, 60868, 448303, 187263, 193576, 703056, 742045, 466191, 982816, 224659, 131563,
   958662, 332188, 541310, 809571, 531468, 150586, 432724, 603884, 524994, 431898, 791507, 953259,
   367700, 815337, 802123, 766003, 271704, 255885, 471562, 378466, 841789, 605260, 354236, 82656,
   595015, 860698, 613309, 742117, 969468, 876372, 974900, 91489, 354232, 566397, 889072, 305466,
   479593, 901943, 874941, 781845, 105437, 251315, 605305, 831465, 251152, 141897, 297138, 439521,
   228256, 135160, 879779, 788896, 368088, 892601, 278678, 623345, 210690, 545721, 707036, 613940,
   422038, 895096, 463729, 309053, 73386, 319445, 801111, 606908, 50490, 957397, 523557, 956283,
   845679, 728890, 889837, 875994, 442994, 576831, 587401, 494305, 50377, 926206, 712368, 429636,
   868618, 298218, 143074, 822568, 845722, 752626, 554667, 171940, 966262, 287386, 597622, 710844,
   453599, 808390, 260898, 167802, 386341, 157762, 318520, 393088, 222090, 209041, 378596, 511023,
   199194, 106098, 786226, 860398, 929714, 215643, 388370, 571279, 317325, 954701, 882280, 789184,
   752111, 304073, 355020, 269705, 960017, 685843, 159413, 656743, 937121, 844025, 932537, 6115,
   806331, 274830, 519867, 75193, 951052, 524596, 458314, 365218, 171517, 873971, 975544, 269763,
   740401, 122833, 156918, 745594, 161977, 68881, 656890, 94966, 634963, 644580, 472067, 897213,
   509798, 980606, 555563, 462467, 280144, 329978, 764085, 790076, 693556, 10017, 709736, 993176,
   487938, 394842, 3648, 342548, 641789, 643040, 165301, 397777, 770216, 264239, 81351, 988258,
   563201, 613614, 118463, 513816, 468282, 780295, 954068, 139435, 61450, 968357, 396908, 488810,
   631192, 440039, 443472, 453814, 422945, 714454, 191081, 97985, 535176, 63826, 439122, 903824,
   783111, 681237, 570803, 104716, 390239, 297143, 915735, 454091, 934135, 312507, 132845, 239605,
   522647, 1187, 71712, 978619, 466829, 350562, 671059, 378891, 909661, 295748, 880842, 443718,
   593506, 500410, 402733, 793093, 381670, 854963, 311130, 907946, 21589, 427389, 417630, 324534,
   359526, 776764, 319535, 894179, 855352, 98738, 902346]

end Tracer
namespace Tracer

/-- The id `TraceStoreModuleLoadEventId`, the last trace store id. -/
def TraceStoreModuleLoadEventId : Nat := 33

/-- The caller's memory of a readonly call on the stores of the run-time
layout, 33 trace stores of 10 elements each, whose ignore bitmap has the
required size, no buffer, and the bits `Bits` in the quadword of bits. -/
def layoutBitmapMemory (Bits : Nat) : Memory :=
  { TraceContext := { TRACE_CONTEXT.zero with
      IgnorePreferredAddressesBitmap :=
        { SizeOfBitMap := MAX_TRACE_STORE_IDS, Buffer := BitmapBufferPointer.NULL }
      BitmapBuffer := Bits },
    SizeOfTraceContext := 512,
    TraceStores := { layoutStores with
      Flags := { Readonly := true, EnableWorkingSetTracing := false,
                 EnablePerformanceTracing := false } } }

end Tracer
namespace Tracer

/-! ## What is in place when the bind work is submitted -/

/-- The traits of the slots of a collection, in order. -/
def DeclaredTraits (TraceStores : TRACE_STORES) : List TRACE_STORE_TRAITS :=
  TraceStores.Stores.map fun st => st.Traits

/-- The block from `s` to `s'` left the traits of every slot alone. -/
def SameTraits (s s' : State) : Prop :=
  DeclaredTraits s'.TraceStores = DeclaredTraits s.TraceStores

/-- The implementation that traits select: the page-aligned one when they want
page alignment, the packed one otherwise. -/
def SelectedImplementation (Traits : TRACE_STORE_TRAITS) : Routine :=
  if WantsPageAlignment Traits then Routine.TraceStoreAllocatePageAlignedRecordsWithTimestampImpl
  else Routine.TraceStoreAllocateRecordsWithTimestampImpl

/-- The loading complete event, the cleanup group, the work item and the
completion event of each of the four work records, and the cleanup work item
of a context are in place: none is `NULL`. -/
def WorkInPlace (c : TRACE_CONTEXT) : Prop :=
  c.LoadingCompleteEvent ≠ 0 ∧ c.ThreadpoolCleanupGroup ≠ 0 ∧
  (c.BindMetadataInfoStoreWork.WorkCompleteEvent ≠ 0 ∧
    c.BindMetadataInfoStoreWork.ThreadpoolWork ≠ 0) ∧
  (c.BindRemainingMetadataStoresWork.WorkCompleteEvent ≠ 0 ∧
    c.BindRemainingMetadataStoresWork.ThreadpoolWork ≠ 0) ∧
  (c.BindTraceStoreWork.WorkCompleteEvent ≠ 0 ∧ c.BindTraceStoreWork.ThreadpoolWork ≠ 0) ∧
  (c.ReadonlyNonStreamingBindCompleteWork.WorkCompleteEvent ≠ 0 ∧
    c.ReadonlyNonStreamingBindCompleteWork.ThreadpoolWork ≠ 0) ∧
  c.CleanupThreadpoolMembersWork ≠ 0

/-- The back-pointer, the two events and the allocator pointers of a trace
store are in place: the store points back to the context `TraceContext`, its
two events are manual-reset, unsignaled events created by calls of the trace
`Trace`, `AllocateRecords` is the allocator of the stores, both entry points
with a timestamp are the suspended allocator, and the workers are those the
traits `Traits` select. -/
def StoreInPlace (TraceContext : Nat) (Trace : List Op) (Traits : TRACE_STORE_TRAITS)
    (st : TRACE_STORE) : Prop :=
  st.TraceContext = TraceContext ∧
  (st.ResumeAllocationsEvent ≠ 0 ∧ Op.CreateEvent true false st.ResumeAllocationsEvent ∈ Trace) ∧
  (st.BindCompleteEvent ≠ 0 ∧ Op.CreateEvent true false st.BindCompleteEvent ∈ Trace) ∧
  st.AllocateRecords = Routine.TraceStoreAllocateRecords ∧
  st.AllocateRecordsWithTimestamp = Routine.SuspendedTraceStoreAllocateRecordsWithTimestamp ∧
  st.SuspendedAllocateRecordsWithTimestamp =
    Routine.SuspendedTraceStoreAllocateRecordsWithTimestamp ∧
  st.Traits = Traits ∧
  (HasConcurrentAllocations Traits = false →
    st.AllocateRecordsWithTimestampImpl1 = SelectedImplementation Traits) ∧
  (HasConcurrentAllocations Traits = true →
    st.AllocateRecordsWithTimestampImpl1 =
      Routine.ConcurrentTraceStoreAllocateRecordsWithTimestamp ∧
    st.AllocateRecordsWithTimestampImpl2 = SelectedImplementation Traits ∧
    st.TryAllocateRecords = Routine.TraceStoreTryAllocateRecords ∧
    st.TryAllocateRecordsWithTimestamp = Routine.TraceStoreTryAllocateRecordsWithTimestamp)

end Tracer

namespace Tracer

/-! ## Blocks and their sequencing -/

@[simp] theorem Step.andThen_Continue (s : State) (f : State → Step) :
    (Step.Continue s).andThen f = f s := rfl

@[simp] theorem Step.andThen_Return (b : Bool) (s : State) (f : State → Step) :
    (Step.Return b s).andThen f = Step.Return b s := rfl

@[simp] theorem Step.andThen_GotoError (s : State) (f : State → Step) :
    (Step.GotoError s).andThen f = Step.GotoError s := rfl

@[simp] theorem Step.state_Continue (s : State) : (Step.Continue s).state = s := rfl

@[simp] theorem Step.state_Return (b : Bool) (s : State) : (Step.Return b s).state = s := rfl

@[simp] theorem Step.state_GotoError (s : State) : (Step.GotoError s).state = s := rfl

theorem Step.andThen_eq_Continue {x : Step} {f : State → Step} {s' : State} :
    x.andThen f = Step.Continue s' ↔ ∃ s1, x = Step.Continue s1 ∧ f s1 = Step.Continue s' := by
  cases x <;> simp

theorem Step.andThen_eq_Return {x : Step} {f : State → Step} {b : Bool} {s' : State} :
    x.andThen f = Step.Return b s' ↔
      x = Step.Return b s' ∨ ∃ s1, x = Step.Continue s1 ∧ f s1 = Step.Return b s' := by
  cases x <;> simp

theorem Step.andThen_eq_GotoError {x : Step} {f : State → Step} {s' : State} :
    x.andThen f = Step.GotoError s' ↔
      x = Step.GotoError s' ∨ ∃ s1, x = Step.Continue s1 ∧ f s1 = Step.GotoError s' := by
  cases x <;> simp

/-- A property of blocks carries over a sequence when it holds of the first
block, is kept when the first block stops, and is established by the second
block from what the first guarantees. -/
theorem Step.andThen_of {P Q : Step → Prop} {x : Step} {f : State → Step} (hx : P x)
    (hR : ∀ b s, P (Step.Return b s) → Q (Step.Return b s))
    (hE : ∀ s, P (Step.GotoError s) → Q (Step.GotoError s))
    (hf : ∀ s, P (Step.Continue s) → Q (f s)) : Q (x.andThen f) := by
  cases x with
  | Continue s => exact hf s hx
  | Return b s => exact hR b s hx
  | GotoError s => exact hE s hx

/-! ## Stores -/

@[simp] theorem length_modifyStore (f : TRACE_STORE → TRACE_STORE) (i : Nat)
    (l : List TRACE_STORE) : (modifyStore f i l).length = l.length := by
  unfold modifyStore
  split <;> simp

theorem getElem?_modifyStore_self (f : TRACE_STORE → TRACE_STORE) (i : Nat)
    (l : List TRACE_STORE) : (modifyStore f i l)[i]? = l[i]?.map f := by
  unfold modifyStore
  split
  next st h =>
    have hi : i < l.length := by
      by_contra hc
      rw [List.getElem?_eq_none (by omega)] at h
      cases h
    simp [h, List.getElem?_set_self, hi]
  next h => simp [h]

theorem getElem?_modifyStore_ne (f : TRACE_STORE → TRACE_STORE) {i j : Nat} (h : i ≠ j)
    (l : List TRACE_STORE) : (modifyStore f i l)[j]? = l[j]? := by
  unfold modifyStore
  split
  · simp [List.getElem?_set_ne h]
  · rfl

/-- After a store through slot `i`, every slot holds either what it held or
the stored value. -/
theorem getElem?_modifyStore (f : TRACE_STORE → TRACE_STORE) (i j : Nat)
    (l : List TRACE_STORE) :
    (modifyStore f i l)[j]? = if i = j then l[j]?.map f else l[j]? := by
  split
  next h => subst h; exact getElem?_modifyStore_self f i l
  next h => exact getElem?_modifyStore_ne f h l

/-! ## Traces -/

theorem Extends_refl (p : Op → Bool) (s : State) : Extends p s s :=
  ⟨[], by simp, by simp⟩

theorem Extends_trans {p : Op → Bool} {s1 s2 s3 : State} (h12 : Extends p s1 s2)
    (h23 : Extends p s2 s3) : Extends p s1 s3 := by
  obtain ⟨o1, e1, p1⟩ := h12
  obtain ⟨o2, e2, p2⟩ := h23
  refine ⟨o1 ++ o2, by rw [e2, e1, List.append_assoc], ?_⟩
  intro op hop
  rcases List.mem_append.mp hop with h | h
  · exact p1 op h
  · exact p2 op h

theorem Extends_of_trace_eq {p : Op → Bool} {s s' : State} (h : s'.Trace = s.Trace) :
    Extends p s s' :=
  ⟨[], by simp [h], by simp⟩

theorem Extends_one {p : Op → Bool} {s s' : State} (op : Op) (h : s'.Trace = s.Trace ++ [op])
    (hp : p op = true) : Extends p s s' :=
  ⟨[op], h, by simpa using hp⟩

/-- A trace that has the old one as a prefix continues it when the calls past
the prefix satisfy `p`. -/
theorem Extends_of_prefix {p : Op → Bool} {s s' : State} (h : s.Trace <+: s'.Trace)
    (hp : ∀ op ∈ s'.Trace.drop s.Trace.length, p op = true) : Extends p s s' := by
  obtain ⟨ops, e⟩ := h
  refine ⟨ops, e.symm, ?_⟩
  rw [← e] at hp
  simpa using hp

theorem Extends_mem {p : Op → Bool} {s s' : State} (h : Extends p s s') {op : Op}
    (hop : op ∈ s.Trace) : op ∈ s'.Trace := by
  obtain ⟨ops, e, _⟩ := h
  rw [e]
  exact List.mem_append_left _ hop

theorem Extends_all {p : Op → Bool} {s s' : State} (h : Extends p s s')
    (hs : ∀ op ∈ s.Trace, p op = true) : ∀ op ∈ s'.Trace, p op = true := by
  obtain ⟨ops, e, hp⟩ := h
  intro op hop
  rw [e] at hop
  rcases List.mem_append.mp hop with h | h
  · exact hs op h
  · exact hp op h

theorem Extends_andThen {p : Op → Bool} {s : State} {x : Step} {f : State → Step}
    (hx : Extends p s x.state) (hf : ∀ s1, Extends p s1 (f s1).state) :
    Extends p s (x.andThen f).state := by
  cases x with
  | Continue s1 => exact Extends_trans hx (hf s1)
  | Return b s1 => exact hx
  | GotoError s1 => exact hx

end Tracer

namespace Tracer

/-! ## Recording calls -/

@[simp] theorem State.log_Trace (s : State) (op : Op) : (s.log op).Trace = s.Trace ++ [op] := rfl

@[simp] theorem State.log_TraceContext (s : State) (op : Op) :
    (s.log op).TraceContext = s.TraceContext := rfl

@[simp] theorem State.log_TraceStores (s : State) (op : Op) :
    (s.log op).TraceStores = s.TraceStores := rfl

@[simp] theorem State.log_SizeOfTraceContext (s : State) (op : Op) :
    (s.log op).SizeOfTraceContext = s.SizeOfTraceContext := rfl

@[simp] theorem State.log_IsReadonly (s : State) (op : Op) :
    (s.log op).IsReadonly = s.IsReadonly := rfl

@[simp] theorem State.log_ContextFlags (s : State) (op : Op) :
    (s.log op).ContextFlags = s.ContextFlags := rfl

@[simp] theorem State.log_Calls (s : State) (op : Op) : (s.log op).Calls = s.Calls := rfl

@[simp] theorem State.create_fst (e : Env) (s : State) (call : Nat → Op) :
    (s.create e call).1 = e.Create s.Calls := rfl

@[simp] theorem State.create_Trace (e : Env) (s : State) (call : Nat → Op) :
    (s.create e call).2.Trace = s.Trace ++ [call (e.Create s.Calls)] := rfl

@[simp] theorem State.create_TraceContext (e : Env) (s : State) (call : Nat → Op) :
    (s.create e call).2.TraceContext = s.TraceContext := rfl

@[simp] theorem State.create_TraceStores (e : Env) (s : State) (call : Nat → Op) :
    (s.create e call).2.TraceStores = s.TraceStores := rfl

@[simp] theorem State.create_SizeOfTraceContext (e : Env) (s : State) (call : Nat → Op) :
    (s.create e call).2.SizeOfTraceContext = s.SizeOfTraceContext := rfl

@[simp] theorem State.create_IsReadonly (e : Env) (s : State) (call : Nat → Op) :
    (s.create e call).2.IsReadonly = s.IsReadonly := rfl

@[simp] theorem State.create_ContextFlags (e : Env) (s : State) (call : Nat → Op) :
    (s.create e call).2.ContextFlags = s.ContextFlags := rfl

@[simp] theorem State.create_Calls (e : Env) (s : State) (call : Nat → Op) :
    (s.create e call).2.Calls = s.Calls + 1 := rfl

@[simp] theorem Step.isContinue_Continue (s : State) : (Step.Continue s).isContinue = true := rfl

@[simp] theorem Step.isContinue_Return (b : Bool) (s : State) :
    (Step.Return b s).isContinue = false := rfl

@[simp] theorem Step.isContinue_GotoError (s : State) :
    (Step.GotoError s).isContinue = false := rfl

/-! ## The calls made by each block -/

theorem Extends_mono {p q : Op → Bool} {s s' : State} (h : Extends p s s')
    (hpq : ∀ op, p op = true → q op = true) : Extends q s s' := by
  obtain ⟨ops, e, hp⟩ := h
  exact ⟨ops, e, fun op hop => hpq op (hp op hop)⟩

theorem From_mono {p q : Op → Bool} {s : State} {st : Step} (h : st.From p s)
    (hpq : ∀ op, p op = true → q op = true) : st.From q s := by
  unfold Step.From at h ⊢
  refine Extends_mono h ?_
  intro op
  simp only [Bool.and_eq_true]
  exact fun ⟨h1, h2⟩ => ⟨hpq op h1, h2⟩

theorem From_andThen {p : Op → Bool} {s : State} {x : Step} {f : State → Step}
    (hx : x.From p s) (hf : ∀ s1, (f s1).From p s1) : (x.andThen f).From p s := by
  cases x with
  | Continue s1 =>
    simp only [Step.andThen_Continue]
    unfold Step.From at hx ⊢
    refine Extends_trans (Extends_mono hx ?_) (hf s1)
    intro op
    simp only [Step.isContinue_Continue, Bool.and_eq_true]
    cases (f s1).isContinue <;> simp
    · exact fun h _ => h
  | Return b s1 => exact hx
  | GotoError s1 => exact hx

/-- The calls of a block that fell through did not fail. -/
theorem From_extends_ok {p : Op → Bool} {s s' : State} (h : (Step.Continue s').From p s) :
    Extends (fun op => p op && !op.failed) s s' := by
  unfold Step.From at h
  simpa using h

theorem From_extends {p : Op → Bool} {s : State} {st : Step} (h : st.From p s) :
    Extends p s st.state := by
  unfold Step.From at h
  refine Extends_mono h ?_
  intro op
  simp only [Bool.and_eq_true]
  exact fun h => h.1

theorem ValidateSize_from (e : Env) (a : Args) (s : State) :
    (ValidateSize e a s).From Op.isEarly s := by
  unfold ValidateSize Step.From
  split_ifs <;> (apply Extends_of_prefix <;> simp)

theorem ValidateArguments_from (a : Args) (s : State) :
    (ValidateArguments a s).From Op.isEarly s := by
  unfold ValidateArguments Step.From
  cases a.TraceContextFlags <;> simp only <;> split_ifs <;> (apply Extends_of_prefix <;> simp)

theorem ValidateMode_from (e : Env) (a : Args) (s : State) :
    (ValidateMode e a s).From Op.isEarly s := by
  unfold ValidateMode Step.From
  simp only
  cases WalkIgnoreBitmap e s.TraceContext.IgnorePreferredAddressesBitmap.SizeOfBitMap
      s.TraceContext.BitmapBuffer TraceStoreInvalidId 0 0 0 s.TraceStores <;>
    simp only <;> split_ifs <;> (apply Extends_of_prefix <;> simp [Op.isEarly])

theorem Validate_from (e : Env) (a : Args) (s : State) :
    (Validate e a s).From Op.isEarly s := by
  unfold Validate
  exact From_andThen (From_andThen (ValidateSize_from e a s) (ValidateArguments_from a))
    (ValidateMode_from e a)

theorem InitializeContext_from (e : Env) (a : Args) (s : State) :
    (InitializeContext e a s).From Op.isEarly s := by
  unfold InitializeContext Step.From
  simp only
  split_ifs <;> (apply Extends_of_prefix <;> simp_all [Op.isEarly, Op.failed])

end Tracer

namespace Tracer

theorem isSetup_of_isEarly (op : Op) (h : op.isEarly = true) : op.isSetup = true := by
  cases op <;> simp_all [Op.isEarly, Op.isSetup]

theorem InitializeBindMetadataInfoStoreWork_from (e : Env) (a : Args) (n : Nat) (s : State) :
    (InitializeBindMetadataInfoStoreWork e a n s).From Op.isSetup s := by
  unfold InitializeBindMetadataInfoStoreWork INIT_WORK Step.From
  simp only
  split_ifs <;> (apply Extends_of_prefix <;> simp_all [Op.isSetup, Op.failed])

theorem InitializeBindRemainingMetadataStoresWork_from (e : Env) (a : Args) (n : Nat)
    (s : State) : (InitializeBindRemainingMetadataStoresWork e a n s).From Op.isSetup s := by
  unfold InitializeBindRemainingMetadataStoresWork INIT_WORK Step.From
  simp only
  split_ifs <;> (apply Extends_of_prefix <;> simp_all [Op.isSetup, Op.failed])

theorem InitializeBindTraceStoreWork_from (e : Env) (a : Args) (n : Nat) (s : State) :
    (InitializeBindTraceStoreWork e a n s).From Op.isSetup s := by
  unfold InitializeBindTraceStoreWork INIT_WORK Step.From
  simp only
  split_ifs <;> (apply Extends_of_prefix <;> simp_all [Op.isSetup, Op.failed])

theorem InitializeReadonlyNonStreamingBindCompleteWork_from (e : Env) (a : Args) (n : Nat)
    (s : State) : (InitializeReadonlyNonStreamingBindCompleteWork e a n s).From Op.isSetup s := by
  unfold InitializeReadonlyNonStreamingBindCompleteWork INIT_WORK Step.From
  simp only
  split_ifs <;> (apply Extends_of_prefix <;> simp_all [Op.isSetup, Op.failed])

theorem CreateCleanupThreadpoolMembersWork_from (e : Env) (a : Args) (n : Nat) (s : State) :
    (CreateCleanupThreadpoolMembersWork e a n s).From Op.isSetup s := by
  unfold CreateCleanupThreadpoolMembersWork Step.From
  simp only
  split_ifs <;> (apply Extends_of_prefix <;> simp_all [Op.isSetup, Op.failed])

theorem InitializeWork_from (e : Env) (a : Args) (s : State) :
    (InitializeWork e a s).From Op.isSetup s := by
  unfold InitializeWork
  exact From_andThen (From_andThen (From_andThen (From_andThen
    (InitializeBindMetadataInfoStoreWork_from e a _ s)
    (InitializeBindRemainingMetadataStoresWork_from e a _))
    (InitializeBindTraceStoreWork_from e a _))
    (InitializeReadonlyNonStreamingBindCompleteWork_from e a _))
    (CreateCleanupThreadpoolMembersWork_from e a _)

/-- A block that makes one call and goes on with the rest comes from the
state before the call when the rest comes from the state after it. -/
theorem From_cons {p : Op → Bool} {s : State} {st : Step} (s1 : State) (op : Op)
    (h1 : s1.Trace = s.Trace ++ [op]) (hp : p op = true) (hok : op.failed = false)
    (h : st.From p s1) : st.From p s := by
  unfold Step.From at h ⊢
  refine Extends_trans ?_ h
  exact Extends_one op h1 (by simp [hp, hok])

theorem CreateRelocationCompleteEvents_from (e : Env) (n : Nat) :
    ∀ (Index : Nat) (s : State),
      (CreateRelocationCompleteEvents e n Index s).From Op.isSetup s := by
  induction n with
  | zero =>
    intro Index s
    unfold CreateRelocationCompleteEvents Step.From
    exact Extends_refl _ _
  | succ n ih =>
    intro Index s
    unfold CreateRelocationCompleteEvents
    simp only
    split_ifs with h
    · unfold Step.From
      apply Extends_of_prefix <;> simp_all [Op.isSetup]
    · refine From_cons _ (Op.CreateEvent true false (e.Create s.Calls)) ?_ rfl ?_
        (ih _ _)
      · rfl
      · simpa [Op.failed] using h

theorem RegisterAtExit_from (e : Env) (s : State) :
    (RegisterAtExit e s).From Op.isSetup s := by
  unfold RegisterAtExit Step.From
  simp only
  split_ifs <;> (apply Extends_of_prefix <;> simp_all [Op.isSetup, Op.failed])

theorem EnableWorkingSetTracing_from (e : Env) (a : Args) (s : State) :
    (EnableWorkingSetTracing e a s).From Op.isSetup s := by
  unfold EnableWorkingSetTracing Step.From
  simp only
  split_ifs <;> (apply Extends_of_prefix <;> simp_all [Op.isSetup, Op.failed])

theorem EnablePerformanceTracing_from (e : Env) (a : Args) (s : State) :
    (EnablePerformanceTracing e a s).From Op.isSetup s := by
  unfold EnablePerformanceTracing Step.From
  simp only
  split_ifs <;> (apply Extends_of_prefix <;> simp_all [Op.isSetup, Op.failed])

theorem RegisterAtExitAndTimers_from (e : Env) (a : Args) (s : State) :
    (RegisterAtExitAndTimers e a s).From Op.isSetup s := by
  unfold RegisterAtExitAndTimers
  exact From_andThen (From_andThen (RegisterAtExit_from e s) (EnableWorkingSetTracing_from e a))
    (EnablePerformanceTracing_from e a)

theorem PrepareStores_from (e : Env) (a : Args) (s : State) :
    (PrepareStores e a s).From Op.isSetup s := by
  unfold PrepareStores
  split_ifs
  · exact CreateRelocationCompleteEvents_from e _ _ s
  · exact RegisterAtExitAndTimers_from e a s

theorem InitializeAllocators_from (e : Env) (a : Args) (n : Nat) :
    ∀ (StoreIndex : Nat) (s : State),
      (InitializeAllocators e a n StoreIndex s).From Op.isSetup s := by
  induction n with
  | zero =>
    intro StoreIndex s
    unfold InitializeAllocators Step.From
    exact Extends_refl _ _
  | succ n ih =>
    intro StoreIndex s
    unfold InitializeAllocators
    simp only
    split_ifs with h1 h2
    · unfold Step.From
      apply Extends_of_prefix <;> simp_all [Op.isSetup]
    · unfold Step.From
      apply Extends_of_prefix <;> simp_all [Op.isSetup]
    · refine From_cons (s.create e (Op.CreateEvent true false)).2
        (Op.CreateEvent true false (e.Create s.Calls)) rfl rfl ?_ ?_
      · simpa [Op.failed] using h1
      · refine From_cons _ (Op.CreateEvent true false (e.Create (s.Calls + 1)))
          ?_ rfl ?_ (ih _ _)
        · rfl
        · simpa [Op.failed] using h2

theorem PrepareContext_from (e : Env) (a : Args) (s : State) :
    (PrepareContext e a s).From Op.isSetup s := by
  unfold PrepareContext
  refine From_andThen (From_andThen (From_andThen ?_ ?_)
    (InitializeWork_from e a)) (PrepareStores_from e a)
  · exact From_mono (Validate_from e a s) isSetup_of_isEarly
  · exact fun s1 => From_mono (InitializeContext_from e a s1) isSetup_of_isEarly

theorem Setup_from (e : Env) (a : Args) (s : State) : (Setup e a s).From Op.isSetup s := by
  unfold Setup
  exact From_andThen (PrepareContext_from e a s) fun s1 => InitializeAllocators_from e a _ 0 s1

end Tracer

namespace Tracer

/-! ## Submission, the wait and the error path -/

theorem NextStoreIndex_PrimaryStoreIndex (ts : TRACE_STORES) (k : Nat) :
    NextStoreIndex ts (PrimaryStoreIndex ts k) = PrimaryStoreIndex ts (k + 1) := by
  unfold NextStoreIndex PrimaryStoreIndex
  rw [Nat.add_mul, one_mul, Nat.mod_add_mod]

theorem PrimaryStoreIndex_zero (ts : TRACE_STORES) : PrimaryStoreIndex ts 0 = 0 := by
  simp [PrimaryStoreIndex]

theorem Submissions_succ (ts : TRACE_STORES) (k n : Nat) :
    Submissions ts k (n + 1) =
      Op.SubmitBindMetadataInfoWork (PrimaryStoreIndex ts k) :: Submissions ts (k + 1) n := by
  unfold Submissions
  rw [List.range_succ_eq_map, List.map_cons, List.map_map, Nat.add_zero]
  congr 1
  apply List.map_congr_left
  intro j _
  simp only [Function.comp_apply]
  congr 2
  omega

/-- The submission loop only appends one submission per store, in order. -/
theorem SubmitBindMetadataInfoWorks_eq (n : Nat) :
    ∀ (k : Nat) (s : State),
      SubmitBindMetadataInfoWorks n (PrimaryStoreIndex s.TraceStores k) s =
        { s with Trace := s.Trace ++ Submissions s.TraceStores k n } := by
  induction n with
  | zero => intro k s; simp [SubmitBindMetadataInfoWorks, Submissions]
  | succ n ih =>
    intro k s
    unfold SubmitBindMetadataInfoWorks
    rw [NextStoreIndex_PrimaryStoreIndex]
    have h := ih (k + 1) (s.log (Op.SubmitBindMetadataInfoWork (PrimaryStoreIndex s.TraceStores k)))
    simp only [State.log_TraceStores] at h
    rw [h, Submissions_succ]
    simp [State.log]

theorem Submit_eq (s : State) :
    Submit s =
      { s with Trace := (s.Trace ++ Submissions s.TraceStores 0 s.TraceStores.NumberOfTraceStores) } := by
  have h := SubmitBindMetadataInfoWorks_eq s.TraceStores.NumberOfTraceStores 0 s
  rw [PrimaryStoreIndex_zero] at h
  simpa [Submit] using h

@[simp] theorem Submit_TraceContext (s : State) : (Submit s).TraceContext = s.TraceContext := by
  rw [Submit_eq]

@[simp] theorem Submit_TraceStores (s : State) : (Submit s).TraceStores = s.TraceStores := by
  rw [Submit_eq]

@[simp] theorem Submit_SizeOfTraceContext (s : State) :
    (Submit s).SizeOfTraceContext = s.SizeOfTraceContext := by
  rw [Submit_eq]

theorem Submit_Trace (s : State) :
    (Submit s).Trace = s.Trace ++
      Submissions s.TraceStores 0 s.TraceStores.NumberOfTraceStores := by
  rw [Submit_eq]

theorem isSubmit_of_mem_Submissions (ts : TRACE_STORES) (k n : Nat) :
    ∀ op ∈ Submissions ts k n, op.isSubmit = true := by
  intro op hop
  unfold Submissions at hop
  obtain ⟨j, _, rfl⟩ := List.mem_map.mp hop
  rfl

theorem CLEANUP_WORK_isClose (w : TRACE_STORE_WORK) : ∀ op ∈ CLEANUP_WORK w, op.isClose = true := by
  unfold CLEANUP_WORK
  intro op hop
  split_ifs at hop <;> simp at hop <;> (try rcases hop with h | h) <;> simp_all [Op.isClose]

theorem Error_Trace (s : State) :
    (Error s).Trace = s.Trace ++ (CLEANUP_WORK s.TraceContext.BindMetadataInfoStoreWork ++
      (CLEANUP_WORK s.TraceContext.BindRemainingMetadataStoresWork ++
      (CLEANUP_WORK s.TraceContext.BindTraceStoreWork ++
      (CLEANUP_WORK s.TraceContext.ReadonlyNonStreamingBindCompleteWork ++
      ((if s.TraceContext.CleanupThreadpoolMembersWork ≠ 0 then
        [Op.CloseThreadpoolWork s.TraceContext.CleanupThreadpoolMembersWork] else []) ++
      (if s.TraceContext.GetWorkingSetChangesTimer ≠ 0 then
        [Op.CloseThreadpoolTimer s.TraceContext.GetWorkingSetChangesTimer] else [])))))) := rfl

theorem Error_extends (s : State) : Extends Op.isClose s (Error s) := by
  refine ⟨_, Error_Trace s, ?_⟩
  intro op hop
  simp only [List.mem_append] at hop
  rcases hop with h | h | h | h | h | h
  · exact CLEANUP_WORK_isClose _ op h
  · exact CLEANUP_WORK_isClose _ op h
  · exact CLEANUP_WORK_isClose _ op h
  · exact CLEANUP_WORK_isClose _ op h
  · split_ifs at h <;> simp_all [Op.isClose]
  · split_ifs at h <;> simp_all [Op.isClose]

@[simp] theorem Error_TraceStores (s : State) : (Error s).TraceStores = s.TraceStores := rfl

@[simp] theorem Error_SizeOfTraceContext (s : State) :
    (Error s).SizeOfTraceContext = s.SizeOfTraceContext := rfl

@[simp] theorem Error_FailedCount (s : State) :
    (Error s).TraceContext.FailedCount = s.TraceContext.FailedCount := rfl

/-- What the routine does once `Setup` has fallen through to the submission. -/
theorem InitializeTraceContext_of_Setup_Continue {e : Env} {a : Args} {m : Memory}
    {s' : State} (h : Setup e a (State.enter m) = Step.Continue s') :
    InitializeTraceContext e a m = Finish (WaitForLoadingComplete e a (Submit s')) := by
  unfold InitializeTraceContext Body
  rw [h]
  rfl

theorem InitializeTraceContext_of_Setup_Return {e : Env} {a : Args} {m : Memory} {b : Bool}
    {s' : State} (h : Setup e a (State.enter m) = Step.Return b s') :
    InitializeTraceContext e a m = (b, s') := by
  unfold InitializeTraceContext Body
  rw [h]
  rfl

theorem InitializeTraceContext_of_Setup_GotoError {e : Env} {a : Args} {m : Memory}
    {s' : State} (h : Setup e a (State.enter m) = Step.GotoError s') :
    InitializeTraceContext e a m = (false, Error s') := by
  unfold InitializeTraceContext Body
  rw [h]
  rfl

end Tracer

namespace Tracer

/-! ## The trace of a whole call -/

theorem Setup_trace_isSetup (e : Env) (a : Args) (m : Memory) :
    ∀ op ∈ (Setup e a (State.enter m)).state.Trace, op.isSetup = true := by
  have h := From_extends (Setup_from e a (State.enter m))
  exact Extends_all h (by simp [State.enter])

theorem Setup_trace_not_failed {e : Env} {a : Args} {m : Memory} {s' : State}
    (h : Setup e a (State.enter m) = Step.Continue s') :
    ∀ op ∈ s'.Trace, op.failed = false := by
  have h1 := Setup_from e a (State.enter m)
  rw [h] at h1
  have h2 := Extends_all (From_extends_ok h1) (by simp [State.enter])
  intro op hop
  have h3 := h2 op hop
  simp only [Bool.and_eq_true, Bool.not_eq_true'] at h3
  exact h3.2

theorem not_isWait_of_isSetup {op : Op} (h : op.isSetup = true) (hd r : Nat) :
    op ≠ Op.WaitForSingleObject hd r := by
  rintro rfl
  simp [Op.isSetup] at h

theorem not_isWait_of_isSubmit {op : Op} (h : op.isSubmit = true) (hd r : Nat) :
    op ≠ Op.WaitForSingleObject hd r := by
  rintro rfl
  simp [Op.isSubmit] at h

theorem not_isClose_of_isSetup {op : Op} (h : op.isSetup = true) : op.isClose = false := by
  cases op <;> simp_all [Op.isSetup, Op.isClose]

theorem not_isClose_of_isSubmit {op : Op} (h : op.isSubmit = true) : op.isClose = false := by
  cases op <;> simp_all [Op.isSubmit, Op.isClose]

theorem not_isSubmit_of_isSetup {op : Op} (h : op.isSetup = true) : op.isSubmit = false := by
  cases op <;> simp_all [Op.isSetup, Op.isSubmit]

theorem not_isSubmit_of_isClose {op : Op} (h : op.isClose = true) : op.isSubmit = false := by
  cases op <;> simp_all [Op.isClose, Op.isSubmit]

/-- C9: once the bind work has been submitted, a call with asynchronous
initialisation enabled returns TRUE at once, in the state the submission left
and without a wait; a call with it disabled waits on the loading complete
event and returns TRUE exactly when the wait returned `WAIT_OBJECT_0` and the
failed count of the context is zero. -/
theorem C9_return_after_submission (e : Env) (a : Args) (m : Memory) (s' : State)
    (h : Setup e a (State.enter m) = Step.Continue s') :
    (a.TracerConfigData.DisableAsynchronousInitialization = false →
      InitializeTraceContext e a m = (true, Submit s') ∧
      ∀ op ∈ (InitializeTraceContext e a m).2.Trace, ∀ hd r, op ≠ Op.WaitForSingleObject hd r) ∧
    (a.TracerConfigData.DisableAsynchronousInitialization = true →
      Op.WaitForSingleObject s'.TraceContext.LoadingCompleteEvent e.WaitResult ∈
        (InitializeTraceContext e a m).2.Trace ∧
      ((InitializeTraceContext e a m).1 = true ↔
        e.WaitResult = WAIT_OBJECT_0 ∧
          (InitializeTraceContext e a m).2.TraceContext.FailedCount = 0)) := by
  have hs := Setup_trace_isSetup e a m
  rw [h] at hs
  rw [InitializeTraceContext_of_Setup_Continue h]
  constructor
  · intro hasync
    have hr : Finish (WaitForLoadingComplete e a (Submit s')) = (true, Submit s') := by
      simp [WaitForLoadingComplete, hasync, Finish]
    rw [hr]
    refine ⟨rfl, ?_⟩
    intro op hop hd r
    rw [Submit_Trace] at hop
    rcases List.mem_append.mp hop with h1 | h1
    · exact not_isWait_of_isSetup (hs op h1) hd r
    · exact not_isWait_of_isSubmit (isSubmit_of_mem_Submissions _ _ _ op h1) hd r
  · intro hsync
    unfold WaitForLoadingComplete
    simp only [hsync, Bool.not_true, Bool.false_eq_true, if_false]
    by_cases hw : e.WaitResult = WAIT_OBJECT_0
    · by_cases hf : e.FailedCount = 0
      · simp [hw, hf, Finish]
      · simp [hw, hf, Finish, Error_Trace]
    · simp [hw, Finish]

theorem C9_return_after_submission_witness :
    (InitializeTraceContext sampleEnv (sampleArgs true) (sampleMemory false)).1 = true :=
  ((C9_return_after_submission sampleEnv (sampleArgs true) (sampleMemory false)
    (Setup sampleEnv (sampleArgs true) (State.enter (sampleMemory false))).state rfl).2 rfl).2.2
    ⟨rfl, by decide⟩

/-- C10: when the synchronous wait on the loading complete event returns
anything but `WAIT_OBJECT_0`, the call returns FALSE, no call of the whole
trace closes a work item, a timer or an event, and the four work records are
as they were when the bind work was submitted. -/
theorem C10_wait_failure_without_cleanup (e : Env) (a : Args) (m : Memory) (s' : State)
    (h : Setup e a (State.enter m) = Step.Continue s')
    (hsync : a.TracerConfigData.DisableAsynchronousInitialization = true)
    (hw : e.WaitResult ≠ WAIT_OBJECT_0) :
    (InitializeTraceContext e a m).1 = false ∧
    (∀ op ∈ (InitializeTraceContext e a m).2.Trace, op.isClose = false) ∧
    (InitializeTraceContext e a m).2.TraceContext.BindMetadataInfoStoreWork =
      s'.TraceContext.BindMetadataInfoStoreWork ∧
    (InitializeTraceContext e a m).2.TraceContext.BindRemainingMetadataStoresWork =
      s'.TraceContext.BindRemainingMetadataStoresWork ∧
    (InitializeTraceContext e a m).2.TraceContext.BindTraceStoreWork =
      s'.TraceContext.BindTraceStoreWork ∧
    (InitializeTraceContext e a m).2.TraceContext.ReadonlyNonStreamingBindCompleteWork =
      s'.TraceContext.ReadonlyNonStreamingBindCompleteWork := by
  have hs := Setup_trace_isSetup e a m
  rw [h] at hs
  rw [InitializeTraceContext_of_Setup_Continue h]
  unfold WaitForLoadingComplete
  simp only [hsync, Bool.not_true, Bool.false_eq_true, if_false, hw, ne_eq, not_false_eq_true,
    if_true, Finish, State.log_Trace, State.log_TraceContext, Submit_TraceContext, and_self,
    and_true, true_and]
  intro op hop
  rw [Submit_Trace] at hop
  simp only [List.mem_append, List.mem_singleton] at hop
  rcases hop with ((h1 | h1) | h1) | h1
  · exact not_isClose_of_isSetup (hs op h1)
  · exact not_isClose_of_isSubmit (isSubmit_of_mem_Submissions _ _ _ op h1)
  · subst h1; rfl
  · subst h1; rfl

end Tracer

namespace Tracer

theorem C10_wait_failure_without_cleanup_witness :
    (InitializeTraceContext waitFailedEnv (sampleArgs true) (sampleMemory false)).1 = false ∧
    ∀ op ∈ (InitializeTraceContext waitFailedEnv (sampleArgs true) (sampleMemory false)).2.Trace,
      op.isClose = false :=
  have h := C10_wait_failure_without_cleanup waitFailedEnv (sampleArgs true) (sampleMemory false)
    (Setup waitFailedEnv (sampleArgs true) (State.enter (sampleMemory false))).state rfl rfl
    (by decide)
  ⟨h.1, h.2.1⟩

/-- C8: with the thread pool `8` and the distinct cancellation pool `9`, the
call succeeds and leaves `8`, the ordinary pool, in
`CancellationThreadpoolCallbackEnvironment`. -/
theorem C8_cancellation_pool_is_ordinary_pool :
    (sampleArgs false).ThreadpoolCallbackEnvironment = 8 ∧
    (sampleArgs false).CancellationThreadpoolCallbackEnvironment = 9 ∧
    (InitializeTraceContext sampleEnv (sampleArgs false) (sampleMemory false)).1 = true ∧
    (InitializeTraceContext sampleEnv (sampleArgs false)
      (sampleMemory false)).2.TraceContext.ThreadpoolCallbackEnvironment = 8 ∧
    (InitializeTraceContext sampleEnv (sampleArgs false)
      (sampleMemory false)).2.TraceContext.CancellationThreadpoolCallbackEnvironment = 8 := by
  decide

/-! ## The work records -/

theorem INIT_WORK_ok {e : Env} {cb : Routine} {pool n : Nat} {w : TRACE_STORE_WORK} {s : State}
    (h : (INIT_WORK e cb pool n w s).1 = true) :
    (INIT_WORK e cb pool n w s).2.1.TotalNumberOfItems = n ∧
    (INIT_WORK e cb pool n w s).2.1.NumberOfActiveItems = n ∧
    (INIT_WORK e cb pool n w s).2.1.NumberOfFailedItems = 0 := by
  unfold INIT_WORK at h ⊢
  simp only at h ⊢
  split_ifs at h ⊢
  simp

@[simp] theorem INIT_WORK_TraceContext (e : Env) (cb : Routine) (pool n : Nat)
    (w : TRACE_STORE_WORK) (s : State) :
    (INIT_WORK e cb pool n w s).2.2.TraceContext = s.TraceContext := by
  unfold INIT_WORK
  simp only
  split_ifs <;> rfl

@[simp] theorem INIT_WORK_TraceStores (e : Env) (cb : Routine) (pool n : Nat)
    (w : TRACE_STORE_WORK) (s : State) :
    (INIT_WORK e cb pool n w s).2.2.TraceStores = s.TraceStores := by
  unfold INIT_WORK
  simp only
  split_ifs <;> rfl

theorem InitializeBindMetadataInfoStoreWork_Continue {e : Env} {a : Args} {n : Nat}
    {s s' : State} (h : InitializeBindMetadataInfoStoreWork e a n s = Step.Continue s') :
    s'.TraceContext.BindMetadataInfoStoreWork.TotalNumberOfItems = n ∧
    s'.TraceContext.BindMetadataInfoStoreWork.NumberOfActiveItems = n ∧
    s'.TraceContext.BindMetadataInfoStoreWork.NumberOfFailedItems = 0 ∧
    s'.TraceStores = s.TraceStores := by
  unfold InitializeBindMetadataInfoStoreWork at h
  simp only at h
  split_ifs at h with h1
  injection h with h
  subst h
  simpa using INIT_WORK_ok h1

theorem InitializeBindRemainingMetadataStoresWork_Continue {e : Env} {a : Args} {n : Nat}
    {s s' : State} (h : InitializeBindRemainingMetadataStoresWork e a n s = Step.Continue s') :
    s'.TraceContext.BindRemainingMetadataStoresWork.TotalNumberOfItems = n ∧
    s'.TraceContext.BindRemainingMetadataStoresWork.NumberOfActiveItems = n ∧
    s'.TraceContext.BindRemainingMetadataStoresWork.NumberOfFailedItems = 0 ∧
    s'.TraceContext.BindMetadataInfoStoreWork = s.TraceContext.BindMetadataInfoStoreWork ∧
    s'.TraceStores = s.TraceStores := by
  unfold InitializeBindRemainingMetadataStoresWork at h
  simp only at h
  split_ifs at h with h1
  injection h with h
  subst h
  simpa using INIT_WORK_ok h1

theorem InitializeBindTraceStoreWork_Continue {e : Env} {a : Args} {n : Nat}
    {s s' : State} (h : InitializeBindTraceStoreWork e a n s = Step.Continue s') :
    s'.TraceContext.BindTraceStoreWork.TotalNumberOfItems = n ∧
    s'.TraceContext.BindTraceStoreWork.NumberOfActiveItems = n ∧
    s'.TraceContext.BindTraceStoreWork.NumberOfFailedItems = 0 ∧
    s'.TraceContext.BindMetadataInfoStoreWork = s.TraceContext.BindMetadataInfoStoreWork ∧
    s'.TraceContext.BindRemainingMetadataStoresWork =
      s.TraceContext.BindRemainingMetadataStoresWork ∧
    s'.TraceStores = s.TraceStores := by
  unfold InitializeBindTraceStoreWork at h
  simp only at h
  split_ifs at h with h1
  injection h with h
  subst h
  simpa using INIT_WORK_ok h1

theorem InitializeReadonlyNonStreamingBindCompleteWork_Continue {e : Env} {a : Args} {n : Nat}
    {s s' : State}
    (h : InitializeReadonlyNonStreamingBindCompleteWork e a n s = Step.Continue s') :
    s'.TraceContext.ReadonlyNonStreamingBindCompleteWork.TotalNumberOfItems = n ∧
    s'.TraceContext.ReadonlyNonStreamingBindCompleteWork.NumberOfActiveItems = n ∧
    s'.TraceContext.ReadonlyNonStreamingBindCompleteWork.NumberOfFailedItems = 0 ∧
    s'.TraceContext.BindMetadataInfoStoreWork = s.TraceContext.BindMetadataInfoStoreWork ∧
    s'.TraceContext.BindRemainingMetadataStoresWork =
      s.TraceContext.BindRemainingMetadataStoresWork ∧
    s'.TraceContext.BindTraceStoreWork = s.TraceContext.BindTraceStoreWork ∧
    s'.TraceStores = s.TraceStores := by
  unfold InitializeReadonlyNonStreamingBindCompleteWork at h
  simp only at h
  split_ifs at h with h1
  injection h with h
  subst h
  simpa using INIT_WORK_ok h1

theorem CreateCleanupThreadpoolMembersWork_Continue {e : Env} {a : Args} {n : Nat}
    {s s' : State} (h : CreateCleanupThreadpoolMembersWork e a n s = Step.Continue s') :
    s'.TraceContext.BindMetadataInfoStoreWork = s.TraceContext.BindMetadataInfoStoreWork ∧
    s'.TraceContext.BindRemainingMetadataStoresWork =
      s.TraceContext.BindRemainingMetadataStoresWork ∧
    s'.TraceContext.BindTraceStoreWork = s.TraceContext.BindTraceStoreWork ∧
    s'.TraceContext.ReadonlyNonStreamingBindCompleteWork =
      s.TraceContext.ReadonlyNonStreamingBindCompleteWork ∧
    s'.TraceStores = s.TraceStores := by
  unfold CreateCleanupThreadpoolMembersWork at h
  simp only at h
  split_ifs at h with h1
  injection h with h
  subst h
  simp

/-- C3: when the four work records have been initialised, each has as many
active items as items in total and no failed item; the total is
`NumberOfTraceStores` for the metadata-info, trace-store and readonly
bind-complete records and `(ElementsPerTraceStore - 2) * NumberOfTraceStores`
truncated to 16 bits for the remaining-metadata record, which is
`8 * NumberOfTraceStores` truncated to 16 bits when `ElementsPerTraceStore` is
`10`, and `8` per store when that fits 16 bits. -/
theorem C3_work_record_counts (e : Env) (a : Args) (s s' : State)
    (h : InitializeWork e a s = Step.Continue s')
    (hN : s.TraceStores.NumberOfTraceStores < 65536) :
    (s'.TraceContext.BindMetadataInfoStoreWork.TotalNumberOfItems =
        s.TraceStores.NumberOfTraceStores ∧
      s'.TraceContext.BindMetadataInfoStoreWork.NumberOfActiveItems =
        s'.TraceContext.BindMetadataInfoStoreWork.TotalNumberOfItems ∧
      s'.TraceContext.BindMetadataInfoStoreWork.NumberOfFailedItems = 0) ∧
    (s'.TraceContext.BindRemainingMetadataStoresWork.TotalNumberOfItems =
        toUSHORT (((s.TraceStores.ElementsPerTraceStore : Int) - 2) *
          (s.TraceStores.NumberOfTraceStores : Int)) ∧
      s'.TraceContext.BindRemainingMetadataStoresWork.NumberOfActiveItems =
        s'.TraceContext.BindRemainingMetadataStoresWork.TotalNumberOfItems ∧
      s'.TraceContext.BindRemainingMetadataStoresWork.NumberOfFailedItems = 0) ∧
    (s'.TraceContext.BindTraceStoreWork.TotalNumberOfItems =
        s.TraceStores.NumberOfTraceStores ∧
      s'.TraceContext.BindTraceStoreWork.NumberOfActiveItems =
        s'.TraceContext.BindTraceStoreWork.TotalNumberOfItems ∧
      s'.TraceContext.BindTraceStoreWork.NumberOfFailedItems = 0) ∧
    (s'.TraceContext.ReadonlyNonStreamingBindCompleteWork.TotalNumberOfItems =
        s.TraceStores.NumberOfTraceStores ∧
      s'.TraceContext.ReadonlyNonStreamingBindCompleteWork.NumberOfActiveItems =
        s'.TraceContext.ReadonlyNonStreamingBindCompleteWork.TotalNumberOfItems ∧
      s'.TraceContext.ReadonlyNonStreamingBindCompleteWork.NumberOfFailedItems = 0) ∧
    (s.TraceStores.ElementsPerTraceStore = 10 →
      s'.TraceContext.BindRemainingMetadataStoresWork.TotalNumberOfItems =
        (8 * s.TraceStores.NumberOfTraceStores) % 65536 ∧
      (8 * s.TraceStores.NumberOfTraceStores < 65536 →
        s'.TraceContext.BindRemainingMetadataStoresWork.TotalNumberOfItems =
          8 * s.TraceStores.NumberOfTraceStores)) := by
  unfold InitializeWork at h
  simp only at h
  obtain ⟨s4, h, h5⟩ := Step.andThen_eq_Continue.mp h
  obtain ⟨s3, h, h4⟩ := Step.andThen_eq_Continue.mp h
  obtain ⟨s2, h, h3⟩ := Step.andThen_eq_Continue.mp h
  obtain ⟨s1, h1, h2⟩ := Step.andThen_eq_Continue.mp h
  have f1 := InitializeBindMetadataInfoStoreWork_Continue h1
  have f2 := InitializeBindRemainingMetadataStoresWork_Continue h2
  have f3 := InitializeBindTraceStoreWork_Continue h3
  have f4 := InitializeReadonlyNonStreamingBindCompleteWork_Continue h4
  have f5 := CreateCleanupThreadpoolMembersWork_Continue h5
  have eN : NumberOfTraceStores s = s.TraceStores.NumberOfTraceStores := by
    unfold NumberOfTraceStores
    exact Nat.mod_eq_of_lt hN
  have eR : NumberOfRemainingMetadataStores s =
      toUSHORT (((s.TraceStores.ElementsPerTraceStore : Int) - 2) *
        (s.TraceStores.NumberOfTraceStores : Int)) := by
    unfold NumberOfRemainingMetadataStores
    rw [eN]
  rw [eN] at f1 f3 f4
  rw [eR] at f2
  obtain ⟨c1, c2, c3, c4, _⟩ := f5
  rw [c1, c2, c3, c4]
  obtain ⟨d1, d2, d3, d4, d5, d6, _⟩ := f4
  rw [d4, d5, d6, d1, d2, d3]
  obtain ⟨g1, g2, g3, g4, g5, _⟩ := f3
  rw [g4, g5, g1, g2, g3]
  obtain ⟨k1, k2, k3, k4, _⟩ := f2
  rw [k4, k1, k2, k3]
  obtain ⟨l1, l2, l3, _⟩ := f1
  rw [l1, l2, l3]
  refine ⟨⟨rfl, rfl, rfl⟩, ⟨rfl, rfl, rfl⟩, ⟨rfl, rfl, rfl⟩, ⟨rfl, rfl, rfl⟩, ?_⟩
  intro hE
  have hmod : toUSHORT (((s.TraceStores.ElementsPerTraceStore : Int) - 2) *
      (s.TraceStores.NumberOfTraceStores : Int)) =
      (8 * s.TraceStores.NumberOfTraceStores) % 65536 := by
    unfold toUSHORT
    rw [hE]
    omega
  refine ⟨hmod, fun hlt => ?_⟩
  rw [hmod]
  exact Nat.mod_eq_of_lt hlt

theorem C3_work_record_counts_witness :
    (InitializeWork sampleEnv (sampleArgs false)
      (State.enter layoutMemory)).state.TraceContext.BindRemainingMetadataStoresWork.TotalNumberOfItems
      = 8 * 33 :=
  ((C3_work_record_counts sampleEnv (sampleArgs false) (State.enter layoutMemory)
    (InitializeWork sampleEnv (sampleArgs false) (State.enter layoutMemory)).state
    rfl (by decide)).2.2.2.2 rfl).2 (by decide)

end Tracer

namespace Tracer

/-! ## What each block leaves alone in the collection of stores -/

theorem Frame_refl (s : State) : Frame s s := ⟨rfl, rfl, rfl, rfl, rfl⟩

theorem Frame_trans {s1 s2 s3 : State} (h12 : Frame s1 s2) (h23 : Frame s2 s3) : Frame s1 s3 := by
  obtain ⟨a1, a2, a3, a4, a5⟩ := h12
  obtain ⟨b1, b2, b3, b4, b5⟩ := h23
  exact ⟨b1.trans a1, b2.trans a2, b3.trans a3, b4.trans a4, b5.trans a5⟩

theorem SameShape_refl (s : State) : SameShape s s := ⟨rfl, rfl, rfl, rfl, rfl⟩

theorem SameShape_trans {s1 s2 s3 : State} (h12 : SameShape s1 s2) (h23 : SameShape s2 s3) :
    SameShape s1 s3 := by
  obtain ⟨a1, a2, a3, a4, a5⟩ := h12
  obtain ⟨b1, b2, b3, b4, b5⟩ := h23
  exact ⟨b1.trans a1, b2.trans a2, b3.trans a3, b4.trans a4, b5.trans a5⟩

theorem SameShape_of_Frame {s s' : State} (h : Frame s s') : SameShape s s' := by
  obtain ⟨a1, a2, a3, a4, a5⟩ := h
  exact ⟨a1, a2, a3, a4, by rw [a5]⟩

/-- A transitive relation between states that every block of a sequence keeps
is kept by the sequence. -/
theorem andThen_rel {R : State → State → Prop}
    (htrans : ∀ s1 s2 s3, R s1 s2 → R s2 s3 → R s1 s3) {s : State} {x : Step}
    {f : State → Step} (hx : R s x.state) (hf : ∀ s1, R s1 (f s1).state) :
    R s (x.andThen f).state := by
  cases x with
  | Continue s1 => exact htrans _ _ _ hx (hf s1)
  | Return b s1 => exact hx
  | GotoError s1 => exact hx

theorem Frame_andThen {s : State} {x : Step} {f : State → Step} (hx : Frame s x.state)
    (hf : ∀ s1, Frame s1 (f s1).state) : Frame s (x.andThen f).state :=
  andThen_rel (R := Frame) (fun _ _ _ => Frame_trans) hx hf

theorem SameShape_andThen {s : State} {x : Step} {f : State → Step} (hx : SameShape s x.state)
    (hf : ∀ s1, SameShape s1 (f s1).state) : SameShape s (x.andThen f).state :=
  andThen_rel (R := SameShape) (fun _ _ _ => SameShape_trans) hx hf

theorem ValidateSize_frame (e : Env) (a : Args) (s : State) :
    Frame s (ValidateSize e a s).state := by
  unfold ValidateSize
  split_ifs <;> exact ⟨rfl, rfl, rfl, rfl, rfl⟩

theorem ValidateArguments_frame (a : Args) (s : State) :
    Frame s (ValidateArguments a s).state := by
  unfold ValidateArguments
  cases a.TraceContextFlags <;> simp only <;> split_ifs <;> exact ⟨rfl, rfl, rfl, rfl, rfl⟩

theorem SameStores_trans {t1 t2 t3 : TRACE_STORES} (h12 : SameStores t1 t2)
    (h23 : SameStores t2 t3) : SameStores t1 t3 := by
  obtain ⟨a1, a2, a3, a4, a5⟩ := h12
  obtain ⟨b1, b2, b3, b4, b5⟩ := h23
  exact ⟨b1.trans a1, b2.trans a2, b3.trans a3, b4.trans a4, b5.trans a5⟩

theorem WalkIgnoreBitmap_frame (e : Env) (size buffer : Nat) (fuel : Nat) :
    ∀ (hint prev n : Nat) (ts ts' : TRACE_STORES),
      (WalkIgnoreBitmap e size buffer fuel hint prev n ts).TraceStores = some ts' →
        SameStores ts ts' := by
  induction fuel with
  | zero => intro hint prev n ts ts' h; simp [WalkIgnoreBitmap, WalkResult.TraceStores] at h
  | succ fuel ih =>
    intro hint prev n ts ts' h
    unfold WalkIgnoreBitmap at h
    simp only at h
    split_ifs at h
    · simp only [WalkResult.TraceStores, Option.some.injEq] at h
      subst h
      exact ⟨rfl, rfl, rfl, rfl, rfl⟩
    · simp only [WalkResult.TraceStores, Option.some.injEq] at h
      subst h
      exact ⟨rfl, rfl, rfl, rfl, rfl⟩
    · refine SameStores_trans ?_ (ih _ _ _ _ _ h)
      exact ⟨rfl, rfl, rfl, by simp, rfl⟩

theorem ValidateMode_frame (e : Env) (a : Args) (s : State) :
    Frame s (ValidateMode e a s).state := by
  unfold ValidateMode
  simp only
  have hw := WalkIgnoreBitmap_frame e s.TraceContext.IgnorePreferredAddressesBitmap.SizeOfBitMap
      s.TraceContext.BitmapBuffer TraceStoreInvalidId 0 0 0 s.TraceStores
  cases hc : WalkIgnoreBitmap e s.TraceContext.IgnorePreferredAddressesBitmap.SizeOfBitMap
      s.TraceContext.BitmapBuffer TraceStoreInvalidId 0 0 0 s.TraceStores <;>
    simp only <;> split_ifs <;>
    first
      | exact ⟨rfl, rfl, rfl, rfl, rfl⟩
      | exact hw _ (by rw [hc]; rfl)

theorem Validate_frame (e : Env) (a : Args) (s : State) : Frame s (Validate e a s).state := by
  unfold Validate
  exact Frame_andThen (Frame_andThen (ValidateSize_frame e a s) (ValidateArguments_frame a))
    (ValidateMode_frame e a)

theorem InitializeContext_frame (e : Env) (a : Args) (s : State) :
    Frame s (InitializeContext e a s).state := by
  unfold InitializeContext
  simp only
  split_ifs <;> exact ⟨rfl, rfl, rfl, rfl, rfl⟩

theorem InitializeBindMetadataInfoStoreWork_frame (e : Env) (a : Args) (n : Nat) (s : State) :
    Frame s (InitializeBindMetadataInfoStoreWork e a n s).state := by
  unfold InitializeBindMetadataInfoStoreWork Frame SameStores
  simp only
  split_ifs <;> simp

theorem InitializeBindRemainingMetadataStoresWork_frame (e : Env) (a : Args) (n : Nat)
    (s : State) : Frame s (InitializeBindRemainingMetadataStoresWork e a n s).state := by
  unfold InitializeBindRemainingMetadataStoresWork Frame SameStores
  simp only
  split_ifs <;> simp

theorem InitializeBindTraceStoreWork_frame (e : Env) (a : Args) (n : Nat) (s : State) :
    Frame s (InitializeBindTraceStoreWork e a n s).state := by
  unfold InitializeBindTraceStoreWork Frame SameStores
  simp only
  split_ifs <;> simp

theorem InitializeReadonlyNonStreamingBindCompleteWork_frame (e : Env) (a : Args) (n : Nat)
    (s : State) : Frame s (InitializeReadonlyNonStreamingBindCompleteWork e a n s).state := by
  unfold InitializeReadonlyNonStreamingBindCompleteWork Frame SameStores
  simp only
  split_ifs <;> simp

theorem CreateCleanupThreadpoolMembersWork_frame (e : Env) (a : Args) (n : Nat) (s : State) :
    Frame s (CreateCleanupThreadpoolMembersWork e a n s).state := by
  unfold CreateCleanupThreadpoolMembersWork
  simp only
  split_ifs <;> exact ⟨rfl, rfl, rfl, rfl, rfl⟩

theorem InitializeWork_frame (e : Env) (a : Args) (s : State) :
    Frame s (InitializeWork e a s).state := by
  unfold InitializeWork
  exact Frame_andThen (Frame_andThen (Frame_andThen (Frame_andThen
    (InitializeBindMetadataInfoStoreWork_frame e a _ s)
    (InitializeBindRemainingMetadataStoresWork_frame e a _))
    (InitializeBindTraceStoreWork_frame e a _))
    (InitializeReadonlyNonStreamingBindCompleteWork_frame e a _))
    (CreateCleanupThreadpoolMembersWork_frame e a _)

theorem RegisterAtExit_frame (e : Env) (s : State) : Frame s (RegisterAtExit e s).state := by
  unfold RegisterAtExit
  simp only
  split_ifs <;> exact ⟨rfl, rfl, rfl, rfl, rfl⟩

theorem EnableWorkingSetTracing_frame (e : Env) (a : Args) (s : State) :
    Frame s (EnableWorkingSetTracing e a s).state := by
  unfold EnableWorkingSetTracing
  simp only
  split_ifs <;> first | exact ⟨rfl, rfl, rfl, rfl, rfl⟩ | exact ⟨rfl, rfl, rfl, by simp, rfl⟩

theorem EnablePerformanceTracing_frame (e : Env) (a : Args) (s : State) :
    Frame s (EnablePerformanceTracing e a s).state := by
  unfold EnablePerformanceTracing
  simp only
  split_ifs <;> first | exact ⟨rfl, rfl, rfl, rfl, rfl⟩ | exact ⟨rfl, rfl, rfl, by simp, rfl⟩

theorem RegisterAtExitAndTimers_frame (e : Env) (a : Args) (s : State) :
    Frame s (RegisterAtExitAndTimers e a s).state := by
  unfold RegisterAtExitAndTimers
  exact Frame_andThen (Frame_andThen (RegisterAtExit_frame e s)
    (EnableWorkingSetTracing_frame e a)) (EnablePerformanceTracing_frame e a)

theorem CreateRelocationCompleteEvents_shape (e : Env) (n : Nat) :
    ∀ (Index : Nat) (s : State),
      SameShape s (CreateRelocationCompleteEvents e n Index s).state := by
  induction n with
  | zero => intro Index s; exact SameShape_refl s
  | succ n ih =>
    intro Index s
    unfold CreateRelocationCompleteEvents
    simp only
    split_ifs
    · exact ⟨rfl, rfl, rfl, rfl, rfl⟩
    · refine SameShape_trans ?_ (ih _ _)
      exact ⟨rfl, rfl, rfl, rfl, by simp⟩

theorem PrepareStores_shape (e : Env) (a : Args) (s : State) :
    SameShape s (PrepareStores e a s).state := by
  unfold PrepareStores
  split_ifs
  · exact CreateRelocationCompleteEvents_shape e _ _ s
  · exact SameShape_of_Frame (RegisterAtExitAndTimers_frame e a s)

theorem InitializeAllocators_frame (e : Env) (a : Args) (n : Nat) :
    ∀ (StoreIndex : Nat) (s : State),
      Frame s (InitializeAllocators e a n StoreIndex s).state := by
  induction n with
  | zero => intro StoreIndex s; exact Frame_refl s
  | succ n ih =>
    intro StoreIndex s
    unfold InitializeAllocators
    simp only
    split_ifs
    · exact ⟨rfl, rfl, rfl, rfl, rfl⟩
    · exact ⟨rfl, rfl, rfl, rfl, rfl⟩
    · refine Frame_trans ?_ (ih _ _)
      exact ⟨rfl, rfl, rfl, by simp, rfl⟩

theorem PrepareContext_shape (e : Env) (a : Args) (s : State) :
    SameShape s (PrepareContext e a s).state := by
  unfold PrepareContext
  exact SameShape_andThen (SameShape_andThen (SameShape_andThen
    (SameShape_of_Frame (Validate_frame e a s))
    (fun s1 => SameShape_of_Frame (InitializeContext_frame e a s1)))
    (fun s1 => SameShape_of_Frame (InitializeWork_frame e a s1)))
    (PrepareStores_shape e a)

theorem Setup_shape (e : Env) (a : Args) (s : State) : SameShape s (Setup e a s).state := by
  unfold Setup
  exact SameShape_andThen (PrepareContext_shape e a s)
    (fun s1 => SameShape_of_Frame (InitializeAllocators_frame e a _ 0 s1))

/-! ## The allocators of the stores -/

theorem PrimaryStoreIndex_congr {ts ts' : TRACE_STORES}
    (h : ts'.ElementsPerTraceStore = ts.ElementsPerTraceStore) (k : Nat) :
    PrimaryStoreIndex ts' k = PrimaryStoreIndex ts k := by
  unfold PrimaryStoreIndex
  rw [h]

/-- After the allocator loop has fallen through, every store it visited
satisfies what each pass establishes, and every slot holds either such a store
or what it held before. -/
theorem InitializeAllocators_stores (P : TRACE_STORE → Prop)
    (hP : ∀ c r b st, P (InitializeStoreAllocators c r b st)) (e : Env) (a : Args) (E n : Nat) :
    ∀ (k : Nat) (s s' : State), s.TraceStores.ElementsPerTraceStore = E →
      InitializeAllocators e a n ((k * E) % 65536) s = Step.Continue s' →
      (∀ j, k ≤ j → j < k + n → ∀ st,
        s'.TraceStores.Stores[(j * E) % 65536]? = some st → P st) ∧
      (∀ (i : Nat) st, s'.TraceStores.Stores[i]? = some st →
        P st ∨ s.TraceStores.Stores[i]? = some st) := by
  induction n with
  | zero =>
    intro k s s' _ h
    unfold InitializeAllocators at h
    injection h with h
    subst h
    exact ⟨fun j h1 h2 => by omega, fun i st h => Or.inr h⟩
  | succ n ih =>
    intro k s s' hE h
    unfold InitializeAllocators at h
    simp only at h
    split_ifs at h with h1 h2
    have hnext : NextStoreIndex (State.create e (State.create e s (Op.CreateEvent true false)).2
        (Op.CreateEvent true false)).2.TraceStores ((k * E) % 65536) = ((k + 1) * E) % 65536 := by
      simp only [State.create_TraceStores, NextStoreIndex, hE]
      rw [Nat.add_mul, one_mul, Nat.mod_add_mod]
    rw [hnext] at h
    obtain ⟨hv, hk⟩ := ih (k + 1) _ s' (by simpa using hE) h
    simp only [State.create_TraceStores] at hk
    have hslot : ∀ (i : Nat) st, s'.TraceStores.Stores[i]? = some st →
        P st ∨ s.TraceStores.Stores[i]? = some st := by
      intro i st hst
      rcases hk i st hst with h3 | h3
      · exact Or.inl h3
      · rw [getElem?_modifyStore] at h3
        split_ifs at h3 with h4
        · left
          obtain ⟨st0, _, rfl⟩ := Option.map_eq_some'.mp h3
          exact hP _ _ _ _
        · exact Or.inr h3
    refine ⟨?_, hslot⟩
    intro j hj1 hj2 st hst
    by_cases hjk : j = k
    · subst hjk
      rcases hk _ st hst with h3 | h3
      · exact h3
      · rw [getElem?_modifyStore_self] at h3
        obtain ⟨st0, _, rfl⟩ := Option.map_eq_some'.mp h3
        exact hP _ _ _ _
    · exact hv j (by omega) (by omega) st hst

/-- When the setup has fallen through, every trace store that the array holds
satisfies what each pass of the allocator loop establishes. -/
theorem Setup_stores {e : Env} {a : Args} {m : Memory} {s' : State}
    (h : Setup e a (State.enter m) = Step.Continue s') (P : TRACE_STORE → Prop)
    (hP : ∀ c r b st, P (InitializeStoreAllocators c r b st)) (i : Nat)
    (hi : i < m.TraceStores.NumberOfTraceStores)
    (hlen : PrimaryStoreIndex m.TraceStores i < m.TraceStores.Stores.length) :
    ∃ st, s'.TraceStores.Stores[PrimaryStoreIndex m.TraceStores i]? = some st ∧ P st := by
  have hshape := Setup_shape e a (State.enter m)
  rw [h] at hshape
  obtain ⟨-, -, -, hl, -⟩ := hshape
  simp only [Step.state_Continue, State.enter] at hl
  unfold Setup at h
  obtain ⟨s4, h4, hIA⟩ := Step.andThen_eq_Continue.mp h
  have hs4 := PrepareContext_shape e a (State.enter m)
  rw [h4] at hs4
  obtain ⟨-, hN, hE, -, -⟩ := hs4
  simp only [Step.state_Continue, State.enter] at hN hE
  have hIA' : InitializeAllocators e a s4.TraceStores.NumberOfTraceStores
      ((0 * m.TraceStores.ElementsPerTraceStore) % 65536) s4 = Step.Continue s' := by
    simpa using hIA
  obtain ⟨hv, -⟩ := InitializeAllocators_stores P hP e a _ _ 0 s4 s' hE hIA'
  have hex : ∃ st, s'.TraceStores.Stores[PrimaryStoreIndex m.TraceStores i]? = some st := by
    have : PrimaryStoreIndex m.TraceStores i < s'.TraceStores.Stores.length := by
      rw [hl]; exact hlen
    exact ⟨_, List.getElem?_eq_getElem this⟩
  obtain ⟨st, hst⟩ := hex
  exact ⟨st, hst, hv i (Nat.zero_le _) (by rw [hN]; omega) st hst⟩

end Tracer

namespace Tracer

theorem InitializeStoreAllocators_IsSuspended (c r b : Nat) (st : TRACE_STORE) :
    IsSuspended (InitializeStoreAllocators c r b st) := by
  unfold InitializeStoreAllocators IsSuspended
  simp only
  split_ifs <;> exact ⟨rfl, rfl⟩

theorem InitializeStoreAllocators_StrategySelected (c r b : Nat) (st : TRACE_STORE) :
    StrategySelected (InitializeStoreAllocators c r b st) := by
  obtain ⟨_, _, _, _, _, _, _, _, _, _, _, _, ⟨pa, ca⟩⟩ := st
  cases pa <;> cases ca <;>
    simp [StrategySelected, InitializeStoreAllocators, FinalWorker, WantsPageAlignment,
      HasConcurrentAllocations]

/-- Stores whose allocators are those their traits select and that have the
same first worker and the same final worker have the same traits. -/
theorem Traits_eq_of_StrategySelected {st1 st2 : TRACE_STORE} (h1 : StrategySelected st1)
    (h2 : StrategySelected st2)
    (hI : st1.AllocateRecordsWithTimestampImpl1 = st2.AllocateRecordsWithTimestampImpl1)
    (hF : FinalWorker st1 = FinalWorker st2) : st1.Traits = st2.Traits := by
  obtain ⟨a1, -, a3, -⟩ := h1
  obtain ⟨b1, -, b3, -⟩ := h2
  rw [hF] at a1
  rw [hI] at a3
  have hp : WantsPageAlignment st1.Traits = WantsPageAlignment st2.Traits := by
    cases h : WantsPageAlignment st1.Traits <;> cases h' : WantsPageAlignment st2.Traits <;>
      simp_all
  have hc : HasConcurrentAllocations st1.Traits = HasConcurrentAllocations st2.Traits := by
    cases h : HasConcurrentAllocations st1.Traits <;>
      cases h' : HasConcurrentAllocations st2.Traits <;> simp_all
  have ext : ∀ t1 t2 : TRACE_STORE_TRAITS, t1.PageAligned = t2.PageAligned →
      t1.ConcurrentAllocations = t2.ConcurrentAllocations → t1 = t2 := by
    rintro ⟨p1, c1⟩ ⟨p2, c2⟩ hp hc
    simp only at hp hc
    rw [hp, hc]
  exact ext _ _ hp hc

theorem not_isSetup_of_isClose {op : Op} (h : op.isClose = true) : op.isSetup = false := by
  cases op <;> simp_all [Op.isClose, Op.isSetup]

theorem not_isCreate_of_not_isSetup {op : Op} (h : op.isSetup = false) : op.isCreate = false := by
  cases op <;> simp_all [Op.isCreate, Op.isSetup]

theorem not_failed_of_not_isSetup {op : Op} (h : op.isSetup = false) : op.failed = false := by
  cases op <;> simp_all [Op.failed, Op.isSetup]

/-- What the trace of a call that reached the submission is made of: the
calls of the setup, one submission per store, then calls that are neither
setup calls nor submissions. -/
theorem InitializeTraceContext_trace {e : Env} {a : Args} {m : Memory} {s' : State}
    (h : Setup e a (State.enter m) = Step.Continue s') :
    ∃ rest, (InitializeTraceContext e a m).2.Trace =
        s'.Trace ++ Submissions s'.TraceStores 0 s'.TraceStores.NumberOfTraceStores ++ rest ∧
      ∀ op ∈ rest, op.isSetup = false ∧ op.isSubmit = false := by
  rw [InitializeTraceContext_of_Setup_Continue h]
  unfold WaitForLoadingComplete
  simp only
  split_ifs with h1 h2 h3
  · exact ⟨[], by simp [Finish, Submit_Trace], by simp⟩
  · exact ⟨[Op.WaitForSingleObject s'.TraceContext.LoadingCompleteEvent e.WaitResult,
      Op.OutputDebugStringA], by simp [Finish, Submit_Trace], by simp [Op.isSubmit, Op.isSetup]⟩
  · exact ⟨[Op.WaitForSingleObject s'.TraceContext.LoadingCompleteEvent e.WaitResult],
      by simp [Finish, Submit_Trace], by simp [Op.isSubmit, Op.isSetup]⟩
  · obtain ⟨ops, hops, hclose⟩ := Error_extends
      ({ Submit s' with TraceContext := { (Submit s').TraceContext with
          FailedCount := e.FailedCount } }.log
        (Op.WaitForSingleObject (Submit s').TraceContext.LoadingCompleteEvent e.WaitResult))
    refine ⟨Op.WaitForSingleObject s'.TraceContext.LoadingCompleteEvent e.WaitResult :: ops,
      ?_, ?_⟩
    · simp only [Finish]
      rw [hops]
      simp [Submit_Trace]
    · intro op hop
      rcases List.mem_cons.mp hop with h4 | h4
      · subst h4
        exact ⟨rfl, rfl⟩
      · exact ⟨not_isSetup_of_isClose (hclose op h4), not_isSubmit_of_isClose (hclose op h4)⟩

/-- C1: in a call that reaches the submission of bind work, in the state in
which the first submission is issued (the calls made so far contain no
submission and the submissions follow them in the trace of the call), every
trace store of the array has the suspended allocator both as
`AllocateRecordsWithTimestamp` and as `SuspendedAllocateRecordsWithTimestamp`. -/
theorem C1_suspended_allocator_at_submission (e : Env) (a : Args) (m : Memory) (s' : State)
    (h : Setup e a (State.enter m) = Step.Continue s') :
    (∀ op ∈ s'.Trace, op.isSubmit = false) ∧
    (s'.Trace ++ Submissions s'.TraceStores 0 s'.TraceStores.NumberOfTraceStores <+:
      (InitializeTraceContext e a m).2.Trace) ∧
    ∀ i, i < m.TraceStores.NumberOfTraceStores →
      PrimaryStoreIndex m.TraceStores i < m.TraceStores.Stores.length →
      ∃ st, s'.TraceStores.Stores[PrimaryStoreIndex m.TraceStores i]? = some st ∧
        st.AllocateRecordsWithTimestamp =
          Routine.SuspendedTraceStoreAllocateRecordsWithTimestamp ∧
        st.SuspendedAllocateRecordsWithTimestamp =
          Routine.SuspendedTraceStoreAllocateRecordsWithTimestamp := by
  refine ⟨?_, ?_, ?_⟩
  · have hs := Setup_trace_isSetup e a m
    rw [h] at hs
    exact fun op hop => not_isSubmit_of_isSetup (hs op hop)
  · obtain ⟨rest, hrest, -⟩ := InitializeTraceContext_trace h
    exact ⟨rest, hrest.symm⟩
  · intro i hi hlen
    exact Setup_stores h IsSuspended InitializeStoreAllocators_IsSuspended i hi hlen

theorem C1_suspended_allocator_at_submission_witness :
    ∃ st, (Setup sampleEnv (sampleArgs false)
        (State.enter (sampleMemory false))).state.TraceStores.Stores[
          PrimaryStoreIndex (sampleMemory false).TraceStores 1]? = some st ∧
      st.AllocateRecordsWithTimestamp =
        Routine.SuspendedTraceStoreAllocateRecordsWithTimestamp ∧
      st.SuspendedAllocateRecordsWithTimestamp =
        Routine.SuspendedTraceStoreAllocateRecordsWithTimestamp :=
  (C1_suspended_allocator_at_submission sampleEnv (sampleArgs false) (sampleMemory false)
    (Setup sampleEnv (sampleArgs false) (State.enter (sampleMemory false))).state rfl).2.2 1
    (by decide) (by decide)

end Tracer

namespace Tracer

/-! ## Setup goes through when nothing fails -/

theorem isContinue_andThen {x : Step} {f : State → Step} (hx : x.isContinue = true)
    (hf : ∀ s1, (f s1).isContinue = true) : (x.andThen f).isContinue = true := by
  cases x with
  | Continue s1 => exact hf s1
  | Return b s1 => cases hx
  | GotoError s1 => cases hx

theorem exists_of_isContinue {x : Step} (h : x.isContinue = true) : ∃ s', x = Step.Continue s' := by
  cases x with
  | Continue s1 => exact ⟨s1, rfl⟩
  | Return b s1 => cases h
  | GotoError s1 => cases h

theorem InitializeContext_isContinue {e : Env} (he : e.AllSucceed) (a : Args) (s : State) :
    (InitializeContext e a s).isContinue = true := by
  obtain ⟨h1, h2, h3, -, -⟩ := he
  unfold InitializeContext
  simp [h1, h2, h3]

theorem INIT_WORK_succeeds {e : Env} (he : e.AllSucceed) (cb : Routine) (pool n : Nat)
    (w : TRACE_STORE_WORK) (s : State) : (INIT_WORK e cb pool n w s).1 = true := by
  obtain ⟨-, h2, -, -, -⟩ := he
  unfold INIT_WORK
  simp [h2]

theorem InitializeWork_isContinue {e : Env} (he : e.AllSucceed) (a : Args) (s : State) :
    (InitializeWork e a s).isContinue = true := by
  unfold InitializeWork
  refine isContinue_andThen (isContinue_andThen (isContinue_andThen (isContinue_andThen ?_ ?_)
    ?_) ?_) ?_
  · unfold InitializeBindMetadataInfoStoreWork
    simp [INIT_WORK_succeeds he]
  · intro s1
    unfold InitializeBindRemainingMetadataStoresWork
    simp [INIT_WORK_succeeds he]
  · intro s1
    unfold InitializeBindTraceStoreWork
    simp [INIT_WORK_succeeds he]
  · intro s1
    unfold InitializeReadonlyNonStreamingBindCompleteWork
    simp [INIT_WORK_succeeds he]
  · intro s1
    unfold CreateCleanupThreadpoolMembersWork
    simp [he.2.1]

theorem CreateRelocationCompleteEvents_isContinue {e : Env} (he : e.AllSucceed) (n : Nat) :
    ∀ (Index : Nat) (s : State),
      (CreateRelocationCompleteEvents e n Index s).isContinue = true := by
  induction n with
  | zero => intro Index s; rfl
  | succ n ih =>
    intro Index s
    unfold CreateRelocationCompleteEvents
    simp [he.2.1, ih]

theorem RegisterAtExitAndTimers_isContinue {e : Env} (he : e.AllSucceed) (a : Args)
    (s : State) : (RegisterAtExitAndTimers e a s).isContinue = true := by
  obtain ⟨-, h2, -, h4, h5⟩ := he
  unfold RegisterAtExitAndTimers
  refine isContinue_andThen (isContinue_andThen ?_ ?_) ?_
  · unfold RegisterAtExit
    simp [h4]
  · intro s1
    unfold EnableWorkingSetTracing
    simp only
    split_ifs <;> simp_all
  · intro s1
    unfold EnablePerformanceTracing
    simp only
    split_ifs <;> simp_all

theorem PrepareStores_isContinue {e : Env} (he : e.AllSucceed) (a : Args) (s : State) :
    (PrepareStores e a s).isContinue = true := by
  unfold PrepareStores
  split_ifs
  · exact CreateRelocationCompleteEvents_isContinue he _ _ s
  · exact RegisterAtExitAndTimers_isContinue he a s

theorem InitializeAllocators_isContinue {e : Env} (he : e.AllSucceed) (a : Args) (n : Nat) :
    ∀ (StoreIndex : Nat) (s : State),
      (InitializeAllocators e a n StoreIndex s).isContinue = true := by
  induction n with
  | zero => intro StoreIndex s; rfl
  | succ n ih =>
    intro StoreIndex s
    unfold InitializeAllocators
    simp [he.2.1, ih]

/-- When every validation check has passed and no creation step fails, the
setup falls through to the submission. -/
theorem Setup_isContinue {e : Env} (he : e.AllSucceed) {a : Args} {s s1 : State}
    (hv : Validate e a s = Step.Continue s1) : (Setup e a s).isContinue = true := by
  unfold Setup PrepareContext
  rw [hv]
  simp only [Step.andThen_Continue]
  exact isContinue_andThen (isContinue_andThen (isContinue_andThen
    (InitializeContext_isContinue he a s1) (InitializeWork_isContinue he a))
    (PrepareStores_isContinue he a)) (fun s2 => InitializeAllocators_isContinue he a _ 0 s2)

/-- A setup that fell through passed the validation. -/
theorem Validate_of_Setup_Continue {e : Env} {a : Args} {s s' : State}
    (h : Setup e a s = Step.Continue s') : ∃ s1, Validate e a s = Step.Continue s1 := by
  unfold Setup PrepareContext at h
  obtain ⟨s4, h, -⟩ := Step.andThen_eq_Continue.mp h
  obtain ⟨s3, h, -⟩ := Step.andThen_eq_Continue.mp h
  obtain ⟨s2, h, -⟩ := Step.andThen_eq_Continue.mp h
  obtain ⟨s1, h, -⟩ := Step.andThen_eq_Continue.mp h
  exact ⟨s1, h⟩

/-- The trace of a call whose setup did not fall through holds no submission. -/
theorem no_submission_of_not_Continue {e : Env} {a : Args} {m : Memory}
    (h : (Setup e a (State.enter m)).isContinue = false) :
    ∀ op ∈ (InitializeTraceContext e a m).2.Trace, op.isSubmit = false := by
  have hs := Setup_trace_isSetup e a m
  cases hc : Setup e a (State.enter m) with
  | Continue s1 => rw [hc] at h; cases h
  | Return b s1 =>
    rw [hc] at hs
    rw [InitializeTraceContext_of_Setup_Return hc]
    exact fun op hop => not_isSubmit_of_isSetup (hs op hop)
  | GotoError s1 =>
    rw [hc] at hs
    rw [InitializeTraceContext_of_Setup_GotoError hc]
    obtain ⟨ops, hops, hclose⟩ := Error_extends s1
    intro op hop
    rw [hops] at hop
    rcases List.mem_append.mp hop with h1 | h1
    · exact not_isSubmit_of_isSetup (hs op h1)
    · exact not_isSubmit_of_isClose (hclose op h1)

theorem not_failed_of_isSubmit {op : Op} (h : op.isSubmit = true) : op.failed = false := by
  cases op <;> simp_all [Op.isSubmit, Op.failed]

theorem not_failed_of_not_isCreate {op : Op} (h : op.isCreate = false)
    (h' : op.isSetup = false) : op.failed = false := by
  cases op <;> simp_all [Op.isCreate, Op.failed, Op.isSetup]

theorem PrimaryStoreIndex_eq {ts : TRACE_STORES} {i : Nat}
    (hi : i < ts.NumberOfTraceStores)
    (hfit : ts.NumberOfTraceStores * ts.ElementsPerTraceStore ≤ 65536)
    (hE : 0 < ts.ElementsPerTraceStore) :
    PrimaryStoreIndex ts i = i * ts.ElementsPerTraceStore := by
  unfold PrimaryStoreIndex
  apply Nat.mod_eq_of_lt
  have : (i + 1) * ts.ElementsPerTraceStore ≤ ts.NumberOfTraceStores * ts.ElementsPerTraceStore :=
    Nat.mul_le_mul_right _ hi
  rw [Nat.add_mul, one_mul] at this
  omega

end Tracer

namespace Tracer

theorem Submissions_congr {ts ts' : TRACE_STORES}
    (hE : ts'.ElementsPerTraceStore = ts.ElementsPerTraceStore) (k n : Nat) :
    Submissions ts' k n = Submissions ts k n := by
  unfold Submissions PrimaryStoreIndex
  rw [hE]

theorem Submissions_eq_map {ts : TRACE_STORES} (hE : 0 < ts.ElementsPerTraceStore)
    (hfit : ts.NumberOfTraceStores * ts.ElementsPerTraceStore ≤ 65536) :
    Submissions ts 0 ts.NumberOfTraceStores =
      (List.range ts.NumberOfTraceStores).map fun i =>
        Op.SubmitBindMetadataInfoWork (i * ts.ElementsPerTraceStore) := by
  unfold Submissions
  apply List.map_congr_left
  intro i hi
  rw [Nat.zero_add, PrimaryStoreIndex_eq (List.mem_range.mp hi) hfit hE]

end Tracer

namespace Tracer

/-! ## Readonly and read-write contexts -/

theorem ValidateSize_Continue {e : Env} {a : Args} {s s' : State}
    (h : ValidateSize e a s = Step.Continue s') : s' = s := by
  unfold ValidateSize at h
  split_ifs at h
  injection h with h
  exact h.symm

theorem ValidateArguments_Continue {a : Args} {s s' : State}
    (h : ValidateArguments a s = Step.Continue s') :
    s'.ContextFlags.Readonly = a.Readonly ∧
    s'.ContextFlags.IgnorePreferredAddresses = a.IgnorePreferredAddresses ∧
    s'.TraceContext = s.TraceContext ∧ s'.TraceStores = s.TraceStores ∧
    s'.SizeOfTraceContext = s.SizeOfTraceContext ∧ s'.Trace = s.Trace := by
  unfold ValidateArguments at h
  unfold Args.Readonly Args.IgnorePreferredAddresses
  split_ifs at h
  cases hf : a.TraceContextFlags with
  | none =>
    rw [hf] at h
    injection h with h
    subst h
    exact ⟨rfl, rfl, rfl, rfl, rfl, rfl⟩
  | some f =>
    rw [hf] at h
    injection h with h
    subst h
    exact ⟨rfl, rfl, rfl, rfl, rfl, rfl⟩

theorem ValidateMode_IsReadonly {e : Env} {a : Args} {s s' : State}
    (h : ValidateMode e a s = Step.Continue s') :
    s'.IsReadonly = s.ContextFlags.Readonly ∧ s'.ContextFlags = s.ContextFlags := by
  unfold ValidateMode at h
  simp only at h
  cases hw : WalkIgnoreBitmap e s.TraceContext.IgnorePreferredAddressesBitmap.SizeOfBitMap
      s.TraceContext.BitmapBuffer TraceStoreInvalidId 0 0 0 s.TraceStores <;>
    rw [hw] at h <;> simp only at h <;> split_ifs at h <;> injection h with h <;> subst h <;>
    simp_all

/-- A validation that passes leaves the mode of the caller's flags in
`IsReadonly`. -/
theorem Validate_IsReadonly {e : Env} {a : Args} {s s' : State}
    (h : Validate e a s = Step.Continue s') : s'.IsReadonly = a.Readonly := by
  unfold Validate at h
  obtain ⟨s2, h, h3⟩ := Step.andThen_eq_Continue.mp h
  obtain ⟨s1, h1, h2⟩ := Step.andThen_eq_Continue.mp h
  rw [(ValidateMode_IsReadonly h3).1, (ValidateArguments_Continue h2).1]

theorem InitializeContext_IsReadonly (e : Env) (a : Args) (s : State) :
    (InitializeContext e a s).state.IsReadonly = s.IsReadonly := by
  unfold InitializeContext
  simp only
  split_ifs <;> rfl

theorem INIT_WORK_IsReadonly (e : Env) (cb : Routine) (pool n : Nat) (w : TRACE_STORE_WORK)
    (s : State) : (INIT_WORK e cb pool n w s).2.2.IsReadonly = s.IsReadonly := by
  unfold INIT_WORK
  simp only
  split_ifs <;> rfl

theorem InitializeWork_IsReadonly (e : Env) (a : Args) (s : State) :
    (InitializeWork e a s).state.IsReadonly = s.IsReadonly := by
  unfold InitializeWork
  refine andThen_rel (R := fun s s' => s'.IsReadonly = s.IsReadonly)
    (fun _ _ _ h1 h2 => h2.trans h1) ?_ ?_
  refine andThen_rel (R := fun s s' => s'.IsReadonly = s.IsReadonly)
    (fun _ _ _ h1 h2 => h2.trans h1) ?_ ?_
  refine andThen_rel (R := fun s s' => s'.IsReadonly = s.IsReadonly)
    (fun _ _ _ h1 h2 => h2.trans h1) ?_ ?_
  refine andThen_rel (R := fun s s' => s'.IsReadonly = s.IsReadonly)
    (fun _ _ _ h1 h2 => h2.trans h1) ?_ ?_
  · unfold InitializeBindMetadataInfoStoreWork
    simp only
    split_ifs <;> exact INIT_WORK_IsReadonly _ _ _ _ _ _
  · intro s1
    unfold InitializeBindRemainingMetadataStoresWork
    simp only
    split_ifs <;> exact INIT_WORK_IsReadonly _ _ _ _ _ _
  · intro s1
    unfold InitializeBindTraceStoreWork
    simp only
    split_ifs <;> exact INIT_WORK_IsReadonly _ _ _ _ _ _
  · intro s1
    unfold InitializeReadonlyNonStreamingBindCompleteWork
    simp only
    split_ifs <;> exact INIT_WORK_IsReadonly _ _ _ _ _ _
  · intro s1
    unfold CreateCleanupThreadpoolMembersWork
    simp only
    split_ifs <;> rfl

/-- The state in which the stores are prepared, when the call gets there, has
the mode of the caller's flags and the shape of the caller's stores. -/
theorem before_PrepareStores {e : Env} {a : Args} {s s3 : State}
    (h : ((Validate e a s).andThen (InitializeContext e a)).andThen (InitializeWork e a) =
      Step.Continue s3) :
    s3.IsReadonly = a.Readonly ∧ Frame s s3 := by
  obtain ⟨s2, h, h3⟩ := Step.andThen_eq_Continue.mp h
  obtain ⟨s1, h1, h2⟩ := Step.andThen_eq_Continue.mp h
  have r1 := Validate_IsReadonly h1
  have r2 := InitializeContext_IsReadonly e a s1
  have r3 := InitializeWork_IsReadonly e a s2
  have f1 := Validate_frame e a s
  have f2 := InitializeContext_frame e a s1
  have f3 := InitializeWork_frame e a s2
  rw [h1] at f1
  rw [h2] at r2 f2
  rw [h3] at r3 f3
  simp only [Step.state_Continue] at r2 r3 f1 f2 f3
  exact ⟨by rw [r3, r2, r1], Frame_trans (Frame_trans f1 f2) f3⟩

/-- In a read-write call the setup leaves the collection of stores as it was
but for the contents of the trace stores. -/
theorem Setup_frame_of_read_write {e : Env} {a : Args} (hrw : a.Readonly = false) (s : State) :
    Frame s (Setup e a s).state := by
  unfold Setup PrepareContext
  refine Frame_andThen ?_ (fun s1 => InitializeAllocators_frame e a _ 0 s1)
  cases hc : ((Validate e a s).andThen (InitializeContext e a)).andThen (InitializeWork e a) with
  | Continue s3 =>
    obtain ⟨hro, hf⟩ := before_PrepareStores hc
    simp only [Step.andThen_Continue]
    unfold PrepareStores
    rw [hro, hrw]
    simp only [Bool.false_eq_true, if_false]
    exact Frame_trans hf (RegisterAtExitAndTimers_frame e a s3)
  | Return b s3 =>
    have hf := Frame_andThen (Frame_andThen (Validate_frame e a s)
      (InitializeContext_frame e a)) (InitializeWork_frame e a)
    rw [hc] at hf
    exact hf
  | GotoError s3 =>
    have hf := Frame_andThen (Frame_andThen (Validate_frame e a s)
      (InitializeContext_frame e a)) (InitializeWork_frame e a)
    rw [hc] at hf
    exact hf

/-- The collection of stores a call ends with is the one its setup ends
with. -/
theorem InitializeTraceContext_TraceStores (e : Env) (a : Args) (m : Memory) :
    (InitializeTraceContext e a m).2.TraceStores =
      (Setup e a (State.enter m)).state.TraceStores := by
  cases hc : Setup e a (State.enter m) with
  | Continue s' =>
    rw [InitializeTraceContext_of_Setup_Continue hc]
    unfold WaitForLoadingComplete
    simp only
    split_ifs <;> simp [Finish]
  | Return b s' => rw [InitializeTraceContext_of_Setup_Return hc]; rfl
  | GotoError s' => rw [InitializeTraceContext_of_Setup_GotoError hc]; rfl

theorem CreateRelocationCompleteEvents_mem {e : Env} {n k : Nat} {s s' : State}
    (h : CreateRelocationCompleteEvents e n k s = Step.Continue s') {op : Op}
    (hop : op ∈ s.Trace) : op ∈ s'.Trace := by
  have hext := From_extends (CreateRelocationCompleteEvents_from e n k s)
  rw [h] at hext
  exact Extends_mem hext hop

/-- The loop over the relocation complete events, once it has fallen through,
has stored a freshly created manual-reset, unsignaled event in every slot it
visited and left the earlier slots alone. -/
theorem CreateRelocationCompleteEvents_events (e : Env) (n : Nat) :
    ∀ (k : Nat) (s s' : State), CreateRelocationCompleteEvents e n k s = Step.Continue s' →
      (∀ j, k ≤ j → j < k + n → j < s.TraceStores.RelocationCompleteEvents.length →
        ∃ h, h ≠ 0 ∧ s'.TraceStores.RelocationCompleteEvents[j]? = some h ∧
          Op.CreateEvent true false h ∈ s'.Trace) ∧
      (∀ j, j < k → s'.TraceStores.RelocationCompleteEvents[j]? =
        s.TraceStores.RelocationCompleteEvents[j]?) := by
  induction n with
  | zero =>
    intro k s s' h
    unfold CreateRelocationCompleteEvents at h
    injection h with h
    subst h
    exact ⟨fun j h1 h2 => by omega, fun j _ => rfl⟩
  | succ n ih =>
    intro k s s' h
    unfold CreateRelocationCompleteEvents at h
    simp only at h
    split_ifs at h with h1
    obtain ⟨hv, hk⟩ := ih (k + 1) _ s' h
    simp only [State.create_TraceStores, List.length_set] at hv hk
    refine ⟨?_, ?_⟩
    · intro j hj1 hj2 hlen
      by_cases hjk : j = k
      · subst hjk
        refine ⟨e.Create s.Calls, by simpa using h1, ?_, ?_⟩
        · rw [hk j (by omega)]
          simp [List.getElem?_set_self hlen]
        · exact CreateRelocationCompleteEvents_mem h (by simp)
      · exact hv j (by omega) (by omega) hlen
    · intro j hj
      rw [hk j (by omega)]
      simp [List.getElem?_set_ne (by omega : k ≠ j)]

end Tracer

namespace Tracer

/-- C5: in readonly mode, in the state in which the first bind work item is
submitted (no submission has been made yet), the slot of every trace store in
`RelocationCompleteEvents` holds a handle that this call got from a
`CreateEvent` for a manual-reset, initially unsignaled event; in read-write
mode the call leaves `RelocationCompleteEvents` as it was. -/
theorem C5_relocation_complete_events (e : Env) (a : Args) (m : Memory) :
    (a.Readonly = true → ∀ s', Setup e a (State.enter m) = Step.Continue s' →
      (∀ op ∈ s'.Trace, op.isSubmit = false) ∧
      ∀ i, i < m.TraceStores.NumberOfTraceStores →
        i < m.TraceStores.RelocationCompleteEvents.length →
        ∃ h, h ≠ 0 ∧ s'.TraceStores.RelocationCompleteEvents[i]? = some h ∧
          Op.CreateEvent true false h ∈ s'.Trace) ∧
    (a.Readonly = false →
      (InitializeTraceContext e a m).2.TraceStores.RelocationCompleteEvents =
        m.TraceStores.RelocationCompleteEvents) := by
  refine ⟨?_, ?_⟩
  · intro hro s' hs'
    refine ⟨?_, ?_⟩
    · have hs := Setup_trace_isSetup e a m
      rw [hs'] at hs
      exact fun op hop => not_isSubmit_of_isSetup (hs op hop)
    · intro i hi hlen
      unfold Setup PrepareContext at hs'
      obtain ⟨s4, h4, hIA⟩ := Step.andThen_eq_Continue.mp hs'
      obtain ⟨s3, h3, hPS⟩ := Step.andThen_eq_Continue.mp h4
      obtain ⟨hmode, hframe⟩ := before_PrepareStores h3
      obtain ⟨-, hN, -, -, hR⟩ := hframe
      simp only [State.enter] at hN hR
      unfold PrepareStores at hPS
      rw [hmode, hro] at hPS
      simp only [if_true] at hPS
      obtain ⟨hv, -⟩ := CreateRelocationCompleteEvents_events e _ 0 s3 s4 hPS
      obtain ⟨h, h0, hget, hmem⟩ := hv i (Nat.zero_le _) (by rw [hN]; omega) (by rw [hR]; exact hlen)
      have hf := InitializeAllocators_frame e a s4.TraceStores.NumberOfTraceStores 0 s4
      have hx := From_extends (InitializeAllocators_from e a s4.TraceStores.NumberOfTraceStores 0 s4)
      rw [hIA] at hf hx
      obtain ⟨-, -, -, -, hR'⟩ := hf
      simp only [Step.state_Continue] at hR' hx
      exact ⟨h, h0, by rw [hR']; exact hget, Extends_mem hx hmem⟩
  · intro hrw
    rw [InitializeTraceContext_TraceStores]
    exact (Setup_frame_of_read_write hrw (State.enter m)).2.2.2.2

theorem C5_relocation_complete_events_witness :
    (∃ h, h ≠ 0 ∧
      (Setup sampleEnv (sampleReadonlyArgs false)
        (State.enter (sampleMemory true))).state.TraceStores.RelocationCompleteEvents[1]? =
          some h ∧
      Op.CreateEvent true false h ∈
        (Setup sampleEnv (sampleReadonlyArgs false) (State.enter (sampleMemory true))).state.Trace) ∧
    (InitializeTraceContext sampleEnv (sampleArgs false)
        (sampleMemory false)).2.TraceStores.RelocationCompleteEvents =
      (sampleMemory false).TraceStores.RelocationCompleteEvents :=
  ⟨((C5_relocation_complete_events sampleEnv (sampleReadonlyArgs false) (sampleMemory true)).1
      rfl (Setup sampleEnv (sampleReadonlyArgs false) (State.enter (sampleMemory true))).state
      rfl).2 1 (by decide) (by decide),
    (C5_relocation_complete_events sampleEnv (sampleArgs false) (sampleMemory false)).2 rfl⟩

end Tracer

namespace Tracer

/-! ## The walk over the ignore bitmap -/

/-- What `RtlFindSetBits` returns for one bit: `BITS_NOT_FOUND`, or the index
of a set bit of the bitmap. -/
theorem RtlFindSetBits_spec (size buf n hint : Nat) :
    RtlFindSetBits size buf n hint = BITS_NOT_FOUND ∨
      (RtlFindSetBits size buf n hint < size ∧
        buf.testBit (RtlFindSetBits size buf n hint) = true) := by
  unfold RtlFindSetBits
  simp only
  split
  next i hi =>
    right
    have h1 := List.find?_some hi
    have h2 := List.mem_of_find?_eq_some hi
    simp only [Bool.and_eq_true, decide_eq_true_eq] at h1
    exact ⟨List.mem_range.mp h2, h1.2⟩
  next =>
    split
    next i hi =>
      right
      exact ⟨List.mem_range.mp (List.mem_of_find?_eq_some hi), List.find?_some hi⟩
    next => left; rfl

/-- When some bit of the bitmap is set, `RtlFindSetBits` finds a bit. -/
theorem RtlFindSetBits_found {size buf : Nat} (n hint : Nat)
    (h : ∃ i, i < size ∧ buf.testBit i = true) (hsize : size ≤ BITS_NOT_FOUND) :
    RtlFindSetBits size buf n hint < size ∧
      buf.testBit (RtlFindSetBits size buf n hint) = true := by
  rcases RtlFindSetBits_spec size buf n hint with h1 | h1
  · exfalso
    obtain ⟨i, hi, hbit⟩ := h
    unfold RtlFindSetBits at h1
    simp only at h1
    split at h1
    next j hj =>
      have := List.mem_range.mp (List.mem_of_find?_eq_some hj)
      omega
    next =>
      split at h1
      next j hj =>
        have := List.mem_range.mp (List.mem_of_find?_eq_some hj)
        omega
      next hnone =>
        rw [List.find?_eq_none] at hnone
        exact hnone i (List.mem_range.mpr hi) hbit
  · exact h1

/-- A walk never reports fewer set bits than it started with. -/
theorem WalkIgnoreBitmap_count (e : Env) (size buf : Nat) (fuel : Nat) :
    ∀ (hint prev n : Nat) (ts : TRACE_STORES) (n' : Nat) (ts' : TRACE_STORES),
      WalkIgnoreBitmap e size buf fuel hint prev n ts = WalkResult.Wrapped n' ts' → n ≤ n' := by
  induction fuel with
  | zero => intro hint prev n ts n' ts' h; simp [WalkIgnoreBitmap] at h
  | succ fuel ih =>
    intro hint prev n ts n' ts' h
    unfold WalkIgnoreBitmap at h
    simp only at h
    split_ifs at h
    · injection h with h1 h2
      omega
    · have := ih _ _ _ _ _ _ h
      omega

/-- With a set bit in a bitmap of at most `TraceStoreInvalidId` bits, a walk
that uses `RtlFindSetBits` never fails. -/
theorem WalkIgnoreBitmap_not_Failed {e : Env} (hfind : e.RtlFindSetBits = RtlFindSetBits)
    {size buf : Nat} (hsize : size ≤ TraceStoreInvalidId)
    (hbit : ∃ i, i < size ∧ buf.testBit i = true) (fuel : Nat) :
    ∀ (hint prev n : Nat) (ts ts' : TRACE_STORES),
      WalkIgnoreBitmap e size buf fuel hint prev n ts ≠ WalkResult.Failed ts' := by
  induction fuel with
  | zero => intro hint prev n ts ts' h; simp [WalkIgnoreBitmap] at h
  | succ fuel ih =>
    intro hint prev n ts ts' h
    unfold WalkIgnoreBitmap at h
    simp only at h
    have hf := RtlFindSetBits_found 1 hint hbit
      (by unfold TraceStoreInvalidId at hsize; unfold BITS_NOT_FOUND; omega)
    rw [hfind] at h
    split_ifs at h with h1 h2
    · rcases h1 with h1 | h1
      · unfold BITS_NOT_FOUND at h1
        unfold TraceStoreInvalidId at hsize
        omega
      · omega
    · exact ih _ _ _ _ _ h

/-- A walk from the start that uses `RtlFindSetBits` on a bitmap of at most
`TraceStoreInvalidId` bits has not touched the stores when it fails or when it
ends without having seen a bit. -/
theorem WalkIgnoreBitmap_unchanged {e : Env} (hfind : e.RtlFindSetBits = RtlFindSetBits)
    (size buf : Nat) (hsize : size ≤ TraceStoreInvalidId) (fuel : Nat) (ts ts' : TRACE_STORES) :
    (WalkIgnoreBitmap e size buf fuel 0 0 0 ts = WalkResult.Failed ts' → ts' = ts) ∧
    (WalkIgnoreBitmap e size buf fuel 0 0 0 ts = WalkResult.Wrapped 0 ts' → ts' = ts) := by
  cases fuel with
  | zero => constructor <;> intro h <;> simp [WalkIgnoreBitmap] at h
  | succ fuel =>
    unfold WalkIgnoreBitmap
    simp only
    rw [hfind]
    split_ifs with h1 h2
    · constructor
      · intro h; injection h with h; exact h.symm
      · intro h; cases h
    · constructor
      · intro h; cases h
      · intro h; injection h with _ h; exact h.symm
    · have hbit : ∃ i, i < size ∧ buf.testBit i = true := by
        rcases RtlFindSetBits_spec size buf 1 0 with h3 | h3
        · exact absurd (Or.inl h3) h1
        · exact ⟨_, h3⟩
      constructor
      · intro h
        exact absurd h (WalkIgnoreBitmap_not_Failed hfind hsize hbit fuel _ _ _ _ _)
      · intro h
        have := WalkIgnoreBitmap_count e size buf fuel _ _ _ _ _ _ h
        omega

/-- The bound on the iterations of the walk is never reached: from a previous
index below `TraceStoreInvalidId`, that many iterations less the previous index
are enough. -/
theorem WalkIgnoreBitmap_ne_OutOfFuel (e : Env) (size buf : Nat) (fuel : Nat) :
    ∀ (hint prev n : Nat) (ts : TRACE_STORES), prev < TraceStoreInvalidId →
      TraceStoreInvalidId ≤ prev + fuel →
      WalkIgnoreBitmap e size buf fuel hint prev n ts ≠ WalkResult.OutOfFuel := by
  induction fuel with
  | zero => intro hint prev n ts h1 h2; omega
  | succ fuel ih =>
    intro hint prev n ts h1 h2 h
    unfold WalkIgnoreBitmap at h
    simp only at h
    split_ifs at h with h3 h4
    refine ih _ _ _ _ ?_ ?_ h
    · omega
    · omega

end Tracer

namespace Tracer

/-! ## A validation that fails -/

theorem ValidateSize_Return {e : Env} {a : Args} {s : State} {b : Bool} {s' : State}
    (h : ValidateSize e a s = Step.Return b s') :
    b = false ∧ s'.TraceContext = s.TraceContext ∧ s'.TraceStores = s.TraceStores ∧
      s'.Trace = s.Trace := by
  unfold ValidateSize at h
  split_ifs at h <;> injection h with h1 h2 <;> subst h1 <;> subst h2 <;>
    exact ⟨rfl, rfl, rfl, rfl⟩

theorem ValidateArguments_Return {a : Args} {s : State} {b : Bool} {s' : State}
    (h : ValidateArguments a s = Step.Return b s') :
    b = false ∧ s'.TraceContext = s.TraceContext ∧ s'.TraceStores = s.TraceStores ∧
      s'.Trace = s.Trace := by
  unfold ValidateArguments at h
  cases hf : a.TraceContextFlags <;> rw [hf] at h <;> simp only at h <;> split_ifs at h <;>
    injection h with h1 h2 <;> subst h1 <;> subst h2 <;> exact ⟨rfl, rfl, rfl, rfl⟩

theorem ValidateMode_Return {e : Env} (hfind : e.RtlFindSetBits = RtlFindSetBits) {a : Args}
    {s : State} {b : Bool} {s' : State} (h : ValidateMode e a s = Step.Return b s') :
    b = false ∧ s'.TraceStores = s.TraceStores ∧
    (∀ op ∈ s'.Trace, op ∈ s.Trace ∨ op = Op.DebugBreak) ∧
    (s'.TraceContext = s.TraceContext ∨
      (s.ContextFlags.Readonly = true ∧ s.ContextFlags.IgnorePreferredAddresses = true ∧
        s.TraceContext.IgnorePreferredAddressesBitmap.SizeOfBitMap = MAX_TRACE_STORE_IDS ∧
        s.TraceContext.IgnorePreferredAddressesBitmap.Buffer = BitmapBufferPointer.NULL ∧
        s'.TraceContext = WithBitmapBuffer s.TraceContext)) := by
  unfold ValidateMode at h
  simp only at h
  have hw := WalkIgnoreBitmap_unchanged hfind
    s.TraceContext.IgnorePreferredAddressesBitmap.SizeOfBitMap s.TraceContext.BitmapBuffer
  cases hc : WalkIgnoreBitmap e s.TraceContext.IgnorePreferredAddressesBitmap.SizeOfBitMap
      s.TraceContext.BitmapBuffer TraceStoreInvalidId 0 0 0 s.TraceStores with
  | OutOfFuel =>
    rw [hc] at h
    simp only at h
    split_ifs at h with h1 h2 h3 h4 h5 <;> injection h with hb hs <;> subst hb <;> subst hs <;>
      first
        | exact ⟨rfl, rfl, fun op hop => Or.inl hop, Or.inl rfl⟩
        | exact ⟨rfl, rfl, fun op hop => Or.inl hop,
            Or.inr ⟨h1, h3, not_not.mp h4, not_not.mp h5, rfl⟩⟩
  | Failed ts =>
    rw [hc] at h
    simp only at h
    split_ifs at h with h1 h2 h3 h4 h5 <;> injection h with hb hs <;> subst hb <;> subst hs <;>
      first
        | exact ⟨rfl, rfl, fun op hop => Or.inl hop, Or.inl rfl⟩
        | exact ⟨rfl, (hw (by rw [not_not.mp h4]; decide) _ _ _).1 hc,
            fun op hop => Or.inl hop, Or.inr ⟨h1, h3, not_not.mp h4, not_not.mp h5, rfl⟩⟩
  | Wrapped n ts =>
    rw [hc] at h
    simp only at h
    split_ifs at h with h1 h2 h3 h4 h5 h6 <;> injection h with hb hs <;> subst hb <;>
      subst hs <;>
      first
        | exact ⟨rfl, rfl, fun op hop => Or.inl hop, Or.inl rfl⟩
        | (subst h6
           refine ⟨rfl, (hw (by rw [not_not.mp h4]; decide) _ _ _).2 hc, ?_,
             Or.inr ⟨h1, h3, not_not.mp h4, not_not.mp h5, rfl⟩⟩
           intro op hop
           simp only [State.log_Trace, List.mem_append, List.mem_singleton] at hop
           exact hop)

end Tracer

namespace Tracer

/-- A validation that returns has made no call but, at most, the debug break,
has left the stores alone, and has left the context alone but for the buffer
of an accepted ignore-bitmap descriptor. -/
theorem Validate_Return {e : Env} (hfind : e.RtlFindSetBits = RtlFindSetBits) {a : Args}
    {m : Memory} {b : Bool} {s' : State}
    (h : Validate e a (State.enter m) = Step.Return b s') :
    b = false ∧ s'.TraceStores = m.TraceStores ∧ (∀ op ∈ s'.Trace, op = Op.DebugBreak) ∧
    (s'.TraceContext = m.TraceContext ∨
      (DescriptorAccepted a m.TraceContext ∧
        s'.TraceContext = WithBitmapBuffer m.TraceContext)) := by
  unfold Validate at h
  rcases Step.andThen_eq_Return.mp h with h3 | ⟨s2, h12, h3⟩
  · rcases Step.andThen_eq_Return.mp h3 with h1 | ⟨s1, h1, h2⟩
    · obtain ⟨hb, hc, hs, ht⟩ := ValidateSize_Return h1
      exact ⟨hb, hs, by rw [ht]; simp [State.enter], Or.inl hc⟩
    · have := ValidateSize_Continue h1
      subst this
      obtain ⟨hb, hc, hs, ht⟩ := ValidateArguments_Return h2
      exact ⟨hb, hs, by rw [ht]; simp [State.enter], Or.inl hc⟩
  · obtain ⟨s1, h1, h2⟩ := Step.andThen_eq_Continue.mp h12
    have := ValidateSize_Continue h1
    subst this
    obtain ⟨f1, f2, f3, f4, -, f6⟩ := ValidateArguments_Continue h2
    obtain ⟨hb, hs, ht, hc⟩ := ValidateMode_Return hfind h3
    rw [f3, f4] at *
    refine ⟨hb, hs, ?_, ?_⟩
    · intro op hop
      rcases ht op hop with h4 | h4
      · rw [f6] at h4
        simp [State.enter] at h4
      · exact h4
    · rcases hc with hc | ⟨c1, c2, c3, c4, c5⟩
      · exact Or.inl hc
      · exact Or.inr ⟨⟨by rw [← f1]; exact c1, by rw [← f2]; exact c2, c3, c4⟩, c5⟩

/-- C6, as the claim states it, fails: a readonly call with
`IgnorePreferredAddresses` set and an ignore bitmap of the required size, with
no buffer and no bit set, is rejected by the validation and returns FALSE
without any call made and with the stores as passed, but the context is not as
the caller passed it: the buffer of its ignore-bitmap descriptor is no longer
`NULL`. -/
theorem C6_descriptor_buffer_set_on_failure :
    Validate sampleEnv (sampleReadonlyArgs true) (State.enter emptyBitmapMemory) =
      Step.Return false
        (Validate sampleEnv (sampleReadonlyArgs true) (State.enter emptyBitmapMemory)).state ∧
    (InitializeTraceContext sampleEnv (sampleReadonlyArgs true) emptyBitmapMemory).1 = false ∧
    (InitializeTraceContext sampleEnv (sampleReadonlyArgs true) emptyBitmapMemory).2.Trace = [] ∧
    (InitializeTraceContext sampleEnv (sampleReadonlyArgs true) emptyBitmapMemory).2.TraceStores =
      emptyBitmapMemory.TraceStores ∧
    emptyBitmapMemory.TraceContext.IgnorePreferredAddressesBitmap.Buffer =
      BitmapBufferPointer.NULL ∧
    (InitializeTraceContext sampleEnv (sampleReadonlyArgs true)
      emptyBitmapMemory).2.TraceContext.IgnorePreferredAddressesBitmap.Buffer =
        BitmapBufferPointer.ContextBitmapBuffer ∧
    (InitializeTraceContext sampleEnv (sampleReadonlyArgs true) emptyBitmapMemory).2.TraceContext ≠
      emptyBitmapMemory.TraceContext := by
  refine ⟨rfl, by decide, by decide, by decide, by decide, by decide, by decide⟩

/-- C6, amended: when a call returns because a check of the validation fails
(with `RtlFindSetBits` as the bit search), it returns FALSE in the state the
validation left; every trace store and the whole collection are as the caller
passed them, no event, work item, cleanup group or timer has been created (the
only call that may have been made is the debug break), and the context is as
the caller passed it, except that, when the ignore-bitmap descriptor had been
accepted before the bitmap was rejected, the buffer of the descriptor points
to the `BitmapBuffer` of the context. -/
theorem C6_validation_failure_leaves_state (e : Env) (a : Args) (m : Memory) (b : Bool)
    (s' : State) (hfind : e.RtlFindSetBits = RtlFindSetBits)
    (h : Validate e a (State.enter m) = Step.Return b s') :
    InitializeTraceContext e a m = (false, s') ∧
    s'.TraceStores = m.TraceStores ∧
    (∀ op ∈ s'.Trace, op.isCreate = false ∧ op.isSubmit = false) ∧
    (s'.TraceContext = m.TraceContext ∨
      (DescriptorAccepted a m.TraceContext ∧
        s'.TraceContext = WithBitmapBuffer m.TraceContext)) := by
  obtain ⟨hb, hs, ht, hc⟩ := Validate_Return hfind h
  subst hb
  have hsetup : Setup e a (State.enter m) = Step.Return false s' := by
    unfold Setup PrepareContext
    rw [h]
    rfl
  refine ⟨InitializeTraceContext_of_Setup_Return hsetup, hs, ?_, hc⟩
  intro op hop
  rw [ht op hop]
  exact ⟨rfl, rfl⟩

theorem C6_validation_failure_leaves_state_witness :
    (InitializeTraceContext sampleEnv (sampleReadonlyArgs true) emptyBitmapMemory).2.TraceContext =
        emptyBitmapMemory.TraceContext ∨
      (DescriptorAccepted (sampleReadonlyArgs true) emptyBitmapMemory.TraceContext ∧
        (InitializeTraceContext sampleEnv (sampleReadonlyArgs true)
          emptyBitmapMemory).2.TraceContext = WithBitmapBuffer emptyBitmapMemory.TraceContext) :=
  have h := C6_validation_failure_leaves_state sampleEnv (sampleReadonlyArgs true)
    emptyBitmapMemory false
    (Validate sampleEnv (sampleReadonlyArgs true) (State.enter emptyBitmapMemory)).state rfl rfl
  h.1 ▸ h.2.2.2

end Tracer

namespace Tracer

/-! ## What the error path closes -/

theorem heldBy_of_isEarly (c : TRACE_CONTEXT) {op : Op} (h : op.isEarly = true) :
    op.heldBy c = true := by
  cases op <;> simp_all [Op.isEarly, Op.heldBy]
  next m i r => cases m <;> cases i <;> simp_all [Op.isEarly, Op.heldBy]

theorem isWorkSetup_of_isEarly {op : Op} (h : op.isEarly = true) : op.isWorkSetup = true := by
  cases op <;> simp_all [Op.isEarly, Op.isWorkSetup]
  next m i r => cases m <;> cases i <;> simp_all [Op.isEarly, Op.isWorkSetup]

/-- The state before the work records are set up: every call made so far is an
early call. -/
theorem before_InitializeWork (e : Env) (a : Args) (m : Memory) :
    ∀ op ∈ ((Validate e a (State.enter m)).andThen (InitializeContext e a)).state.Trace,
      op.isEarly = true := by
  have h := From_extends (From_andThen (Validate_from e a (State.enter m))
    (InitializeContext_from e a))
  exact Extends_all h (by simp [State.enter])

end Tracer

namespace Tracer

/-- What the context holds of the created handles stays held when the context
changes so that no work item, completion event or working set timer it held is
lost. -/
theorem heldBy_mono {c c' : TRACE_CONTEXT}
    (hw : ∀ h, h ≠ 0 → h ∈ c.workItems → h ∈ c'.workItems)
    (he : ∀ h, h ≠ 0 → h ∈ c.completionEvents → h ∈ c'.completionEvents)
    (ht : c.GetWorkingSetChangesTimer ≠ 0 →
      c'.GetWorkingSetChangesTimer = c.GetWorkingSetChangesTimer)
    {op : Op} (h : op.heldBy c = true) : op.heldBy c' = true := by
  cases op with
  | CreateThreadpoolWork cb pool r =>
    simp only [Op.heldBy, Bool.or_eq_true, beq_iff_eq, List.contains_eq_any_beq,
      List.any_eq_true] at h ⊢
    by_cases hr : r = 0
    · exact Or.inl hr
    · rcases h with h | ⟨x, hx, hxr⟩
      · exact absurd h hr
      · have := hw r hr (by rw [hxr]; exact hx)
        exact Or.inr ⟨r, this, rfl⟩
  | CreateEvent mr ini r =>
    cases mr <;> cases ini <;> try rfl
    simp only [Op.heldBy, Bool.or_eq_true, beq_iff_eq, List.contains_eq_any_beq,
      List.any_eq_true] at h ⊢
    by_cases hr : r = 0
    · exact Or.inl hr
    · rcases h with h | ⟨x, hx, hxr⟩
      · exact absurd h hr
      · have := he r hr (by rw [hxr]; exact hx)
        exact Or.inr ⟨r, this, rfl⟩
  | CreateThreadpoolTimer cb pool r =>
    cases cb <;> try rfl
    simp only [Op.heldBy, Bool.or_eq_true, beq_iff_eq] at h ⊢
    by_cases hr : r = 0
    · exact Or.inl hr
    · rcases h with h | h
      · exact absurd h hr
      · right
        rw [ht (by rw [← h]; exact hr)]
        exact h
  | _ => rfl

theorem Unset_mono {j k : Nat} (hjk : j ≤ k) {c : TRACE_CONTEXT} (h : Unset j c) : Unset k c := by
  obtain ⟨h0, h1, h2, h3, h4, h5⟩ := h
  exact ⟨fun hk => h0 (by omega), fun hk => h1 (by omega), fun hk => h2 (by omega),
    fun hk => h3 (by omega), fun hk => h4 (by omega), fun hk => h5 (by omega)⟩

/-- A context that has just been zeroed and given its plain fields holds none
of the handles yet. -/
theorem InitializeContext_Unset {e : Env} {a : Args} {s s' : State}
    (h : InitializeContext e a s = Step.Continue s') : Unset 0 s'.TraceContext := by
  obtain ⟨c, sz, ts, calls, tr, cf, ro, nb⟩ := s
  unfold InitializeContext at h
  simp only at h
  split_ifs at h
  injection h with h
  subst h
  cases nb <;>
    exact ⟨fun _ => ⟨rfl, rfl⟩, fun _ => ⟨rfl, rfl⟩, fun _ => ⟨rfl, rfl⟩, fun _ => ⟨rfl, rfl⟩,
      fun _ => rfl, fun _ => rfl⟩

/-- A property of states carries over a sequence when the first block
establishes a property from which the second block establishes it and which
implies it. -/
theorem andThen_state {P Q : State → Prop} {x : Step} {f : State → Step} (hx : P x.state)
    (hPQ : ∀ s, P s → Q s) (hf : ∀ s1, P s1 → Q (f s1).state) : Q (x.andThen f).state := by
  cases x with
  | Continue s1 => exact hf s1 hx
  | Return b s1 => exact hPQ _ hx
  | GotoError s1 => exact hPQ _ hx

/-- The calls of one `INIT_WORK`: the creation of the completion event and of
the work item that the record then holds. -/
theorem INIT_WORK_ops (e : Env) (cb : Routine) (pool n : Nat) (w : TRACE_STORE_WORK)
    (s : State) :
    ∃ ops, (INIT_WORK e cb pool n w s).2.2.Trace = s.Trace ++ ops ∧
      ∀ op ∈ ops,
        op = Op.CreateEvent false false (INIT_WORK e cb pool n w s).2.1.WorkCompleteEvent ∨
        op = Op.CreateThreadpoolWork cb pool (INIT_WORK e cb pool n w s).2.1.ThreadpoolWork := by
  unfold INIT_WORK
  simp only
  split_ifs
  · exact ⟨[Op.CreateEvent false false (e.Create s.Calls)], rfl, by simp⟩
  · exact ⟨[Op.CreateEvent false false (e.Create s.Calls),
      Op.CreateThreadpoolWork cb pool (e.Create (s.Calls + 1))], by simp, by simp⟩
  · exact ⟨[Op.CreateEvent false false (e.Create s.Calls),
      Op.CreateThreadpoolWork cb pool (e.Create (s.Calls + 1))], by simp, by simp⟩

theorem InitializeBindMetadataInfoStoreWork_state_Trace (e : Env) (a : Args) (n : Nat) (s : State) :
    (InitializeBindMetadataInfoStoreWork e a n s).state.Trace =
      (INIT_WORK e Routine.BindMetadataInfoStoreCallback a.ThreadpoolCallbackEnvironment n
        s.TraceContext.BindMetadataInfoStoreWork s).2.2.Trace := by
  unfold InitializeBindMetadataInfoStoreWork
  simp only
  split_ifs <;> rfl

theorem InitializeBindMetadataInfoStoreWork_state_TraceContext (e : Env) (a : Args) (n : Nat)
    (s : State) (c : TRACE_CONTEXT) (hc : c = s.TraceContext) :
    (InitializeBindMetadataInfoStoreWork e a n s).state.TraceContext =
      { c with BindMetadataInfoStoreWork := (INIT_WORK e Routine.BindMetadataInfoStoreCallback
          a.ThreadpoolCallbackEnvironment n s.TraceContext.BindMetadataInfoStoreWork s).2.1 } := by
  subst hc
  unfold InitializeBindMetadataInfoStoreWork
  simp only
  split_ifs <;> simp

theorem InitializeBindMetadataInfoStoreWork_Tracked (e : Env) (a : Args) (n : Nat) (s : State)
    (hT : Tracked s) (hU : Unset 0 s.TraceContext) :
    Tracked (InitializeBindMetadataInfoStoreWork e a n s).state ∧
      Unset 1 (InitializeBindMetadataInfoStoreWork e a n s).state.TraceContext := by
  obtain ⟨h0, h1, h2, h3, h4, h5⟩ := hU
  obtain ⟨ops, hops, hp⟩ := INIT_WORK_ops e Routine.BindMetadataInfoStoreCallback
    a.ThreadpoolCallbackEnvironment n s.TraceContext.BindMetadataInfoStoreWork s
  unfold Tracked
  rw [InitializeBindMetadataInfoStoreWork_state_Trace, InitializeBindMetadataInfoStoreWork_state_TraceContext e a n s _ rfl]
  refine ⟨?_, ?_⟩
  · intro op hop
    simp only [hops, List.mem_append] at hop
    rcases hop with hop | hop
    · have hz := h0 (Nat.le_refl _)
      refine heldBy_mono ?_ ?_ ?_ (hT op hop) <;>
        simp_all [TRACE_CONTEXT.workItems, TRACE_CONTEXT.completionEvents]
    · rcases hp op hop with h | h <;> subst h <;>
        simp [Op.heldBy, TRACE_CONTEXT.workItems, TRACE_CONTEXT.completionEvents]
  · exact ⟨fun hk => by omega, fun _ => h1 (by omega), fun _ => h2 (by omega), fun _ => h3 (by omega), fun _ => h4 (by omega), fun _ => h5 (by omega)⟩

theorem InitializeBindRemainingMetadataStoresWork_state_Trace (e : Env) (a : Args) (n : Nat) (s : State) :
    (InitializeBindRemainingMetadataStoresWork e a n s).state.Trace =
      (INIT_WORK e Routine.BindRemainingMetadataStoresCallback a.ThreadpoolCallbackEnvironment n
        s.TraceContext.BindRemainingMetadataStoresWork s).2.2.Trace := by
  unfold InitializeBindRemainingMetadataStoresWork
  simp only
  split_ifs <;> rfl

theorem InitializeBindRemainingMetadataStoresWork_state_TraceContext (e : Env) (a : Args) (n : Nat)
    (s : State) (c : TRACE_CONTEXT) (hc : c = s.TraceContext) :
    (InitializeBindRemainingMetadataStoresWork e a n s).state.TraceContext =
      { c with BindRemainingMetadataStoresWork := (INIT_WORK e Routine.BindRemainingMetadataStoresCallback
          a.ThreadpoolCallbackEnvironment n s.TraceContext.BindRemainingMetadataStoresWork s).2.1 } := by
  subst hc
  unfold InitializeBindRemainingMetadataStoresWork
  simp only
  split_ifs <;> simp

theorem InitializeBindRemainingMetadataStoresWork_Tracked (e : Env) (a : Args) (n : Nat) (s : State)
    (hT : Tracked s) (hU : Unset 1 s.TraceContext) :
    Tracked (InitializeBindRemainingMetadataStoresWork e a n s).state ∧
      Unset 2 (InitializeBindRemainingMetadataStoresWork e a n s).state.TraceContext := by
  obtain ⟨h0, h1, h2, h3, h4, h5⟩ := hU
  obtain ⟨ops, hops, hp⟩ := INIT_WORK_ops e Routine.BindRemainingMetadataStoresCallback
    a.ThreadpoolCallbackEnvironment n s.TraceContext.BindRemainingMetadataStoresWork s
  unfold Tracked
  rw [InitializeBindRemainingMetadataStoresWork_state_Trace, InitializeBindRemainingMetadataStoresWork_state_TraceContext e a n s _ rfl]
  refine ⟨?_, ?_⟩
  · intro op hop
    simp only [hops, List.mem_append] at hop
    rcases hop with hop | hop
    · have hz := h1 (Nat.le_refl _)
      refine heldBy_mono ?_ ?_ ?_ (hT op hop) <;>
        simp_all [TRACE_CONTEXT.workItems, TRACE_CONTEXT.completionEvents]
    · rcases hp op hop with h | h <;> subst h <;>
        simp [Op.heldBy, TRACE_CONTEXT.workItems, TRACE_CONTEXT.completionEvents]
  · exact ⟨fun hk => by omega, fun hk => by omega, fun _ => h2 (by omega), fun _ => h3 (by omega), fun _ => h4 (by omega), fun _ => h5 (by omega)⟩

theorem InitializeBindTraceStoreWork_state_Trace (e : Env) (a : Args) (n : Nat) (s : State) :
    (InitializeBindTraceStoreWork e a n s).state.Trace =
      (INIT_WORK e Routine.BindTraceStoreCallback a.ThreadpoolCallbackEnvironment n
        s.TraceContext.BindTraceStoreWork s).2.2.Trace := by
  unfold InitializeBindTraceStoreWork
  simp only
  split_ifs <;> rfl

theorem InitializeBindTraceStoreWork_state_TraceContext (e : Env) (a : Args) (n : Nat)
    (s : State) (c : TRACE_CONTEXT) (hc : c = s.TraceContext) :
    (InitializeBindTraceStoreWork e a n s).state.TraceContext =
      { c with BindTraceStoreWork := (INIT_WORK e Routine.BindTraceStoreCallback
          a.ThreadpoolCallbackEnvironment n s.TraceContext.BindTraceStoreWork s).2.1 } := by
  subst hc
  unfold InitializeBindTraceStoreWork
  simp only
  split_ifs <;> simp

theorem InitializeBindTraceStoreWork_Tracked (e : Env) (a : Args) (n : Nat) (s : State)
    (hT : Tracked s) (hU : Unset 2 s.TraceContext) :
    Tracked (InitializeBindTraceStoreWork e a n s).state ∧
      Unset 3 (InitializeBindTraceStoreWork e a n s).state.TraceContext := by
  obtain ⟨h0, h1, h2, h3, h4, h5⟩ := hU
  obtain ⟨ops, hops, hp⟩ := INIT_WORK_ops e Routine.BindTraceStoreCallback
    a.ThreadpoolCallbackEnvironment n s.TraceContext.BindTraceStoreWork s
  unfold Tracked
  rw [InitializeBindTraceStoreWork_state_Trace, InitializeBindTraceStoreWork_state_TraceContext e a n s _ rfl]
  refine ⟨?_, ?_⟩
  · intro op hop
    simp only [hops, List.mem_append] at hop
    rcases hop with hop | hop
    · have hz := h2 (Nat.le_refl _)
      refine heldBy_mono ?_ ?_ ?_ (hT op hop) <;>
        simp_all [TRACE_CONTEXT.workItems, TRACE_CONTEXT.completionEvents] <;>
        try (intros; tauto)
    · rcases hp op hop with h | h <;> subst h <;>
        simp [Op.heldBy, TRACE_CONTEXT.workItems, TRACE_CONTEXT.completionEvents]
  · exact ⟨fun hk => by omega, fun hk => by omega, fun hk => by omega, fun _ => h3 (by omega), fun _ => h4 (by omega), fun _ => h5 (by omega)⟩

theorem InitializeReadonlyNonStreamingBindCompleteWork_state_Trace (e : Env) (a : Args) (n : Nat) (s : State) :
    (InitializeReadonlyNonStreamingBindCompleteWork e a n s).state.Trace =
      (INIT_WORK e Routine.ReadonlyNonStreamingBindCompleteCallback a.ThreadpoolCallbackEnvironment n
        s.TraceContext.ReadonlyNonStreamingBindCompleteWork s).2.2.Trace := by
  unfold InitializeReadonlyNonStreamingBindCompleteWork
  simp only
  split_ifs <;> rfl

theorem InitializeReadonlyNonStreamingBindCompleteWork_state_TraceContext (e : Env) (a : Args) (n : Nat)
    (s : State) (c : TRACE_CONTEXT) (hc : c = s.TraceContext) :
    (InitializeReadonlyNonStreamingBindCompleteWork e a n s).state.TraceContext =
      { c with ReadonlyNonStreamingBindCompleteWork := (INIT_WORK e Routine.ReadonlyNonStreamingBindCompleteCallback
          a.ThreadpoolCallbackEnvironment n s.TraceContext.ReadonlyNonStreamingBindCompleteWork s).2.1 } := by
  subst hc
  unfold InitializeReadonlyNonStreamingBindCompleteWork
  simp only
  split_ifs <;> simp

theorem InitializeReadonlyNonStreamingBindCompleteWork_Tracked (e : Env) (a : Args) (n : Nat) (s : State)
    (hT : Tracked s) (hU : Unset 3 s.TraceContext) :
    Tracked (InitializeReadonlyNonStreamingBindCompleteWork e a n s).state ∧
      Unset 4 (InitializeReadonlyNonStreamingBindCompleteWork e a n s).state.TraceContext := by
  obtain ⟨h0, h1, h2, h3, h4, h5⟩ := hU
  obtain ⟨ops, hops, hp⟩ := INIT_WORK_ops e Routine.ReadonlyNonStreamingBindCompleteCallback
    a.ThreadpoolCallbackEnvironment n s.TraceContext.ReadonlyNonStreamingBindCompleteWork s
  unfold Tracked
  rw [InitializeReadonlyNonStreamingBindCompleteWork_state_Trace, InitializeReadonlyNonStreamingBindCompleteWork_state_TraceContext e a n s _ rfl]
  refine ⟨?_, ?_⟩
  · intro op hop
    simp only [hops, List.mem_append] at hop
    rcases hop with hop | hop
    · have hz := h3 (Nat.le_refl _)
      refine heldBy_mono ?_ ?_ ?_ (hT op hop) <;>
        simp_all [TRACE_CONTEXT.workItems, TRACE_CONTEXT.completionEvents] <;>
        try (intros; tauto)
    · rcases hp op hop with h | h <;> subst h <;>
        simp [Op.heldBy, TRACE_CONTEXT.workItems, TRACE_CONTEXT.completionEvents]
  · exact ⟨fun hk => by omega, fun hk => by omega, fun hk => by omega, fun hk => by omega, fun _ => h4 (by omega), fun _ => h5 (by omega)⟩

theorem CreateCleanupThreadpoolMembersWork_Tracked (e : Env) (a : Args) (n : Nat) (s : State)
    (hT : Tracked s) (hU : Unset 4 s.TraceContext) :
    Tracked (CreateCleanupThreadpoolMembersWork e a n s).state ∧
      Unset 5 (CreateCleanupThreadpoolMembersWork e a n s).state.TraceContext := by
  obtain ⟨h0, h1, h2, h3, h4, h5⟩ := hU
  have hz := h4 (Nat.le_refl _)
  unfold CreateCleanupThreadpoolMembersWork
  simp only
  split_ifs <;> refine ⟨?_, ?_⟩ <;>
    first
      | exact ⟨fun hk => by omega, fun hk => by omega, fun hk => by omega, fun hk => by omega,
          fun hk => by omega, fun _ => h5 (by omega)⟩
      | (intro op hop
         simp only [Step.state, State.create_Trace, List.mem_append, List.mem_singleton] at hop
         rcases hop with hop | hop
         · refine heldBy_mono ?_ ?_ ?_ (hT op hop) <;>
             simp_all [TRACE_CONTEXT.workItems, TRACE_CONTEXT.completionEvents] <;>
             try (intros; tauto)
         · subst hop
           simp [Op.heldBy, TRACE_CONTEXT.workItems, TRACE_CONTEXT.completionEvents])

/-- After the work records have been set up, whether the block fell through or
jumped to `Error`, the context holds every work item and completion event
created so far and no working set timer yet. -/
theorem InitializeWork_Tracked (e : Env) (a : Args) (s : State) (hT : Tracked s)
    (hU : Unset 0 s.TraceContext) :
    Tracked (InitializeWork e a s).state ∧ Unset 5 (InitializeWork e a s).state.TraceContext := by
  unfold InitializeWork
  simp only
  refine andThen_state (P := fun s => Tracked s ∧ Unset 4 s.TraceContext)
    (Q := fun s => Tracked s ∧ Unset 5 s.TraceContext) ?_
    (fun s h => ⟨h.1, Unset_mono (by omega) h.2⟩)
    (fun s1 h => CreateCleanupThreadpoolMembersWork_Tracked e a _ s1 h.1 h.2)
  refine andThen_state (P := fun s => Tracked s ∧ Unset 3 s.TraceContext)
    (Q := fun s => Tracked s ∧ Unset 4 s.TraceContext) ?_
    (fun s h => ⟨h.1, Unset_mono (by omega) h.2⟩)
    (fun s1 h => InitializeReadonlyNonStreamingBindCompleteWork_Tracked e a _ s1 h.1 h.2)
  refine andThen_state (P := fun s => Tracked s ∧ Unset 2 s.TraceContext)
    (Q := fun s => Tracked s ∧ Unset 3 s.TraceContext) ?_
    (fun s h => ⟨h.1, Unset_mono (by omega) h.2⟩)
    (fun s1 h => InitializeBindTraceStoreWork_Tracked e a _ s1 h.1 h.2)
  refine andThen_state (P := fun s => Tracked s ∧ Unset 1 s.TraceContext)
    (Q := fun s => Tracked s ∧ Unset 2 s.TraceContext) ?_
    (fun s h => ⟨h.1, Unset_mono (by omega) h.2⟩)
    (fun s1 h => InitializeBindRemainingMetadataStoresWork_Tracked e a _ s1 h.1 h.2)
  exact InitializeBindMetadataInfoStoreWork_Tracked e a _ s hT hU

end Tracer

namespace Tracer

/-- The context goes on holding the handles created so far through a step that
loses none of the handles it held and whose new calls it holds. -/
theorem Tracked_step {s s' : State} (hT : Tracked s)
    (hw : s'.TraceContext.workItems = s.TraceContext.workItems)
    (he : s'.TraceContext.completionEvents = s.TraceContext.completionEvents)
    (ht : s.TraceContext.GetWorkingSetChangesTimer ≠ 0 →
      s'.TraceContext.GetWorkingSetChangesTimer = s.TraceContext.GetWorkingSetChangesTimer)
    (hnew : ∀ op ∈ s'.Trace, op ∈ s.Trace ∨ op.heldBy s'.TraceContext = true) : Tracked s' := by
  intro op hop
  rcases hnew op hop with h | h
  · exact heldBy_mono (fun x _ hx => by rw [hw]; exact hx) (fun x _ hx => by rw [he]; exact hx)
      ht (hT op h)
  · exact h

theorem CreateRelocationCompleteEvents_Tracked (e : Env) (n : Nat) :
    ∀ (Index : Nat) (s : State), Tracked s →
      Tracked (CreateRelocationCompleteEvents e n Index s).state := by
  induction n with
  | zero => intro Index s hT; exact hT
  | succ n ih =>
    intro Index s hT
    unfold CreateRelocationCompleteEvents
    simp only
    split_ifs
    · refine Tracked_step hT rfl rfl (fun _ => rfl) ?_
      intro op hop
      simp only [Step.state_GotoError, State.create_Trace, List.mem_append,
        List.mem_singleton] at hop
      rcases hop with h | h
      · exact Or.inl h
      · subst h; exact Or.inr rfl
    · refine ih _ _ (Tracked_step hT rfl rfl (fun _ => rfl) ?_)
      intro op hop
      simp only [State.create_Trace, List.mem_append, List.mem_singleton] at hop
      rcases hop with h | h
      · exact Or.inl h
      · subst h; exact Or.inr rfl

theorem InitializeAllocators_Tracked (e : Env) (a : Args) (n : Nat) :
    ∀ (StoreIndex : Nat) (s : State), Tracked s →
      Tracked (InitializeAllocators e a n StoreIndex s).state := by
  induction n with
  | zero => intro StoreIndex s hT; exact hT
  | succ n ih =>
    intro StoreIndex s hT
    unfold InitializeAllocators
    simp only
    split_ifs
    · refine Tracked_step hT rfl rfl (fun _ => rfl) ?_
      intro op hop
      simp only [Step.state_GotoError, State.create_Trace, List.mem_append,
        List.mem_singleton] at hop
      rcases hop with h | h
      · exact Or.inl h
      · subst h; exact Or.inr rfl
    · refine Tracked_step hT rfl rfl (fun _ => rfl) ?_
      intro op hop
      simp only [Step.state_GotoError, State.create_Trace, List.mem_append,
        List.mem_singleton] at hop
      rcases hop with (h | h) | h
      · exact Or.inl h
      · subst h; exact Or.inr rfl
      · subst h; exact Or.inr rfl
    · refine ih _ _ (Tracked_step hT rfl rfl (fun _ => rfl) ?_)
      intro op hop
      simp only [State.create_Trace, List.mem_append, List.mem_singleton] at hop
      rcases hop with (h | h) | h
      · exact Or.inl h
      · subst h; exact Or.inr rfl
      · subst h; exact Or.inr rfl

theorem RegisterAtExit_Tracked (e : Env) (s : State) (hT : Tracked s)
    (hz : s.TraceContext.GetWorkingSetChangesTimer = 0) :
    Tracked (RegisterAtExit e s).state ∧
      (RegisterAtExit e s).state.TraceContext.GetWorkingSetChangesTimer = 0 := by
  unfold RegisterAtExit
  simp only
  split_ifs <;> refine ⟨Tracked_step hT rfl rfl (fun _ => rfl) ?_, hz⟩ <;>
    (intro op hop
     simp only [Step.state, State.log_Trace, List.mem_append, List.mem_singleton] at hop
     rcases hop with h | h
     · exact Or.inl h
     · subst h; exact Or.inr rfl)

theorem EnableWorkingSetTracing_Tracked (e : Env) (a : Args) (s : State) (hT : Tracked s)
    (hz : s.TraceContext.GetWorkingSetChangesTimer = 0) :
    Tracked (EnableWorkingSetTracing e a s).state := by
  unfold EnableWorkingSetTracing
  simp only
  split_ifs
  · refine Tracked_step hT rfl rfl (fun hne => absurd hz hne) ?_
    intro op hop
    simp only [Step.state, State.create_Trace, List.mem_append, List.mem_singleton] at hop
    rcases hop with h | h
    · exact Or.inl h
    · subst h; right; simp [Op.heldBy]
  · refine Tracked_step hT rfl rfl (fun hne => absurd hz hne) ?_
    intro op hop
    simp only [Step.state, State.create_Trace, State.log_Trace, List.mem_append,
      List.mem_singleton] at hop
    rcases hop with (h | h) | h
    · exact Or.inl h
    · subst h; right; simp [Op.heldBy]
    · subst h; exact Or.inr rfl
  · refine Tracked_step hT rfl rfl (fun hne => absurd hz hne) ?_
    intro op hop
    simp only [Step.state, State.create_Trace, State.log_Trace, List.mem_append,
      List.mem_singleton] at hop
    rcases hop with (h | h) | h
    · exact Or.inl h
    · subst h; right; simp [Op.heldBy]
    · subst h; exact Or.inr rfl
  · exact hT

theorem EnablePerformanceTracing_Tracked (e : Env) (a : Args) (s : State) (hT : Tracked s) :
    Tracked (EnablePerformanceTracing e a s).state := by
  unfold EnablePerformanceTracing
  simp only
  split_ifs
  · refine Tracked_step hT rfl rfl (fun _ => rfl) ?_
    intro op hop
    simp only [Step.state, State.create_Trace, List.mem_append, List.mem_singleton] at hop
    rcases hop with h | h
    · exact Or.inl h
    · subst h; exact Or.inr rfl
  · refine Tracked_step hT rfl rfl (fun _ => rfl) ?_
    intro op hop
    simp only [Step.state, State.create_Trace, List.mem_append, List.mem_singleton] at hop
    rcases hop with h | h
    · exact Or.inl h
    · subst h; exact Or.inr rfl
  · exact hT

theorem PrepareStores_Tracked (e : Env) (a : Args) (s : State) (hT : Tracked s)
    (hz : s.TraceContext.GetWorkingSetChangesTimer = 0) :
    Tracked (PrepareStores e a s).state := by
  unfold PrepareStores
  split_ifs
  · exact CreateRelocationCompleteEvents_Tracked e _ _ s hT
  · unfold RegisterAtExitAndTimers
    refine andThen_state (P := Tracked) (Q := Tracked) ?_ (fun _ h => h)
      (fun s1 h => EnablePerformanceTracing_Tracked e a s1 h)
    exact andThen_state (P := fun s => Tracked s ∧ s.TraceContext.GetWorkingSetChangesTimer = 0)
      (Q := Tracked) (RegisterAtExit_Tracked e s hT hz) (fun _ h => h.1)
      (fun s1 h => EnableWorkingSetTracing_Tracked e a s1 h.1 h.2)

/-- Whatever way the setup ends, the context holds every work item, every
completion event of a work record and the working set timer that the call has
created. -/
theorem Setup_Tracked (e : Env) (a : Args) (m : Memory) :
    Tracked (Setup e a (State.enter m)).state := by
  unfold Setup PrepareContext
  refine andThen_state (P := Tracked) (Q := Tracked) ?_ (fun _ h => h)
    (fun s1 h => InitializeAllocators_Tracked e a _ 0 s1 h)
  refine Step.andThen_of
    (P := fun st => Tracked st.state ∧
      (st.isContinue = true → st.state.TraceContext.GetWorkingSetChangesTimer = 0))
    (Q := fun st => Tracked st.state) ?_ (fun _ _ h => h.1) (fun _ h => h.1)
    (fun s1 h => PrepareStores_Tracked e a s1 h.1 (h.2 rfl))
  have hearly := before_InitializeWork e a m
  cases hc : (Validate e a (State.enter m)).andThen (InitializeContext e a) with
  | Continue s2 =>
    rw [hc] at hearly
    obtain ⟨s1, -, h2⟩ := Step.andThen_eq_Continue.mp hc
    have hU := InitializeContext_Unset h2
    have hT : Tracked s2 := fun op hop => heldBy_of_isEarly _ (hearly op hop)
    obtain ⟨r1, r2⟩ := InitializeWork_Tracked e a s2 hT hU
    exact ⟨r1, fun _ => r2.2.2.2.2.2 (Nat.le_refl _)⟩
  | Return b s2 =>
    rw [hc] at hearly
    exact ⟨fun op hop => heldBy_of_isEarly _ (hearly op hop), fun h => by cases h⟩
  | GotoError s2 =>
    rw [hc] at hearly
    exact ⟨fun op hop => heldBy_of_isEarly _ (hearly op hop), fun h => by cases h⟩

end Tracer

namespace Tracer

theorem mem_CLEANUP_WORK_work {w : TRACE_STORE_WORK} (h : w.ThreadpoolWork ≠ 0) :
    Op.CloseThreadpoolWork w.ThreadpoolWork ∈ CLEANUP_WORK w := by
  unfold CLEANUP_WORK
  simp [h]

theorem mem_CLEANUP_WORK_event {w : TRACE_STORE_WORK} (h : w.WorkCompleteEvent ≠ 0) :
    Op.CloseHandle w.WorkCompleteEvent ∈ CLEANUP_WORK w := by
  unfold CLEANUP_WORK
  simp [h]

/-- The code at `Error` closes every work item, completion event and working
set timer that the context holds. -/
theorem Error_closes (s : State) :
    (∀ h, h ≠ 0 → h ∈ s.TraceContext.workItems → Op.CloseThreadpoolWork h ∈ (Error s).Trace) ∧
    (∀ h, h ≠ 0 → h ∈ s.TraceContext.completionEvents → Op.CloseHandle h ∈ (Error s).Trace) ∧
    (s.TraceContext.GetWorkingSetChangesTimer ≠ 0 →
      Op.CloseThreadpoolTimer s.TraceContext.GetWorkingSetChangesTimer ∈ (Error s).Trace) := by
  rw [Error_Trace]
  refine ⟨?_, ?_, ?_⟩
  · intro h h0 hmem
    simp only [TRACE_CONTEXT.workItems, List.mem_cons, List.mem_singleton, List.not_mem_nil,
      or_false] at hmem
    simp only [List.mem_append]
    rcases hmem with h1 | h1 | h1 | h1 | h1 <;> subst h1
    · exact Or.inr (Or.inl (mem_CLEANUP_WORK_work h0))
    · exact Or.inr (Or.inr (Or.inl (mem_CLEANUP_WORK_work h0)))
    · exact Or.inr (Or.inr (Or.inr (Or.inl (mem_CLEANUP_WORK_work h0))))
    · exact Or.inr (Or.inr (Or.inr (Or.inr (Or.inl (mem_CLEANUP_WORK_work h0)))))
    · right; right; right; right; right; left
      simp [h0]
  · intro h h0 hmem
    simp only [TRACE_CONTEXT.completionEvents, List.mem_cons, List.mem_singleton,
      List.not_mem_nil, or_false] at hmem
    simp only [List.mem_append]
    rcases hmem with h1 | h1 | h1 | h1 <;> subst h1
    · exact Or.inr (Or.inl (mem_CLEANUP_WORK_event h0))
    · exact Or.inr (Or.inr (Or.inl (mem_CLEANUP_WORK_event h0)))
    · exact Or.inr (Or.inr (Or.inr (Or.inl (mem_CLEANUP_WORK_event h0))))
    · exact Or.inr (Or.inr (Or.inr (Or.inr (Or.inl (mem_CLEANUP_WORK_event h0)))))
  · intro h0
    simp only [List.mem_append]
    right; right; right; right; right; right
    simp [h0]

/-- C7, as the claim states it, fails: when the third creation call of a call,
the completion event of the first work record, fails after the loading
complete event `100` and the cleanup group `101` were created, the call jumps
to `Error` and returns FALSE, and its trace holds no closing call at all. -/
theorem C7_created_handles_left_open :
    Setup thirdCreationFailsEnv (sampleArgs false) (State.enter (sampleMemory false)) =
      Step.GotoError
        (Setup thirdCreationFailsEnv (sampleArgs false) (State.enter (sampleMemory false))).state ∧
    (InitializeTraceContext thirdCreationFailsEnv (sampleArgs false) (sampleMemory false)).1 =
      false ∧
    (InitializeTraceContext thirdCreationFailsEnv (sampleArgs false) (sampleMemory false)).2.Trace =
      [Op.TraceStoreGetTimerFunction 7, Op.CreateEvent true false 100,
       Op.CreateThreadpoolCleanupGroup 101, Op.SetThreadpoolCallbackCleanupGroup 8 101,
       Op.InitializeTraceStoreTime true, Op.CreateEvent false false 0] ∧
    ∀ op ∈ (InitializeTraceContext thirdCreationFailsEnv (sampleArgs false)
      (sampleMemory false)).2.Trace, op.isClose = false := by
  refine ⟨rfl, by decide, by decide, by decide⟩

/-- C7, amended: when a creation step makes a call jump to `Error`, the call
returns FALSE and by then has closed every thread pool work item it created,
every auto-reset event it created (the completion events of the work records)
and the working set timer if it created one; the four work records are
zeroed and the cleanup work item and the working set timer are cleared. -/
theorem C7_error_path_closes_work_items (e : Env) (a : Args) (m : Memory) (s' : State)
    (h : Setup e a (State.enter m) = Step.GotoError s') :
    (InitializeTraceContext e a m).1 = false ∧
    (∀ cb pool r, r ≠ 0 →
      Op.CreateThreadpoolWork cb pool r ∈ (InitializeTraceContext e a m).2.Trace →
      Op.CloseThreadpoolWork r ∈ (InitializeTraceContext e a m).2.Trace) ∧
    (∀ r, r ≠ 0 → Op.CreateEvent false false r ∈ (InitializeTraceContext e a m).2.Trace →
      Op.CloseHandle r ∈ (InitializeTraceContext e a m).2.Trace) ∧
    (∀ pool r, r ≠ 0 →
      Op.CreateThreadpoolTimer Routine.GetWorkingSetChangesTimerCallback pool r ∈
        (InitializeTraceContext e a m).2.Trace →
      Op.CloseThreadpoolTimer r ∈ (InitializeTraceContext e a m).2.Trace) ∧
    (InitializeTraceContext e a m).2.TraceContext.BindMetadataInfoStoreWork =
      TRACE_STORE_WORK.zero ∧
    (InitializeTraceContext e a m).2.TraceContext.BindRemainingMetadataStoresWork =
      TRACE_STORE_WORK.zero ∧
    (InitializeTraceContext e a m).2.TraceContext.BindTraceStoreWork = TRACE_STORE_WORK.zero ∧
    (InitializeTraceContext e a m).2.TraceContext.ReadonlyNonStreamingBindCompleteWork =
      TRACE_STORE_WORK.zero ∧
    (InitializeTraceContext e a m).2.TraceContext.CleanupThreadpoolMembersWork = 0 ∧
    (InitializeTraceContext e a m).2.TraceContext.GetWorkingSetChangesTimer = 0 := by
  have hT := Setup_Tracked e a m
  rw [h] at hT
  simp only [Step.state_GotoError] at hT
  rw [InitializeTraceContext_of_Setup_GotoError h]
  obtain ⟨cw, ce, ct⟩ := Error_closes s'
  obtain ⟨ops, hops, hclose⟩ := Error_extends s'
  have hin : ∀ op ∈ (Error s').Trace, op.isClose = false → op ∈ s'.Trace := by
    intro op hop hnc
    rw [hops] at hop
    rcases List.mem_append.mp hop with h1 | h1
    · exact h1
    · rw [hclose op h1] at hnc
      cases hnc
  refine ⟨rfl, ?_, ?_, ?_, rfl, rfl, rfl, rfl, rfl, rfl⟩
  · intro cb pool r hr hmem
    have hheld := hT _ (hin _ hmem rfl)
    simp only [Op.heldBy, Bool.or_eq_true, beq_iff_eq, List.contains_eq_any_beq,
      List.any_eq_true] at hheld
    rcases hheld with h1 | ⟨x, hx, hxr⟩
    · exact absurd h1 hr
    · exact cw r hr (by rw [hxr]; exact hx)
  · intro r hr hmem
    have hheld := hT _ (hin _ hmem rfl)
    simp only [Op.heldBy, Bool.or_eq_true, beq_iff_eq, List.contains_eq_any_beq,
      List.any_eq_true] at hheld
    rcases hheld with h1 | ⟨x, hx, hxr⟩
    · exact absurd h1 hr
    · exact ce r hr (by rw [hxr]; exact hx)
  · intro pool r hr hmem
    have hheld := hT _ (hin _ hmem rfl)
    simp only [Op.heldBy, Bool.or_eq_true, beq_iff_eq] at hheld
    rcases hheld with h1 | h1
    · exact absurd h1 hr
    · rw [h1]
      exact ct (by rw [← h1]; exact hr)

theorem C7_error_path_closes_work_items_witness :
    Op.CloseThreadpoolWork 103 ∈
        (InitializeTraceContext fifthCreationFailsEnv (sampleArgs false)
          (sampleMemory false)).2.Trace ∧
      Op.CloseHandle 102 ∈
        (InitializeTraceContext fifthCreationFailsEnv (sampleArgs false)
          (sampleMemory false)).2.Trace :=
  have h := C7_error_path_closes_work_items fifthCreationFailsEnv (sampleArgs false)
    (sampleMemory false)
    (Setup fifthCreationFailsEnv (sampleArgs false) (State.enter (sampleMemory false))).state rfl
  ⟨h.2.1 Routine.BindMetadataInfoStoreCallback 8 103 (by decide) (by decide),
    h.2.2.1 102 (by decide) (by decide)⟩

end Tracer
namespace Tracer

/-! ## Calls that the validation rejects -/

/-- A call whose validation returns ends there, with the value and in the
state of the validation. -/
theorem InitializeTraceContext_of_Validate_Return {e : Env} {a : Args} {m : Memory} {b : Bool}
    {s' : State} (h : Validate e a (State.enter m) = Step.Return b s') :
    InitializeTraceContext e a m = (b, s') := by
  apply InitializeTraceContext_of_Setup_Return
  unfold Setup PrepareContext
  rw [h]
  rfl

theorem ValidateSize_of_BufferSuffices {e : Env} {a : Args} {m : Memory}
    (h : BufferSuffices e a m) :
    ValidateSize e a (State.enter m) = Step.Continue (State.enter m) := by
  obtain ⟨h1, h2, h3⟩ := h
  unfold ValidateSize
  rw [if_neg h1, if_neg h2, if_neg (by simp only [State.enter]; omega)]

theorem BufferSuffices_of_ValidateSize {e : Env} {a : Args} {m : Memory} {s' : State}
    (h : ValidateSize e a (State.enter m) = Step.Continue s') : BufferSuffices e a m := by
  unfold ValidateSize at h
  unfold BufferSuffices
  split_ifs at h
  simp only [State.enter] at *
  exact ⟨by assumption, by assumption, by omega⟩

theorem ValidateArguments_of_MissingArgument {a : Args} (s : State) (h : MissingArgument a) :
    ValidateArguments a s = Step.Return false s := by
  unfold ValidateArguments MissingArgument at *
  split_ifs <;> first | rfl | (exfalso; omega)

theorem ValidateArguments_of_present {a : Args} (s : State) (h : ¬ MissingArgument a) :
    (ValidateArguments a s).isContinue = true := by
  unfold ValidateArguments
  unfold MissingArgument at h
  cases a.TraceContextFlags <;> simp only <;> split_ifs <;> first | rfl | (exfalso; tauto)

/-- C11: a call with a `NULL` context and a size pointer returns FALSE, stores
the size of the structure in `*SizeOfTraceContext` and does nothing else; a
call with a context and a size below that of the structure returns FALSE,
stores the size of the structure in `*SizeOfTraceContext` and does nothing
else: the context and the stores are as passed and no call has been made.
Neither depends on any other argument. -/
theorem C11_size_query (e : Env) (a : Args) (m : Memory) :
    (a.TraceContext = 0 → a.SizeOfTraceContext ≠ 0 →
      InitializeTraceContext e a m =
        (false, { State.enter m with SizeOfTraceContext := e.SizeOfTraceContextStruct }) ∧
      (InitializeTraceContext e a m).2.SizeOfTraceContext = e.SizeOfTraceContextStruct) ∧
    (a.TraceContext ≠ 0 → a.SizeOfTraceContext ≠ 0 →
      m.SizeOfTraceContext < e.SizeOfTraceContextStruct →
      InitializeTraceContext e a m =
        (false, { State.enter m with SizeOfTraceContext := e.SizeOfTraceContextStruct }) ∧
      (InitializeTraceContext e a m).2.SizeOfTraceContext = e.SizeOfTraceContextStruct ∧
      (InitializeTraceContext e a m).2.TraceContext = m.TraceContext ∧
      (InitializeTraceContext e a m).2.TraceStores = m.TraceStores ∧
      (InitializeTraceContext e a m).2.Trace = []) := by
  refine ⟨?_, ?_⟩
  · intro h1 h2
    have hv : Validate e a (State.enter m) = Step.Return false
        { State.enter m with SizeOfTraceContext := e.SizeOfTraceContextStruct } := by
      unfold Validate ValidateSize
      rw [if_pos h1, if_pos h2]
      rfl
    rw [InitializeTraceContext_of_Validate_Return hv]
    exact ⟨rfl, rfl⟩
  · intro h1 h2 h3
    have hv : Validate e a (State.enter m) = Step.Return false
        { State.enter m with SizeOfTraceContext := e.SizeOfTraceContextStruct } := by
      unfold Validate ValidateSize
      rw [if_neg h1, if_neg h2, if_pos (by simpa [State.enter] using h3)]
      rfl
    rw [InitializeTraceContext_of_Validate_Return hv]
    exact ⟨rfl, rfl, rfl, rfl, rfl⟩

theorem C11_size_query_witness :
    (InitializeTraceContext sampleEnv { sampleArgs false with TraceContext := 0 }
      (sampleMemory false)).2.SizeOfTraceContext = 512 ∧
    (InitializeTraceContext sampleEnv (sampleArgs false)
      { sampleMemory false with SizeOfTraceContext := 100 }).2.SizeOfTraceContext = 512 :=
  have h1 := (C11_size_query sampleEnv { sampleArgs false with TraceContext := 0 }
    (sampleMemory false)).1 rfl (by decide)
  have h2 := (C11_size_query sampleEnv (sampleArgs false)
    { sampleMemory false with SizeOfTraceContext := 100 }).2 (by decide) (by decide) (by decide)
  ⟨h1.2, h2.2.1⟩

/-- A validation that has passed the size and the argument checks with
contradictory mode inputs returns FALSE in the state it began in. -/
theorem Validate_of_ContradictoryMode (e : Env) {a : Args} {m : Memory}
    (h : ContradictoryMode a m) :
    ∃ s', Validate e a (State.enter m) = Step.Return false s' ∧
      s'.TraceContext = m.TraceContext ∧ s'.TraceStores = m.TraceStores ∧ s'.Trace = [] := by
  unfold Validate
  cases h1 : ValidateSize e a (State.enter m) with
  | Return b s1 =>
    obtain ⟨hb, hc, hs, ht⟩ := ValidateSize_Return h1
    subst hb
    exact ⟨s1, rfl, hc, hs, ht⟩
  | GotoError s1 =>
    unfold ValidateSize at h1
    split_ifs at h1
  | Continue s1 =>
    have := ValidateSize_Continue h1
    subst this
    simp only [Step.andThen_Continue]
    cases h2 : ValidateArguments a (State.enter m) with
    | Return b s2 =>
      obtain ⟨hb, hc, hs, ht⟩ := ValidateArguments_Return h2
      subst hb
      exact ⟨s2, rfl, hc, hs, ht⟩
    | GotoError s2 =>
      unfold ValidateArguments at h2
      cases hf : a.TraceContextFlags <;> rw [hf] at h2 <;> simp only at h2 <;> split_ifs at h2
    | Continue s2 =>
      obtain ⟨f1, f2, f3, f4, -, f6⟩ := ValidateArguments_Continue h2
      have f4 : s2.TraceStores = m.TraceStores := f4
      simp only [Step.andThen_Continue]
      unfold ValidateMode
      simp only
      rcases h with ⟨hrw, hbad⟩ | ⟨hro, hbad⟩
      · rw [← f1] at hrw
        rw [← f2, ← f4] at hbad
        rw [if_neg (by simp [hrw])]
        split_ifs <;>
          first
            | exact ⟨_, rfl, f3, f4, f6⟩
            | (exfalso; simp_all)
      · rw [← f1] at hro
        rw [← f4] at hbad
        rw [if_pos hro, if_pos (by simp [hbad])]
        exact ⟨_, rfl, f3, f4, f6⟩

/-- C12: a call whose mode inputs are contradictory returns FALSE, whatever
else it is given; the context and the stores are as passed and no call has
been made. -/
theorem C12_contradictory_mode_rejected (e : Env) (a : Args) (m : Memory)
    (h : ContradictoryMode a m) :
    (InitializeTraceContext e a m).1 = false ∧
    (InitializeTraceContext e a m).2.TraceContext = m.TraceContext ∧
    (InitializeTraceContext e a m).2.TraceStores = m.TraceStores ∧
    (InitializeTraceContext e a m).2.Trace = [] := by
  obtain ⟨s', hv, hc, hs, ht⟩ := Validate_of_ContradictoryMode e h
  rw [InitializeTraceContext_of_Validate_Return hv]
  exact ⟨rfl, hc, hs, ht⟩

theorem C12_contradictory_mode_rejected_witness :
    ContradictoryMode { sampleArgs false with TraceSession := 0 } (sampleMemory false) ∧
    (InitializeTraceContext sampleEnv { sampleArgs false with TraceSession := 0 }
      (sampleMemory false)).1 = false ∧
    ContradictoryMode (sampleReadonlyArgs false) (sampleMemory false) ∧
    (InitializeTraceContext sampleEnv (sampleReadonlyArgs false) (sampleMemory false)).1 = false :=
  ⟨Or.inl ⟨rfl, Or.inr (Or.inl rfl)⟩,
    (C12_contradictory_mode_rejected sampleEnv { sampleArgs false with TraceSession := 0 }
      (sampleMemory false) (Or.inl ⟨rfl, Or.inr (Or.inl rfl)⟩)).1,
    Or.inr ⟨rfl, rfl⟩,
    (C12_contradictory_mode_rejected sampleEnv (sampleReadonlyArgs false) (sampleMemory false)
      (Or.inr ⟨rfl, rfl⟩)).1⟩

/-- C13: with a context buffer of sufficient size, a call in which the thread
pool, the cancellation thread pool, `Rtl`, `Allocator`, `TracerConfig` or
`TraceStores` is `NULL` returns FALSE in the state it began in: no call has
been made, so nothing has been created and no work submitted, and the caller's
memory is as passed. -/
theorem C13_missing_argument_rejected (e : Env) (a : Args) (m : Memory)
    (hbuf : BufferSuffices e a m) (h : MissingArgument a) :
    InitializeTraceContext e a m = (false, State.enter m) ∧
    (InitializeTraceContext e a m).1 = false ∧
    (InitializeTraceContext e a m).2.Trace = [] ∧
    (InitializeTraceContext e a m).2.memory = m := by
  have hv : Validate e a (State.enter m) = Step.Return false (State.enter m) := by
    unfold Validate
    rw [ValidateSize_of_BufferSuffices hbuf]
    simp only [Step.andThen_Continue]
    rw [ValidateArguments_of_MissingArgument _ h]
    rfl
  rw [InitializeTraceContext_of_Validate_Return hv]
  exact ⟨rfl, rfl, rfl, rfl⟩

theorem C13_missing_argument_rejected_witness :
    (InitializeTraceContext sampleEnv
      { sampleArgs false with CancellationThreadpoolCallbackEnvironment := 0 }
      (sampleMemory false)).2.Trace = [] ∧
    (InitializeTraceContext sampleEnv { sampleArgs false with ThreadpoolCallbackEnvironment := 0 }
      (sampleMemory false)).1 = false :=
  ⟨(C13_missing_argument_rejected sampleEnv
      { sampleArgs false with CancellationThreadpoolCallbackEnvironment := 0 }
      (sampleMemory false) ⟨by decide, by decide, by decide⟩
      (Or.inr (Or.inr (Or.inr (Or.inr (Or.inr rfl)))))).2.2.1,
    (C13_missing_argument_rejected sampleEnv
      { sampleArgs false with ThreadpoolCallbackEnvironment := 0 }
      (sampleMemory false) ⟨by decide, by decide, by decide⟩
      (Or.inr (Or.inr (Or.inr (Or.inr (Or.inl rfl)))))).2.1⟩

end Tracer
namespace Tracer

/-! ## The ignore-bitmap fields of the context -/

theorem SameBitmap_refl (s : State) : SameBitmap s s := ⟨rfl, rfl, rfl⟩

theorem SameBitmap_trans {s1 s2 s3 : State} (h12 : SameBitmap s1 s2) (h23 : SameBitmap s2 s3) :
    SameBitmap s1 s3 :=
  ⟨h23.1.trans h12.1, h23.2.1.trans h12.2.1, h23.2.2.trans h12.2.2⟩

theorem SameBitmap_of_TraceContext_eq {s s' : State} (h : s'.TraceContext = s.TraceContext) :
    SameBitmap s s' := by
  unfold SameBitmap
  rw [h]
  exact ⟨rfl, rfl, rfl⟩

theorem SameBitmap_andThen {s : State} {x : Step} {f : State → Step}
    (hx : SameBitmap s x.state) (hf : ∀ s1, SameBitmap s1 (f s1).state) :
    SameBitmap s (x.andThen f).state :=
  andThen_rel (R := SameBitmap) (fun _ _ _ => SameBitmap_trans) hx hf

/-- Zeroing the context up to the ignore-bitmap fields and setting the plain
fields leaves the ignore-bitmap fields alone. -/
theorem InitializeContext_bitmap (e : Env) (a : Args) (s : State)
    (h : s.NumberOfBytesToZero = ZeroExtent.UpToBitmapFields) :
    SameBitmap s (InitializeContext e a s).state := by
  obtain ⟨c, sz, ts, calls, tr, cf, ro, nb⟩ := s
  simp only at h
  subst h
  unfold InitializeContext SameBitmap
  simp only
  split_ifs <;> exact ⟨rfl, rfl, rfl⟩

theorem InitializeBindMetadataInfoStoreWork_bitmap (e : Env) (a : Args) (n : Nat) (s : State) :
    SameBitmap s (InitializeBindMetadataInfoStoreWork e a n s).state := by
  unfold InitializeBindMetadataInfoStoreWork SameBitmap
  simp only
  split_ifs <;> simp

theorem InitializeBindRemainingMetadataStoresWork_bitmap (e : Env) (a : Args) (n : Nat)
    (s : State) : SameBitmap s (InitializeBindRemainingMetadataStoresWork e a n s).state := by
  unfold InitializeBindRemainingMetadataStoresWork SameBitmap
  simp only
  split_ifs <;> simp

theorem InitializeBindTraceStoreWork_bitmap (e : Env) (a : Args) (n : Nat) (s : State) :
    SameBitmap s (InitializeBindTraceStoreWork e a n s).state := by
  unfold InitializeBindTraceStoreWork SameBitmap
  simp only
  split_ifs <;> simp

theorem InitializeReadonlyNonStreamingBindCompleteWork_bitmap (e : Env) (a : Args) (n : Nat)
    (s : State) : SameBitmap s (InitializeReadonlyNonStreamingBindCompleteWork e a n s).state := by
  unfold InitializeReadonlyNonStreamingBindCompleteWork SameBitmap
  simp only
  split_ifs <;> simp

theorem CreateCleanupThreadpoolMembersWork_bitmap (e : Env) (a : Args) (n : Nat) (s : State) :
    SameBitmap s (CreateCleanupThreadpoolMembersWork e a n s).state := by
  unfold CreateCleanupThreadpoolMembersWork SameBitmap
  simp only
  split_ifs <;> exact ⟨rfl, rfl, rfl⟩

theorem InitializeWork_bitmap (e : Env) (a : Args) (s : State) :
    SameBitmap s (InitializeWork e a s).state := by
  unfold InitializeWork
  exact SameBitmap_andThen (SameBitmap_andThen (SameBitmap_andThen (SameBitmap_andThen
    (InitializeBindMetadataInfoStoreWork_bitmap e a _ s)
    (InitializeBindRemainingMetadataStoresWork_bitmap e a _))
    (InitializeBindTraceStoreWork_bitmap e a _))
    (InitializeReadonlyNonStreamingBindCompleteWork_bitmap e a _))
    (CreateCleanupThreadpoolMembersWork_bitmap e a _)

theorem CreateRelocationCompleteEvents_TraceContext (e : Env) (n : Nat) :
    ∀ (k : Nat) (s : State),
      (CreateRelocationCompleteEvents e n k s).state.TraceContext = s.TraceContext := by
  induction n with
  | zero => intro k s; rfl
  | succ n ih =>
    intro k s
    unfold CreateRelocationCompleteEvents
    simp only
    split_ifs
    · rfl
    · rw [ih]
      rfl

theorem InitializeAllocators_TraceContext (e : Env) (a : Args) (n : Nat) :
    ∀ (k : Nat) (s : State),
      (InitializeAllocators e a n k s).state.TraceContext = s.TraceContext := by
  induction n with
  | zero => intro k s; rfl
  | succ n ih =>
    intro k s
    unfold InitializeAllocators
    simp only
    split_ifs
    · rfl
    · rfl
    · rw [ih]
      rfl

theorem RegisterAtExitAndTimers_bitmap (e : Env) (a : Args) (s : State) :
    SameBitmap s (RegisterAtExitAndTimers e a s).state := by
  unfold RegisterAtExitAndTimers
  refine SameBitmap_andThen (SameBitmap_andThen ?_ ?_) ?_
  · unfold RegisterAtExit SameBitmap
    simp only
    split_ifs <;> exact ⟨rfl, rfl, rfl⟩
  · intro s1
    unfold EnableWorkingSetTracing SameBitmap
    simp only
    split_ifs <;> exact ⟨rfl, rfl, rfl⟩
  · intro s1
    unfold EnablePerformanceTracing SameBitmap
    simp only
    split_ifs <;> exact ⟨rfl, rfl, rfl⟩

theorem PrepareStores_bitmap (e : Env) (a : Args) (s : State) :
    SameBitmap s (PrepareStores e a s).state := by
  unfold PrepareStores
  split_ifs
  · exact SameBitmap_of_TraceContext_eq (CreateRelocationCompleteEvents_TraceContext e _ _ s)
  · exact RegisterAtExitAndTimers_bitmap e a s

theorem SubmitBindMetadataInfoWorks_TraceContext (n : Nat) :
    ∀ (k : Nat) (s : State),
      (SubmitBindMetadataInfoWorks n k s).TraceContext = s.TraceContext := by
  induction n with
  | zero => intro k s; rfl
  | succ n ih =>
    intro k s
    unfold SubmitBindMetadataInfoWorks
    rw [ih]
    rfl

theorem WaitForLoadingComplete_bitmap (e : Env) (a : Args) (s : State) :
    SameBitmap s (WaitForLoadingComplete e a s).state := by
  unfold WaitForLoadingComplete SameBitmap
  simp only
  split_ifs <;> exact ⟨rfl, rfl, rfl⟩

theorem Finish_bitmap (x : Step) : SameBitmap x.state (Finish x).2 := by
  cases x <;> exact ⟨rfl, rfl, rfl⟩

/-- From the state in which a validation has accepted an ignore bitmap to the
end of the call, the ignore-bitmap fields of the context stay as they are. -/
theorem InitializeTraceContext_bitmap {e : Env} {a : Args} {m : Memory} {s1 : State}
    (hv : Validate e a (State.enter m) = Step.Continue s1)
    (hz : s1.NumberOfBytesToZero = ZeroExtent.UpToBitmapFields) :
    SameBitmap s1 (InitializeTraceContext e a m).2 := by
  unfold InitializeTraceContext
  refine SameBitmap_trans ?_ (Finish_bitmap _)
  unfold Body Setup PrepareContext
  rw [hv]
  simp only [Step.andThen_Continue]
  refine SameBitmap_andThen (SameBitmap_andThen (SameBitmap_andThen (SameBitmap_andThen
    (InitializeContext_bitmap e a s1 hz) (InitializeWork_bitmap e a))
    (PrepareStores_bitmap e a)) ?_) ?_
  · exact fun s => SameBitmap_of_TraceContext_eq (InitializeAllocators_TraceContext e a _ _ s)
  · intro s
    refine SameBitmap_trans ?_ (WaitForLoadingComplete_bitmap e a _)
    exact SameBitmap_of_TraceContext_eq (SubmitBindMetadataInfoWorks_TraceContext _ _ s)

end Tracer
namespace Tracer

/-! ## The ignore-bitmap descriptor -/

/-- A validation either returns FALSE at the size or the argument checks, in
a state that differs from the one at entry at most in `*SizeOfTraceContext`,
or goes on to the mode checks with the caller's flags in `ContextFlags`. -/
theorem Validate_cases (e : Env) (a : Args) (m : Memory) :
    ((¬ BufferSuffices e a m ∨ MissingArgument a) ∧
      ∃ s', Validate e a (State.enter m) = Step.Return false s' ∧
        s'.TraceContext = m.TraceContext ∧ s'.TraceStores = m.TraceStores ∧ s'.Trace = []) ∨
    (∃ s2, Validate e a (State.enter m) = ValidateMode e a s2 ∧
      BufferSuffices e a m ∧ ¬ MissingArgument a ∧
      s2.ContextFlags.Readonly = a.Readonly ∧
      s2.ContextFlags.IgnorePreferredAddresses = a.IgnorePreferredAddresses ∧
      s2.TraceContext = m.TraceContext ∧ s2.TraceStores = m.TraceStores ∧
      s2.SizeOfTraceContext = m.SizeOfTraceContext ∧ s2.Trace = []) := by
  unfold Validate
  cases h1 : ValidateSize e a (State.enter m) with
  | Return b s1 =>
    obtain ⟨hb, hc, hs, ht⟩ := ValidateSize_Return h1
    subst hb
    refine Or.inl ⟨Or.inl fun hbuf => ?_, s1, rfl, hc, hs, ht⟩
    rw [ValidateSize_of_BufferSuffices hbuf] at h1
    cases h1
  | GotoError s1 =>
    unfold ValidateSize at h1
    split_ifs at h1
  | Continue s1 =>
    have hbuf := BufferSuffices_of_ValidateSize h1
    have := ValidateSize_Continue h1
    subst this
    simp only [Step.andThen_Continue]
    cases h2 : ValidateArguments a (State.enter m) with
    | Return b s2 =>
      obtain ⟨hb, hc, hs, ht⟩ := ValidateArguments_Return h2
      subst hb
      refine Or.inl ⟨Or.inr ?_, s2, rfl, hc, hs, ht⟩
      by_contra hn
      have := ValidateArguments_of_present (State.enter m) hn
      rw [h2] at this
      cases this
    | GotoError s2 =>
      unfold ValidateArguments at h2
      cases hf : a.TraceContextFlags <;> rw [hf] at h2 <;> simp only at h2 <;> split_ifs at h2
    | Continue s2 =>
      obtain ⟨f1, f2, f3, f4, f5, f6⟩ := ValidateArguments_Continue h2
      refine Or.inr ⟨s2, rfl, hbuf, fun hn => ?_, f1, f2, f3, f4, f5, f6⟩
      rw [ValidateArguments_of_MissingArgument _ hn] at h2
      cases h2

/-- The mode checks of a readonly call with `IgnorePreferredAddresses` set
reject a descriptor that has a buffer or the wrong size, in the state they
began in. -/
theorem ValidateMode_of_bad_descriptor (e : Env) (a : Args) {s : State}
    (hro : s.ContextFlags.Readonly = true) (hig : s.ContextFlags.IgnorePreferredAddresses = true)
    (h : s.TraceContext.IgnorePreferredAddressesBitmap.Buffer ≠ BitmapBufferPointer.NULL ∨
      s.TraceContext.IgnorePreferredAddressesBitmap.SizeOfBitMap ≠ MAX_TRACE_STORE_IDS) :
    ∃ s', ValidateMode e a s = Step.Return false s' ∧ s'.TraceContext = s.TraceContext ∧
      s'.TraceStores = s.TraceStores ∧ s'.Trace = s.Trace := by
  unfold ValidateMode
  simp only
  rw [if_pos hro, if_pos hig]
  split_ifs <;> first | exact ⟨_, rfl, rfl, rfl, rfl⟩ | (exfalso; tauto)

/-- The mode checks of a readonly call that accept the ignore-bitmap
descriptor leave its buffer pointing to the `BitmapBuffer` of the context,
however the walk over the bitmap ends; when the bitmap is accepted too, the
zeroing that follows stops before the ignore-bitmap fields. -/
theorem ValidateMode_of_good_descriptor (e : Env) (a : Args) {s : State}
    (hro : s.ContextFlags.Readonly = true) (hts : s.TraceStores.Flags.Readonly = true)
    (hig : s.ContextFlags.IgnorePreferredAddresses = true)
    (hbuf : s.TraceContext.IgnorePreferredAddressesBitmap.Buffer = BitmapBufferPointer.NULL)
    (hsize : s.TraceContext.IgnorePreferredAddressesBitmap.SizeOfBitMap = MAX_TRACE_STORE_IDS) :
    (ValidateMode e a s).state.TraceContext = WithBitmapBuffer s.TraceContext ∧
    (∀ s', ValidateMode e a s ≠ Step.GotoError s') ∧
    (∀ s', ValidateMode e a s = Step.Continue s' →
      s'.NumberOfBytesToZero = ZeroExtent.UpToBitmapFields) := by
  unfold ValidateMode
  simp only
  rw [if_pos hro, if_neg (by simp [hts]), if_pos hig, if_neg (by simp [hsize]),
    if_neg (by simp [hbuf])]
  cases WalkIgnoreBitmap e s.TraceContext.IgnorePreferredAddressesBitmap.SizeOfBitMap
      s.TraceContext.BitmapBuffer TraceStoreInvalidId 0 0 0 s.TraceStores with
  | Failed ts =>
    simp only
    refine ⟨rfl, ?_, ?_⟩ <;> intro s' h <;> cases h
  | OutOfFuel =>
    simp only
    refine ⟨rfl, ?_, ?_⟩ <;> intro s' h <;> cases h
  | Wrapped n ts =>
    simp only
    split_ifs
    · refine ⟨rfl, ?_, ?_⟩ <;> intro s' h <;> cases h
    · refine ⟨rfl, fun s' h => (by cases h), fun s' h => ?_⟩
      injection h with h
      subst h
      rfl

/-- C16: a readonly call with `IgnorePreferredAddresses` set returns FALSE,
with the context and the stores as passed and no call made, when the
ignore-bitmap descriptor of the context already has a buffer or has a size
other than `MAX_TRACE_STORE_IDS`; and when the call gets to the descriptor
(the buffer suffices, no argument is missing, the stores are readonly) and the
descriptor has no buffer and that size, the call ends with the buffer of the
descriptor pointing to the `BitmapBuffer` of the context, the size of the
descriptor and the bits of `BitmapBuffer` being as the caller passed them. -/
theorem C16_ignore_bitmap_descriptor (e : Env) (a : Args) (m : Memory)
    (hro : a.Readonly = true) (hig : a.IgnorePreferredAddresses = true) :
    ((m.TraceContext.IgnorePreferredAddressesBitmap.Buffer ≠ BitmapBufferPointer.NULL ∨
        m.TraceContext.IgnorePreferredAddressesBitmap.SizeOfBitMap ≠ MAX_TRACE_STORE_IDS) →
      (InitializeTraceContext e a m).1 = false ∧
      (InitializeTraceContext e a m).2.TraceContext = m.TraceContext ∧
      (InitializeTraceContext e a m).2.TraceStores = m.TraceStores ∧
      (InitializeTraceContext e a m).2.Trace = []) ∧
    (BufferSuffices e a m → ¬ MissingArgument a → m.TraceStores.Flags.Readonly = true →
      m.TraceContext.IgnorePreferredAddressesBitmap.Buffer = BitmapBufferPointer.NULL →
      m.TraceContext.IgnorePreferredAddressesBitmap.SizeOfBitMap = MAX_TRACE_STORE_IDS →
      (InitializeTraceContext e a m).2.TraceContext.IgnorePreferredAddressesBitmap =
        { SizeOfBitMap := MAX_TRACE_STORE_IDS,
          Buffer := BitmapBufferPointer.ContextBitmapBuffer } ∧
      (InitializeTraceContext e a m).2.TraceContext.BitmapBuffer =
        m.TraceContext.BitmapBuffer) := by
  refine ⟨?_, ?_⟩
  · intro hbad
    rcases Validate_cases e a m with ⟨hwhy, s', hv, hc, hs, ht⟩ |
      ⟨s2, hv, -, -, f1, f2, f3, f4, -, f6⟩
    · rw [InitializeTraceContext_of_Validate_Return hv]
      exact ⟨rfl, hc, hs, ht⟩
    · rw [← f3] at hbad
      obtain ⟨s', hm, hc, hs, ht⟩ := ValidateMode_of_bad_descriptor e a (f1.trans hro)
        (f2.trans hig) hbad
      rw [hm] at hv
      rw [InitializeTraceContext_of_Validate_Return hv]
      exact ⟨rfl, hc.trans f3, hs.trans f4, ht.trans f6⟩
  · intro hbuf hargs hts hnull hsize
    rcases Validate_cases e a m with ⟨hwhy, s', hv, hc, hs, ht⟩ |
      ⟨s2, hv, -, -, f1, f2, f3, f4, -, f6⟩
    · rcases hwhy with hwhy | hwhy
      · exact absurd hbuf hwhy
      · exact absurd hwhy hargs
    · rw [← f3] at hnull hsize
      rw [← f4] at hts
      obtain ⟨hc, hne, hz⟩ := ValidateMode_of_good_descriptor e a (f1.trans hro) hts
        (f2.trans hig) hnull hsize
      rw [← hv] at hc hne hz
      have hfinal : SameBitmap (Validate e a (State.enter m)).state
          (InitializeTraceContext e a m).2 := by
        cases hvc : Validate e a (State.enter m) with
        | Continue s1 => exact InitializeTraceContext_bitmap hvc (hz s1 hvc)
        | Return b s1 =>
          rw [InitializeTraceContext_of_Validate_Return hvc]
          exact SameBitmap_refl _
        | GotoError s1 => exact absurd hvc (hne s1)
      obtain ⟨-, h2, h3⟩ := hfinal
      rw [h2, h3, hc]
      unfold WithBitmapBuffer
      simp only
      rw [hsize, f3]
      exact ⟨rfl, rfl⟩

end Tracer

namespace Tracer

theorem C16_ignore_bitmap_descriptor_witness :
    (InitializeTraceContext sampleEnv (sampleReadonlyArgs true) suppliedBufferMemory).1 = false ∧
    (InitializeTraceContext sampleEnv (sampleReadonlyArgs true)
      (bitmapMemory 6)).2.TraceContext.IgnorePreferredAddressesBitmap =
        { SizeOfBitMap := MAX_TRACE_STORE_IDS,
          Buffer := BitmapBufferPointer.ContextBitmapBuffer } :=
  have h1 := C16_ignore_bitmap_descriptor sampleEnv (sampleReadonlyArgs true)
    suppliedBufferMemory rfl rfl
  have h2 := C16_ignore_bitmap_descriptor sampleEnv (sampleReadonlyArgs true)
    (bitmapMemory 6) rfl rfl
  ⟨(h1.1 (Or.inl (by decide))).1,
    (h2.2 (by decide) (by decide) rfl rfl rfl).1⟩

end Tracer
namespace Tracer

/-! ## The bits the walk visits -/

theorem find?_eq_head?_filter (p : Nat → Bool) (l : List Nat) :
    l.find? p = (l.filter p).head? := by
  induction l with
  | nil => rfl
  | cons x xs ih =>
    cases hx : p x
    · rw [List.find?_cons_of_neg _ (by simp [hx]), List.filter_cons_of_neg (by simp [hx]), ih]
    · rw [List.find?_cons_of_pos _ hx, List.filter_cons_of_pos hx]
      rfl

/-- In an increasing list, what a filter keeps after its first element is
what it keeps above that element. -/
theorem filter_above_head (q : Nat → Bool) :
    ∀ (l : List Nat), l.Pairwise (fun x y => x < y) → ∀ (b : Nat) (rest : List Nat),
      l.filter q = b :: rest → l.filter (fun i => decide (b + 1 ≤ i) && q i) = rest := by
  intro l
  induction l with
  | nil => intro _ b rest h; cases h
  | cons x xs ih =>
    intro hp b rest h
    rw [List.pairwise_cons] at hp
    cases hx : q x
    · rw [List.filter_cons_of_neg (by simp [hx])] at h
      rw [List.filter_cons_of_neg (by simp [hx])]
      exact ih hp.2 b rest h
    · rw [List.filter_cons_of_pos hx] at h
      injection h with h1 h2
      subst h1
      rw [List.filter_cons_of_neg (by simp)]
      rw [← h2]
      apply List.filter_congr
      intro y hy
      have := hp.1 y hy
      simp [Nat.succ_le_of_lt this]

theorem mem_SetBitsFrom {size buf h i : Nat} :
    i ∈ SetBitsFrom size buf h ↔ i < size ∧ h ≤ i ∧ buf.testBit i = true := by
  unfold SetBitsFrom
  simp [List.mem_filter, List.mem_range]

theorem mem_SetBits {size buf i : Nat} :
    i ∈ SetBits size buf ↔ i < size ∧ buf.testBit i = true := by
  unfold SetBits
  simp [List.mem_filter, List.mem_range]

theorem SetBitsFrom_zero (size buf : Nat) : SetBitsFrom size buf 0 = SetBits size buf := by
  unfold SetBitsFrom SetBits
  apply List.filter_congr
  intro i _
  simp

theorem SetBits_pairwise (size buf : Nat) :
    (SetBits size buf).Pairwise (fun x y => x < y) :=
  List.Pairwise.filter _ (List.pairwise_lt_range size)

/-- The set bits above the first set bit at or after a hint are the rest of
the set bits at or after the hint. -/
theorem SetBitsFrom_tail {size buf h b : Nat} {rest : List Nat}
    (hb : SetBitsFrom size buf h = b :: rest) : SetBitsFrom size buf (b + 1) = rest := by
  have hmem : b ∈ SetBitsFrom size buf h := by rw [hb]; exact List.mem_cons_self _ _
  have hle := (mem_SetBitsFrom.mp hmem).2.1
  have := filter_above_head (fun i => decide (h ≤ i) && buf.testBit i) (List.range size)
    (List.pairwise_lt_range size) b rest hb
  rw [← this]
  unfold SetBitsFrom
  apply List.filter_congr
  intro i _
  by_cases hi : b + 1 ≤ i
  · have : h ≤ i := by omega
    simp [hi, this]
  · simp [hi]

/-- From a set bit `p`, `RtlFindSetBits` with the hint `p + 1` finds the next
set bit if there is one, and otherwise wraps round to a bit not above `p`. -/
theorem RtlFindSetBits_next {size buf p : Nat} (hp : p < size) (hbit : buf.testBit p = true)
    (hsize : size ≤ BITS_NOT_FOUND) :
    (SetBitsFrom size buf (p + 1) = [] → RtlFindSetBits size buf 1 (p + 1) ≤ p) ∧
    (∀ b rest, SetBitsFrom size buf (p + 1) = b :: rest →
      RtlFindSetBits size buf 1 (p + 1) = b) := by
  have hf := RtlFindSetBits_found 1 (p + 1) ⟨p, hp, hbit⟩ hsize
  refine ⟨?_, ?_⟩
  · intro hnil
    by_contra hgt
    have : RtlFindSetBits size buf 1 (p + 1) ∈ SetBitsFrom size buf (p + 1) :=
      mem_SetBitsFrom.mpr ⟨hf.1, by omega, hf.2⟩
    rw [hnil] at this
    cases this
  · intro b rest hb
    have hmem : b ∈ SetBitsFrom size buf (p + 1) := by rw [hb]; exact List.mem_cons_self _ _
    have hlt := (mem_SetBitsFrom.mp hmem).1
    have hle := (mem_SetBitsFrom.mp hmem).2.1
    unfold RtlFindSetBits
    simp only
    rw [if_neg (by omega), find?_eq_head?_filter]
    unfold SetBitsFrom at hb
    rw [hb]
    rfl

/-- From the start, `RtlFindSetBits` finds the lowest set bit, and reports
`BITS_NOT_FOUND` when no bit is set. -/
theorem RtlFindSetBits_first (size buf : Nat) :
    (SetBits size buf = [] → RtlFindSetBits size buf 1 0 = BITS_NOT_FOUND) ∧
    (∀ b rest, SetBits size buf = b :: rest → RtlFindSetBits size buf 1 0 = b) := by
  have h0 : (if 0 ≥ size then 0 else 0) = 0 := by split_ifs <;> rfl
  refine ⟨?_, ?_⟩
  · intro hnil
    unfold RtlFindSetBits
    simp only
    rw [h0, find?_eq_head?_filter, find?_eq_head?_filter]
    have h1 := SetBitsFrom_zero size buf
    unfold SetBitsFrom at h1
    rw [h1]
    have h2 : SetBits size buf = [] := hnil
    unfold SetBits at hnil
    rw [hnil, h2]
    rfl
  · intro b rest hb
    unfold RtlFindSetBits
    simp only
    rw [h0, find?_eq_head?_filter]
    have h1 := SetBitsFrom_zero size buf
    unfold SetBitsFrom at h1
    rw [h1, hb]
    rfl

/-- What a walk that wraps round reports: the number of bits it visited, and
the stores with the flag set for each visited bit in turn. -/
theorem WalkIgnoreBitmap_Wrapped (e : Env) (size buf : Nat) (fuel : Nat) :
    ∀ (hint prev n : Nat) (ts : TRACE_STORES) (n' : Nat) (ts' : TRACE_STORES),
      WalkIgnoreBitmap e size buf fuel hint prev n ts = WalkResult.Wrapped n' ts' →
      n' = n + (VisitedBits e size buf fuel hint prev).length ∧
      ts' = (VisitedBits e size buf fuel hint prev).foldl SetIgnorePreferredAddresses ts := by
  induction fuel with
  | zero => intro hint prev n ts n' ts' h; simp [WalkIgnoreBitmap] at h
  | succ fuel ih =>
    intro hint prev n ts n' ts' h
    unfold WalkIgnoreBitmap at h
    unfold VisitedBits
    simp only at h ⊢
    split_ifs at h ⊢ with h1 h2
    · injection h with h3 h4
      exact ⟨by simp [h3], by simp [h4]⟩
    · obtain ⟨i1, i2⟩ := ih _ _ _ _ _ _ h
      refine ⟨by rw [i1, List.length_cons]; omega, ?_⟩
      rw [i2, List.foldl_cons]
      rfl

/-- From a set bit, a walk that uses `RtlFindSetBits` visits the set bits
above it, when the bound on the iterations allows one iteration per bit
position left. -/
theorem VisitedBits_from {e : Env} (hfind : e.RtlFindSetBits = RtlFindSetBits) {size buf : Nat}
    (hsize : size ≤ TraceStoreInvalidId) (fuel : Nat) :
    ∀ (p : Nat), p < size → buf.testBit p = true → size ≤ p + fuel →
      VisitedBits e size buf fuel (p + 1) p = SetBitsFrom size buf (p + 1) := by
  have hsize' : size ≤ BITS_NOT_FOUND := by
    unfold TraceStoreInvalidId at hsize
    unfold BITS_NOT_FOUND
    omega
  induction fuel with
  | zero => intro p hp _ h; omega
  | succ fuel ih =>
    intro p hp hbit hfuel
    obtain ⟨hnil, hcons⟩ := RtlFindSetBits_next hp hbit hsize'
    have hf := RtlFindSetBits_found 1 (p + 1) ⟨p, hp, hbit⟩ hsize'
    unfold VisitedBits
    simp only
    rw [hfind]
    have hok : ¬ (RtlFindSetBits size buf 1 (p + 1) = BITS_NOT_FOUND ∨
        RtlFindSetBits size buf 1 (p + 1) ≥ TraceStoreInvalidId) := by
      unfold BITS_NOT_FOUND at *
      unfold TraceStoreInvalidId at *
      omega
    rw [if_neg hok]
    cases hl : SetBitsFrom size buf (p + 1) with
    | nil => rw [if_pos (hnil hl)]
    | cons b rest =>
      have hb := hcons b rest hl
      have hmem : b ∈ SetBitsFrom size buf (p + 1) := by rw [hl]; exact List.mem_cons_self _ _
      obtain ⟨m1, m2, m3⟩ := mem_SetBitsFrom.mp hmem
      rw [hb, if_neg (by omega), ih b m1 m3 (by omega), SetBitsFrom_tail hl]

/-- From the start, a walk that uses `RtlFindSetBits` visits no bit when bit
`0` is set, and every set bit, in increasing order, when it is not. -/
theorem VisitedBits_start {e : Env} (hfind : e.RtlFindSetBits = RtlFindSetBits) {size buf : Nat}
    (hsize : size ≤ TraceStoreInvalidId) {fuel : Nat} (hfuel : size + 1 ≤ fuel) :
    VisitedBits e size buf fuel 0 0 = if buf.testBit 0 = true then [] else SetBits size buf := by
  obtain ⟨hnil, hcons⟩ := RtlFindSetBits_first size buf
  cases fuel with
  | zero => omega
  | succ fuel =>
    unfold VisitedBits
    simp only
    rw [hfind]
    cases hl : SetBits size buf with
    | nil =>
      rw [if_pos (Or.inl (hnil hl))]
      split_ifs <;> rfl
    | cons b rest =>
      have hb := hcons b rest hl
      have hmem : b ∈ SetBits size buf := by rw [hl]; exact List.mem_cons_self _ _
      obtain ⟨m1, m2⟩ := mem_SetBits.mp hmem
      have hok : ¬ (b = BITS_NOT_FOUND ∨ b ≥ TraceStoreInvalidId) := by
        unfold BITS_NOT_FOUND
        unfold TraceStoreInvalidId at *
        omega
      rw [hb, if_neg hok]
      by_cases hb0 : b = 0
      · subst hb0
        rw [if_pos (Nat.le_refl 0), if_pos m2]
      · have h0 : buf.testBit 0 = false := by
          by_contra hc
          have hc : buf.testBit 0 = true := by simpa using hc
          have h0mem : 0 ∈ SetBits size buf := mem_SetBits.mpr ⟨by omega, hc⟩
          rw [hl] at h0mem
          have hpw := SetBits_pairwise size buf
          rw [hl, List.pairwise_cons] at hpw
          rcases List.mem_cons.mp h0mem with h1 | h1
          · exact hb0 h1.symm
          · have := hpw.1 0 h1
            omega
        rw [if_neg (by omega), if_neg (by simp [h0]),
          VisitedBits_from hfind hsize fuel b m1 m2 (by omega)]
        rw [← SetBitsFrom_zero] at hl
        rw [SetBitsFrom_tail hl]

end Tracer
namespace Tracer

/-! ## The stores after the walk -/

@[simp] theorem SetIgnorePreferredAddresses_ElementsPerTraceStore (ts : TRACE_STORES) (b : Nat) :
    (SetIgnorePreferredAddresses ts b).ElementsPerTraceStore = ts.ElementsPerTraceStore := rfl

theorem TraceStoreIdToTraceStore_congr {ts ts' : TRACE_STORES}
    (h : ts'.ElementsPerTraceStore = ts.ElementsPerTraceStore) (id : Int) :
    TraceStoreIdToTraceStore ts' id = TraceStoreIdToTraceStore ts id := by
  unfold TraceStoreIdToTraceStore
  rw [h]

/-- The stores after the flag has been set for each bit of a list in turn:
every slot holds what it held, with the flag set if it is the slot that one of
the bits resolves to. -/
theorem getElem?_foldl_SetIgnorePreferredAddresses (L : List Nat) :
    ∀ (ts : TRACE_STORES) (j : Nat),
      (L.foldl SetIgnorePreferredAddresses ts).Stores[j]? =
        (ts.Stores[j]?).map fun st =>
          { st with IgnorePreferredAddresses := (st.IgnorePreferredAddresses ||
              L.any (fun b => TraceStoreIdToTraceStore ts (b : Int) == j)) } := by
  induction L with
  | nil =>
    intro ts j
    simp only [List.foldl_nil, List.any_nil, Bool.or_false]
    cases ts.Stores[j]? <;> rfl
  | cons b L ih =>
    intro ts j
    rw [List.foldl_cons, ih]
    have hslot : ∀ c : Nat, TraceStoreIdToTraceStore (SetIgnorePreferredAddresses ts b) (c : Int) =
        TraceStoreIdToTraceStore ts (c : Int) := fun c => rfl
    simp only [hslot, List.any_cons]
    have hst : (SetIgnorePreferredAddresses ts b).Stores[j]? =
        if TraceStoreIdToTraceStore ts (b : Int) = j then
          (ts.Stores[j]?).map (fun st => { st with IgnorePreferredAddresses := true })
        else ts.Stores[j]? := getElem?_modifyStore _ _ _ _
    rw [hst]
    by_cases hj : TraceStoreIdToTraceStore ts (b : Int) = j
    · rw [if_pos hj]
      cases ts.Stores[j]? with
      | none => rfl
      | some st => simp [hj]
    · rw [if_neg hj]
      have hj' : (TraceStoreIdToTraceStore ts (b : Int) == j) = false := by simpa using hj
      cases ts.Stores[j]? with
      | none => rfl
      | some st => simp [hj']

theorem TraceStoreIdToArrayIndex_cast {b : Nat} (h1 : 1 ≤ b) (h2 : b ≤ 65536) :
    TraceStoreIdToArrayIndex (b : Int) = b - 1 := by
  unfold TraceStoreIdToArrayIndex toUSHORT
  rw [Int.emod_eq_of_lt (by omega) (by omega)]
  omega

/-- The mode checks never jump to the `Error` label. -/
theorem ValidateMode_ne_GotoError (e : Env) (a : Args) (s s' : State) :
    ValidateMode e a s ≠ Step.GotoError s' := by
  unfold ValidateMode
  simp only
  cases WalkIgnoreBitmap e s.TraceContext.IgnorePreferredAddressesBitmap.SizeOfBitMap
      s.TraceContext.BitmapBuffer TraceStoreInvalidId 0 0 0 s.TraceStores <;>
    simp only <;> split_ifs <;> intro h <;> cases h

/-- A validation never jumps to the `Error` label. -/
theorem Validate_ne_GotoError (e : Env) (a : Args) (m : Memory) (s' : State) :
    Validate e a (State.enter m) ≠ Step.GotoError s' := by
  rcases Validate_cases e a m with ⟨-, s1, hv, -⟩ | ⟨s2, hv, -⟩
  · rw [hv]
    intro h
    cases h
  · rw [hv]
    exact ValidateMode_ne_GotoError e a s2 s'

/-- Mode checks that pass with `IgnorePreferredAddresses` set have walked a
bitmap of `MAX_TRACE_STORE_IDS` bits, the walk has wrapped round after at least
one bit, and the stores are those the walk ended with. -/
theorem ValidateMode_Continue_ignore {e : Env} {a : Args} {s s' : State}
    (h : ValidateMode e a s = Step.Continue s') (hro : s.ContextFlags.Readonly = true)
    (hig : s.ContextFlags.IgnorePreferredAddresses = true) :
    ∃ n, n ≠ 0 ∧ WalkIgnoreBitmap e MAX_TRACE_STORE_IDS s.TraceContext.BitmapBuffer
      TraceStoreInvalidId 0 0 0 s.TraceStores = WalkResult.Wrapped n s'.TraceStores := by
  unfold ValidateMode at h
  simp only at h
  rw [if_pos hro] at h
  split_ifs at h with c1 c2 c3
  rw [not_not.mp c2] at h
  cases hw : WalkIgnoreBitmap e MAX_TRACE_STORE_IDS s.TraceContext.BitmapBuffer
      TraceStoreInvalidId 0 0 0 s.TraceStores with
  | Failed ts => rw [hw] at h; cases h
  | OutOfFuel => rw [hw] at h; cases h
  | Wrapped n ts =>
    rw [hw] at h
    simp only at h
    split_ifs at h with c4
    injection h with h
    subst h
    exact ⟨n, c4, rfl⟩

/-- What a walk from the start that uses `RtlFindSetBits` comes to on a
bitmap of `MAX_TRACE_STORE_IDS` bits, whatever bound of at least
`TraceStoreInvalidId` iterations it is given: it fails when no bit is set, ends
without a bit seen when bit `0` is set, and otherwise wraps round after every
set bit. -/
theorem WalkIgnoreBitmap_start {e : Env} (hfind : e.RtlFindSetBits = RtlFindSetBits) (buf : Nat)
    (ts : TRACE_STORES) {fuel : Nat} (hfuel : TraceStoreInvalidId ≤ fuel) :
    (∀ n ts', WalkIgnoreBitmap e MAX_TRACE_STORE_IDS buf fuel 0 0 0 ts =
        WalkResult.Wrapped n ts' →
      n = (if buf.testBit 0 = true then [] else SetBits MAX_TRACE_STORE_IDS buf).length ∧
      ts' = (if buf.testBit 0 = true then [] else SetBits MAX_TRACE_STORE_IDS buf).foldl
        SetIgnorePreferredAddresses ts) ∧
    (buf.testBit 0 = false → SetBits MAX_TRACE_STORE_IDS buf ≠ [] →
      WalkIgnoreBitmap e MAX_TRACE_STORE_IDS buf fuel 0 0 0 ts =
        WalkResult.Wrapped (SetBits MAX_TRACE_STORE_IDS buf).length
          ((SetBits MAX_TRACE_STORE_IDS buf).foldl SetIgnorePreferredAddresses ts)) := by
  have hv : VisitedBits e MAX_TRACE_STORE_IDS buf fuel 0 0 =
      if buf.testBit 0 = true then [] else SetBits MAX_TRACE_STORE_IDS buf :=
    VisitedBits_start hfind (by decide)
      (by unfold TraceStoreInvalidId at hfuel; unfold MAX_TRACE_STORE_IDS
          unfold TraceStoreInvalidId; omega)
  have hW : ∀ n ts', WalkIgnoreBitmap e MAX_TRACE_STORE_IDS buf fuel 0 0 0 ts =
        WalkResult.Wrapped n ts' →
      n = (if buf.testBit 0 = true then [] else SetBits MAX_TRACE_STORE_IDS buf).length ∧
      ts' = (if buf.testBit 0 = true then [] else SetBits MAX_TRACE_STORE_IDS buf).foldl
        SetIgnorePreferredAddresses ts := by
    intro n ts' h
    obtain ⟨h1, h2⟩ := WalkIgnoreBitmap_Wrapped e _ _ _ _ _ _ _ _ _ h
    rw [hv] at h1 h2
    exact ⟨by omega, h2⟩
  refine ⟨hW, ?_⟩
  intro h0 hne
  cases hw : WalkIgnoreBitmap e MAX_TRACE_STORE_IDS buf fuel 0 0 0 ts with
  | OutOfFuel =>
    exact absurd hw (WalkIgnoreBitmap_ne_OutOfFuel e _ _ fuel 0 0 0 ts (by decide) (by omega))
  | Failed ts' =>
    exfalso
    obtain ⟨b, hb⟩ := List.exists_mem_of_ne_nil _ hne
    obtain ⟨m1, m2⟩ := mem_SetBits.mp hb
    exact WalkIgnoreBitmap_not_Failed hfind (by decide) ⟨b, m1, m2⟩ fuel 0 0 0 ts ts' hw
  | Wrapped n ts' =>
    obtain ⟨h1, h2⟩ := hW n ts' hw
    rw [if_neg (by simp [h0])] at h1 h2
    rw [h1, h2]

end Tracer
namespace Tracer

/-! ## Accepted and rejected ignore bitmaps -/

/-- With a stride that is not zero, a bit of the bitmap other than bit `0`
resolves to the slot of a trace store id exactly when it is that id. -/
theorem TraceStoreIdToTraceStore_inj {ts : TRACE_STORES} (hE : 0 < ts.ElementsPerTraceStore)
    {b id : Nat} (hb1 : 1 ≤ b) (hb2 : b ≤ 65536) (hid1 : 1 ≤ id) (hid2 : id ≤ 65536) :
    TraceStoreIdToTraceStore ts (b : Int) = TraceStoreIdToTraceStore ts (id : Int) ↔ b = id := by
  unfold TraceStoreIdToTraceStore
  rw [TraceStoreIdToArrayIndex_cast hb1 hb2, TraceStoreIdToArrayIndex_cast hid1 hid2]
  constructor
  · intro h
    have := Nat.eq_of_mul_eq_mul_right hE h
    omega
  · intro h
    rw [h]

/-- A validation that passes in a readonly call with `IgnorePreferredAddresses`
set, with `RtlFindSetBits` as the bit search: bit `0` of the ignore bitmap is
clear, some bit is set, and the stores are the caller's stores with the flag
set for each set bit in turn. -/
theorem Validate_Continue_ignore {e : Env} {a : Args} {m : Memory} {s1 : State}
    (hfind : e.RtlFindSetBits = RtlFindSetBits)
    (hro : a.Readonly = true) (hig : a.IgnorePreferredAddresses = true)
    (hv : Validate e a (State.enter m) = Step.Continue s1) :
    m.TraceContext.BitmapBuffer.testBit 0 = false ∧ IgnoreBits m ≠ [] ∧
    s1.TraceStores = (IgnoreBits m).foldl SetIgnorePreferredAddresses m.TraceStores := by
  rcases Validate_cases e a m with ⟨-, s', hr, -⟩ | ⟨s2, hm, -, -, f1, f2, f3, f4, -, -⟩
  · rw [hr] at hv
    cases hv
  rw [hm] at hv
  obtain ⟨n, hn, hw⟩ := ValidateMode_Continue_ignore hv (f1.trans hro) (f2.trans hig)
  rw [f3, f4] at hw
  obtain ⟨hW, hAll⟩ := WalkIgnoreBitmap_start hfind m.TraceContext.BitmapBuffer m.TraceStores
    (Nat.le_refl TraceStoreInvalidId)
  obtain ⟨e1, e2⟩ := hW n s1.TraceStores hw
  have h0 : m.TraceContext.BitmapBuffer.testBit 0 = false := by
    by_contra hc
    rw [if_pos (by simpa using hc)] at e1
    exact hn e1
  rw [if_neg (by simp [h0])] at e1 e2
  have hne : IgnoreBits m ≠ [] := by
    intro hnil
    unfold IgnoreBits at hnil
    rw [hnil] at e1
    exact hn e1
  exact ⟨h0, hne, e2⟩

/-- C14: in a readonly call with `IgnorePreferredAddresses` set whose
validation passes, with `RtlFindSetBits` as the bit search: the ignore bitmap
has a set bit, and its set bits lie from `1` to `32`; the walk over the
bitmap, given any bound of at least `TraceStoreInvalidId` iterations, ends by
wrapping round, having visited the set bits, each once, in increasing order,
and counted them; the stores after the validation are the caller's stores with
the flag set for each set bit in turn, so that every slot holds what it held,
with `IgnorePreferredAddresses` set if a set bit resolves to it and as it was
if none does; and with a stride that is not zero the flag of the trace store
with the id `id` is set exactly when bit `id` is a set bit of the bitmap. -/
theorem C14_ignore_bitmap_walk (e : Env) (a : Args) (m : Memory) (s1 : State)
    (hfind : e.RtlFindSetBits = RtlFindSetBits)
    (hro : a.Readonly = true) (hig : a.IgnorePreferredAddresses = true)
    (hv : Validate e a (State.enter m) = Step.Continue s1) :
    (IgnoreBits m ≠ [] ∧ ∀ b ∈ IgnoreBits m, 1 ≤ b ∧ b < MAX_TRACE_STORE_IDS ∧
      m.TraceContext.BitmapBuffer.testBit b = true) ∧
    (∀ fuel, TraceStoreInvalidId ≤ fuel →
      WalkIgnoreBitmap e MAX_TRACE_STORE_IDS m.TraceContext.BitmapBuffer fuel 0 0 0
          m.TraceStores =
        WalkResult.Wrapped (IgnoreBits m).length
          ((IgnoreBits m).foldl SetIgnorePreferredAddresses m.TraceStores) ∧
      VisitedBits e MAX_TRACE_STORE_IDS m.TraceContext.BitmapBuffer fuel 0 0 = IgnoreBits m) ∧
    (IgnoreBits m).Pairwise (fun b c => b < c) ∧
    (∀ b, b ∈ IgnoreBits m ↔
      b < MAX_TRACE_STORE_IDS ∧ m.TraceContext.BitmapBuffer.testBit b = true) ∧
    s1.TraceStores = (IgnoreBits m).foldl SetIgnorePreferredAddresses m.TraceStores ∧
    (∀ j : Nat, s1.TraceStores.Stores[j]? =
      (m.TraceStores.Stores[j]?).map fun (st : TRACE_STORE) =>
        { st with IgnorePreferredAddresses := (st.IgnorePreferredAddresses ||
            (IgnoreBits m).any (fun b => TraceStoreIdToTraceStore m.TraceStores (b : Int) == j)) }) ∧
    (∀ j : Nat, (∀ b ∈ IgnoreBits m, TraceStoreIdToTraceStore m.TraceStores (b : Int) ≠ j) →
      s1.TraceStores.Stores[j]? = m.TraceStores.Stores[j]?) ∧
    (0 < m.TraceStores.ElementsPerTraceStore → ∀ id : Nat, 1 ≤ id → id ≤ MAX_TRACE_STORE_IDS →
      s1.TraceStores.Stores[TraceStoreIdToTraceStore m.TraceStores (id : Int)]? =
        (m.TraceStores.Stores[TraceStoreIdToTraceStore m.TraceStores (id : Int)]?).map
          fun (st : TRACE_STORE) =>
          { st with IgnorePreferredAddresses := (st.IgnorePreferredAddresses ||
              (decide (id < MAX_TRACE_STORE_IDS) && m.TraceContext.BitmapBuffer.testBit id)) }) := by
  obtain ⟨h0, hne, e2⟩ := Validate_Continue_ignore hfind hro hig hv
  have hpt := getElem?_foldl_SetIgnorePreferredAddresses (IgnoreBits m) m.TraceStores
  have hmem : ∀ b, b ∈ IgnoreBits m ↔
      b < MAX_TRACE_STORE_IDS ∧ m.TraceContext.BitmapBuffer.testBit b = true :=
    fun b => mem_SetBits
  have hpos : ∀ b ∈ IgnoreBits m, 1 ≤ b := by
    intro b hb
    by_contra hc
    have hb0 : b = 0 := by omega
    subst hb0
    rw [((hmem 0).mp hb).2] at h0
    cases h0
  refine ⟨⟨hne, fun b hb => ⟨hpos b hb, (hmem b).mp hb⟩⟩, ?_, SetBits_pairwise _ _, hmem, e2, ?_,
    ?_, ?_⟩
  · intro fuel hfuel
    refine ⟨(WalkIgnoreBitmap_start hfind _ _ hfuel).2 h0 hne, ?_⟩
    rw [VisitedBits_start hfind (by decide)
      (by unfold TraceStoreInvalidId at hfuel; unfold MAX_TRACE_STORE_IDS
          unfold TraceStoreInvalidId; omega), if_neg (by simp [h0])]
    rfl
  · intro j
    rw [e2]
    exact hpt j
  · intro j hj
    rw [e2]
    have hany : ((IgnoreBits m).any
        fun b => TraceStoreIdToTraceStore m.TraceStores (b : Int) == j) = false := by
      rw [List.any_eq_false]
      intro b hb
      simpa using hj b hb
    have := hpt j
    rw [this, hany]
    cases m.TraceStores.Stores[j]? <;> simp
  · intro hE id hid1 hid2
    rw [e2]
    have hany : ((IgnoreBits m).any fun b => TraceStoreIdToTraceStore m.TraceStores (b : Int) ==
          TraceStoreIdToTraceStore m.TraceStores (id : Int)) =
        (decide (id < MAX_TRACE_STORE_IDS) && m.TraceContext.BitmapBuffer.testBit id) := by
      rw [Bool.eq_iff_iff]
      simp only [List.any_eq_true, beq_iff_eq, Bool.and_eq_true, decide_eq_true_eq]
      constructor
      · rintro ⟨b, hb, hslot⟩
        have hb2 := ((hmem b).mp hb).1
        have : b = id := (TraceStoreIdToTraceStore_inj hE (hpos b hb)
          (by unfold MAX_TRACE_STORE_IDS TraceStoreInvalidId at hb2; omega) hid1
          (by unfold MAX_TRACE_STORE_IDS TraceStoreInvalidId at hid2; omega)).mp hslot
        subst this
        exact (hmem b).mp hb
      · intro hid
        exact ⟨id, (hmem id).mpr hid, rfl⟩
    have := hpt (TraceStoreIdToTraceStore m.TraceStores (id : Int))
    rw [this, hany]

theorem C14_ignore_bitmap_walk_witness :
    (Validate sampleEnv (sampleReadonlyArgs true)
        (State.enter (bitmapMemory 6))).state.TraceStores =
      (IgnoreBits (bitmapMemory 6)).foldl SetIgnorePreferredAddresses
        (bitmapMemory 6).TraceStores ∧
    VisitedBits sampleEnv MAX_TRACE_STORE_IDS (bitmapMemory 6).TraceContext.BitmapBuffer
      TraceStoreInvalidId 0 0 = IgnoreBits (bitmapMemory 6) :=
  have h := C14_ignore_bitmap_walk sampleEnv (sampleReadonlyArgs true) (bitmapMemory 6)
    (Validate sampleEnv (sampleReadonlyArgs true) (State.enter (bitmapMemory 6))).state
    rfl rfl rfl rfl
  ⟨h.2.2.2.2.1, (h.2.1 TraceStoreInvalidId (Nat.le_refl _)).2⟩

/-- C15: a readonly call with `IgnorePreferredAddresses` set whose ignore
bitmap has no bit set that resolves to a store (none of the bits `1` to `32`,
with `RtlFindSetBits` as the bit search) returns FALSE from the validation:
the stores are as passed, so no flag has been set, and the call has made no
call but, at most, the debug break, so it has created no event or work item
and submitted no bind work. -/
theorem C15_no_resolvable_bit (e : Env) (a : Args) (m : Memory)
    (hfind : e.RtlFindSetBits = RtlFindSetBits)
    (hro : a.Readonly = true) (hig : a.IgnorePreferredAddresses = true)
    (hbits : ∀ i, 1 ≤ i → i < MAX_TRACE_STORE_IDS →
      m.TraceContext.BitmapBuffer.testBit i = false) :
    (InitializeTraceContext e a m).1 = false ∧
    (InitializeTraceContext e a m).2.TraceStores = m.TraceStores ∧
    (∀ op ∈ (InitializeTraceContext e a m).2.Trace, op = Op.DebugBreak) ∧
    (∀ op ∈ (InitializeTraceContext e a m).2.Trace,
      op.isCreate = false ∧ op.isSubmit = false) := by
  cases hv : Validate e a (State.enter m) with
  | GotoError s' => exact absurd hv (Validate_ne_GotoError e a m s')
  | Return b s' =>
    obtain ⟨hb, hs, ht, -⟩ := Validate_Return hfind hv
    subst hb
    rw [InitializeTraceContext_of_Validate_Return hv]
    refine ⟨rfl, hs, ht, ?_⟩
    intro op hop
    rw [ht op hop]
    exact ⟨rfl, rfl⟩
  | Continue s1 =>
    exfalso
    obtain ⟨h0, hne, -⟩ := Validate_Continue_ignore hfind hro hig hv
    obtain ⟨b, hmem⟩ := List.exists_mem_of_ne_nil _ hne
    obtain ⟨b2, b3⟩ := mem_SetBits.mp hmem
    by_cases hb0 : b = 0
    · subst hb0
      rw [h0] at b3
      cases b3
    · rw [hbits b (by omega) b2] at b3
      cases b3

theorem C15_no_resolvable_bit_witness :
    (InitializeTraceContext sampleEnv (sampleReadonlyArgs true) (bitmapMemory 1)).1 = false ∧
    (InitializeTraceContext sampleEnv (sampleReadonlyArgs true) (bitmapMemory 1)).2.TraceStores =
      (bitmapMemory 1).TraceStores :=
  have h := C15_no_resolvable_bit sampleEnv (sampleReadonlyArgs true) (bitmapMemory 1) rfl rfl rfl
    (fun i h1 h2 => by
      have h3 : i < 33 := h2
      interval_cases i <;> rfl)
  ⟨h.1, h.2.1⟩

end Tracer
namespace Tracer

/-! ## Blocks that leave the timers and the `BindComplete` handlers alone -/

theorem Quiet_refl (s : State) : Quiet s s := ⟨rfl, Extends_refl _ _⟩

theorem Quiet_trans {s1 s2 s3 : State} (h12 : Quiet s1 s2) (h23 : Quiet s2 s3) : Quiet s1 s3 :=
  ⟨h23.1.trans h12.1, Extends_trans h12.2 h23.2⟩

theorem Quiet_andThen {s : State} {x : Step} {f : State → Step}
    (hx : Quiet s x.state) (hf : ∀ s1, Quiet s1 (f s1).state) : Quiet s (x.andThen f).state :=
  andThen_rel (R := Quiet) (fun _ _ _ => Quiet_trans) hx hf

theorem not_isTimerSetup_of_isEarly (op : Op) (h : op.isEarly = true) :
    (!op.isTimerSetup) = true := by
  cases op <;> simp_all [Op.isEarly, Op.isTimerSetup]

theorem BindCompleteHandlers_modifyStore (f : TRACE_STORE → TRACE_STORE)
    (hf : ∀ st, (f st).BindComplete = st.BindComplete) (i : Nat) (l : List TRACE_STORE) :
    (modifyStore f i l).map (fun st => st.BindComplete) = l.map fun st => st.BindComplete := by
  apply List.ext_getElem?
  intro j
  rw [List.getElem?_map, List.getElem?_map, getElem?_modifyStore]
  split_ifs
  · cases l[j]? with
    | none => rfl
    | some st => simp [hf]
  · rfl

theorem WalkIgnoreBitmap_handlers (e : Env) (size buffer : Nat) (fuel : Nat) :
    ∀ (hint prev n : Nat) (ts ts' : TRACE_STORES),
      (WalkIgnoreBitmap e size buffer fuel hint prev n ts).TraceStores = some ts' →
        BindCompleteHandlers ts' = BindCompleteHandlers ts := by
  induction fuel with
  | zero => intro hint prev n ts ts' h; simp [WalkIgnoreBitmap, WalkResult.TraceStores] at h
  | succ fuel ih =>
    intro hint prev n ts ts' h
    unfold WalkIgnoreBitmap at h
    simp only at h
    split_ifs at h
    · simp only [WalkResult.TraceStores, Option.some.injEq] at h
      subst h
      rfl
    · simp only [WalkResult.TraceStores, Option.some.injEq] at h
      subst h
      rfl
    · rw [ih _ _ _ _ _ h]
      unfold BindCompleteHandlers
      exact BindCompleteHandlers_modifyStore
        (fun st => { st with IgnorePreferredAddresses := true }) (fun _ => rfl) _ _

theorem Validate_Quiet (e : Env) (a : Args) (s : State) : Quiet s (Validate e a s).state := by
  refine ⟨?_, Extends_mono (From_extends (Validate_from e a s)) not_isTimerSetup_of_isEarly⟩
  unfold Validate
  refine andThen_rel
    (R := fun s s' => BindCompleteHandlers s'.TraceStores = BindCompleteHandlers s.TraceStores)
    (fun _ _ _ h1 h2 => h2.trans h1) (andThen_rel
    (R := fun s s' => BindCompleteHandlers s'.TraceStores = BindCompleteHandlers s.TraceStores)
    (fun _ _ _ h1 h2 => h2.trans h1) ?_ ?_) ?_
  · unfold ValidateSize
    split_ifs <;> rfl
  · intro s1
    unfold ValidateArguments
    cases a.TraceContextFlags <;> simp only <;> split_ifs <;> rfl
  · intro s1
    unfold ValidateMode
    simp only
    have hw := WalkIgnoreBitmap_handlers e
      s1.TraceContext.IgnorePreferredAddressesBitmap.SizeOfBitMap
      s1.TraceContext.BitmapBuffer TraceStoreInvalidId 0 0 0 s1.TraceStores
    cases hc : WalkIgnoreBitmap e s1.TraceContext.IgnorePreferredAddressesBitmap.SizeOfBitMap
        s1.TraceContext.BitmapBuffer TraceStoreInvalidId 0 0 0 s1.TraceStores <;>
      simp only <;> split_ifs <;>
      first
        | rfl
        | exact hw _ (by rw [hc]; rfl)

theorem InitializeContext_Quiet (e : Env) (a : Args) (s : State) :
    Quiet s (InitializeContext e a s).state := by
  refine ⟨?_, Extends_mono (From_extends (InitializeContext_from e a s))
    not_isTimerSetup_of_isEarly⟩
  unfold InitializeContext
  simp only
  split_ifs <;> rfl

theorem InitializeBindMetadataInfoStoreWork_Quiet (e : Env) (a : Args) (n : Nat) (s : State) :
    Quiet s (InitializeBindMetadataInfoStoreWork e a n s).state := by
  unfold InitializeBindMetadataInfoStoreWork INIT_WORK Quiet
  simp only
  split_ifs <;> refine ⟨rfl, ?_⟩ <;> (apply Extends_of_prefix <;> simp [Op.isTimerSetup])

theorem InitializeBindRemainingMetadataStoresWork_Quiet (e : Env) (a : Args) (n : Nat)
    (s : State) : Quiet s (InitializeBindRemainingMetadataStoresWork e a n s).state := by
  unfold InitializeBindRemainingMetadataStoresWork INIT_WORK Quiet
  simp only
  split_ifs <;> refine ⟨rfl, ?_⟩ <;> (apply Extends_of_prefix <;> simp [Op.isTimerSetup])

theorem InitializeBindTraceStoreWork_Quiet (e : Env) (a : Args) (n : Nat) (s : State) :
    Quiet s (InitializeBindTraceStoreWork e a n s).state := by
  unfold InitializeBindTraceStoreWork INIT_WORK Quiet
  simp only
  split_ifs <;> refine ⟨rfl, ?_⟩ <;> (apply Extends_of_prefix <;> simp [Op.isTimerSetup])

theorem InitializeReadonlyNonStreamingBindCompleteWork_Quiet (e : Env) (a : Args) (n : Nat)
    (s : State) : Quiet s (InitializeReadonlyNonStreamingBindCompleteWork e a n s).state := by
  unfold InitializeReadonlyNonStreamingBindCompleteWork INIT_WORK Quiet
  simp only
  split_ifs <;> refine ⟨rfl, ?_⟩ <;> (apply Extends_of_prefix <;> simp [Op.isTimerSetup])

theorem CreateCleanupThreadpoolMembersWork_Quiet (e : Env) (a : Args) (n : Nat) (s : State) :
    Quiet s (CreateCleanupThreadpoolMembersWork e a n s).state := by
  unfold CreateCleanupThreadpoolMembersWork Quiet
  simp only
  split_ifs <;> refine ⟨rfl, ?_⟩ <;> (apply Extends_of_prefix <;> simp [Op.isTimerSetup])

theorem InitializeWork_Quiet (e : Env) (a : Args) (s : State) :
    Quiet s (InitializeWork e a s).state := by
  unfold InitializeWork
  exact Quiet_andThen (Quiet_andThen (Quiet_andThen (Quiet_andThen
    (InitializeBindMetadataInfoStoreWork_Quiet e a _ s)
    (InitializeBindRemainingMetadataStoresWork_Quiet e a _))
    (InitializeBindTraceStoreWork_Quiet e a _))
    (InitializeReadonlyNonStreamingBindCompleteWork_Quiet e a _))
    (CreateCleanupThreadpoolMembersWork_Quiet e a _)

theorem Quiet_cons {s : State} {st : Step} (s1 : State) (op : Op)
    (h1 : s1.Trace = s.Trace ++ [op]) (hp : op.isTimerSetup = false)
    (hH : BindCompleteHandlers s1.TraceStores = BindCompleteHandlers s.TraceStores)
    (h : Quiet s1 st.state) : Quiet s st.state :=
  Quiet_trans ⟨hH, Extends_one op h1 (by simp [hp])⟩ h

theorem CreateRelocationCompleteEvents_Quiet (e : Env) (n : Nat) :
    ∀ (Index : Nat) (s : State), Quiet s (CreateRelocationCompleteEvents e n Index s).state := by
  induction n with
  | zero => intro Index s; exact Quiet_refl s
  | succ n ih =>
    intro Index s
    unfold CreateRelocationCompleteEvents
    simp only
    split_ifs
    · refine ⟨rfl, ?_⟩
      apply Extends_of_prefix <;> simp [Op.isTimerSetup]
    · refine Quiet_trans ?_ (ih _ _)
      refine ⟨rfl, ?_⟩
      apply Extends_of_prefix <;> simp [Op.isTimerSetup]

theorem RegisterAtExit_Quiet (e : Env) (s : State) : Quiet s (RegisterAtExit e s).state := by
  unfold RegisterAtExit Quiet
  simp only
  split_ifs <;> refine ⟨rfl, ?_⟩ <;> (apply Extends_of_prefix <;> simp [Op.isTimerSetup])

theorem InitializeStoreAllocators_BindComplete (c r b : Nat) (st : TRACE_STORE) :
    (InitializeStoreAllocators c r b st).BindComplete = st.BindComplete := by
  unfold InitializeStoreAllocators
  simp only
  split_ifs <;> rfl

theorem InitializeAllocators_Quiet (e : Env) (a : Args) (n : Nat) :
    ∀ (StoreIndex : Nat) (s : State), Quiet s (InitializeAllocators e a n StoreIndex s).state := by
  induction n with
  | zero => intro StoreIndex s; exact Quiet_refl s
  | succ n ih =>
    intro StoreIndex s
    unfold InitializeAllocators
    simp only
    split_ifs
    · refine ⟨rfl, ?_⟩
      apply Extends_of_prefix <;> simp [Op.isTimerSetup]
    · refine ⟨rfl, ?_⟩
      apply Extends_of_prefix <;> simp [Op.isTimerSetup]
    · refine Quiet_trans ?_ (ih _ _)
      refine ⟨?_, ?_⟩
      · unfold BindCompleteHandlers
        exact BindCompleteHandlers_modifyStore _
          (InitializeStoreAllocators_BindComplete _ _ _) _ _
      · apply Extends_of_prefix <;> simp [Op.isTimerSetup]

end Tracer
namespace Tracer

/-! ## The timers and the handlers they replace -/

theorem wsCreated_append (t1 t2 : List Op) :
    wsCreated (t1 ++ t2) = (wsCreated t1 || wsCreated t2) := by
  unfold wsCreated
  exact List.any_append

theorem wsWatched_append (t1 t2 : List Op) :
    wsWatched (t1 ++ t2) = (wsWatched t1 || wsWatched t2) := by
  unfold wsWatched
  exact List.any_append

theorem perfCreated_append (t1 t2 : List Op) :
    perfCreated (t1 ++ t2) = (perfCreated t1 || perfCreated t2) := by
  unfold perfCreated
  exact List.any_append

theorem isTimerSetup_of_isWsTimer {op : Op} (h : op.isWsTimer = true) :
    op.isTimerSetup = true := by
  cases op <;> simp_all [Op.isWsTimer, Op.isTimerSetup]

theorem isTimerSetup_of_isPerfTimer {op : Op} (h : op.isPerfTimer = true) :
    op.isTimerSetup = true := by
  cases op <;> simp_all [Op.isPerfTimer, Op.isTimerSetup]

/-- A trace without a creation of the performance timer has not created it. -/
theorem perfCreated_of_no_timer {t : List Op} (h : ∀ op ∈ t, op.isPerfTimer = false) :
    perfCreated t = false := by
  unfold perfCreated
  rw [List.any_eq_false]
  intro op hop
  simp [h op hop]

/-- A trace without a call of the timer setup has created no timer and has
not initialised the working set watch. -/
theorem no_timer_of_quiet {t : List Op} (h : ∀ op ∈ t, op.isTimerSetup = false) :
    wsCreated t = false ∧ wsWatched t = false ∧ perfCreated t = false ∧
    (∀ op ∈ t, op.isWsTimer = false) ∧ (∀ op ∈ t, op.isPerfTimer = false) := by
  have hws : ∀ op ∈ t, op.isWsTimer = false := by
    intro op hop
    by_contra hc
    have := isTimerSetup_of_isWsTimer (by simpa using hc)
    rw [h op hop] at this
    cases this
  have hperf : ∀ op ∈ t, op.isPerfTimer = false := by
    intro op hop
    by_contra hc
    have := isTimerSetup_of_isPerfTimer (by simpa using hc)
    rw [h op hop] at this
    cases this
  refine ⟨?_, ?_, perfCreated_of_no_timer hperf, hws, hperf⟩
  · unfold wsCreated
    rw [List.any_eq_false]
    intro op hop
    simp [hws op hop]
  · unfold wsWatched
    rw [List.any_eq_false]
    intro op hop
    have := h op hop
    intro hc
    rw [beq_iff_eq] at hc
    rw [hc] at this
    cases this

theorem ExpectedHandlers_append_quiet (m : Memory) (t ops : List Op)
    (h : ∀ op ∈ ops, op.isTimerSetup = false) :
    ExpectedHandlers m (t ++ ops) = ExpectedHandlers m t := by
  obtain ⟨h1, h2, h3, -, -⟩ := no_timer_of_quiet h
  unfold ExpectedHandlers
  simp only [wsWatched_append, perfCreated_append, h2, h3, Bool.or_false]

/-- A block that makes no call of the timer setup and leaves the handlers and
the shape of the stores alone keeps what holds of the timers. -/
theorem TimersBound_of_Quiet {m : Memory} {s s' : State} (h : TimersBound m s)
    (hshape : SameShape s s') (hq : Quiet s s') :
    TimersBound m s' ∧
    ((∀ op ∈ s.Trace, op.isTimerSetup = false) → ∀ op ∈ s'.Trace, op.isTimerSetup = false) ∧
    ((∀ op ∈ s.Trace, op.isPerfTimer = false) → ∀ op ∈ s'.Trace, op.isPerfTimer = false) := by
  obtain ⟨b1, b2, b3, b4, b5⟩ := h
  obtain ⟨hH, ops, htr, hops⟩ := hq
  have hops' : ∀ op ∈ ops, op.isTimerSetup = false := fun op hop => by simpa using hops op hop
  obtain ⟨q1, q2, q3, q4, q5⟩ := no_timer_of_quiet hops'
  have hmem : ∀ {p : Op → Bool}, (∀ op ∈ s.Trace, p op = false) → (∀ op ∈ ops, p op = false) →
      ∀ op ∈ s'.Trace, p op = false := by
    intro p h1 h2 op hop
    rw [htr] at hop
    rcases List.mem_append.mp hop with h | h
    · exact h1 op h
    · exact h2 op h
  refine ⟨⟨SameShape_trans b1 hshape, ?_, ?_, ?_, ?_⟩, fun h => hmem h hops',
    fun h => hmem h q5⟩
  · intro op hop hws
    rw [htr] at hop
    rcases List.mem_append.mp hop with h | h
    · exact b2 op h hws
    · rw [q4 op h] at hws
      cases hws
  · intro op hop hp
    rw [htr] at hop
    rcases List.mem_append.mp hop with h | h
    · exact b3 op h hp
    · rw [q5 op h] at hp
      cases hp
  · rw [htr, wsWatched_append, wsCreated_append, q1, q2, Bool.or_false, Bool.or_false]
    exact b4
  · rw [hH, b5, htr, ExpectedHandlers_append_quiet m _ _ hops']

theorem TimersBound_enter (m : Memory) :
    TimersBound m (State.enter m) ∧ ∀ op ∈ (State.enter m).Trace, op.isTimerSetup = false := by
  refine ⟨⟨SameShape_refl _, ?_, ?_, ?_, rfl⟩, ?_⟩ <;> simp [State.enter, wsWatched]

theorem BindCompleteHandlers_set (v : Routine) (i : Nat) (l : List TRACE_STORE) :
    (modifyStore (fun st => { st with BindComplete := v }) i l).map (fun st => st.BindComplete) =
      (l.map fun st => st.BindComplete).set i v := by
  apply List.ext_getElem?
  intro j
  rw [List.getElem?_map, getElem?_modifyStore, List.getElem?_set]
  by_cases hij : i = j
  · subst hij
    simp only [if_true, List.length_map]
    by_cases hlen : i < l.length
    · rw [if_pos hlen, List.getElem?_eq_getElem hlen]
      rfl
    · rw [if_neg hlen, List.getElem?_eq_none (by omega)]
      rfl
  · rw [if_neg hij, if_neg hij, List.getElem?_map]

end Tracer
namespace Tracer

theorem ExpectedHandlers_of_quiet (m : Memory) {t : List Op}
    (h : ∀ op ∈ t, op.isTimerSetup = false) :
    ExpectedHandlers m t = BindCompleteHandlers m.TraceStores := by
  obtain ⟨h1, h2, h3, -, -⟩ := no_timer_of_quiet h
  unfold ExpectedHandlers
  simp [h2, h3]

/-- The calls of the block of the working set timer: it creates no performance
timer, creates the working set timer only with `EnableWorkingSetTracing` set,
initialises the working set watch only after it created the timer, and
replaces the handler of the store of the working set watch information exactly
when that initialisation succeeded. -/
theorem EnableWorkingSetTracing_ops (e : Env) (a : Args) (s : State) :
    ∃ ops, (EnableWorkingSetTracing e a s).state.Trace = s.Trace ++ ops ∧
      (∀ op ∈ ops, op.isPerfTimer = false) ∧
      (∀ op ∈ ops, op.isWsTimer = true → s.TraceStores.Flags.EnableWorkingSetTracing = true) ∧
      (wsWatched ops = true → wsCreated ops = true) ∧
      BindCompleteHandlers (EnableWorkingSetTracing e a s).state.TraceStores =
        if wsWatched ops then
          (BindCompleteHandlers s.TraceStores).set (WsWatchInfoExSlot s.TraceStores)
            Routine.WsWatchInfoExStoreBindComplete
        else BindCompleteHandlers s.TraceStores := by
  unfold EnableWorkingSetTracing
  simp only
  split_ifs with c1 c2 c3
  · refine ⟨[Op.CreateThreadpoolTimer Routine.GetWorkingSetChangesTimerCallback
      a.ThreadpoolCallbackEnvironment (e.Create s.Calls)], rfl, ?_, ?_, ?_, ?_⟩ <;>
      simp [Op.isPerfTimer, Op.isWsTimer, wsWatched, wsCreated, c1]
  · refine ⟨[Op.CreateThreadpoolTimer Routine.GetWorkingSetChangesTimerCallback
      a.ThreadpoolCallbackEnvironment (e.Create s.Calls),
      Op.K32InitializeProcessForWsWatch e.K32InitializeProcessForWsWatch], ?_, ?_, ?_, ?_, ?_⟩
    · simp
    · simp [Op.isPerfTimer]
    · simp [Op.isWsTimer, c1]
    · have hk : e.K32InitializeProcessForWsWatch = false := by simpa using c3
      simp [wsWatched, hk]
    · have hk : e.K32InitializeProcessForWsWatch = false := by simpa using c3
      simp [wsWatched, hk]
  · have hk : e.K32InitializeProcessForWsWatch = true := by simpa using c3
    have hc : e.Create s.Calls ≠ 0 := by simpa using c2
    refine ⟨[Op.CreateThreadpoolTimer Routine.GetWorkingSetChangesTimerCallback
      a.ThreadpoolCallbackEnvironment (e.Create s.Calls),
      Op.K32InitializeProcessForWsWatch e.K32InitializeProcessForWsWatch], ?_, ?_, ?_, ?_, ?_⟩
    · simp
    · simp [Op.isPerfTimer]
    · simp [Op.isWsTimer, c1]
    · simp [wsCreated, Op.isWsTimer, Op.failed, hc]
    · simp only [wsWatched, hk, List.any_cons, List.any_nil, beq_self_eq_true, Bool.or_true,
        Bool.or_false, if_true, Step.state_Continue]
      exact BindCompleteHandlers_set _ _ _
  · exact ⟨[], by simp, by simp, by simp, by simp [wsWatched], by simp [wsWatched]⟩

/-- The calls of the block of the performance timer: it creates no working set
timer and does not initialise the working set watch, creates the performance
timer only with `EnablePerformanceTracing` set, and replaces the handler of
the store of the performance metrics exactly when it created the timer. -/
theorem EnablePerformanceTracing_ops (e : Env) (a : Args) (s : State) :
    ∃ ops, (EnablePerformanceTracing e a s).state.Trace = s.Trace ++ ops ∧
      (∀ op ∈ ops, op.isWsTimer = false) ∧ wsWatched ops = false ∧ wsCreated ops = false ∧
      (∀ op ∈ ops, op.isPerfTimer = true →
        s.TraceStores.Flags.EnablePerformanceTracing = true) ∧
      BindCompleteHandlers (EnablePerformanceTracing e a s).state.TraceStores =
        if perfCreated ops then
          (BindCompleteHandlers s.TraceStores).set (PerformanceSlot s.TraceStores)
            Routine.PerformanceStoreBindComplete
        else BindCompleteHandlers s.TraceStores := by
  unfold EnablePerformanceTracing
  simp only
  split_ifs with c1 c2
  · refine ⟨[Op.CreateThreadpoolTimer Routine.CapturePerformanceMetricsTimerCallback
      a.ThreadpoolCallbackEnvironment (e.Create s.Calls)], rfl, ?_, ?_, ?_, ?_, ?_⟩
    · simp [Op.isWsTimer]
    · simp [wsWatched]
    · simp [wsCreated, Op.isWsTimer]
    · simp [c1]
    · have hc : e.Create s.Calls = 0 := by simpa using c2
      simp [perfCreated, Op.isPerfTimer, Op.failed, hc]
  · have hc : e.Create s.Calls ≠ 0 := by simpa using c2
    refine ⟨[Op.CreateThreadpoolTimer Routine.CapturePerformanceMetricsTimerCallback
      a.ThreadpoolCallbackEnvironment (e.Create s.Calls)], rfl, ?_, ?_, ?_, ?_, ?_⟩
    · simp [Op.isWsTimer]
    · simp [wsWatched]
    · simp [wsCreated, Op.isWsTimer]
    · simp [c1]
    · simp only [perfCreated, Op.isPerfTimer, Op.failed, List.any_cons, List.any_nil,
        Bool.or_false, Bool.true_and, Step.state_Continue]
      rw [if_pos (by simpa using hc)]
      exact BindCompleteHandlers_set _ _ _
  · exact ⟨[], by simp, by simp, by simp [wsWatched], by simp [wsCreated], by simp,
      by simp [perfCreated]⟩

end Tracer
namespace Tracer

theorem WsWatchInfoExSlot_congr {ts ts' : TRACE_STORES}
    (h : ts'.ElementsPerTraceStore = ts.ElementsPerTraceStore) :
    WsWatchInfoExSlot ts' = WsWatchInfoExSlot ts :=
  TraceStoreIdToTraceStore_congr h _

theorem PerformanceSlot_congr {ts ts' : TRACE_STORES}
    (h : ts'.ElementsPerTraceStore = ts.ElementsPerTraceStore) :
    PerformanceSlot ts' = PerformanceSlot ts :=
  TraceStoreIdToTraceStore_congr h _

/-- The block of the working set timer, entered before any call of the timer
setup, keeps what holds of the timers and creates no performance timer. -/
theorem EnableWorkingSetTracing_TimersBound (e : Env) (a : Args) {m : Memory} {s : State}
    (h : TimersBound m s) (hq : ∀ op ∈ s.Trace, op.isTimerSetup = false) :
    TimersBound m (EnableWorkingSetTracing e a s).state ∧
    ∀ op ∈ (EnableWorkingSetTracing e a s).state.Trace, op.isPerfTimer = false := by
  obtain ⟨b1, b2, b3, b4, b5⟩ := h
  obtain ⟨q1, q2, q3, q4, q5⟩ := no_timer_of_quiet hq
  have hE : s.TraceStores.ElementsPerTraceStore = m.TraceStores.ElementsPerTraceStore := b1.2.2.1
  have hF : s.TraceStores.Flags = m.TraceStores.Flags := b1.1
  rw [ExpectedHandlers_of_quiet m hq] at b5
  have hshape := SameShape_trans b1 (SameShape_of_Frame (EnableWorkingSetTracing_frame e a s))
  obtain ⟨ops, htr, o1, o2, o3, o4⟩ := EnableWorkingSetTracing_ops e a s
  refine ⟨⟨hshape, ?_, ?_, ?_, ?_⟩, ?_⟩
  · intro op hop hws
    rw [htr] at hop
    rcases List.mem_append.mp hop with h | h
    · exact b2 op h hws
    · rw [← hF]
      exact o2 op h hws
  · intro op hop hp
    rw [htr] at hop
    rcases List.mem_append.mp hop with h | h
    · exact b3 op h hp
    · rw [o1 op h] at hp
      cases hp
  · rw [htr, wsWatched_append, wsCreated_append, q1, q2, Bool.false_or, Bool.false_or]
    exact o3
  · rw [o4, htr, b5, WsWatchInfoExSlot_congr hE]
    unfold ExpectedHandlers
    simp only [wsWatched_append, perfCreated_append, q2, q3, Bool.false_or,
      perfCreated_of_no_timer o1]
    rfl
  · intro op hop
    rw [htr] at hop
    rcases List.mem_append.mp hop with h | h
    · exact q5 op h
    · exact o1 op h

/-- The block of the performance timer, entered before any creation of a
performance timer, keeps what holds of the timers. -/
theorem EnablePerformanceTracing_TimersBound (e : Env) (a : Args) {m : Memory} {s : State}
    (h : TimersBound m s) (hq : ∀ op ∈ s.Trace, op.isPerfTimer = false) :
    TimersBound m (EnablePerformanceTracing e a s).state := by
  obtain ⟨b1, b2, b3, b4, b5⟩ := h
  have hE : s.TraceStores.ElementsPerTraceStore = m.TraceStores.ElementsPerTraceStore := b1.2.2.1
  have hF : s.TraceStores.Flags = m.TraceStores.Flags := b1.1
  have hshape := SameShape_trans b1 (SameShape_of_Frame (EnablePerformanceTracing_frame e a s))
  obtain ⟨ops, htr, o1, o2, o3, o4, o5⟩ := EnablePerformanceTracing_ops e a s
  refine ⟨hshape, ?_, ?_, ?_, ?_⟩
  · intro op hop hws
    rw [htr] at hop
    rcases List.mem_append.mp hop with h | h
    · exact b2 op h hws
    · rw [o1 op h] at hws
      cases hws
  · intro op hop hp
    rw [htr] at hop
    rcases List.mem_append.mp hop with h | h
    · exact b3 op h hp
    · rw [← hF]
      exact o4 op h hp
  · rw [htr, wsWatched_append, wsCreated_append, o2, o3, Bool.or_false, Bool.or_false]
    exact b4
  · rw [o5, htr, b5, PerformanceSlot_congr hE]
    unfold ExpectedHandlers
    simp only [wsWatched_append, perfCreated_append, o2, Bool.or_false,
      perfCreated_of_no_timer hq, Bool.false_or, Bool.false_eq_true, if_false]

/-- A property of the timers carried through a block that makes no call of
the timer setup. -/
theorem TimersBound_step {m : Memory} {s s' : State} (hshape : SameShape s s')
    (hq : Quiet s s')
    (h : TimersBound m s ∧ ∀ op ∈ s.Trace, op.isTimerSetup = false) :
    TimersBound m s' ∧ ∀ op ∈ s'.Trace, op.isTimerSetup = false :=
  ⟨(TimersBound_of_Quiet h.1 hshape hq).1, (TimersBound_of_Quiet h.1 hshape hq).2.1 h.2⟩

/-- The state in which the stores are prepared: no call of the timer setup has
been made. -/
theorem before_PrepareStores_TimersBound (e : Env) (a : Args) (m : Memory) :
    TimersBound m (((Validate e a (State.enter m)).andThen (InitializeContext e a)).andThen
      (InitializeWork e a)).state ∧
    ∀ op ∈ (((Validate e a (State.enter m)).andThen (InitializeContext e a)).andThen
      (InitializeWork e a)).state.Trace, op.isTimerSetup = false := by
  refine TimersBound_step (s := State.enter m) ?_ ?_ (TimersBound_enter m)
  · exact SameShape_of_Frame (Frame_andThen (Frame_andThen (Validate_frame e a _)
      (InitializeContext_frame e a)) (InitializeWork_frame e a))
  · exact Quiet_andThen (Quiet_andThen (Validate_Quiet e a _) (InitializeContext_Quiet e a))
      (InitializeWork_Quiet e a)

theorem PrepareStores_TimersBound (e : Env) (a : Args) {m : Memory} {s : State}
    (h : TimersBound m s ∧ ∀ op ∈ s.Trace, op.isTimerSetup = false) :
    TimersBound m (PrepareStores e a s).state := by
  unfold PrepareStores
  split_ifs
  · exact (TimersBound_step (CreateRelocationCompleteEvents_shape e _ _ s)
      (CreateRelocationCompleteEvents_Quiet e _ _ s) h).1
  · unfold RegisterAtExitAndTimers
    refine andThen_state
      (P := fun s => TimersBound m s ∧ ∀ op ∈ s.Trace, op.isPerfTimer = false)
      (Q := fun s => TimersBound m s) ?_ (fun _ h => h.1)
      (fun s1 h1 => EnablePerformanceTracing_TimersBound e a h1.1 h1.2)
    refine andThen_state
      (P := fun s => TimersBound m s ∧ ∀ op ∈ s.Trace, op.isTimerSetup = false)
      (Q := fun s => TimersBound m s ∧ ∀ op ∈ s.Trace, op.isPerfTimer = false) ?_
      (fun _ h => ⟨h.1, (no_timer_of_quiet h.2).2.2.2.2⟩)
      (fun s1 h1 => EnableWorkingSetTracing_TimersBound e a h1.1 h1.2)
    exact TimersBound_step (SameShape_of_Frame (RegisterAtExit_frame e s))
      (RegisterAtExit_Quiet e s) h

theorem Setup_TimersBound (e : Env) (a : Args) (m : Memory) :
    TimersBound m (Setup e a (State.enter m)).state := by
  unfold Setup PrepareContext
  refine andThen_state (P := fun s => TimersBound m s) (Q := fun s => TimersBound m s) ?_
    (fun _ h => h) ?_
  · exact andThen_state
      (P := fun s => TimersBound m s ∧ ∀ op ∈ s.Trace, op.isTimerSetup = false)
      (Q := fun s => TimersBound m s) (before_PrepareStores_TimersBound e a m) (fun _ h => h.1)
      (fun s1 h1 => PrepareStores_TimersBound e a h1)
  · intro s1 h1
    exact (TimersBound_of_Quiet h1 (SameShape_of_Frame (InitializeAllocators_frame e a _ 0 s1))
      (InitializeAllocators_Quiet e a _ 0 s1)).1

end Tracer
namespace Tracer

theorem not_isTimerSetup_of_not_isSetup {op : Op} (h : op.isSetup = false) :
    op.isTimerSetup = false := by
  cases op <;> simp_all [Op.isSetup, Op.isTimerSetup]

theorem not_isTimerSetup_of_isSubmit {op : Op} (h : op.isSubmit = true) :
    op.isTimerSetup = false := by
  cases op <;> simp_all [Op.isSubmit, Op.isTimerSetup]

theorem not_isTimerSetup_of_isClose {op : Op} (h : op.isClose = true) :
    op.isTimerSetup = false := by
  cases op <;> simp_all [Op.isClose, Op.isTimerSetup]

theorem SameShape_of_TraceStores_eq {s s' : State} (h : s'.TraceStores = s.TraceStores) :
    SameShape s s' := by
  unfold SameShape
  rw [h]
  exact ⟨rfl, rfl, rfl, rfl, rfl⟩

/-- What holds of the timers at the end of a call. -/
theorem InitializeTraceContext_TimersBound (e : Env) (a : Args) (m : Memory) :
    TimersBound m (InitializeTraceContext e a m).2 := by
  have hs := Setup_TimersBound e a m
  have hts := InitializeTraceContext_TraceStores e a m
  cases hc : Setup e a (State.enter m) with
  | Return b s' =>
    rw [hc] at hs
    rw [InitializeTraceContext_of_Setup_Return hc]
    exact hs
  | GotoError s' =>
    rw [hc] at hs
    rw [InitializeTraceContext_of_Setup_GotoError hc]
    simp only [Step.state_GotoError] at hs
    have hq : Quiet s' (Error s') :=
      ⟨rfl, Extends_mono (Error_extends s')
        (fun op h => by simp [not_isTimerSetup_of_isClose h])⟩
    have hsh : SameShape s' (Error s') := SameShape_of_TraceStores_eq rfl
    exact (TimersBound_of_Quiet hs hsh hq).1
  | Continue s' =>
    rw [hc] at hs hts
    simp only [Step.state_Continue] at hs hts
    obtain ⟨rest, htr, hrest⟩ := InitializeTraceContext_trace hc
    have hq : Quiet s' (InitializeTraceContext e a m).2 := by
      refine ⟨by rw [hts], Submissions s'.TraceStores 0 s'.TraceStores.NumberOfTraceStores ++ rest,
        by rw [htr, List.append_assoc], ?_⟩
      intro op hop
      rcases List.mem_append.mp hop with h | h
      · simp [not_isTimerSetup_of_isSubmit (isSubmit_of_mem_Submissions _ _ _ op h)]
      · simp [not_isTimerSetup_of_not_isSetup (hrest op h).1]
    exact (TimersBound_of_Quiet hs (SameShape_of_TraceStores_eq hts) hq).1

end Tracer
namespace Tracer

/-- C17, as the claim states it, fails: with working set tracing enabled and
a `K32InitializeProcessForWsWatch` that fails, the call creates the timer for
the working set changes (the handle `111`), jumps to `Error` and returns FALSE,
and the `BindComplete` handler of no store has been replaced, that of the
store of the working set watch information, in slot `100`, included. -/
theorem C17_timer_created_without_handler :
    tracingMemory.TraceStores.Flags.EnableWorkingSetTracing = true ∧
    (InitializeTraceContext wsWatchFailsEnv (sampleArgs false) tracingMemory).1 = false ∧
    Op.CreateThreadpoolTimer Routine.GetWorkingSetChangesTimerCallback 8 111 ∈
      (InitializeTraceContext wsWatchFailsEnv (sampleArgs false) tracingMemory).2.Trace ∧
    wsCreated (InitializeTraceContext wsWatchFailsEnv (sampleArgs false)
      tracingMemory).2.Trace = true ∧
    WsWatchInfoExSlot tracingMemory.TraceStores = 100 ∧
    (BindCompleteHandlers tracingMemory.TraceStores)[100]? = some Routine.NULL ∧
    (BindCompleteHandlers (InitializeTraceContext wsWatchFailsEnv (sampleArgs false)
      tracingMemory).2.TraceStores)[100]? = some Routine.NULL ∧
    BindCompleteHandlers (InitializeTraceContext wsWatchFailsEnv (sampleArgs false)
        tracingMemory).2.TraceStores =
      BindCompleteHandlers tracingMemory.TraceStores := by
  have hH : BindCompleteHandlers (InitializeTraceContext wsWatchFailsEnv (sampleArgs false)
        tracingMemory).2.TraceStores =
      BindCompleteHandlers tracingMemory.TraceStores := by
    rw [(InitializeTraceContext_TimersBound wsWatchFailsEnv (sampleArgs false)
      tracingMemory).2.2.2.2]
    unfold ExpectedHandlers
    simp only
    rw [if_neg (by decide), if_neg (by decide)]
  have h100 : (BindCompleteHandlers tracingMemory.TraceStores)[100]? = some Routine.NULL := by
    unfold BindCompleteHandlers
    rw [List.getElem?_map]
    show ((List.replicate 330 (sampleStore false false))[100]?).map _ = _
    rw [List.getElem?_replicate]
    rfl
  exact ⟨rfl, by decide, by decide, by decide, by decide, h100, by rw [hH]; exact h100, hH⟩

end Tracer

namespace Tracer

theorem getElem?_set_cond (l : List Routine) (i j : Nat) (v : Routine) :
    (l.set i v)[j]? = if i = j ∧ j < l.length then some v else l[j]? := by
  rw [List.getElem?_set]
  by_cases hij : i = j
  · subst hij
    by_cases hlen : i < l.length
    · simp [hlen]
    · simp [hlen, List.getElem?_eq_none (Nat.le_of_not_lt hlen)]
  · simp [hij]

/-- The expected handler of a slot: that of the performance metrics if the
performance timer has been created and the slot is the one of that store, that
of the working set watch information if the working set watch has been
initialised and the slot is the one of that store, and the caller's
otherwise. -/
theorem getElem?_ExpectedHandlers (m : Memory) (t : List Op) (j : Nat) :
    (ExpectedHandlers m t)[j]? =
      if perfCreated t = true ∧ PerformanceSlot m.TraceStores = j ∧
          j < m.TraceStores.Stores.length then
        some Routine.PerformanceStoreBindComplete
      else if wsWatched t = true ∧ WsWatchInfoExSlot m.TraceStores = j ∧
          j < m.TraceStores.Stores.length then
        some Routine.WsWatchInfoExStoreBindComplete
      else (BindCompleteHandlers m.TraceStores)[j]? := by
  have hlen : (BindCompleteHandlers m.TraceStores).length = m.TraceStores.Stores.length := by
    unfold BindCompleteHandlers
    exact List.length_map _ _
  unfold ExpectedHandlers
  simp only
  by_cases hp : perfCreated t = true <;> by_cases hw : wsWatched t = true <;>
    simp only [hp, hw, if_true, if_false, true_and, false_and, getElem?_set_cond,
      List.length_set, hlen, Bool.false_eq_true]

/-- C17, amended: a call creates the timer for the working set changes only if
the caller's stores have `EnableWorkingSetTracing` set and the timer for the
performance metrics only if they have `EnablePerformanceTracing` set, and it
initialises the working set watch only after it created the first; at its
end the `BindComplete` handlers are the caller's, but for that of the store of
the performance metrics, replaced if the call created the performance timer,
and that of the store of the working set watch information, replaced if the
call created the working set timer and the initialisation of the working set
watch that follows succeeded: the handler of no other slot differs from the
caller's, and each of the two is replaced when its condition holds. -/
theorem C17_timers_and_handlers (e : Env) (a : Args) (m : Memory) :
    (∀ op ∈ (InitializeTraceContext e a m).2.Trace, op.isWsTimer = true →
      m.TraceStores.Flags.EnableWorkingSetTracing = true) ∧
    (∀ op ∈ (InitializeTraceContext e a m).2.Trace, op.isPerfTimer = true →
      m.TraceStores.Flags.EnablePerformanceTracing = true) ∧
    (wsWatched (InitializeTraceContext e a m).2.Trace = true →
      wsCreated (InitializeTraceContext e a m).2.Trace = true) ∧
    BindCompleteHandlers (InitializeTraceContext e a m).2.TraceStores =
      ExpectedHandlers m (InitializeTraceContext e a m).2.Trace ∧
    (∀ j : Nat, (BindCompleteHandlers (InitializeTraceContext e a m).2.TraceStores)[j]? ≠
        (BindCompleteHandlers m.TraceStores)[j]? →
      (j = PerformanceSlot m.TraceStores ∧
        perfCreated (InitializeTraceContext e a m).2.Trace = true ∧
        (BindCompleteHandlers (InitializeTraceContext e a m).2.TraceStores)[j]? =
          some Routine.PerformanceStoreBindComplete) ∨
      (j = WsWatchInfoExSlot m.TraceStores ∧
        wsCreated (InitializeTraceContext e a m).2.Trace = true ∧
        wsWatched (InitializeTraceContext e a m).2.Trace = true ∧
        (BindCompleteHandlers (InitializeTraceContext e a m).2.TraceStores)[j]? =
          some Routine.WsWatchInfoExStoreBindComplete)) ∧
    (perfCreated (InitializeTraceContext e a m).2.Trace = true →
      PerformanceSlot m.TraceStores < m.TraceStores.Stores.length →
      (BindCompleteHandlers (InitializeTraceContext e a m).2.TraceStores)[
          PerformanceSlot m.TraceStores]? = some Routine.PerformanceStoreBindComplete) ∧
    (wsWatched (InitializeTraceContext e a m).2.Trace = true →
      WsWatchInfoExSlot m.TraceStores < m.TraceStores.Stores.length →
      WsWatchInfoExSlot m.TraceStores ≠ PerformanceSlot m.TraceStores →
      (BindCompleteHandlers (InitializeTraceContext e a m).2.TraceStores)[
          WsWatchInfoExSlot m.TraceStores]? = some Routine.WsWatchInfoExStoreBindComplete) := by
  obtain ⟨-, b2, b3, b4, b5⟩ := InitializeTraceContext_TimersBound e a m
  refine ⟨b2, b3, b4, b5, ?_, ?_, ?_⟩
  · intro j hj
    rw [b5, getElem?_ExpectedHandlers] at hj ⊢
    split_ifs at hj ⊢ with c1 c2
    · exact Or.inl ⟨c1.2.1.symm, c1.1, rfl⟩
    · exact Or.inr ⟨c2.2.1.symm, b4 c2.1, c2.1, rfl⟩
    · exact absurd rfl hj
  · intro hp hlen
    rw [b5, getElem?_ExpectedHandlers, if_pos ⟨hp, rfl, hlen⟩]
  · intro hw hlen hne
    rw [b5, getElem?_ExpectedHandlers, if_neg (fun h => hne h.2.1.symm), if_pos ⟨hw, rfl, hlen⟩]

theorem C17_timers_and_handlers_witness :
    (BindCompleteHandlers (InitializeTraceContext sampleEnv (sampleArgs false)
      tracingMemory).2.TraceStores)[PerformanceSlot tracingMemory.TraceStores]? =
        some Routine.PerformanceStoreBindComplete ∧
    (BindCompleteHandlers (InitializeTraceContext sampleEnv (sampleArgs false)
      tracingMemory).2.TraceStores)[WsWatchInfoExSlot tracingMemory.TraceStores]? =
        some Routine.WsWatchInfoExStoreBindComplete :=
  have h := C17_timers_and_handlers sampleEnv (sampleArgs false) tracingMemory
  have hlen : tracingMemory.TraceStores.Stores.length = 330 := List.length_replicate 330 _
  ⟨h.2.2.2.2.2.1 (by set_option maxRecDepth 8192 in decide) (by rw [hlen]; decide),
    h.2.2.2.2.2.2 (by set_option maxRecDepth 8192 in decide) (by rw [hlen]; decide)
      (by decide)⟩

end Tracer
namespace Tracer

/-! ## The readonly wrapper and the size of the structure -/

/-- C18: `InitializeReadonlyTraceContext` returns the value and leaves the
state of `InitializeTraceContext` called with the arguments its documentation
describes: the same arguments but for a `NULL` trace session and a copy of the
caller's flags (all zero when there are none) with `Readonly` set.  The
caller's own flags are as they were.  So the trace session and the `Readonly`
flag the caller passes make no difference, and passing the described arguments
to the wrapper again changes nothing. -/
theorem C18_readonly_wrapper_equivalence (e : Env) (a : Args) (m : Memory) :
    (InitializeReadonlyTraceContext e a m).Value =
      (InitializeTraceContext e (ReadonlyArguments a) m).1 ∧
    (InitializeReadonlyTraceContext e a m).State =
      (InitializeTraceContext e (ReadonlyArguments a) m).2 ∧
    (InitializeReadonlyTraceContext e a m).TraceContextFlags = a.TraceContextFlags ∧
    (ReadonlyArguments a).Readonly = true ∧ (ReadonlyArguments a).TraceSession = 0 ∧
    (ReadonlyArguments a).IgnorePreferredAddresses = a.IgnorePreferredAddresses ∧
    (∀ session : Nat,
      (InitializeReadonlyTraceContext e { a with TraceSession := session } m).Value =
        (InitializeReadonlyTraceContext e a m).Value ∧
      (InitializeReadonlyTraceContext e { a with TraceSession := session } m).State =
        (InitializeReadonlyTraceContext e a m).State) ∧
    (∀ (f : TRACE_CONTEXT_FLAGS) (ro : Bool), a.TraceContextFlags = some f →
      (InitializeReadonlyTraceContext e
          { a with TraceContextFlags := some { f with Readonly := ro } } m).Value =
        (InitializeReadonlyTraceContext e a m).Value ∧
      (InitializeReadonlyTraceContext e
          { a with TraceContextFlags := some { f with Readonly := ro } } m).State =
        (InitializeReadonlyTraceContext e a m).State) ∧
    (InitializeReadonlyTraceContext e (ReadonlyArguments a) m).Value =
      (InitializeReadonlyTraceContext e a m).Value ∧
    (InitializeReadonlyTraceContext e (ReadonlyArguments a) m).State =
      (InitializeReadonlyTraceContext e a m).State := by
  unfold InitializeReadonlyTraceContext ReadonlyArguments Args.Readonly
    Args.IgnorePreferredAddresses
  cases hf : a.TraceContextFlags with
  | none =>
    refine ⟨rfl, rfl, rfl, rfl, rfl, rfl, fun _ => ⟨rfl, rfl⟩, ?_, rfl, rfl⟩
    intro f ro h
    cases h
  | some f0 =>
    refine ⟨rfl, rfl, rfl, rfl, rfl, rfl, fun _ => ⟨rfl, rfl⟩, ?_, rfl, rfl⟩
    intro f ro h
    injection h with h
    subst h
    exact ⟨rfl, rfl⟩

theorem C18_readonly_wrapper_equivalence_witness :
    (InitializeReadonlyTraceContext sampleEnv
        { sampleArgs false with
          TraceContextFlags := some { TRACE_CONTEXT_FLAGS.zero with Readonly := false } }
        (sampleMemory true)).Value =
      (InitializeReadonlyTraceContext sampleEnv
        { sampleArgs false with TraceContextFlags := some TRACE_CONTEXT_FLAGS.zero }
        (sampleMemory true)).Value :=
  ((C18_readonly_wrapper_equivalence sampleEnv
    { sampleArgs false with TraceContextFlags := some TRACE_CONTEXT_FLAGS.zero }
    (sampleMemory true)).2.2.2.2.2.2.2.1 TRACE_CONTEXT_FLAGS.zero false rfl).1

/-- C19: with a context buffer of 1024 bytes for a structure of 512 bytes and
otherwise valid arguments, the call succeeds and leaves 1024, the size the
caller passed, in `*SizeOfTraceContext` and in `SizeOfStruct`: the size of the
structure has not been written. -/
theorem C19_size_not_written_on_success :
    sampleEnv.SizeOfTraceContextStruct = 512 ∧
    largeBufferMemory.SizeOfTraceContext = 1024 ∧
    (sampleArgs false).TraceContext ≠ 0 ∧ (sampleArgs false).SizeOfTraceContext ≠ 0 ∧
    (InitializeTraceContext sampleEnv (sampleArgs false) largeBufferMemory).1 = true ∧
    (InitializeTraceContext sampleEnv (sampleArgs false)
      largeBufferMemory).2.SizeOfTraceContext = 1024 ∧
    (InitializeTraceContext sampleEnv (sampleArgs false)
      largeBufferMemory).2.SizeOfTraceContext ≠ sampleEnv.SizeOfTraceContextStruct ∧
    (InitializeTraceContext sampleEnv (sampleArgs false)
      largeBufferMemory).2.TraceContext.SizeOfStruct = 1024 := by
  decide

end Tracer
namespace Tracer

/-! ## `PyTraceEvent2` -/

theorem modifyRecord_append_length {α : Type} (f : α → α) (l : List α) (r : α) :
    modifyRecord f l.length (l ++ [r]) = l ++ [f r] := by
  unfold modifyRecord
  simp

theorem modifyRecord_of_lt_append {α : Type} (f : α → α) (l : List α) (r : α) {i : Nat}
    (h : i ≠ l.length) (hi : i ≤ l.length) :
    modifyRecord f i (l ++ [r]) = modifyRecord f i l ++ [r] := by
  have hlt : i < l.length := by omega
  unfold modifyRecord
  rw [List.getElem?_append_left hlt, List.getElem?_eq_getElem hlt]
  simp only
  rw [List.set_append_left _ _ hlt]

/-- C21: a call in which the allocation from the event store returns `NULL`
returns FALSE with the records of both stores as they were; a call in which
the allocation from the store of the extended traits returns `NULL` returns
FALSE with the records as the allocators left them, nothing having been stored
in a record; and a call in which both return a record returns TRUE with the
function stored in the new event record and the extended traits word in the
new record of the extended traits, every earlier record being as it was. -/
theorem C21_check_and_bail (e : PyTraceEnv) (a : PyTraceArgs) (s : PyTraceState) :
    (e.EventAllocation = none →
      (PyTraceEvent2 e a s).1 = false ∧ (PyTraceEvent2 e a s).2.Events = s.Events ∧
      (PyTraceEvent2 e a s).2.EventTraitsEx = s.EventTraitsEx) ∧
    (∀ ev, e.EventAllocation = some ev → e.TraitsAllocation = none →
      (PyTraceEvent2 e a s).1 = false ∧ (PyTraceEvent2 e a s).2.Events = s.Events ++ [ev] ∧
      (PyTraceEvent2 e a s).2.EventTraitsEx = s.EventTraitsEx) ∧
    (∀ ev tr, e.EventAllocation = some ev → e.TraitsAllocation = some tr →
      (PyTraceEvent2 e a s).1 = true ∧
      (PyTraceEvent2 e a s).2.Events = s.Events ++ [{ ev with Function := a.Function }] ∧
      (PyTraceEvent2 e a s).2.EventTraitsEx =
        s.EventTraitsEx ++ [{ AsLong := ExtendedTraitsWord e a }]) ∧
    ((PyTraceEvent2 e a s).1 = true ↔
      e.EventAllocation ≠ none ∧ e.TraitsAllocation ≠ none) := by
  unfold PyTraceEvent2 AllocatePythonTraceEvent2 AllocatePythonEventTraitsEx ExtendedTraitsWord
  cases h1 : e.EventAllocation with
  | none => simp
  | some ev =>
    cases h2 : e.TraitsAllocation with
    | none => simp
    | some tr =>
      simp only [modifyRecord_append_length]
      refine ⟨by simp, by simp, ?_, by simp⟩
      intro ev' tr' he ht
      injection he with he
      injection ht with ht
      subst he
      subst ht
      exact ⟨trivial, trivial, trivial⟩

theorem C21_check_and_bail_witness :
    (PyTraceEvent2 traitsFullEnv sampleTraceArgs sampleTraceState).1 = false ∧
    (PyTraceEvent2 roomEnv sampleTraceArgs sampleTraceState).2.Events =
      sampleTraceState.Events ++ [{ Function := 4096 }] :=
  ⟨((C21_check_and_bail traitsFullEnv sampleTraceArgs sampleTraceState).2.1
      { Function := 0 } rfl rfl).1,
    ((C21_check_and_bail roomEnv sampleTraceArgs sampleTraceState).2.2.1
      { Function := 0 } { AsLong := 0 } rfl rfl).2.1⟩

/-- C26, as the claim states it, fails: with room in the event store and none
in the store of the extended traits, the call returns FALSE having allocated
one record from the event store and none from the other, so the stores, in
lockstep with two records each before the call, hold three and two after
it. -/
theorem C26_event_allocated_without_traits :
    sampleTraceState.Events.length = sampleTraceState.EventTraitsEx.length ∧
    (PyTraceEvent2 traitsFullEnv sampleTraceArgs sampleTraceState).1 = false ∧
    AllocatedFrom PythonTraceStore.Event traitsFullEnv sampleTraceArgs sampleTraceState = 1 ∧
    AllocatedFrom PythonTraceStore.EventTraitsEx traitsFullEnv sampleTraceArgs
      sampleTraceState = 0 ∧
    (PyTraceEvent2 traitsFullEnv sampleTraceArgs sampleTraceState).2.Events.length = 3 ∧
    (PyTraceEvent2 traitsFullEnv sampleTraceArgs sampleTraceState).2.EventTraitsEx.length =
      2 := by
  decide

/-- C26, amended: a call that returns TRUE has allocated one record from each
of the two stores; a call that returns FALSE has allocated none from the store
of the extended traits, and none from the event store if the allocation from
the event store failed, one if it was the allocation from the store of the
extended traits that failed.  So the stores stay in lockstep over a call
exactly when the call returns TRUE or the allocation from the event store
failed. -/
theorem C26_allocation_counts (e : PyTraceEnv) (a : PyTraceArgs) (s : PyTraceState) :
    ((PyTraceEvent2 e a s).1 = true →
      AllocatedFrom PythonTraceStore.Event e a s = 1 ∧
      AllocatedFrom PythonTraceStore.EventTraitsEx e a s = 1) ∧
    ((PyTraceEvent2 e a s).1 = false →
      AllocatedFrom PythonTraceStore.EventTraitsEx e a s = 0 ∧
      (e.EventAllocation = none → AllocatedFrom PythonTraceStore.Event e a s = 0) ∧
      (e.EventAllocation ≠ none → AllocatedFrom PythonTraceStore.Event e a s = 1 ∧
        e.TraitsAllocation = none)) ∧
    (AllocatedFrom PythonTraceStore.Event e a s =
        AllocatedFrom PythonTraceStore.EventTraitsEx e a s ↔
      (PyTraceEvent2 e a s).1 = true ∨ e.EventAllocation = none) ∧
    (s.Events.length = s.EventTraitsEx.length →
      ((PyTraceEvent2 e a s).2.Events.length = (PyTraceEvent2 e a s).2.EventTraitsEx.length ↔
        (PyTraceEvent2 e a s).1 = true ∨ e.EventAllocation = none)) := by
  unfold AllocatedFrom PyTraceEvent2 AllocatePythonTraceEvent2 AllocatePythonEventTraitsEx
  cases h1 : e.EventAllocation with
  | none => simp
  | some ev =>
    cases h2 : e.TraitsAllocation with
    | none => simp; omega
    | some tr =>
      simp only [modifyRecord_append_length]
      simp

theorem C26_allocation_counts_witness :
    AllocatedFrom PythonTraceStore.Event roomEnv sampleTraceArgs sampleTraceState = 1 ∧
    AllocatedFrom PythonTraceStore.EventTraitsEx roomEnv sampleTraceArgs sampleTraceState = 1 ∧
    AllocatedFrom PythonTraceStore.Event traitsFullEnv sampleTraceArgs sampleTraceState = 1 ∧
    traitsFullEnv.TraitsAllocation = none :=
  ⟨((C26_allocation_counts roomEnv sampleTraceArgs sampleTraceState).1 (by decide)).1,
    ((C26_allocation_counts roomEnv sampleTraceArgs sampleTraceState).1 (by decide)).2,
    ((C26_allocation_counts traitsFullEnv sampleTraceArgs sampleTraceState).2.1
      (by decide)).2.2 (by decide)⟩

end Tracer
namespace Tracer

/-! ## The control driver -/

theorem loadULONG_storeBytes (v : Nat) (buffer : List Nat) :
    loadULONG (storeBytes (littleEndian 4 v) buffer) = v % 4294967296 := by
  simp [loadULONG, storeBytes, littleEndian, List.range, List.range.loop]
  omega

theorem length_storeBytes_littleEndian (n v : Nat) (buffer : List Nat)
    (h : n ≤ buffer.length) :
    (storeBytes (littleEndian n v) buffer).length = buffer.length := by
  simp [storeBytes, littleEndian]
  omega

theorem drop_storeBytes_littleEndian (n v : Nat) (buffer : List Nat) :
    (storeBytes (littleEndian n v) buffer).drop n = buffer.drop n := by
  have hl : (littleEndian n v).length = n := by simp [littleEndian]
  unfold storeBytes
  rw [hl, List.drop_append_of_le_length (by omega)]
  simp [List.drop_eq_nil_of_le (Nat.le_of_eq hl)]

/-- C22: with two distinct control codes, `TracerControlDeviceControl`
answers the request for the size of the device extension, given an output
buffer of at least 4 bytes, by storing the `Size` of the device extension in
the first 4 bytes of the buffer and completing with `STATUS_SUCCESS` and
`Information = 4`; the request to read CR3, given at least 8 bytes, by
completing with `STATUS_SUCCESS` and `Information = 8`; either request with a
shorter buffer by completing with `STATUS_INVALID_PARAMETER`,
`Information = 0` and the buffer untouched; and every other control code by
completing with `STATUS_INVALID_DEVICE_REQUEST`, `Information = 0` and the
buffer untouched.  In every case the request is completed, the returned
status is the status stored in the request, and `Information` does not
exceed the length of the output buffer; and the status is `STATUS_SUCCESS`
for the two answered requests only. -/
theorem C22_two_fixed_size_queries (k : TracerControlIoctls) (Cr3 : Nat)
    (DevExt : TRACER_CONTROL_DEV_EXT) (Irp : IRP)
    (hk : k.IOCTL_TRACER_CONTROL_DEVEXT_SIZE ≠ k.IOCTL_TRACER_CONTROL_READ_CR3) :
    (Irp.IoControlCode = k.IOCTL_TRACER_CONTROL_DEVEXT_SIZE → 4 ≤ Irp.OutputBufferLength →
      (TracerControlDeviceControl k Cr3 DevExt Irp).1 = STATUS_SUCCESS ∧
      (TracerControlDeviceControl k Cr3 DevExt Irp).2.IoStatus.Information = 4 ∧
      (TracerControlDeviceControl k Cr3 DevExt Irp).2.SystemBuffer =
        storeBytes (littleEndian 4 DevExt.Size) Irp.SystemBuffer ∧
      loadULONG (TracerControlDeviceControl k Cr3 DevExt Irp).2.SystemBuffer =
        DevExt.Size % 4294967296 ∧
      (TracerControlDeviceControl k Cr3 DevExt Irp).2.SystemBuffer.drop 4 =
        Irp.SystemBuffer.drop 4) ∧
    (Irp.IoControlCode = k.IOCTL_TRACER_CONTROL_READ_CR3 → 8 ≤ Irp.OutputBufferLength →
      (TracerControlDeviceControl k Cr3 DevExt Irp).1 = STATUS_SUCCESS ∧
      (TracerControlDeviceControl k Cr3 DevExt Irp).2.IoStatus.Information = 8 ∧
      (TracerControlDeviceControl k Cr3 DevExt Irp).2.SystemBuffer =
        storeBytes (littleEndian 8 Cr3) Irp.SystemBuffer) ∧
    ((Irp.IoControlCode = k.IOCTL_TRACER_CONTROL_DEVEXT_SIZE ∧ Irp.OutputBufferLength < 4) ∨
      (Irp.IoControlCode = k.IOCTL_TRACER_CONTROL_READ_CR3 ∧ Irp.OutputBufferLength < 8) →
      (TracerControlDeviceControl k Cr3 DevExt Irp).1 = STATUS_INVALID_PARAMETER ∧
      (TracerControlDeviceControl k Cr3 DevExt Irp).2.IoStatus.Information = 0 ∧
      (TracerControlDeviceControl k Cr3 DevExt Irp).2.SystemBuffer = Irp.SystemBuffer) ∧
    (Irp.IoControlCode ≠ k.IOCTL_TRACER_CONTROL_DEVEXT_SIZE →
      Irp.IoControlCode ≠ k.IOCTL_TRACER_CONTROL_READ_CR3 →
      (TracerControlDeviceControl k Cr3 DevExt Irp).1 = STATUS_INVALID_DEVICE_REQUEST ∧
      (TracerControlDeviceControl k Cr3 DevExt Irp).2.IoStatus.Information = 0 ∧
      (TracerControlDeviceControl k Cr3 DevExt Irp).2.SystemBuffer = Irp.SystemBuffer) ∧
    ((TracerControlDeviceControl k Cr3 DevExt Irp).1 =
        (TracerControlDeviceControl k Cr3 DevExt Irp).2.IoStatus.Status ∧
      (TracerControlDeviceControl k Cr3 DevExt Irp).2.IoStatus.Information ≤
        Irp.OutputBufferLength ∧
      (TracerControlDeviceControl k Cr3 DevExt Irp).2.Completed = true ∧
      (TracerControlDeviceControl k Cr3 DevExt Irp).2.IoControlCode = Irp.IoControlCode ∧
      (TracerControlDeviceControl k Cr3 DevExt Irp).2.OutputBufferLength =
        Irp.OutputBufferLength ∧
      (Irp.OutputBufferLength ≤ Irp.SystemBuffer.length →
        (TracerControlDeviceControl k Cr3 DevExt Irp).2.SystemBuffer.length =
          Irp.SystemBuffer.length)) ∧
    ((TracerControlDeviceControl k Cr3 DevExt Irp).1 = STATUS_SUCCESS ↔
      (Irp.IoControlCode = k.IOCTL_TRACER_CONTROL_DEVEXT_SIZE ∧ 4 ≤ Irp.OutputBufferLength) ∨
      (Irp.IoControlCode = k.IOCTL_TRACER_CONTROL_READ_CR3 ∧ 8 ≤ Irp.OutputBufferLength)) := by
  have hs1 : STATUS_INVALID_PARAMETER ≠ STATUS_SUCCESS := by decide
  have hs2 : STATUS_INVALID_DEVICE_REQUEST ≠ STATUS_SUCCESS := by decide
  have hlen := length_storeBytes_littleEndian
  unfold TracerControlDeviceControl
  simp only
  by_cases h1 : Irp.IoControlCode = k.IOCTL_TRACER_CONTROL_DEVEXT_SIZE
  · have h2 : Irp.IoControlCode ≠ k.IOCTL_TRACER_CONTROL_READ_CR3 := fun h => hk (h1 ▸ h)
    have h2k : ¬ k.IOCTL_TRACER_CONTROL_DEVEXT_SIZE = k.IOCTL_TRACER_CONTROL_READ_CR3 := hk
    rw [if_pos h1]
    by_cases hl : Irp.OutputBufferLength < 4
    · rw [if_pos hl]
      simp [h1, h2k, hl, hs1]
    · rw [if_neg hl]
      have hl4 : 4 ≤ Irp.OutputBufferLength := by omega
      simp [h1, h2k, hl, hl4, loadULONG_storeBytes, drop_storeBytes_littleEndian]
      intro h
      exact hlen 4 _ _ (by omega)
  · rw [if_neg h1]
    by_cases h2 : Irp.IoControlCode = k.IOCTL_TRACER_CONTROL_READ_CR3
    · rw [if_pos h2]
      have h1k : ¬ k.IOCTL_TRACER_CONTROL_READ_CR3 = k.IOCTL_TRACER_CONTROL_DEVEXT_SIZE :=
        fun h => hk h.symm
      by_cases hl : Irp.OutputBufferLength < 8
      · rw [if_pos hl]
        simp [h1k, h2, hl, hs1]
      · rw [if_neg hl]
        have hl8 : 8 ≤ Irp.OutputBufferLength := by omega
        simp [h1k, h2, hl, hl8]
        intro h
        exact hlen 8 _ _ (by omega)
    · rw [if_neg h2]
      simp [h1, h2, hs2]

theorem C22_two_fixed_size_queries_witness :
    (TracerControlDeviceControl sampleIoctls 1781760 { Size := 16, RegistryHandle := 68 }
        (sampleIrp 2236416 4)).1 = STATUS_SUCCESS ∧
    (TracerControlDeviceControl sampleIoctls 1781760 { Size := 16, RegistryHandle := 68 }
        (sampleIrp 2236416 4)).2.SystemBuffer = [16, 0, 0, 0] :=
  have h := (C22_two_fixed_size_queries sampleIoctls 1781760 { Size := 16, RegistryHandle := 68 }
    (sampleIrp 2236416 4) (by decide)).1 rfl (by decide)
  ⟨h.1, h.2.2.1⟩

/-- C27: `DriverEntry` returns a success status exactly when the three calls
`IoCreateDevice`, `ZwOpenKey` and `IoCreateSymbolicLink` all succeed.  When
it does, it has made these three calls and no other, the status is
`STATUS_SUCCESS`, the device and the symbolic link exist, the `Size` of the
device extension is the size of the structure, its `RegistryHandle` is the
opened handle, and the device has `DO_BUFFERED_IO` set.  When it returns a
failure status, that status is the status of the call that failed; no device
and no symbolic link exist; if `IoCreateDevice` failed no other call has been
made; and otherwise the device has been deleted, by the last call and no
other, the handle left in the device extension has been closed, once, if it
was not `NULL`, and the `RegistryHandle` of the device extension is `NULL`. -/
theorem C27_driver_entry_all_or_nothing (e : DriverEnv) :
    (NT_SUCCESS (DriverEntry e).1 = true ↔
      NT_SUCCESS e.IoCreateDevice = true ∧ NT_SUCCESS e.ZwOpenKey = true ∧
        NT_SUCCESS e.IoCreateSymbolicLink = true) ∧
    (NT_SUCCESS (DriverEntry e).1 = true →
      (DriverEntry e).1 = STATUS_SUCCESS ∧
      (DriverEntry e).2.Calls = [DriverCall.IoCreateDevice e.SizeOfDevExt e.IoCreateDevice,
        DriverCall.ZwOpenKey e.ZwOpenKey, DriverCall.IoCreateSymbolicLink e.IoCreateSymbolicLink] ∧
      (DriverEntry e).2.DeviceExists = true ∧ (DriverEntry e).2.SymbolicLinkExists = true ∧
      ∃ d, (DriverEntry e).2.Device = some d ∧ d.DeviceExtension.Size = e.SizeOfDevExt ∧
        d.DeviceExtension.RegistryHandle = e.OpenedHandle ∧
        d.Flags &&& DO_BUFFERED_IO = DO_BUFFERED_IO ∧ d.Flags = e.DeviceFlags ||| DO_BUFFERED_IO) ∧
    (NT_SUCCESS (DriverEntry e).1 = false →
      (DriverEntry e).2.DeviceExists = false ∧ (DriverEntry e).2.SymbolicLinkExists = false ∧
      (NT_SUCCESS e.IoCreateDevice = false →
        (DriverEntry e).1 = e.IoCreateDevice ∧ (DriverEntry e).2.Device = none ∧
        (DriverEntry e).2.Calls =
          [DriverCall.IoCreateDevice e.SizeOfDevExt e.IoCreateDevice]) ∧
      (NT_SUCCESS e.IoCreateDevice = true →
        (DriverEntry e).1 =
          (if NT_SUCCESS e.ZwOpenKey = true then e.IoCreateSymbolicLink else e.ZwOpenKey) ∧
        (DriverEntry e).2.Calls.getLast? = some DriverCall.IoDeleteDevice ∧
        (DriverEntry e).2.Calls.count DriverCall.IoDeleteDevice = 1 ∧
        (e.OpenedHandle ≠ 0 →
          (DriverEntry e).2.Calls.count (DriverCall.ZwClose e.OpenedHandle) = 1) ∧
        (∀ h, DriverCall.ZwClose h ∈ (DriverEntry e).2.Calls → h = e.OpenedHandle ∧ h ≠ 0) ∧
        ∃ d, (DriverEntry e).2.Device = some d ∧ d.DeviceExtension.RegistryHandle = 0)) ∧
    (DriverEntry e).2.Driver = RegisteredDriver := by
  have hbit : ∀ f : Nat, (f ||| DO_BUFFERED_IO) &&& DO_BUFFERED_IO = DO_BUFFERED_IO := by
    intro f
    apply Nat.eq_of_testBit_eq
    intro i
    simp only [Nat.testBit_and, Nat.testBit_or]
    cases Nat.testBit DO_BUFFERED_IO i <;> simp
  have h0 : NT_SUCCESS STATUS_SUCCESS = true := by decide
  unfold DriverEntry DriverEntryError
  simp only
  cases h1 : NT_SUCCESS e.IoCreateDevice with
  | false => simp [h1]
  | true =>
    cases h2 : NT_SUCCESS e.ZwOpenKey with
    | false =>
      by_cases hh : e.OpenedHandle = 0 <;> simp [h1, h2, hh, List.count_cons]
    | true =>
      cases h3 : NT_SUCCESS e.IoCreateSymbolicLink with
      | false =>
        by_cases hh : e.OpenedHandle = 0 <;> simp [h1, h2, h3, hh, List.count_cons]
      | true =>
        simp [h1, h2, h3, h0, hbit]

theorem C27_driver_entry_all_or_nothing_witness :
    NT_SUCCESS (DriverEntry linkRefusedEnv).1 = false ∧
    (DriverEntry linkRefusedEnv).2.DeviceExists = false ∧
    (DriverEntry linkRefusedEnv).2.Calls.count (DriverCall.ZwClose 68) = 1 :=
  have h := (C27_driver_entry_all_or_nothing linkRefusedEnv).2.2.1 (by decide)
  ⟨by decide, h.1, (h.2.2.2 (by decide)).2.2.2.1 (by decide)⟩

end Tracer
namespace Tracer

/-! ## `CloseTraceContext` -/

theorem count_CLOSE_THREADPOOL_TIMER (x t : Nat) :
    (CLOSE_THREADPOOL_TIMER x).1.count (TimerCall.CloseThreadpoolTimer t) =
      if t ≠ 0 ∧ x = t then 1 else 0 := by
  unfold CLOSE_THREADPOOL_TIMER
  by_cases hx : x = 0
  · subst hx
    have : ¬ (t ≠ 0 ∧ 0 = t) := fun h => h.1 h.2.symm
    rw [if_neg (by simp), if_neg this]
    rfl
  · rw [if_pos hx]
    by_cases ht : x = t
    · subst ht
      rw [if_pos ⟨hx, rfl⟩]
      simp [List.count_cons]
    · rw [if_neg (fun h => ht h.2)]
      simp [List.count_cons, ht]

/-- C28: `CloseTraceContext` does nothing when given `NULL`.  Given a
context, it leaves `GetWorkingSetChangesTimer` and
`CapturePerformanceMetricsTimer` both `NULL` and every other field as it was;
for each of the two fields that was set, the working set timer first, it
stops the timer, waits for its callbacks, cancelling the pending ones, and
closes it, and it makes no other call, so that a timer held in one of the
fields is closed exactly once, the two fields holding different timers; and a
second call makes no call and leaves the context as the first call left
it. -/
theorem C28_close_trace_context (c : TRACE_CONTEXT) :
    CloseTraceContext none = (none, []) ∧
    (CloseTraceContext (some c)).1 =
      some { c with GetWorkingSetChangesTimer := 0, CapturePerformanceMetricsTimer := 0 } ∧
    (CloseTraceContext (some c)).2 =
      (if c.GetWorkingSetChangesTimer ≠ 0 then
        [TimerCall.SetThreadpoolTimer c.GetWorkingSetChangesTimer,
          TimerCall.WaitForThreadpoolTimerCallbacks c.GetWorkingSetChangesTimer true,
          TimerCall.CloseThreadpoolTimer c.GetWorkingSetChangesTimer] else []) ++
      (if c.CapturePerformanceMetricsTimer ≠ 0 then
        [TimerCall.SetThreadpoolTimer c.CapturePerformanceMetricsTimer,
          TimerCall.WaitForThreadpoolTimerCallbacks c.CapturePerformanceMetricsTimer true,
          TimerCall.CloseThreadpoolTimer c.CapturePerformanceMetricsTimer] else []) ∧
    (∀ t, (CloseTraceContext (some c)).2.count (TimerCall.CloseThreadpoolTimer t) =
      (if t ≠ 0 ∧ c.GetWorkingSetChangesTimer = t then 1 else 0) +
        (if t ≠ 0 ∧ c.CapturePerformanceMetricsTimer = t then 1 else 0)) ∧
    (c.GetWorkingSetChangesTimer ≠ c.CapturePerformanceMetricsTimer →
      ∀ t, t ≠ 0 → c.GetWorkingSetChangesTimer = t ∨ c.CapturePerformanceMetricsTimer = t →
        (CloseTraceContext (some c)).2.count (TimerCall.CloseThreadpoolTimer t) = 1) ∧
    (∀ t, TimerCall.CloseThreadpoolTimer t ∈ (CloseTraceContext (some c)).2 →
      t ≠ 0 ∧ (c.GetWorkingSetChangesTimer = t ∨ c.CapturePerformanceMetricsTimer = t)) ∧
    CloseTraceContext (CloseTraceContext (some c)).1 = ((CloseTraceContext (some c)).1, []) := by
  have hcount : ∀ t, (CloseTraceContext (some c)).2.count (TimerCall.CloseThreadpoolTimer t) =
      (if t ≠ 0 ∧ c.GetWorkingSetChangesTimer = t then 1 else 0) +
        (if t ≠ 0 ∧ c.CapturePerformanceMetricsTimer = t then 1 else 0) := by
    intro t
    unfold CloseTraceContext
    simp only
    rw [List.count_append, count_CLOSE_THREADPOOL_TIMER, count_CLOSE_THREADPOOL_TIMER]
  refine ⟨rfl, ?_, ?_, hcount, ?_, ?_, ?_⟩
  · unfold CloseTraceContext CLOSE_THREADPOOL_TIMER
    by_cases h1 : c.GetWorkingSetChangesTimer = 0 <;>
      by_cases h2 : c.CapturePerformanceMetricsTimer = 0 <;> simp [h1, h2]
  · unfold CloseTraceContext CLOSE_THREADPOOL_TIMER
    by_cases h1 : c.GetWorkingSetChangesTimer = 0 <;>
      by_cases h2 : c.CapturePerformanceMetricsTimer = 0 <;> simp [h1, h2]
  · intro hne t ht hor
    rw [hcount t]
    rcases hor with h | h
    · rw [if_pos ⟨ht, h⟩, if_neg (fun hh => hne (h.trans hh.2.symm))]
    · rw [if_neg (fun hh => hne (hh.2.trans h.symm)), if_pos ⟨ht, h⟩]
  · intro t ht
    have := List.count_pos_iff.mpr ht
    rw [hcount t] at this
    by_cases h0 : t = 0
    · simp [h0] at this
    · refine ⟨h0, ?_⟩
      by_contra hc
      push_neg at hc
      simp [hc.1, hc.2] at this
  · unfold CloseTraceContext CLOSE_THREADPOOL_TIMER
    by_cases h1 : c.GetWorkingSetChangesTimer = 0 <;>
      by_cases h2 : c.CapturePerformanceMetricsTimer = 0 <;> simp [h1, h2]

theorem C28_close_trace_context_witness :
    (CloseTraceContext (some timersContext)).2.count (TimerCall.CloseThreadpoolTimer 40) = 1 ∧
    (CloseTraceContext (some timersContext)).1 = some TRACE_CONTEXT.zero :=
  ⟨(C28_close_trace_context timersContext).2.2.2.2.1 (by decide) 40 (by decide)
      (Or.inr rfl),
    (C28_close_trace_context timersContext).2.1⟩

/-! ## The filter `IsFunctionOfInterestPrefixTree` -/

/-- C29: `IsFunctionOfInterestPrefixTree` decides by strict precedence.  It
returns TRUE whenever `TraceEverything` is set, whatever `TraceNothing` is;
otherwise FALSE whenever `TraceNothing` is set; otherwise, when no module
filter has been set, the value of `TraceEverythingWhenNoModuleFilterSet`; and
otherwise TRUE exactly when the lookup of the module name of the function in
the prefix table of the module filter finds an entry.  The lookup is any
function of the table and the name. -/
theorem C29_filter_precedence (PfxFindPrefix : List String → String → Option String)
    (Context : PYTHON_TRACE_CONTEXT) (Function : PYTHON_FUNCTION) :
    (Context.Flags.TraceEverything = true →
      IsFunctionOfInterestPrefixTree PfxFindPrefix Context Function = true) ∧
    (Context.Flags.TraceEverything = false → Context.Flags.TraceNothing = true →
      IsFunctionOfInterestPrefixTree PfxFindPrefix Context Function = false) ∧
    (Context.Flags.TraceEverything = false → Context.Flags.TraceNothing = false →
      Context.HasModuleFilter = false →
      IsFunctionOfInterestPrefixTree PfxFindPrefix Context Function =
        Context.Flags.TraceEverythingWhenNoModuleFilterSet) ∧
    (Context.Flags.TraceEverything = false → Context.Flags.TraceNothing = false →
      Context.HasModuleFilter = true →
      (IsFunctionOfInterestPrefixTree PfxFindPrefix Context Function = true ↔
        PfxFindPrefix Context.ModuleFilterPrefixTree Function.ModuleName ≠ none)) := by
  unfold IsFunctionOfInterestPrefixTree
  refine ⟨fun h => ?_, fun h1 h2 => ?_, fun h1 h2 h3 => ?_, fun h1 h2 h3 => ?_⟩
  · simp [h]
  · simp [h1, h2]
  · simp [h1, h2, h3]
  · cases hf : PfxFindPrefix Context.ModuleFilterPrefixTree Function.ModuleName <;>
      simp [h1, h2, h3]

theorem C29_filter_precedence_witness :
    IsFunctionOfInterestPrefixTree firstPrefix
      { Flags := { TraceEverything := true, TraceNothing := true,
                   TraceEverythingWhenNoModuleFilterSet := false },
        HasModuleFilter := true, ModuleFilterPrefixTree := ["numpy"] }
      { ModuleName := "os.path", CodeObject := 4096 } = true :=
  (C29_filter_precedence firstPrefix _ _).1 rfl

/-! ## The comparators -/

/-- C30: on addresses, `GenericComparePointer` returns `GenericEqual` exactly
for equal pointers, `GenericLessThan` exactly for a pointer below the other
and `GenericGreaterThan` exactly for one above it; it returns
`GenericLessThan` for a pair exactly when it returns `GenericGreaterThan` for
the pair reversed; and it is transitive.  `CodeObjectCompare` is
`GenericComparePointer` on the two structures, `FunctionCompare` is
`GenericComparePointer` on the `CodeObject` pointers of the two functions, and
`GenericComparePyObjectHash` is `GenericComparePointer` on the two object
pointers whatever the hash function is. -/
theorem C30_comparators_order_addresses (a b c : Nat) (PyObject_Hash : Nat → Int)
    (Functions : Nat → PYTHON_FUNCTION) :
    (GenericComparePointer a b = RTL_GENERIC_COMPARE_RESULTS.GenericEqual ↔ a = b) ∧
    (GenericComparePointer a b = RTL_GENERIC_COMPARE_RESULTS.GenericLessThan ↔ a < b) ∧
    (GenericComparePointer a b = RTL_GENERIC_COMPARE_RESULTS.GenericGreaterThan ↔ b < a) ∧
    (GenericComparePointer a b = RTL_GENERIC_COMPARE_RESULTS.GenericLessThan ↔
      GenericComparePointer b a = RTL_GENERIC_COMPARE_RESULTS.GenericGreaterThan) ∧
    (GenericComparePointer a b = RTL_GENERIC_COMPARE_RESULTS.GenericLessThan →
      GenericComparePointer b c = RTL_GENERIC_COMPARE_RESULTS.GenericLessThan →
      GenericComparePointer a c = RTL_GENERIC_COMPARE_RESULTS.GenericLessThan) ∧
    (GenericComparePointer a b = RTL_GENERIC_COMPARE_RESULTS.GenericGreaterThan →
      GenericComparePointer b c = RTL_GENERIC_COMPARE_RESULTS.GenericGreaterThan →
      GenericComparePointer a c = RTL_GENERIC_COMPARE_RESULTS.GenericGreaterThan) ∧
    (GenericComparePointer a b = RTL_GENERIC_COMPARE_RESULTS.GenericEqual →
      GenericComparePointer b c = GenericComparePointer a c) ∧
    CodeObjectCompare a b = GenericComparePointer a b ∧
    FunctionCompare Functions a b =
      GenericComparePointer (Functions a).CodeObject (Functions b).CodeObject ∧
    GenericComparePyObjectHash PyObject_Hash a b = GenericComparePointer a b := by
  have key : ∀ x y : Nat,
      (GenericComparePointer x y = RTL_GENERIC_COMPARE_RESULTS.GenericEqual ↔ x = y) ∧
      (GenericComparePointer x y = RTL_GENERIC_COMPARE_RESULTS.GenericLessThan ↔ x < y) ∧
      (GenericComparePointer x y = RTL_GENERIC_COMPARE_RESULTS.GenericGreaterThan ↔ y < x) := by
    intro x y
    unfold GenericComparePointer
    simp only
    split_ifs <;> simp <;> omega
  refine ⟨(key a b).1, (key a b).2.1, (key a b).2.2, ?_, ?_, ?_, ?_, rfl, rfl, rfl⟩
  · rw [(key a b).2.1, (key b a).2.2]
  · rw [(key a b).2.1, (key b c).2.1, (key a c).2.1]
    omega
  · rw [(key a b).2.2, (key b c).2.2, (key a c).2.2]
    omega
  · rw [(key a b).1]
    intro h
    rw [h]

theorem C30_comparators_order_addresses_witness :
    GenericComparePointer 4096 16384 = RTL_GENERIC_COMPARE_RESULTS.GenericLessThan ∧
    (GenericComparePointer 4096 8192 = RTL_GENERIC_COMPARE_RESULTS.GenericLessThan →
      GenericComparePointer 8192 16384 = RTL_GENERIC_COMPARE_RESULTS.GenericLessThan →
      GenericComparePointer 4096 16384 = RTL_GENERIC_COMPARE_RESULTS.GenericLessThan) :=
  ⟨(C30_comparators_order_addresses 4096 8192 16384 (fun _ => 0) sampleFunctions).2.2.2.2.1
      (by decide) (by decide),
    (C30_comparators_order_addresses 4096 8192 16384 (fun _ => 0) sampleFunctions).2.2.2.2.1⟩

/-! ## Ids and indices -/

/-- C23: for every trace store id from `TraceStoreEventId` (1) to
`TraceStoreModuleLoadEventId` (33), `TraceStoreIdToArrayIndex` gives an index
from 0 to 32 that `ArrayIndexToTraceStoreId` takes back to the id; for every
16-bit index, `ArrayIndexToTraceStoreId` gives an id that
`TraceStoreIdToArrayIndex` takes back to the index; and the same holds of
`TraceStoreMetadataIdToArrayIndex` and `ArrayIndexToTraceStoreMetadataId`,
for the metadata ids from 1 to 9, whose indices run from 0 to 8. -/
theorem C23_id_index_inverse :
    (∀ id : Int, 1 ≤ id → id ≤ 33 →
      TraceStoreIdToArrayIndex id ≤ 32 ∧
      ArrayIndexToTraceStoreId (TraceStoreIdToArrayIndex id) = id) ∧
    (∀ i : Nat, i < 65536 → TraceStoreIdToArrayIndex (ArrayIndexToTraceStoreId i) = i) ∧
    (∀ id : Int, 1 ≤ id → id ≤ 9 →
      TraceStoreMetadataIdToArrayIndex id ≤ 8 ∧
      ArrayIndexToTraceStoreMetadataId (TraceStoreMetadataIdToArrayIndex id) = id) ∧
    (∀ i : Nat, i < 65536 →
      TraceStoreMetadataIdToArrayIndex (ArrayIndexToTraceStoreMetadataId i) = i) ∧
    (33 : Int) = TraceStoreInvalidId - 1 ∧ (9 : Int) = TraceStoreMetadataInvalidId - 1 := by
  unfold TraceStoreIdToArrayIndex ArrayIndexToTraceStoreId TraceStoreMetadataIdToArrayIndex
    ArrayIndexToTraceStoreMetadataId toUSHORT TraceStoreInvalidId TraceStoreMetadataInvalidId
  refine ⟨fun id h1 h2 => ?_, fun i hi => ?_, fun id h1 h2 => ?_, fun i hi => ?_, by norm_num,
    by norm_num⟩
  · have : (id - 1) % 65536 = id - 1 := Int.emod_eq_of_lt (by omega) (by omega)
    rw [this]
    omega
  · have : ((i : Int) + 1 - 1) % 65536 = (i : Int) := by
      rw [Int.add_sub_cancel]
      exact Int.emod_eq_of_lt (by omega) (by omega)
    rw [this]
    rfl
  · have : (id - 1) % 65536 = id - 1 := Int.emod_eq_of_lt (by omega) (by omega)
    rw [this]
    omega
  · have : ((i : Int) + 1 - 1) % 65536 = (i : Int) := by
      rw [Int.add_sub_cancel]
      exact Int.emod_eq_of_lt (by omega) (by omega)
    rw [this]
    rfl

theorem C23_id_index_inverse_witness :
    TraceStoreIdToArrayIndex 33 ≤ 32 ∧
    ArrayIndexToTraceStoreId (TraceStoreIdToArrayIndex 33) = 33 :=
  C23_id_index_inverse.1 33 (by decide) (by decide)

end Tracer
namespace Tracer

/-! ## The layout of `TRACE_STORE_INDEX` -/

set_option maxRecDepth 100000 in
theorem TRACE_STORE_INDEX_layout :
    TRACE_STORE_INDEX =
      ((List.range 33).flatMap fun i =>
        (List.range 10).map fun m => IndexEnumerator (i + 1) m) ++ ["TraceStoreInvalidIndex"] := by
  decide

set_option maxRecDepth 100000 in
set_option maxHeartbeats 1000000 in
theorem TRACE_STORE_INDEX_getElem? :
    ∀ i < 33, ∀ m < 10, TRACE_STORE_INDEX[i * 10 + m]? = some (IndexEnumerator (i + 1) m) := by
  decide

set_option maxRecDepth 100000 in
theorem map_nameKey_TRACE_STORE_INDEX : TRACE_STORE_INDEX.map nameKey = indexKeys := by
  decide

set_option maxRecDepth 100000 in
set_option maxHeartbeats 1000000 in
theorem indexKeys_nodup : indexKeys.Nodup := by
  decide

theorem TRACE_STORE_INDEX_nodup : TRACE_STORE_INDEX.Nodup :=
  List.Nodup.of_map nameKey (map_nameKey_TRACE_STORE_INDEX ▸ indexKeys_nodup)

end Tracer
namespace Tracer

/-- The value of the enumerator at a position of an enumeration without
repeated names is the position. -/
theorem enumeratorValue_of_getElem? {E : List String} (hE : E.Nodup) {p : Nat} {name : String}
    (h : E[p]? = some name) : enumeratorValue E name = some p := by
  obtain ⟨hp, hget⟩ := List.getElem?_eq_some.mp h
  have hmem : name ∈ E := hget ▸ List.getElem_mem hp
  unfold enumeratorValue
  rw [if_pos hmem]
  subst hget
  rw [List.indexOf_getElem hE]

set_option maxRecDepth 100000 in
theorem TRACE_STORE_INDEX_length : TRACE_STORE_INDEX.length = 331 := by
  decide

set_option maxRecDepth 100000 in
theorem TRACE_STORE_INDEX_invalid : TRACE_STORE_INDEX[330]? = some "TraceStoreInvalidIndex" := by
  decide

set_option maxRecDepth 100000 in
theorem MetadataStem_order :
    (List.range' 1 9).map (fun m => String.mk (MetadataStem m)) =
      ["MetadataInfo", "Allocation", "Relocation", "Address", "AddressRange",
        "AllocationTimestamp", "AllocationTimestampDelta", "Synchronization", "Info"] := by
  decide

set_option maxRecDepth 100000 in
theorem IndexEnumerator_samples :
    TRACE_STORE_ID[TraceStoreInvalidId]? = some "TraceStoreInvalidId" ∧
    TRACE_STORE_METADATA_ID[TraceStoreMetadataInvalidId]? = some "TraceStoreMetadataInvalidId" ∧
    IndexEnumerator 1 0 = "TraceStoreEventIndex" ∧
    IndexEnumerator 12 0 = "TraceStoreWorkingSetExInfoIndex" ∧
    IndexEnumerator 33 9 = "TraceStoreModuleLoadEventInfoIndex" := by
  decide

/-- C24: `TRACE_STORE_INDEX` lays every store out as one primary slot
followed by its nine metadata slots in the order of `TRACE_STORE_METADATA_ID`.
For every trace store id `s` from 1 to 33 the value of the index enumerator
of the store is `TraceStoreIdToArrayIndex(s) * 10`; for every metadata id `m`
from 1 to 9 (MetadataInfo, Allocation, Relocation, Address, AddressRange,
AllocationTimestamp, AllocationTimestampDelta, Synchronization, Info) the
value of the index enumerator of that metadata store of the store is
`TraceStoreIdToArrayIndex(s) * 10 + m`; and `MAX_TRACE_STORES`, the value of
`TraceStoreInvalidIndex`, is `33 * 10`.  The enumeration has these 331
enumerators and no other, no name twice.  The index enumerators of a store
are named after its id, but for `TraceStoreWsWorkingSetExInfoId`, whose index
enumerators are spelled `WorkingSetExInfo`. -/
theorem C24_trace_store_index_layout :
    (∀ s : Nat, 1 ≤ s → s ≤ 33 →
      enumeratorValue TRACE_STORE_INDEX (IndexEnumerator s 0) =
        some (TraceStoreIdToArrayIndex (s : Int) * 10)) ∧
    (∀ s m : Nat, 1 ≤ s → s ≤ 33 → 1 ≤ m → m ≤ 9 →
      enumeratorValue TRACE_STORE_INDEX (IndexEnumerator s m) =
        some (TraceStoreIdToArrayIndex (s : Int) * 10 + m)) ∧
    MAX_TRACE_STORES = some (33 * 10) ∧
    (List.range' 1 9).map (fun m => String.mk (MetadataStem m)) =
      ["MetadataInfo", "Allocation", "Relocation", "Address", "AddressRange",
        "AllocationTimestamp", "AllocationTimestampDelta", "Synchronization", "Info"] ∧
    TRACE_STORE_INDEX =
      ((List.range 33).flatMap fun i =>
        (List.range 10).map fun m => IndexEnumerator (i + 1) m) ++ ["TraceStoreInvalidIndex"] ∧
    TRACE_STORE_INDEX.Nodup ∧ TRACE_STORE_INDEX.length = 331 ∧
    TRACE_STORE_ID[TraceStoreInvalidId]? = some "TraceStoreInvalidId" ∧
    TRACE_STORE_METADATA_ID[TraceStoreMetadataInvalidId]? = some "TraceStoreMetadataInvalidId" ∧
    IndexEnumerator 1 0 = "TraceStoreEventIndex" ∧
    IndexEnumerator 12 0 = "TraceStoreWorkingSetExInfoIndex" ∧
    IndexEnumerator 33 9 = "TraceStoreModuleLoadEventInfoIndex" := by
  have hval : ∀ s m : Nat, 1 ≤ s → s ≤ 33 → m ≤ 9 →
      enumeratorValue TRACE_STORE_INDEX (IndexEnumerator s m) =
        some (TraceStoreIdToArrayIndex (s : Int) * 10 + m) := by
    intro s m h1 h2 hm
    rw [TraceStoreIdToArrayIndex_cast h1 (by omega)]
    have := TRACE_STORE_INDEX_getElem? (s - 1) (by omega) m (by omega)
    rw [Nat.sub_add_cancel h1] at this
    exact enumeratorValue_of_getElem? TRACE_STORE_INDEX_nodup this
  exact ⟨fun s h1 h2 => hval s 0 h1 h2 (by omega), fun s m h1 h2 _ hm => hval s m h1 h2 hm,
    enumeratorValue_of_getElem? TRACE_STORE_INDEX_nodup TRACE_STORE_INDEX_invalid,
    MetadataStem_order, TRACE_STORE_INDEX_layout, TRACE_STORE_INDEX_nodup,
    TRACE_STORE_INDEX_length, IndexEnumerator_samples⟩

theorem C24_trace_store_index_layout_witness :
    enumeratorValue TRACE_STORE_INDEX (IndexEnumerator 12 3) =
      some (TraceStoreIdToArrayIndex 12 * 10 + 3) :=
  C24_trace_store_index_layout.2.1 12 3 (by decide) (by decide) (by decide) (by decide)

end Tracer
namespace Tracer

/-! ## The ignore bitmap and the last trace store -/

/-- The mode checks of a readonly call with `IgnorePreferredAddresses` set
accept a descriptor without a buffer and of the required size whose bitmap has
bit `0` clear and a bit set, with `RtlFindSetBits` as the bit search. -/
theorem ValidateMode_accepts {e : Env} (hfind : e.RtlFindSetBits = RtlFindSetBits) (a : Args)
    {s : State}
    (hro : s.ContextFlags.Readonly = true) (hts : s.TraceStores.Flags.Readonly = true)
    (hig : s.ContextFlags.IgnorePreferredAddresses = true)
    (hbuf : s.TraceContext.IgnorePreferredAddressesBitmap.Buffer = BitmapBufferPointer.NULL)
    (hsize : s.TraceContext.IgnorePreferredAddressesBitmap.SizeOfBitMap = MAX_TRACE_STORE_IDS)
    (h0 : s.TraceContext.BitmapBuffer.testBit 0 = false)
    (hne : SetBits MAX_TRACE_STORE_IDS s.TraceContext.BitmapBuffer ≠ []) :
    ∃ s1, ValidateMode e a s = Step.Continue s1 := by
  unfold ValidateMode
  simp only
  rw [if_pos hro, if_neg (by simp [hts]), if_pos hig, if_neg (by simp [hsize]),
    if_neg (by simp [hbuf])]
  rw [hsize, (WalkIgnoreBitmap_start hfind _ _ (Nat.le_refl TraceStoreInvalidId)).2 h0 hne]
  simp only
  rw [if_neg (by simpa [List.length_eq_zero] using hne)]
  exact ⟨_, rfl⟩

/-- A readonly call with `IgnorePreferredAddresses` set that gets to the
ignore bitmap passes the validation when the descriptor has no buffer and the
required size and the bitmap has bit `0` clear and one of the bits `1` to `32`
set. -/
theorem Validate_accepts {e : Env} (hfind : e.RtlFindSetBits = RtlFindSetBits) {a : Args}
    {m : Memory} (hbs : BufferSuffices e a m) (hma : ¬ MissingArgument a)
    (hro : a.Readonly = true) (hig : a.IgnorePreferredAddresses = true)
    (hts : m.TraceStores.Flags.Readonly = true)
    (hbuf : m.TraceContext.IgnorePreferredAddressesBitmap.Buffer = BitmapBufferPointer.NULL)
    (hsize : m.TraceContext.IgnorePreferredAddressesBitmap.SizeOfBitMap = MAX_TRACE_STORE_IDS)
    (h0 : m.TraceContext.BitmapBuffer.testBit 0 = false) (hne : IgnoreBits m ≠ []) :
    ∃ s1, Validate e a (State.enter m) = Step.Continue s1 := by
  rcases Validate_cases e a m with ⟨h, -⟩ | ⟨s2, hm, -, -, f1, f2, f3, f4, -, -⟩
  · rcases h with h | h
    · exact absurd hbs h
    · exact absurd h hma
  rw [hm]
  exact ValidateMode_accepts hfind a (f1.trans hro) (by rw [f4]; exact hts) (f2.trans hig)
    (by rw [f3]; exact hbuf) (by rw [f3]; exact hsize) (by rw [f3]; exact h0)
    (by rw [f3]; exact hne)

/-- After a validation that passes in a readonly call with
`IgnorePreferredAddresses` set, a slot that no set bit of the bitmap resolves
to holds what it held. -/
theorem Validate_Continue_unflagged {e : Env} {a : Args} {m : Memory} {s1 : State}
    (hfind : e.RtlFindSetBits = RtlFindSetBits)
    (hro : a.Readonly = true) (hig : a.IgnorePreferredAddresses = true)
    (hv : Validate e a (State.enter m) = Step.Continue s1) (j : Nat)
    (hj : ∀ b ∈ IgnoreBits m, TraceStoreIdToTraceStore m.TraceStores (b : Int) ≠ j) :
    s1.TraceStores.Stores[j]? = m.TraceStores.Stores[j]? := by
  obtain ⟨-, -, e2⟩ := Validate_Continue_ignore hfind hro hig hv
  rw [e2]
  have hany : ((IgnoreBits m).any
      fun b => TraceStoreIdToTraceStore m.TraceStores (b : Int) == j) = false := by
    rw [List.any_eq_false]
    intro b hb
    simpa using hj b hb
  rw [getElem?_foldl_SetIgnorePreferredAddresses (IgnoreBits m) m.TraceStores j, hany]
  cases m.TraceStores.Stores[j]? <;> simp

/-- After a validation that passes in a readonly call with
`IgnorePreferredAddresses` set, a slot that a set bit of the bitmap resolves
to holds what it held with the flag set. -/
theorem Validate_Continue_flagged {e : Env} {a : Args} {m : Memory} {s1 : State}
    (hfind : e.RtlFindSetBits = RtlFindSetBits)
    (hro : a.Readonly = true) (hig : a.IgnorePreferredAddresses = true)
    (hv : Validate e a (State.enter m) = Step.Continue s1) (b : Nat) (hb : b ∈ IgnoreBits m) :
    s1.TraceStores.Stores[TraceStoreIdToTraceStore m.TraceStores (b : Int)]? =
      (m.TraceStores.Stores[TraceStoreIdToTraceStore m.TraceStores (b : Int)]?).map
        fun (st : TRACE_STORE) => { st with IgnorePreferredAddresses := true } := by
  obtain ⟨-, -, e2⟩ := Validate_Continue_ignore hfind hro hig hv
  rw [e2]
  have hany : ((IgnoreBits m).any fun c => TraceStoreIdToTraceStore m.TraceStores (c : Int) ==
      TraceStoreIdToTraceStore m.TraceStores (b : Int)) = true := by
    rw [List.any_eq_true]
    exact ⟨b, hb, by simp⟩
  rw [getElem?_foldl_SetIgnorePreferredAddresses (IgnoreBits m) m.TraceStores _, hany]
  cases m.TraceStores.Stores[TraceStoreIdToTraceStore m.TraceStores (b : Int)]? <;> simp

/-- C25, as the code has it, with `RtlFindSetBits` as the bit search and a
stride that is not zero, in a readonly call with `IgnorePreferredAddresses`
set.  For every trace store id from `TraceStoreEventId` (1) to
`TraceStoreObjectId` (32), a call that gets to the ignore bitmap, with a
descriptor of the required size and without a buffer, and whose bitmap has
the bit of the id set and no other, passes the validation with the flag of
that store set.  For `TraceStoreModuleLoadEventId` (33) there is no such
bitmap: the set bits of a bitmap of `MAX_TRACE_STORE_IDS` bits that the
validation accepts lie from `1` to `32`, bit `33` being outside the bitmap,
and after every validation that passes the slot of store 33 holds what it
held. -/
theorem C25_last_store_never_exempted (e : Env) (a : Args) (m : Memory)
    (hfind : e.RtlFindSetBits = RtlFindSetBits)
    (hro : a.Readonly = true) (hig : a.IgnorePreferredAddresses = true)
    (hE : 0 < m.TraceStores.ElementsPerTraceStore) :
    (∀ id : Nat, 1 ≤ id → id ≤ 32 → BufferSuffices e a m → ¬ MissingArgument a →
      m.TraceStores.Flags.Readonly = true →
      m.TraceContext.IgnorePreferredAddressesBitmap.Buffer = BitmapBufferPointer.NULL →
      m.TraceContext.IgnorePreferredAddressesBitmap.SizeOfBitMap = MAX_TRACE_STORE_IDS →
      m.TraceContext.BitmapBuffer = 2 ^ id →
      ∃ s1, Validate e a (State.enter m) = Step.Continue s1 ∧
        s1.TraceStores.Stores[TraceStoreIdToTraceStore m.TraceStores (id : Int)]? =
          (m.TraceStores.Stores[TraceStoreIdToTraceStore m.TraceStores (id : Int)]?).map
            fun (st : TRACE_STORE) => { st with IgnorePreferredAddresses := true }) ∧
    (∀ s1, Validate e a (State.enter m) = Step.Continue s1 →
      (∀ b ∈ IgnoreBits m, 1 ≤ b ∧ b ≤ 32) ∧
      s1.TraceStores.Stores[TraceStoreIdToTraceStore m.TraceStores
          (TraceStoreModuleLoadEventId : Int)]? =
        m.TraceStores.Stores[TraceStoreIdToTraceStore m.TraceStores
          (TraceStoreModuleLoadEventId : Int)]?) := by
  constructor
  · intro id h1 h2 hbs hma hts hbuf hsize hbits
    have hmem : id ∈ IgnoreBits m := by
      unfold IgnoreBits
      rw [mem_SetBits, hbits]
      exact ⟨by unfold MAX_TRACE_STORE_IDS TraceStoreInvalidId; omega,
        Nat.testBit_two_pow_self⟩
    have h0 : m.TraceContext.BitmapBuffer.testBit 0 = false := by
      rw [hbits]
      exact Nat.testBit_two_pow_of_ne (by omega)
    obtain ⟨s1, hv⟩ := Validate_accepts hfind hbs hma hro hig hts hbuf hsize h0
      (List.ne_nil_of_mem hmem)
    exact ⟨s1, hv, Validate_Continue_flagged hfind hro hig hv id hmem⟩
  · intro s1 hv
    obtain ⟨h0, -, -⟩ := Validate_Continue_ignore hfind hro hig hv
    have hrange : ∀ b ∈ IgnoreBits m, 1 ≤ b ∧ b ≤ 32 := by
      intro b hb
      obtain ⟨b2, b3⟩ := mem_SetBits.mp hb
      unfold MAX_TRACE_STORE_IDS TraceStoreInvalidId at b2
      refine ⟨?_, by omega⟩
      by_contra hc
      have hb0 : b = 0 := by omega
      subst hb0
      rw [h0] at b3
      cases b3
    refine ⟨hrange, Validate_Continue_unflagged hfind hro hig hv _ ?_⟩
    intro b hb hslot
    obtain ⟨b1, b2⟩ := hrange b hb
    have := (TraceStoreIdToTraceStore_inj hE b1 (by omega)
      (by unfold TraceStoreModuleLoadEventId; omega)
      (by unfold TraceStoreModuleLoadEventId; omega)).mp hslot
    unfold TraceStoreModuleLoadEventId at this
    omega

theorem C25_last_store_never_exempted_witness :
    ∃ s1, Validate sampleEnv (sampleReadonlyArgs true)
        (State.enter (layoutBitmapMemory (2 ^ 33 + 2))) = Step.Continue s1 ∧
      s1.TraceStores.Stores[TraceStoreIdToTraceStore (layoutBitmapMemory (2 ^ 33 + 2)).TraceStores
          (TraceStoreModuleLoadEventId : Int)]? =
        (layoutBitmapMemory (2 ^ 33 + 2)).TraceStores.Stores[TraceStoreIdToTraceStore
          (layoutBitmapMemory (2 ^ 33 + 2)).TraceStores (TraceStoreModuleLoadEventId : Int)]? :=
  have h1 : (1 : Nat) ∈ IgnoreBits (layoutBitmapMemory (2 ^ 33 + 2)) :=
    mem_SetBits.mpr ⟨by decide, by decide⟩
  have hv := Validate_accepts (rfl : sampleEnv.RtlFindSetBits = RtlFindSetBits)
    (by decide : BufferSuffices sampleEnv (sampleReadonlyArgs true)
      (layoutBitmapMemory (2 ^ 33 + 2)))
    (by decide : ¬ MissingArgument (sampleReadonlyArgs true)) rfl rfl rfl rfl rfl
    (by decide) (List.ne_nil_of_mem h1)
  hv.elim fun s1 hs1 => ⟨s1, hs1,
    ((C25_last_store_never_exempted sampleEnv (sampleReadonlyArgs true)
      (layoutBitmapMemory (2 ^ 33 + 2)) rfl rfl rfl (by decide)).2 s1 hs1).2⟩

end Tracer
namespace Tracer

/-! ## The traits of the stores are left alone -/

theorem SameTraits_refl (s : State) : SameTraits s s := rfl

theorem SameTraits_trans {s1 s2 s3 : State} (h12 : SameTraits s1 s2) (h23 : SameTraits s2 s3) :
    SameTraits s1 s3 := h23.trans h12

theorem SameTraits_andThen {s : State} {x : Step} {f : State → Step}
    (hx : SameTraits s x.state) (hf : ∀ s1, SameTraits s1 (f s1).state) :
    SameTraits s (x.andThen f).state :=
  andThen_rel (R := SameTraits) (fun _ _ _ => SameTraits_trans) hx hf

theorem map_Traits_modifyStore (f : TRACE_STORE → TRACE_STORE)
    (hf : ∀ st, (f st).Traits = st.Traits) (i : Nat) (l : List TRACE_STORE) :
    (modifyStore f i l).map (fun st => st.Traits) = l.map fun st => st.Traits := by
  apply List.ext_getElem?
  intro j
  rw [List.getElem?_map, List.getElem?_map, getElem?_modifyStore]
  split_ifs
  · cases l[j]? with
    | none => rfl
    | some st => simp [hf]
  · rfl

theorem WalkIgnoreBitmap_traits (e : Env) (size buffer : Nat) (fuel : Nat) :
    ∀ (hint prev n : Nat) (ts ts' : TRACE_STORES),
      (WalkIgnoreBitmap e size buffer fuel hint prev n ts).TraceStores = some ts' →
        DeclaredTraits ts' = DeclaredTraits ts := by
  induction fuel with
  | zero => intro hint prev n ts ts' h; simp [WalkIgnoreBitmap, WalkResult.TraceStores] at h
  | succ fuel ih =>
    intro hint prev n ts ts' h
    unfold WalkIgnoreBitmap at h
    simp only at h
    split_ifs at h
    · simp only [WalkResult.TraceStores, Option.some.injEq] at h
      subst h
      rfl
    · simp only [WalkResult.TraceStores, Option.some.injEq] at h
      subst h
      rfl
    · rw [ih _ _ _ _ _ h]
      unfold DeclaredTraits
      exact map_Traits_modifyStore
        (fun st => { st with IgnorePreferredAddresses := true }) (fun _ => rfl) _ _

theorem Validate_traits (e : Env) (a : Args) (s : State) :
    SameTraits s (Validate e a s).state := by
  unfold Validate
  refine SameTraits_andThen (SameTraits_andThen ?_ ?_) ?_
  · unfold ValidateSize
    split_ifs <;> rfl
  · intro s1
    unfold ValidateArguments
    cases a.TraceContextFlags <;> simp only <;> split_ifs <;> rfl
  · intro s1
    unfold ValidateMode
    simp only
    have hw := WalkIgnoreBitmap_traits e
      s1.TraceContext.IgnorePreferredAddressesBitmap.SizeOfBitMap
      s1.TraceContext.BitmapBuffer TraceStoreInvalidId 0 0 0 s1.TraceStores
    cases hc : WalkIgnoreBitmap e s1.TraceContext.IgnorePreferredAddressesBitmap.SizeOfBitMap
        s1.TraceContext.BitmapBuffer TraceStoreInvalidId 0 0 0 s1.TraceStores <;>
      simp only <;> split_ifs <;>
      first
        | rfl
        | exact hw _ (by rw [hc]; rfl)

theorem InitializeContext_traits (e : Env) (a : Args) (s : State) :
    SameTraits s (InitializeContext e a s).state := by
  unfold InitializeContext
  simp only
  split_ifs <;> rfl

theorem InitializeWork_traits (e : Env) (a : Args) (s : State) :
    SameTraits s (InitializeWork e a s).state := by
  unfold InitializeWork
  refine SameTraits_andThen (SameTraits_andThen (SameTraits_andThen (SameTraits_andThen
    ?_ ?_) ?_) ?_) ?_
  · unfold InitializeBindMetadataInfoStoreWork INIT_WORK
    simp only
    split_ifs <;> rfl
  · intro s1
    unfold InitializeBindRemainingMetadataStoresWork INIT_WORK
    simp only
    split_ifs <;> rfl
  · intro s1
    unfold InitializeBindTraceStoreWork INIT_WORK
    simp only
    split_ifs <;> rfl
  · intro s1
    unfold InitializeReadonlyNonStreamingBindCompleteWork INIT_WORK
    simp only
    split_ifs <;> rfl
  · intro s1
    unfold CreateCleanupThreadpoolMembersWork
    simp only
    split_ifs <;> rfl

theorem CreateRelocationCompleteEvents_traits (e : Env) (n : Nat) :
    ∀ (Index : Nat) (s : State),
      SameTraits s (CreateRelocationCompleteEvents e n Index s).state := by
  induction n with
  | zero => intro Index s; exact SameTraits_refl s
  | succ n ih =>
    intro Index s
    unfold CreateRelocationCompleteEvents
    simp only
    split_ifs
    · rfl
    · exact SameTraits_trans rfl (ih _ _)

theorem RegisterAtExitAndTimers_traits (e : Env) (a : Args) (s : State) :
    SameTraits s (RegisterAtExitAndTimers e a s).state := by
  unfold RegisterAtExitAndTimers
  refine SameTraits_andThen (SameTraits_andThen ?_ ?_) ?_
  · unfold RegisterAtExit
    simp only
    split_ifs <;> rfl
  · intro s1
    unfold EnableWorkingSetTracing
    simp only
    split_ifs
    · rfl
    · rfl
    · unfold SameTraits DeclaredTraits
      simp only [Step.state_Continue]
      exact map_Traits_modifyStore
        (fun st => { st with BindComplete := Routine.WsWatchInfoExStoreBindComplete })
        (fun _ => rfl) _ _
    · rfl
  · intro s1
    unfold EnablePerformanceTracing
    simp only
    split_ifs
    · rfl
    · unfold SameTraits DeclaredTraits
      simp only [Step.state_Continue]
      exact map_Traits_modifyStore
        (fun st => { st with BindComplete := Routine.PerformanceStoreBindComplete })
        (fun _ => rfl) _ _
    · rfl

theorem PrepareStores_traits (e : Env) (a : Args) (s : State) :
    SameTraits s (PrepareStores e a s).state := by
  unfold PrepareStores
  split_ifs
  · exact CreateRelocationCompleteEvents_traits e _ 0 s
  · exact RegisterAtExitAndTimers_traits e a s

theorem InitializeStoreAllocators_Traits (c r b : Nat) (st : TRACE_STORE) :
    (InitializeStoreAllocators c r b st).Traits = st.Traits := by
  unfold InitializeStoreAllocators
  simp only
  split_ifs <;> rfl

theorem InitializeAllocators_traits (e : Env) (a : Args) (n : Nat) :
    ∀ (StoreIndex : Nat) (s : State),
      SameTraits s (InitializeAllocators e a n StoreIndex s).state := by
  induction n with
  | zero => intro StoreIndex s; exact SameTraits_refl s
  | succ n ih =>
    intro StoreIndex s
    unfold InitializeAllocators
    simp only
    split_ifs
    · rfl
    · rfl
    · refine SameTraits_trans ?_ (ih _ _)
      unfold SameTraits DeclaredTraits
      exact map_Traits_modifyStore (InitializeStoreAllocators a.TraceContext _ _)
        (InitializeStoreAllocators_Traits _ _ _) _ _

/-- The setup leaves the traits of every slot as the caller declared them. -/
theorem Setup_traits (e : Env) (a : Args) (s : State) : SameTraits s (Setup e a s).state := by
  unfold Setup PrepareContext
  exact SameTraits_andThen (SameTraits_andThen (SameTraits_andThen (SameTraits_andThen
    (Validate_traits e a s) (InitializeContext_traits e a)) (InitializeWork_traits e a))
    (PrepareStores_traits e a)) (fun s1 => InitializeAllocators_traits e a _ 0 s1)

/-- After the setup a slot that holds a store held a store with the same
traits when the call was made. -/
theorem Setup_declared {e : Env} {a : Args} {m : Memory} {s' : State}
    (h : Setup e a (State.enter m) = Step.Continue s') {j : Nat} {st : TRACE_STORE}
    (hst : s'.TraceStores.Stores[j]? = some st) :
    ∃ st0, m.TraceStores.Stores[j]? = some st0 ∧ st.Traits = st0.Traits := by
  have ht := Setup_traits e a (State.enter m)
  rw [h] at ht
  have hj := congrArg (fun l => l[j]?) ht
  simp only [Step.state_Continue, DeclaredTraits, List.getElem?_map, hst, State.enter,
    Option.map_some'] at hj
  cases hm : m.TraceStores.Stores[j]? with
  | none => rw [hm] at hj; cases hj
  | some st0 =>
    rw [hm] at hj
    simp only [Option.map_some', Option.some.injEq] at hj
    exact ⟨st0, rfl, hj⟩

end Tracer
namespace Tracer

/-! ## What the setup has put in place -/

/-- What one pass of the allocator loop puts in a store, given two events
that were created in the trace. -/
theorem InitializeStoreAllocators_StoreInPlace {c r b : Nat} {T : List Op} (st : TRACE_STORE)
    (hr : r ≠ 0) (hb : b ≠ 0) (hrT : Op.CreateEvent true false r ∈ T)
    (hbT : Op.CreateEvent true false b ∈ T) :
    StoreInPlace c T st.Traits (InitializeStoreAllocators c r b st) := by
  obtain ⟨_, _, _, _, _, _, _, _, _, _, _, _, ⟨pa, ca⟩⟩ := st
  cases pa <;> cases ca <;>
    simp [StoreInPlace, InitializeStoreAllocators, SelectedImplementation, WantsPageAlignment,
      HasConcurrentAllocations, hr, hb, hrT, hbT]

/-- After the allocator loop has fallen through, every store it visited holds
what a pass stores, with two events created in the trace, and every slot holds
either such a store or what it held before. -/
theorem InitializeAllocators_installed (e : Env) (a : Args) (T : List Op)
    (P : TRACE_STORE → Prop)
    (hP : ∀ r b st, r ≠ 0 → b ≠ 0 → Op.CreateEvent true false r ∈ T →
      Op.CreateEvent true false b ∈ T → P (InitializeStoreAllocators a.TraceContext r b st))
    (E n : Nat) :
    ∀ (k : Nat) (s s' : State), s.TraceStores.ElementsPerTraceStore = E →
      InitializeAllocators e a n ((k * E) % 65536) s = Step.Continue s' →
      (∀ op ∈ s'.Trace, op ∈ T) →
      (∀ j, k ≤ j → j < k + n → ∀ st,
        s'.TraceStores.Stores[(j * E) % 65536]? = some st → P st) ∧
      (∀ (i : Nat) st, s'.TraceStores.Stores[i]? = some st →
        P st ∨ s.TraceStores.Stores[i]? = some st) := by
  induction n with
  | zero =>
    intro k s s' _ h _
    unfold InitializeAllocators at h
    injection h with h
    subst h
    exact ⟨fun j h1 h2 => by omega, fun i st h => Or.inr h⟩
  | succ n ih =>
    intro k s s' hE h hT
    unfold InitializeAllocators at h
    simp only at h
    split_ifs at h with h1 h2
    have hnext : NextStoreIndex (State.create e (State.create e s (Op.CreateEvent true false)).2
        (Op.CreateEvent true false)).2.TraceStores ((k * E) % 65536) = ((k + 1) * E) % 65536 := by
      simp only [State.create_TraceStores, NextStoreIndex, hE]
      rw [Nat.add_mul, one_mul, Nat.mod_add_mod]
    rw [hnext] at h
    have hext := From_extends (InitializeAllocators_from e a n (((k + 1) * E) % 65536)
      { (State.create e (State.create e s (Op.CreateEvent true false)).2
          (Op.CreateEvent true false)).2 with
        TraceStores := { (State.create e (State.create e s (Op.CreateEvent true false)).2
            (Op.CreateEvent true false)).2.TraceStores with
          Stores := modifyStore (InitializeStoreAllocators a.TraceContext
              (State.create e s (Op.CreateEvent true false)).1
              (State.create e (State.create e s (Op.CreateEvent true false)).2
                (Op.CreateEvent true false)).1) ((k * E) % 65536)
            (State.create e (State.create e s (Op.CreateEvent true false)).2
              (Op.CreateEvent true false)).2.TraceStores.Stores } })
    rw [h] at hext
    have hrT : Op.CreateEvent true false (State.create e s (Op.CreateEvent true false)).1 ∈ T :=
      hT _ (Extends_mem hext (by simp))
    have hbT : Op.CreateEvent true false (State.create e
        (State.create e s (Op.CreateEvent true false)).2 (Op.CreateEvent true false)).1 ∈ T :=
      hT _ (Extends_mem hext (by simp))
    obtain ⟨hv, hk⟩ := ih (k + 1) _ s' (by simpa using hE) h hT
    simp only [State.create_TraceStores] at hk
    have hslot : ∀ (i : Nat) st, s'.TraceStores.Stores[i]? = some st →
        P st ∨ s.TraceStores.Stores[i]? = some st := by
      intro i st hst
      rcases hk i st hst with h3 | h3
      · exact Or.inl h3
      · rw [getElem?_modifyStore] at h3
        split_ifs at h3 with h4
        · left
          obtain ⟨st0, _, rfl⟩ := Option.map_eq_some'.mp h3
          exact hP _ _ _ h1 h2 hrT hbT
        · exact Or.inr h3
    refine ⟨?_, hslot⟩
    intro j hj1 hj2 st hst
    by_cases hjk : j = k
    · subst hjk
      rcases hk _ st hst with h3 | h3
      · exact h3
      · rw [getElem?_modifyStore_self] at h3
        obtain ⟨st0, _, rfl⟩ := Option.map_eq_some'.mp h3
        exact hP _ _ _ h1 h2 hrT hbT
    · exact hv j (by omega) (by omega) st hst

/-- When the setup has fallen through, every trace store that the array holds
has its back-pointer, its events and its allocator pointers in place, the
workers being those that the traits the caller declared for the store
select. -/
theorem Setup_installed {e : Env} {a : Args} {m : Memory} {s' : State}
    (h : Setup e a (State.enter m) = Step.Continue s') (i : Nat)
    (hi : i < m.TraceStores.NumberOfTraceStores)
    (hlen : PrimaryStoreIndex m.TraceStores i < m.TraceStores.Stores.length) :
    ∃ st0 st, m.TraceStores.Stores[PrimaryStoreIndex m.TraceStores i]? = some st0 ∧
      s'.TraceStores.Stores[PrimaryStoreIndex m.TraceStores i]? = some st ∧
      StoreInPlace a.TraceContext s'.Trace st0.Traits st := by
  have hshape := Setup_shape e a (State.enter m)
  rw [h] at hshape
  obtain ⟨-, -, -, hl, -⟩ := hshape
  simp only [Step.state_Continue, State.enter] at hl
  have h0 := h
  unfold Setup at h
  obtain ⟨s4, h4, hIA⟩ := Step.andThen_eq_Continue.mp h
  have hs4 := PrepareContext_shape e a (State.enter m)
  rw [h4] at hs4
  obtain ⟨-, hN, hE, -, -⟩ := hs4
  simp only [Step.state_Continue, State.enter] at hN hE
  have hIA' : InitializeAllocators e a s4.TraceStores.NumberOfTraceStores
      ((0 * m.TraceStores.ElementsPerTraceStore) % 65536) s4 = Step.Continue s' := by
    simpa using hIA
  obtain ⟨hv, -⟩ := InitializeAllocators_installed e a s'.Trace
    (fun st => StoreInPlace a.TraceContext s'.Trace st.Traits st)
    (fun r b st hr hb hrT hbT => by
      have := InitializeStoreAllocators_StoreInPlace (c := a.TraceContext) st hr hb hrT hbT
      show StoreInPlace a.TraceContext s'.Trace
        (InitializeStoreAllocators a.TraceContext r b st).Traits _
      rw [InitializeStoreAllocators_Traits]
      exact this)
    _ _ 0 s4 s' hE hIA' (fun _ hop => hop)
  have hlt : PrimaryStoreIndex m.TraceStores i < s'.TraceStores.Stores.length := by
    rw [hl]; exact hlen
  have hst : s'.TraceStores.Stores[PrimaryStoreIndex m.TraceStores i]? =
      some (s'.TraceStores.Stores[PrimaryStoreIndex m.TraceStores i]) :=
    List.getElem?_eq_getElem hlt
  obtain ⟨st0, hm0, ht0⟩ := Setup_declared h0 hst
  refine ⟨st0, _, hm0, hst, ?_⟩
  have := hv i (Nat.zero_le _) (by rw [hN]; omega) _ hst
  rw [ht0] at this
  exact this

/-! ## The work items and events of the context -/

theorem InitializeContext_WorkInPlace {e : Env} {a : Args} {s s' : State}
    (h : InitializeContext e a s = Step.Continue s') :
    s'.TraceContext.LoadingCompleteEvent ≠ 0 ∧ s'.TraceContext.ThreadpoolCleanupGroup ≠ 0 := by
  unfold InitializeContext at h
  simp only at h
  split_ifs at h with h1 h2 h3 h4
  injection h with h
  subst h
  exact ⟨h2, h3⟩

theorem INIT_WORK_handles {e : Env} {cb : Routine} {pool n : Nat} {w : TRACE_STORE_WORK}
    {s : State} (h : (INIT_WORK e cb pool n w s).1 = true) :
    (INIT_WORK e cb pool n w s).2.1.WorkCompleteEvent ≠ 0 ∧
    (INIT_WORK e cb pool n w s).2.1.ThreadpoolWork ≠ 0 := by
  unfold INIT_WORK at h ⊢
  simp only at h ⊢
  split_ifs at h ⊢ with h1 h2
  exact ⟨h1, h2⟩

/-- The work records and the cleanup work item are in place once the block
that sets them up has fallen through, the loading complete event and the
cleanup group being in place before it. -/
theorem InitializeWork_WorkInPlace {e : Env} {a : Args} {s s' : State}
    (h : InitializeWork e a s = Step.Continue s')
    (hL : s.TraceContext.LoadingCompleteEvent ≠ 0 ∧ s.TraceContext.ThreadpoolCleanupGroup ≠ 0) :
    WorkInPlace s'.TraceContext := by
  unfold InitializeWork at h
  simp only at h
  obtain ⟨s4, h, h5⟩ := Step.andThen_eq_Continue.mp h
  obtain ⟨s3, h, h4⟩ := Step.andThen_eq_Continue.mp h
  obtain ⟨s2, h, h3⟩ := Step.andThen_eq_Continue.mp h
  obtain ⟨s1, h1, h2⟩ := Step.andThen_eq_Continue.mp h
  unfold InitializeBindMetadataInfoStoreWork at h1
  unfold InitializeBindRemainingMetadataStoresWork at h2
  unfold InitializeBindTraceStoreWork at h3
  unfold InitializeReadonlyNonStreamingBindCompleteWork at h4
  unfold CreateCleanupThreadpoolMembersWork at h5
  simp only at h1 h2 h3 h4 h5
  split_ifs at h1 with c1
  split_ifs at h2 with c2
  split_ifs at h3 with c3
  split_ifs at h4 with c4
  split_ifs at h5 with c5
  injection h1 with h1
  injection h2 with h2
  injection h3 with h3
  injection h4 with h4
  injection h5 with h5
  have w1 := INIT_WORK_handles c1
  have w2 := INIT_WORK_handles c2
  have w3 := INIT_WORK_handles c3
  have w4 := INIT_WORK_handles c4
  subst h5
  subst h4
  subst h3
  subst h2
  subst h1
  simp only [INIT_WORK_TraceContext] at w1 w2 w3 w4 c5 ⊢
  exact ⟨by simpa using hL.1, by simpa using hL.2, by simpa using w1, by simpa using w2,
    by simpa using w3, by simpa using w4, by simpa using c5⟩

theorem RegisterAtExitAndTimers_WorkInPlace (e : Env) (a : Args) (s : State)
    (h : WorkInPlace s.TraceContext) :
    WorkInPlace (RegisterAtExitAndTimers e a s).state.TraceContext := by
  have key := andThen_rel
    (R := fun s s' => WorkInPlace s.TraceContext → WorkInPlace s'.TraceContext)
    (fun _ _ _ h1 h2 h => h2 (h1 h))
    (andThen_rel
      (R := fun s s' => WorkInPlace s.TraceContext → WorkInPlace s'.TraceContext)
      (fun _ _ _ h1 h2 h => h2 (h1 h))
      (s := s) (x := RegisterAtExit e s) (f := EnableWorkingSetTracing e a) ?_ ?_)
    (f := EnablePerformanceTracing e a) ?_
  · exact key h
  · unfold RegisterAtExit
    simp only
    split_ifs <;> exact fun h => h
  · intro s1
    unfold EnableWorkingSetTracing
    simp only
    split_ifs <;> exact fun h => h
  · intro s1
    unfold EnablePerformanceTracing
    simp only
    split_ifs <;> exact fun h => h

/-- When the setup has fallen through, the loading complete event, the cleanup
group, the four work records and the cleanup work item are in place. -/
theorem Setup_WorkInPlace {e : Env} {a : Args} {s s' : State}
    (h : Setup e a s = Step.Continue s') : WorkInPlace s'.TraceContext := by
  unfold Setup PrepareContext at h
  obtain ⟨s4, h, hIA⟩ := Step.andThen_eq_Continue.mp h
  obtain ⟨s3, h, hPS⟩ := Step.andThen_eq_Continue.mp h
  obtain ⟨s2, h, hIW⟩ := Step.andThen_eq_Continue.mp h
  obtain ⟨s1, -, hIC⟩ := Step.andThen_eq_Continue.mp h
  have h3 := InitializeWork_WorkInPlace hIW (InitializeContext_WorkInPlace hIC)
  have h4 : WorkInPlace s4.TraceContext := by
    unfold PrepareStores at hPS
    split_ifs at hPS
    · have := CreateRelocationCompleteEvents_TraceContext e s3.TraceStores.NumberOfTraceStores 0 s3
      rw [hPS] at this
      simp only [Step.state_Continue] at this
      rw [this]
      exact h3
    · have := RegisterAtExitAndTimers_WorkInPlace e a s3 h3
      rw [hPS] at this
      exact this
  have := InitializeAllocators_TraceContext e a s4.TraceStores.NumberOfTraceStores 0 s4
  rw [hIA] at this
  simp only [Step.state_Continue] at this
  rw [this]
  exact h4

end Tracer
namespace Tracer

/-- In a readonly call whose setup has fallen through, the slot of every trace
store in `RelocationCompleteEvents` holds a manual-reset, unsignaled event
created by the call. -/
theorem Setup_relocation_events {e : Env} {a : Args} {m : Memory} {s' : State}
    (hro : a.Readonly = true) (hs' : Setup e a (State.enter m) = Step.Continue s') (i : Nat)
    (hi : i < m.TraceStores.NumberOfTraceStores)
    (hlen : i < m.TraceStores.RelocationCompleteEvents.length) :
    ∃ h, h ≠ 0 ∧ s'.TraceStores.RelocationCompleteEvents[i]? = some h ∧
      Op.CreateEvent true false h ∈ s'.Trace := by
  unfold Setup PrepareContext at hs'
  obtain ⟨s4, h4, hIA⟩ := Step.andThen_eq_Continue.mp hs'
  obtain ⟨s3, h3, hPS⟩ := Step.andThen_eq_Continue.mp h4
  obtain ⟨hmode, hframe⟩ := before_PrepareStores h3
  obtain ⟨-, hN, -, -, hR⟩ := hframe
  simp only [State.enter] at hN hR
  unfold PrepareStores at hPS
  rw [hmode, hro] at hPS
  simp only [if_true] at hPS
  obtain ⟨hv, -⟩ := CreateRelocationCompleteEvents_events e _ 0 s3 s4 hPS
  obtain ⟨h, h0, hget, hmem⟩ := hv i (Nat.zero_le _) (by rw [hN]; omega) (by rw [hR]; exact hlen)
  have hf := InitializeAllocators_frame e a s4.TraceStores.NumberOfTraceStores 0 s4
  have hx := From_extends (InitializeAllocators_from e a s4.TraceStores.NumberOfTraceStores 0 s4)
  rw [hIA] at hf hx
  obtain ⟨-, -, -, -, hR'⟩ := hf
  simp only [Step.state_Continue] at hR' hx
  exact ⟨h, h0, by rw [hR']; exact hget, Extends_mem hx hmem⟩

/-- Traits that select the same first worker and the same final worker are
the same traits. -/
theorem Traits_eq_of_StoreInPlace {c1 c2 : Nat} {T1 T2 : List Op} {t1 t2 : TRACE_STORE_TRAITS}
    {st1 st2 : TRACE_STORE} (h1 : StoreInPlace c1 T1 t1 st1) (h2 : StoreInPlace c2 T2 t2 st2)
    (hI : st1.AllocateRecordsWithTimestampImpl1 = st2.AllocateRecordsWithTimestampImpl1)
    (hF : (if HasConcurrentAllocations t1 then st1.AllocateRecordsWithTimestampImpl2
        else st1.AllocateRecordsWithTimestampImpl1) =
      (if HasConcurrentAllocations t2 then st2.AllocateRecordsWithTimestampImpl2
        else st2.AllocateRecordsWithTimestampImpl1)) : t1 = t2 := by
  obtain ⟨-, -, -, -, -, -, -, a1, a2⟩ := h1
  obtain ⟨-, -, -, -, -, -, -, b1, b2⟩ := h2
  obtain ⟨p1, q1⟩ := t1
  obtain ⟨p2, q2⟩ := t2
  cases p1 <;> cases q1 <;> cases p2 <;> cases q2 <;>
    simp_all [SelectedImplementation, WantsPageAlignment, HasConcurrentAllocations]

/-- C2: in a call that reaches the submission of bind work, every trace store
of the array has, in the state in which the first submission is issued, the
traits the caller declared for it, and the allocators that these declared
traits select.  The routine that finally performs the allocation
(`AllocateRecordsWithTimestampImpl2` when the declared traits have the
concurrent-allocations trait, `AllocateRecordsWithTimestampImpl1` when they do
not) is the page-aligned implementation exactly when the declared traits want
page alignment and the packed one exactly when they do not; the first worker
is the concurrent wrapper exactly when the declared traits have the
concurrent-allocations trait, in which case the `Try` allocators are
installed; and two stores that end with the same first and final worker were
declared with the same traits, so the four combinations of the traits give
four distinct configurations. -/
theorem C2_allocators_selected_by_traits (e : Env) (a : Args) (m : Memory) (s' : State)
    (h : Setup e a (State.enter m) = Step.Continue s') :
    (∀ i, i < m.TraceStores.NumberOfTraceStores →
      PrimaryStoreIndex m.TraceStores i < m.TraceStores.Stores.length →
      ∃ st0 st, m.TraceStores.Stores[PrimaryStoreIndex m.TraceStores i]? = some st0 ∧
        s'.TraceStores.Stores[PrimaryStoreIndex m.TraceStores i]? = some st ∧
        st.Traits = st0.Traits ∧
        ((if HasConcurrentAllocations st0.Traits then st.AllocateRecordsWithTimestampImpl2
            else st.AllocateRecordsWithTimestampImpl1) =
            Routine.TraceStoreAllocatePageAlignedRecordsWithTimestampImpl ↔
          WantsPageAlignment st0.Traits = true) ∧
        ((if HasConcurrentAllocations st0.Traits then st.AllocateRecordsWithTimestampImpl2
            else st.AllocateRecordsWithTimestampImpl1) =
            Routine.TraceStoreAllocateRecordsWithTimestampImpl ↔
          WantsPageAlignment st0.Traits = false) ∧
        (st.AllocateRecordsWithTimestampImpl1 =
            Routine.ConcurrentTraceStoreAllocateRecordsWithTimestamp ↔
          HasConcurrentAllocations st0.Traits = true) ∧
        (HasConcurrentAllocations st0.Traits = true →
          st.TryAllocateRecords = Routine.TraceStoreTryAllocateRecords ∧
          st.TryAllocateRecordsWithTimestamp =
            Routine.TraceStoreTryAllocateRecordsWithTimestamp) ∧
        FinalWorker st = SelectedImplementation st0.Traits) ∧
    (∀ i j st01 st02 st1 st2, i < m.TraceStores.NumberOfTraceStores →
      j < m.TraceStores.NumberOfTraceStores →
      m.TraceStores.Stores[PrimaryStoreIndex m.TraceStores i]? = some st01 →
      m.TraceStores.Stores[PrimaryStoreIndex m.TraceStores j]? = some st02 →
      s'.TraceStores.Stores[PrimaryStoreIndex m.TraceStores i]? = some st1 →
      s'.TraceStores.Stores[PrimaryStoreIndex m.TraceStores j]? = some st2 →
      st1.AllocateRecordsWithTimestampImpl1 = st2.AllocateRecordsWithTimestampImpl1 →
      (if HasConcurrentAllocations st01.Traits then st1.AllocateRecordsWithTimestampImpl2
        else st1.AllocateRecordsWithTimestampImpl1) =
      (if HasConcurrentAllocations st02.Traits then st2.AllocateRecordsWithTimestampImpl2
        else st2.AllocateRecordsWithTimestampImpl1) →
      st01.Traits = st02.Traits) := by
  refine ⟨?_, ?_⟩
  · intro i hi hlen
    obtain ⟨st0, st, hm0, hst, hin⟩ := Setup_installed h i hi hlen
    refine ⟨st0, st, hm0, hst, ?_⟩
    obtain ⟨-, -, -, -, -, -, ht, a1, a2⟩ := hin
    unfold FinalWorker
    rw [ht]
    refine ⟨rfl, ?_⟩
    cases hp : WantsPageAlignment st0.Traits <;> cases hc : HasConcurrentAllocations st0.Traits <;>
      simp_all [SelectedImplementation]
  · intro i j st01 st02 st1 st2 hi hj hm1 hm2 h1 h2 hI hF
    have hl1 : PrimaryStoreIndex m.TraceStores i < m.TraceStores.Stores.length := by
      by_contra hc
      rw [List.getElem?_eq_none (by omega)] at hm1
      cases hm1
    have hl2 : PrimaryStoreIndex m.TraceStores j < m.TraceStores.Stores.length := by
      by_contra hc
      rw [List.getElem?_eq_none (by omega)] at hm2
      cases hm2
    obtain ⟨x0, x, hx0, hx, hin1⟩ := Setup_installed h i hi hl1
    obtain ⟨y0, y, hy0, hy, hin2⟩ := Setup_installed h j hj hl2
    rw [hm1] at hx0
    rw [hm2] at hy0
    rw [h1] at hx
    rw [h2] at hy
    cases hx0
    cases hy0
    cases hx
    cases hy
    exact Traits_eq_of_StoreInPlace hin1 hin2 hI hF

theorem C2_allocators_selected_by_traits_witness :
    ∃ st0 st, (sampleMemory false).TraceStores.Stores[
        PrimaryStoreIndex (sampleMemory false).TraceStores 1]? = some st0 ∧
      (Setup sampleEnv (sampleArgs false)
        (State.enter (sampleMemory false))).state.TraceStores.Stores[
          PrimaryStoreIndex (sampleMemory false).TraceStores 1]? = some st ∧
      st.Traits = st0.Traits ∧
      ((if HasConcurrentAllocations st0.Traits then st.AllocateRecordsWithTimestampImpl2
          else st.AllocateRecordsWithTimestampImpl1) =
          Routine.TraceStoreAllocatePageAlignedRecordsWithTimestampImpl ↔
        WantsPageAlignment st0.Traits = true) ∧
      ((if HasConcurrentAllocations st0.Traits then st.AllocateRecordsWithTimestampImpl2
          else st.AllocateRecordsWithTimestampImpl1) =
          Routine.TraceStoreAllocateRecordsWithTimestampImpl ↔
        WantsPageAlignment st0.Traits = false) ∧
      (st.AllocateRecordsWithTimestampImpl1 =
          Routine.ConcurrentTraceStoreAllocateRecordsWithTimestamp ↔
        HasConcurrentAllocations st0.Traits = true) ∧
      (HasConcurrentAllocations st0.Traits = true →
        st.TryAllocateRecords = Routine.TraceStoreTryAllocateRecords ∧
        st.TryAllocateRecordsWithTimestamp =
          Routine.TraceStoreTryAllocateRecordsWithTimestamp) ∧
      FinalWorker st = SelectedImplementation st0.Traits :=
  (C2_allocators_selected_by_traits sampleEnv (sampleArgs false) (sampleMemory false)
    (Setup sampleEnv (sampleArgs false) (State.enter (sampleMemory false))).state rfl).1 1
    (by decide) (by decide)

/-- C4: when every validation check has passed and no creation step fails,
the trace of the call is the calls of the setup, which hold no submission,
then one `SubmitBindMetadataInfoWork` for each of the `NumberOfTraceStores`
trace stores in order, then calls that neither submit nor create; and in the
state in which the first submission is issued everything is in place: the
loading complete event, the cleanup group, the work item and the completion
event of each of the four work records and the cleanup work item are not
`NULL`; every trace store of the array points back to the context, holds two
events created by the call, has `AllocateRecords` and the suspended allocator
as its entry points and the workers that the traits declared for it select;
and in a readonly call every trace store has its relocation complete event.
When the validation returns, or when any creation or registration step of the
call failed, the trace holds no submission.  In an array that holds the
stores (`NumberOfTraceStores * ElementsPerTraceStore` slots, within 16 bits)
the submissions are for the slots `i * ElementsPerTraceStore`, one each, and
never for a slot in between, where the metadata stores are. -/
theorem C4_submissions_only_after_setup (e : Env) (a : Args) (m : Memory) :
    (∀ s1, Validate e a (State.enter m) = Step.Continue s1 → e.AllSucceed →
      ∃ s' rest, Setup e a (State.enter m) = Step.Continue s' ∧
        (InitializeTraceContext e a m).2.Trace =
          s'.Trace ++ Submissions m.TraceStores 0 m.TraceStores.NumberOfTraceStores ++ rest ∧
        (∀ op ∈ s'.Trace, op.isSubmit = false) ∧
        (∀ op ∈ rest, op.isSubmit = false ∧ op.isCreate = false) ∧
        WorkInPlace s'.TraceContext ∧
        (∀ i, i < m.TraceStores.NumberOfTraceStores →
          PrimaryStoreIndex m.TraceStores i < m.TraceStores.Stores.length →
          ∃ st0 st, m.TraceStores.Stores[PrimaryStoreIndex m.TraceStores i]? = some st0 ∧
            s'.TraceStores.Stores[PrimaryStoreIndex m.TraceStores i]? = some st ∧
            StoreInPlace a.TraceContext s'.Trace st0.Traits st) ∧
        (a.Readonly = true → ∀ i, i < m.TraceStores.NumberOfTraceStores →
          i < m.TraceStores.RelocationCompleteEvents.length →
          ∃ h, h ≠ 0 ∧ s'.TraceStores.RelocationCompleteEvents[i]? = some h ∧
            Op.CreateEvent true false h ∈ s'.Trace)) ∧
    (∀ b s1, Validate e a (State.enter m) = Step.Return b s1 →
      ∀ op ∈ (InitializeTraceContext e a m).2.Trace, op.isSubmit = false) ∧
    ((∃ op ∈ (InitializeTraceContext e a m).2.Trace, op.failed = true) →
      ∀ op ∈ (InitializeTraceContext e a m).2.Trace, op.isSubmit = false) ∧
    (0 < m.TraceStores.ElementsPerTraceStore →
      m.TraceStores.NumberOfTraceStores * m.TraceStores.ElementsPerTraceStore ≤ 65536 →
      Submissions m.TraceStores 0 m.TraceStores.NumberOfTraceStores =
        ((List.range m.TraceStores.NumberOfTraceStores).map fun i =>
          Op.SubmitBindMetadataInfoWork (i * m.TraceStores.ElementsPerTraceStore)) ∧
      (Submissions m.TraceStores 0 m.TraceStores.NumberOfTraceStores).Nodup ∧
      ∀ i k, 0 < k → k < m.TraceStores.ElementsPerTraceStore →
        Op.SubmitBindMetadataInfoWork (i * m.TraceStores.ElementsPerTraceStore + k) ∉
          Submissions m.TraceStores 0 m.TraceStores.NumberOfTraceStores) := by
  refine ⟨?_, ?_, ?_, ?_⟩
  · intro s1 hv he
    obtain ⟨s', hs'⟩ := exists_of_isContinue (Setup_isContinue he hv)
    obtain ⟨rest, hrest, hp⟩ := InitializeTraceContext_trace hs'
    have hshape := Setup_shape e a (State.enter m)
    rw [hs'] at hshape
    obtain ⟨-, hN, hE, -, -⟩ := hshape
    simp only [Step.state_Continue, State.enter] at hN hE
    rw [hN, Submissions_congr hE] at hrest
    have hs := Setup_trace_isSetup e a m
    rw [hs'] at hs
    exact ⟨s', rest, hs', hrest, fun op hop => not_isSubmit_of_isSetup (hs op hop),
      fun op hop => ⟨(hp op hop).2, not_isCreate_of_not_isSetup (hp op hop).1⟩,
      Setup_WorkInPlace hs', fun i hi hlen => Setup_installed hs' i hi hlen,
      fun hro i hi hlen => Setup_relocation_events hro hs' i hi hlen⟩
  · intro b s1 hv
    apply no_submission_of_not_Continue
    unfold Setup PrepareContext
    rw [hv]
    rfl
  · rintro ⟨op, hop, hfail⟩
    apply no_submission_of_not_Continue
    cases hc : Setup e a (State.enter m) with
    | Return b s1 => rfl
    | GotoError s1 => rfl
    | Continue s' =>
      exfalso
      obtain ⟨rest, hrest, hp⟩ := InitializeTraceContext_trace hc
      rw [hrest] at hop
      have hnf : op.failed = false := by
        rcases List.mem_append.mp hop with h1 | h1
        · rcases List.mem_append.mp h1 with h2 | h2
          · exact Setup_trace_not_failed hc op h2
          · exact not_failed_of_isSubmit (isSubmit_of_mem_Submissions _ _ _ op h2)
        · exact not_failed_of_not_isSetup (hp op h1).1
      rw [hnf] at hfail
      cases hfail
  · intro hE hfit
    have hmap := Submissions_eq_map hE hfit
    refine ⟨hmap, ?_, ?_⟩
    · rw [hmap]
      refine List.Nodup.map ?_ (List.nodup_range _)
      intro i j hij
      simp only [Op.SubmitBindMetadataInfoWork.injEq] at hij
      exact Nat.eq_of_mul_eq_mul_right hE hij
    · intro i k hk1 hk2 hmem
      rw [hmap] at hmem
      obtain ⟨j, -, hj⟩ := List.mem_map.mp hmem
      simp only [Op.SubmitBindMetadataInfoWork.injEq] at hj
      have h1 : (j * m.TraceStores.ElementsPerTraceStore) % m.TraceStores.ElementsPerTraceStore
          = 0 := Nat.mul_mod_left _ _
      rw [hj, Nat.add_comm, Nat.add_mul_mod_self_right, Nat.mod_eq_of_lt hk2] at h1
      omega

theorem C4_submissions_only_after_setup_witness :
    (∃ s' rest, Setup sampleEnv (sampleArgs false) (State.enter (sampleMemory false)) =
        Step.Continue s' ∧
      (InitializeTraceContext sampleEnv (sampleArgs false) (sampleMemory false)).2.Trace =
        s'.Trace ++ Submissions (sampleMemory false).TraceStores 0
          (sampleMemory false).TraceStores.NumberOfTraceStores ++ rest ∧
      (∀ op ∈ s'.Trace, op.isSubmit = false) ∧
      (∀ op ∈ rest, op.isSubmit = false ∧ op.isCreate = false) ∧
      WorkInPlace s'.TraceContext ∧
      (∀ i, i < (sampleMemory false).TraceStores.NumberOfTraceStores →
        PrimaryStoreIndex (sampleMemory false).TraceStores i <
          (sampleMemory false).TraceStores.Stores.length →
        ∃ st0 st, (sampleMemory false).TraceStores.Stores[
            PrimaryStoreIndex (sampleMemory false).TraceStores i]? = some st0 ∧
          s'.TraceStores.Stores[PrimaryStoreIndex (sampleMemory false).TraceStores i]? =
            some st ∧
          StoreInPlace (sampleArgs false).TraceContext s'.Trace st0.Traits st) ∧
      ((sampleArgs false).Readonly = true →
        ∀ i, i < (sampleMemory false).TraceStores.NumberOfTraceStores →
        i < (sampleMemory false).TraceStores.RelocationCompleteEvents.length →
        ∃ h, h ≠ 0 ∧ s'.TraceStores.RelocationCompleteEvents[i]? = some h ∧
          Op.CreateEvent true false h ∈ s'.Trace)) ∧
    Submissions (sampleMemory false).TraceStores 0
        (sampleMemory false).TraceStores.NumberOfTraceStores =
      ((List.range (sampleMemory false).TraceStores.NumberOfTraceStores).map fun i =>
        Op.SubmitBindMetadataInfoWork (i * (sampleMemory false).TraceStores.ElementsPerTraceStore)) :=
  have h := C4_submissions_only_after_setup sampleEnv (sampleArgs false) (sampleMemory false)
  ⟨h.1 (Validate sampleEnv (sampleArgs false) (State.enter (sampleMemory false))).state rfl
      ⟨by decide, fun k => by simp [sampleEnv], rfl, rfl, rfl⟩,
    (h.2.2.2 (by decide) (by decide)).1⟩

end Tracer
